import Mathlib

/-!
# Rollback core of the two-player networked game

Shallow embedding of `game/src/game/rollback_manager.cpp` and of the parts of
`game/src/game/game_manager.cpp` that drive it.

Conventions of the embedding

* A `Frame` (`std::uint32_t`), a `PlayerNumber`, a `PlayerInput`
  (`std::uint8_t`), an `Entity` and an `EntityMask` are natural numbers.  A subtraction of two frames
  is the 32-bit wrap-around subtraction `Frame.sub`; the frame counters
  themselves are taken below `2^32 - 1`, so that `frame++` does not wrap.
* A `float` is represented by its 32-bit word, which is what the digest reads
  through `reinterpret_cast<const PhysicsState*>`.
* A fixed-size `std::array` is a function of the index together with the
  explicit bound of the array: an access outside the bound is undefined
  behaviour in the source and is the fault `Fault.outOfRange` here.
* `gpr_assert(false, ...)` is fatal: the function stops with the matching
  `Fault`.
-/

namespace game


/-- Number of players per game (`game_globals.hpp`). -/
def MAX_PLAYER_NMB : Nat := 2

/-- Size of input stored by a client, 5 seconds of frames at 50 fps (`game_globals.hpp`). -/
def WINDOW_BUFFER_SIZE : Nat := 5 * 50

/-- The invalid player number, `std::numeric_limits<std::uint8_t>::max()`. -/
def INVALID_PLAYER : Nat := 255

/-- Ways in which a call stops before its end. -/
inductive Fault where
  /-- an array is indexed outside its bounds (undefined behaviour in the source) -/
  | outOfRange
  /-- The assertion `gpr_assert`: "We should not validate a frame if we did not receive all inputs!!!" -/
  | missingInputs
  /-- The assertion `gpr_assert`: "Trying to get input too far in the past" -/
  | inputTooOld
  /-- The assertion `gpr_assert`: "Physics State are not equal for player ..." -/
  | desync (playerNumber : Nat)
  deriving DecidableEq, Repr

/-- Subtraction of two `std::uint32_t` frames, with wrap-around. -/
def Frame.sub (a b : Nat) : Nat := (a + 4294967296 - b % 4294967296) % 4294967296

/-- One player's ring of inputs, `std::array<PlayerInput, WINDOW_BUFFER_SIZE>`:
index 0 is the current frame, older frames are at higher indices. -/
abbrev InputRing := Nat → Nat

/-- Reading `inputs[i]`. -/
def InputRing.read (r : InputRing) (i : Nat) : Except Fault Nat :=
  if i < WINDOW_BUFFER_SIZE then .ok (r i) else .error .outOfRange

/-- The assignment `inputs[i] = v`. -/
def InputRing.write (r : InputRing) (i : Nat) (v : Nat) : Except Fault InputRing :=
  if i < WINDOW_BUFFER_SIZE then .ok (fun j => if j = i then v else r j)
  else .error .outOfRange

/-- The loop `for (auto i = inputs.size() - 1; i >= delta; i--) inputs[i] = inputs[i - delta];`
of `StartNewFrame`.  The counter `c` is `i + 1`; `delta` is at least 1 when the
loop is reached, so `i` stops at `delta - 1` and never wraps below zero. -/
def shiftLoop (delta : Nat) : Nat → InputRing → Except Fault InputRing
  | 0, r => .ok r
  | c + 1, r =>
    if delta ≤ c then do
      let v ← r.read (c - delta)
      let r' ← r.write c v
      shiftLoop delta c r'
    else .ok r

/-- The loop `for (Frame i = 0; i < delta; i++) inputs[i] = inputs[delta];` of
`StartNewFrame`.  The counter `n` is the number of iterations left, `i = delta - n`. -/
def fillLoop (delta : Nat) : Nat → InputRing → Except Fault InputRing
  | 0, r => .ok r
  | n + 1, r => do
    let v ← r.read delta
    let r' ← r.write (delta - (n + 1)) v
    fillLoop delta n r'

/-- Body of `for (auto& inputs : _inputs)` in `StartNewFrame`, for one ring. -/
def shiftRing (delta : Nat) (r : InputRing) : Except Fault InputRing := do
  let r' ← shiftLoop delta WINDOW_BUFFER_SIZE r
  fillLoop delta delta r'

/-- The loop `for (auto& inputs : _inputs)` of `StartNewFrame` over the first `n` rings. -/
def shiftRings (delta : Nat) :
    Nat → (Nat → InputRing) → Except Fault (Nat → InputRing)
  | 0, inputs => .ok inputs
  | n + 1, inputs => do
    let inputs' ← shiftRings delta n inputs
    let r ← shiftRing delta (inputs' n)
    .ok (fun p => if p = n then r else inputs' p)


/-- The loop `for (size_t i = 0; i < _currentFrame - inputFrame; i++) _inputs[playerNumber][i] = playerInput;`
of `SetPlayerInput`, `bound` being `_currentFrame - inputFrame`.  The counter
`n` is the number of iterations left, `i = bound - n`. -/
def repeatLoop (playerInput : Nat) (bound : Nat) : Nat → InputRing → Except Fault InputRing
  | 0, r => .ok r
  | n + 1, r => do
    let r' ← r.write (bound - (n + 1)) playerInput
    repeatLoop playerInput bound n r'

/-! ### Component data -/

/-- The vector `core::Vec2f`, two floats. -/
structure Vec2f where
  x : Nat
  y : Nat
  deriving DecidableEq, Repr

/-- The physics body read by `GetValidatePhysicsState`; the fields are those of
its structured binding `[position, velocity, angularVelocity, rotation, bodyType]`. -/
structure Body where
  position : Vec2f
  velocity : Vec2f
  angularVelocity : Nat
  rotation : Nat
  bodyType : Nat
  deriving DecidableEq, Repr

/-- The box collider set by `SpawnPlayer` and `SpawnBullet`. -/
structure Box where
  boxExtends : Vec2f
  deriving DecidableEq, Repr

/-- The player component, with the fields the rollback manager uses. -/
structure PlayerCharacter where
  input : Nat
  playerNumber : Nat
  health : Nat
  invincibilityTime : Nat
  deriving DecidableEq, Repr

/-- The bullet component, `{remainingTime, playerNumber}`. -/
structure Bullet where
  remainingTime : Nat
  playerNumber : Nat
  deriving DecidableEq, Repr

/-- An entry of `_createdEntities`. -/
structure CreatedEntity where
  entity : Nat
  createdFrame : Nat
  deriving DecidableEq, Repr

/-- Modelled from the spec: a component pool (`ComponentManager<T, mask>` of
engine/component.hpp, which is not among the sources) is a dense array of `T`
indexed by entity and sized to the entity count; it is the function of the
entity here, the size being that of the registry. -/
abbrev Pool (α : Type) := Nat → α

/-- The physics manager as the rollback manager uses it: bodies and boxes. -/
structure PhysicsManager where
  bodies : Pool Body
  boxes : Pool Box

/-- The three pools of `core::TransformManager` (`engine/transform.hpp`). -/
structure TransformManager where
  positions : Pool Vec2f
  scales : Pool Vec2f
  rotations : Pool Nat

/-- Modelled from the spec: the entity registry (engine/entity.hpp is not among
the sources) is the vector of the per-entity component masks. -/
structure EntityManager where
  entityMasks : List Nat
  deriving DecidableEq, Repr

namespace EntityManager

/-- Modelled from the spec: `core::ComponentType::Empty` is "value 1 in the low
bit position" and marks a free slot of the registry. -/
def Empty : Nat := 1

/-- Modelled from the spec: `GetEntitiesSize`, the size of the registry. -/
def GetEntitiesSize (em : EntityManager) : Nat := em.entityMasks.length

/-- The mask of a slot; a slot beyond the registry reads as free. -/
def mask (em : EntityManager) (e : Nat) : Nat := em.entityMasks.getD e Empty

/-- Modelled from the spec: `HasComponent(e, mask)` is `(entityMask[e] & mask) == mask`. -/
def HasComponent (em : EntityManager) (e : Nat) (m : Nat) : Bool :=
  em.mask e &&& m == m

/-- Modelled from the spec: `EntityExists(e)` is `entityMask[e] != Empty`. -/
def EntityExists (em : EntityManager) (e : Nat) : Bool := em.mask e != Empty

/-- Modelled from the spec: `DestroyEntity(e)` sets the mask to `Empty`. -/
def DestroyEntity (em : EntityManager) (e : Nat) : EntityManager :=
  { entityMasks := em.entityMasks.set e Empty }

/-- Modelled from the spec: `AddComponent(e, mask)` is the bitwise OR. -/
def AddComponent (em : EntityManager) (e : Nat) (m : Nat) : EntityManager :=
  { entityMasks := em.entityMasks.set e (em.mask e ||| m) }

/-- Modelled from the spec: `RemoveComponent(e, mask)` is the bitwise AND-NOT,
on 32-bit masks. -/
def RemoveComponent (em : EntityManager) (e : Nat) (m : Nat) : EntityManager :=
  { entityMasks := em.entityMasks.set e (em.mask e &&& (0xFFFFFFFF ^^^ m)) }

end EntityManager

/-- The members of `RollbackManager`. -/
structure RollbackManager where
  currentTransformManager : TransformManager
  currentPhysicsManager : PhysicsManager
  currentPlayerManager : Pool PlayerCharacter
  currentBulletManager : Pool Bullet
  lastValidatePhysicsManager : PhysicsManager
  lastValidatePlayerManager : Pool PlayerCharacter
  lastValidateBulletManager : Pool Bullet
  lastValidateFrame : Nat
  currentFrame : Nat
  testedFrame : Nat
  /-- the array `std::array<Frame, MAX_PLAYER_NMB>` -/
  lastReceivedFrame : Nat → Nat
  /-- the array `std::array<std::array<PlayerInput, WINDOW_BUFFER_SIZE>, MAX_PLAYER_NMB>` -/
  inputs : Nat → InputRing
  createdEntities : List CreatedEntity

/-- The members of `GameManager` that the simulation uses (`game_manager.hpp`). -/
structure GameManager where
  entityManager : EntityManager
  transformManager : TransformManager
  rollbackManager : RollbackManager
  /-- the array `std::array<core::Entity, MAX_PLAYER_NMB>` -/
  playerEntityMap : Nat → Nat
  currentFrame : Nat

namespace RollbackManager

/-- The method `RollbackManager::StartNewFrame`. -/
def StartNewFrame (r : RollbackManager) (newFrame : Nat) : Except Fault RollbackManager :=
  if r.currentFrame > newFrame then .ok r
  else
    let delta := Frame.sub newFrame r.currentFrame
    if delta = 0 then .ok r
    else do
      let inputs ← shiftRings delta MAX_PLAYER_NMB r.inputs
      .ok { r with inputs := inputs, currentFrame := newFrame }

/-- The method `RollbackManager::SetPlayerInput`. -/
def SetPlayerInput (r : RollbackManager) (playerNumber : Nat)
    (playerInput : Nat) (inputFrame : Nat) : Except Fault RollbackManager :=
  (if r.currentFrame < inputFrame then r.StartNewFrame inputFrame else .ok r) >>= fun r1 =>
  if playerNumber < MAX_PLAYER_NMB then do
    let ring ← (r1.inputs playerNumber).write (Frame.sub r1.currentFrame inputFrame) playerInput
    let r2 := { r1 with inputs := fun p => if p = playerNumber then ring else r1.inputs p }
    if r2.lastReceivedFrame playerNumber < inputFrame then do
      let r3 := { r2 with
        lastReceivedFrame := fun p => if p = playerNumber then inputFrame else r2.lastReceivedFrame p }
      let bound := Frame.sub r3.currentFrame inputFrame
      let ring' ← repeatLoop playerInput bound bound (r3.inputs playerNumber)
      .ok { r3 with inputs := fun p => if p = playerNumber then ring' else r3.inputs p }
    else .ok r2
  else .error .outOfRange

/-- The method `RollbackManager::GetInputAtFrame`: the assertion
`_currentFrame - frame < _inputs[playerNumber].size()`, then the read. -/
def GetInputAtFrame (r : RollbackManager) (playerNumber : Nat) (frame : Nat) :
    Except Fault Nat :=
  if Frame.sub r.currentFrame frame < WINDOW_BUFFER_SIZE then
    if playerNumber < MAX_PLAYER_NMB then
      (r.inputs playerNumber).read (Frame.sub r.currentFrame frame)
    else .error .outOfRange
  else .error .inputTooOld

/-- The method `RollbackManager::GetLastReceivedFrame`. -/
def GetLastReceivedFrame (r : RollbackManager) (playerNumber : Nat) : Nat :=
  r.lastReceivedFrame playerNumber

end RollbackManager

/-! ### The simulation seen from the rollback manager -/

/-- What a `FixedUpdate` of the current bullet, player and physics managers can
write: the entity registry (through `GameManager::SpawnBullet` and
`RollbackManager::DestroyEntity`), the transforms, the current pools and the
created-entity log (through `RollbackManager::SpawnBullet`).  The frame
counters, the input rings and the last validated pools are out of its reach. -/
structure Simulated where
  entityManager : EntityManager
  transformManager : TransformManager
  currentTransformManager : TransformManager
  currentPhysicsManager : PhysicsManager
  currentPlayerManager : Pool PlayerCharacter
  currentBulletManager : Pool Bullet
  createdEntities : List CreatedEntity

/-- The parts of the engine and of the game rules that are not among the
sources: the constants of engine/component.hpp and engine/entity.hpp, and the
`FixedUpdate` of the three current managers at `FIXED_PERIOD`, each a function
of the whole game state. -/
structure Engine where
  /-- the mask `core::ComponentType::OtherType` -/
  OtherType : Nat
  /-- the mask `core::ComponentType::Body2D` -/
  Body2D : Nat
  /-- the mask `core::ComponentType::Transform` -/
  Transform : Nat
  /-- the sentinel `core::INVALID_ENTITY` -/
  INVALID_ENTITY : Nat
  /-- the call `_currentBulletManager.FixedUpdate(sf::seconds(FIXED_PERIOD))` -/
  bulletFixedUpdate : GameManager → Simulated
  /-- the call `_currentPlayerManager.FixedUpdate(sf::seconds(FIXED_PERIOD))` -/
  playerFixedUpdate : GameManager → Simulated
  /-- the call `_currentPhysicsManager.FixedUpdate(sf::seconds(FIXED_PERIOD))` -/
  physicsFixedUpdate : GameManager → Simulated

/-- The mask `ComponentType::Destroyed = OTHER_TYPE << 4u` (`game_globals.hpp`). -/
def Engine.Destroyed (E : Engine) : Nat := E.OtherType <<< 4

/-- A call that ends normally gives the new state; a call that stops on a fault
gives the fault and the state at that moment. -/
abbrev Outcome := Except (Fault × GameManager) GameManager

namespace GameManager

/-- The method `GameManager::GetEntityFromPlayerNumber`. -/
def GetEntityFromPlayerNumber (g : GameManager) (playerNumber : Nat) : Nat :=
  g.playerEntityMap playerNumber

/-- The method `GameManager::GetCurrentFrame`. -/
def GetCurrentFrame (g : GameManager) : Nat := g.currentFrame

/-- The method `GameManager::GetLastValidateFrame`, which asks the rollback manager. -/
def GetLastValidateFrame (g : GameManager) : Nat := g.rollbackManager.lastValidateFrame

/-- The part of the state a `FixedUpdate` can write. -/
def simulated (g : GameManager) : Simulated :=
  { entityManager := g.entityManager
    transformManager := g.transformManager
    currentTransformManager := g.rollbackManager.currentTransformManager
    currentPhysicsManager := g.rollbackManager.currentPhysicsManager
    currentPlayerManager := g.rollbackManager.currentPlayerManager
    currentBulletManager := g.rollbackManager.currentBulletManager
    createdEntities := g.rollbackManager.createdEntities }

/-- The state after a `FixedUpdate` that leaves `s`. -/
def withSimulated (g : GameManager) (s : Simulated) : GameManager :=
  { g with
    entityManager := s.entityManager
    transformManager := s.transformManager
    rollbackManager := { g.rollbackManager with
      currentTransformManager := s.currentTransformManager
      currentPhysicsManager := s.currentPhysicsManager
      currentPlayerManager := s.currentPlayerManager
      currentBulletManager := s.currentBulletManager
      createdEntities := s.createdEntities } }

end GameManager

/-- The loop `for (const auto& createdEntity : _createdEntities)` that destroys
the entities created after the last validated frame. -/
def destroyCreatedEntities (lastValidateFrame : Nat) :
    List CreatedEntity → EntityManager → EntityManager
  | [], em => em
  | createdEntity :: rest, em =>
    destroyCreatedEntities lastValidateFrame rest
      (if createdEntity.createdFrame > lastValidateFrame then
        em.DestroyEntity createdEntity.entity
      else em)

/-- The loop over `entity < GetEntitiesSize()` that removes the `Destroyed`
flag, for the entities below `n`, in increasing order. -/
def removeDestroyedFlags (destroyed : Nat) : Nat → EntityManager → EntityManager
  | 0, em => em
  | n + 1, em =>
    let em' := removeDestroyedFlags destroyed n em
    if em'.HasComponent n destroyed then em'.RemoveComponent n destroyed else em'

/-- The loop over `entity < GetEntitiesSize()` of `ValidateFrame` that destroys
the entities still carrying `Destroyed`, for the entities below `n`, in
increasing order. -/
def destroyFlaggedEntities (destroyed : Nat) : Nat → EntityManager → EntityManager
  | 0, em => em
  | n + 1, em =>
    let em' := destroyFlaggedEntities destroyed n em
    if em'.HasComponent n destroyed then em'.DestroyEntity n else em'

/-- The three `CopyAllComponents` calls that revert the current pools to the
last validated ones. -/
def RollbackManager.revertToLastValidate (r : RollbackManager) : RollbackManager :=
  { r with
    currentBulletManager := r.lastValidateBulletManager
    currentPhysicsManager := r.lastValidatePhysicsManager
    currentPlayerManager := r.lastValidatePlayerManager }

/-- The statements `auto playerCharacter = _currentPlayerManager.GetComponent(playerEntity);
playerCharacter.input = playerInput; _currentPlayerManager.SetComponent(playerEntity, playerCharacter);`
The pool is sized to the registry; an entity beyond it is outside the pool. -/
def stampInput (g : GameManager) (playerEntity playerInput : Nat) : Outcome :=
  if playerEntity < g.entityManager.GetEntitiesSize then
    let playerCharacter := g.rollbackManager.currentPlayerManager playerEntity
    let playerCharacter := { playerCharacter with input := playerInput }
    .ok { g with rollbackManager := { g.rollbackManager with
      currentPlayerManager := fun e =>
        if e = playerEntity then playerCharacter
        else g.rollbackManager.currentPlayerManager e } }
  else .error (.outOfRange, g)

/-- A fault of a call on the rollback manager alone, met in state `g`. -/
def atState {α : Type} (g : GameManager) : Except Fault α → Except (Fault × GameManager) α
  | .ok a => .ok a
  | .error f => .error (f, g)

/-- The three `FixedUpdate` calls of one replayed frame, in the order bullet,
player, physics. -/
def Engine.simulateOneFrame (E : Engine) (g : GameManager) : GameManager :=
  let g1 := g.withSimulated (E.bulletFixedUpdate g)
  let g2 := g1.withSimulated (E.playerFixedUpdate g1)
  g2.withSimulated (E.physicsFixedUpdate g2)

namespace RollbackManager

/-- The player loop of the replay in `SimulateToCurrentFrame`, for the players
below `n`: an unspawned player is skipped with a warning. -/
def SimulateToCurrentFrame.copyInputs (E : Engine) (frame : Nat) : Nat → GameManager → Outcome
  | 0, g => .ok g
  | n + 1, g =>
    SimulateToCurrentFrame.copyInputs E frame n g >>= fun g' =>
    atState g' (g'.rollbackManager.GetInputAtFrame n frame) >>= fun playerInput =>
    let playerEntity := g'.GetEntityFromPlayerNumber n
    if playerEntity = E.INVALID_ENTITY then .ok g'
    else stampInput g' playerEntity playerInput

/-- The loop `for (Frame frame = lastValidateFrame + 1; frame <= currentFrame; frame++)`
of `SimulateToCurrentFrame`, with `count` frames left from `frame` on. -/
def SimulateToCurrentFrame.replay (E : Engine) : Nat → Nat → GameManager → Outcome
  | 0, _, g => .ok g
  | count + 1, frame, g =>
    let g1 := { g with rollbackManager := { g.rollbackManager with testedFrame := frame } }
    SimulateToCurrentFrame.copyInputs E frame MAX_PLAYER_NMB g1 >>= fun g2 =>
    SimulateToCurrentFrame.replay E count (frame + 1) (E.simulateOneFrame g2)

/-- The first part of `SimulateToCurrentFrame`, before any frame is replayed:
the entities created after the last validated frame are destroyed, the log is
cleared, the `Destroyed` flags are removed and the current pools are reverted. -/
def SimulateToCurrentFrame.reset (E : Engine) (g : GameManager) : GameManager :=
  let lastValidateFrame := g.GetLastValidateFrame
  let em := destroyCreatedEntities lastValidateFrame g.rollbackManager.createdEntities
    g.entityManager
  let r := { g.rollbackManager with createdEntities := [] }
  let em := removeDestroyedFlags E.Destroyed em.GetEntitiesSize em
  { g with entityManager := em, rollbackManager := r.revertToLastValidate }

/-- The method `SimulateToCurrentFrame` up to the end of its replay loop. -/
def SimulateToCurrentFrame.replayed (E : Engine) (g : GameManager) : Outcome :=
  let currentFrame := g.GetCurrentFrame
  let lastValidateFrame := g.GetLastValidateFrame
  SimulateToCurrentFrame.replay E (currentFrame - lastValidateFrame) (lastValidateFrame + 1)
    (SimulateToCurrentFrame.reset E g)

/-- The last loop of `SimulateToCurrentFrame`, which copies the physics states
to the transforms, for the entities below `n`, in increasing order. -/
def SimulateToCurrentFrame.copyToTransforms (E : Engine) : Nat → GameManager → GameManager
  | 0, g => g
  | n + 1, g =>
    let g' := SimulateToCurrentFrame.copyToTransforms E n g
    if !g'.entityManager.HasComponent n (E.Body2D ||| E.Transform) then g'
    else
      let body := g'.rollbackManager.currentPhysicsManager.bodies n
      let t := g'.rollbackManager.currentTransformManager
      { g' with rollbackManager := { g'.rollbackManager with
        currentTransformManager := { t with
          positions := fun e => if e = n then body.position else t.positions e
          rotations := fun e => if e = n then body.rotation else t.rotations e } } }

/-- The method `RollbackManager::SimulateToCurrentFrame`. -/
def SimulateToCurrentFrame (E : Engine) (g : GameManager) : Outcome :=
  SimulateToCurrentFrame.replayed E g >>= fun g' =>
  .ok (SimulateToCurrentFrame.copyToTransforms E g'.entityManager.GetEntitiesSize g')

/-- The loop of `ValidateFrame` that checks that all the inputs were received,
for the players below `n`: true when one of them is behind the frame. -/
def inputsMissing (r : RollbackManager) (newValidateFrame : Nat) : Nat → Bool
  | 0 => false
  | n + 1 => inputsMissing r newValidateFrame n || decide (r.GetLastReceivedFrame n < newValidateFrame)

/-- The player loop of the replay in `ValidateFrame`, for the players below `n`. -/
def ValidateFrame.copyInputs (frame : Nat) : Nat → GameManager → Outcome
  | 0, g => .ok g
  | n + 1, g =>
    ValidateFrame.copyInputs frame n g >>= fun g' =>
    atState g' (g'.rollbackManager.GetInputAtFrame n frame) >>= fun playerInput =>
    let playerEntity := g'.GetEntityFromPlayerNumber n
    stampInput g' playerEntity playerInput

/-- The loop `for (Frame frame = _lastValidateFrame + 1; frame <= newValidateFrame; frame++)`
of `ValidateFrame`, with `count` frames left from `frame` on. -/
def ValidateFrame.replay (E : Engine) : Nat → Nat → GameManager → Outcome
  | 0, _, g => .ok g
  | count + 1, frame, g =>
    let g1 := { g with rollbackManager := { g.rollbackManager with testedFrame := frame } }
    ValidateFrame.copyInputs frame MAX_PLAYER_NMB g1 >>= fun g2 =>
    ValidateFrame.replay E count (frame + 1) (E.simulateOneFrame g2)

/-- The part of `ValidateFrame` between the input check and the replay loop. -/
def ValidateFrame.reset (E : Engine) (g : GameManager) : GameManager :=
  let lastValidateFrame := g.GetLastValidateFrame
  let em := destroyCreatedEntities lastValidateFrame g.rollbackManager.createdEntities
    g.entityManager
  let r := { g.rollbackManager with createdEntities := [] }
  let em := removeDestroyedFlags E.Destroyed em.GetEntitiesSize em
  let r := { r with createdEntities := [] }
  { g with entityManager := em, rollbackManager := r.revertToLastValidate }

/-- The method `ValidateFrame` from the end of the input check to the end of its replay loop. -/
def ValidateFrame.replayed (E : Engine) (g : GameManager) (newValidateFrame : Nat) : Outcome :=
  ValidateFrame.replay E (newValidateFrame - g.rollbackManager.lastValidateFrame)
    (g.rollbackManager.lastValidateFrame + 1) (ValidateFrame.reset E g)

/-- The end of `ValidateFrame`, after the replay loop: the entities carrying
`Destroyed` are destroyed, the current pools are copied to the last validated
ones, the last validated frame is set and the log is cleared. -/
def ValidateFrame.commit (E : Engine) (g : GameManager) (newValidateFrame : Nat) : GameManager :=
  let em := destroyFlaggedEntities E.Destroyed g.entityManager.GetEntitiesSize g.entityManager
  let r := g.rollbackManager
  { g with
    entityManager := em
    rollbackManager := { r with
      lastValidateBulletManager := r.currentBulletManager
      lastValidatePlayerManager := r.currentPlayerManager
      lastValidatePhysicsManager := r.currentPhysicsManager
      lastValidateFrame := newValidateFrame
      createdEntities := [] } }

/-- The method `RollbackManager::ValidateFrame`. -/
def ValidateFrame (E : Engine) (g : GameManager) (newValidateFrame : Nat) : Outcome :=
  if g.rollbackManager.inputsMissing newValidateFrame MAX_PLAYER_NMB then
    .error (.missingInputs, g)
  else
    ValidateFrame.replayed E g newValidateFrame >>= fun g' =>
    .ok (ValidateFrame.commit E g' newValidateFrame)

/-- Addition of two `PhysicsState` words.  Modelled from the spec: the type
`PhysicsState` is declared in a header that is not among the sources; the spec
makes it a 32-bit word. -/
def addPhysicsState (state word : Nat) : Nat := (state + word) % 2 ^ 32

/-- The summation of `GetValidatePhysicsState` over the words of a body. -/
def physicsStateOf (body : Body) : Nat :=
  let state := 0
  -- adding position: `sizeof(core::Vec2f) / sizeof(PhysicsState)` words
  let state := addPhysicsState state body.position.x
  let state := addPhysicsState state body.position.y
  -- adding velocity
  let state := addPhysicsState state body.velocity.x
  let state := addPhysicsState state body.velocity.y
  -- adding rotation: `sizeof(float) / sizeof(PhysicsState)` words
  let state := addPhysicsState state body.rotation
  -- adding angular velocity
  let state := addPhysicsState state body.angularVelocity
  state

/-- The method `RollbackManager::GetValidatePhysicsState`: the body of the player's entity
in the last validated physics manager, then the summation. -/
def GetValidatePhysicsState (g : GameManager) (playerNumber : Nat) : Except Fault Nat :=
  let playerEntity := g.GetEntityFromPlayerNumber playerNumber
  if playerEntity < g.entityManager.GetEntitiesSize then
    .ok (physicsStateOf (g.rollbackManager.lastValidatePhysicsManager.bodies playerEntity))
  else .error .outOfRange

/-- The player loop of `ConfirmFrame`, for the players below `n`. -/
def ConfirmFrame.compare (g : GameManager) (serverPhysicsState : Nat → Nat) :
    Nat → Except (Fault × GameManager) Unit
  | 0 => .ok ()
  | n + 1 =>
    ConfirmFrame.compare g serverPhysicsState n >>= fun _ =>
    atState g (GetValidatePhysicsState g n) >>= fun lastPhysicsState =>
    if serverPhysicsState n ≠ lastPhysicsState then .error (.desync n, g) else .ok ()

/-- The method `RollbackManager::ConfirmFrame`. -/
def ConfirmFrame (E : Engine) (g : GameManager) (newValidatedFrame : Nat)
    (serverPhysicsState : Nat → Nat) : Outcome :=
  ValidateFrame E g newValidatedFrame >>= fun g' =>
  ConfirmFrame.compare g' serverPhysicsState MAX_PLAYER_NMB >>= fun _ => .ok g'

end RollbackManager

/-- The method `GameManager::Validate`. -/
def GameManager.Validate (E : Engine) (g : GameManager) (newValidateFrame : Nat) : Outcome :=
  (if g.rollbackManager.currentFrame < newValidateFrame then
    atState g (g.rollbackManager.StartNewFrame newValidateFrame) >>= fun r =>
      .ok { g with rollbackManager := r }
  else .ok g) >>= fun g' =>
  RollbackManager.ValidateFrame E g' newValidateFrame

/-- The method `ClientGameManager::ConfirmValidateFrame`. -/
def ClientGameManager.ConfirmValidateFrame (E : Engine) (g : GameManager)
    (newValidateFrame : Nat) (physicsStates : Nat → Nat) : Outcome :=
  if newValidateFrame < g.rollbackManager.lastValidateFrame then .ok g
  else if g.rollbackManager.inputsMissing newValidateFrame MAX_PLAYER_NMB then .ok g
  else RollbackManager.ConfirmFrame E g newValidateFrame physicsStates

/-- The state in which a call ends, normally or on a fault. -/
def finalState : Outcome → GameManager
  | .ok g => g
  | .error (_, g) => g

/-- A call to one of the four validation entry points. -/
inductive ValidationCall where
  | validateFrame (newValidateFrame : Nat)
  | confirmFrame (newValidatedFrame : Nat) (serverPhysicsState : Nat → Nat)
  | validate (newValidateFrame : Nat)
  | confirmValidateFrame (newValidateFrame : Nat) (physicsStates : Nat → Nat)

namespace ValidationCall

/-- The call itself. -/
def run (E : Engine) (g : GameManager) : ValidationCall → Outcome
  | validateFrame n => RollbackManager.ValidateFrame E g n
  | confirmFrame n s => RollbackManager.ConfirmFrame E g n s
  | validate n => GameManager.Validate E g n
  | confirmValidateFrame n s => ClientGameManager.ConfirmValidateFrame E g n s

/-- The caller's side of a call: a direct `ValidateFrame`, `ConfirmFrame` or
`Validate` is made for a frame that is not older than the last validated one;
`ConfirmValidateFrame` checks this itself. -/
def notStale (g : GameManager) : ValidationCall → Prop
  | validateFrame n => g.rollbackManager.lastValidateFrame ≤ n
  | confirmFrame n _ => g.rollbackManager.lastValidateFrame ≤ n
  | validate n => g.rollbackManager.lastValidateFrame ≤ n
  | confirmValidateFrame _ _ => True

/-- A sequence of calls, one after the other; a fault ends the run. -/
def runAll (E : Engine) : List ValidationCall → GameManager → Outcome
  | [], g => .ok g
  | c :: cs, g => c.run E g >>= fun g' => runAll E cs g'

/-- Every call of the run is made for a frame that is not stale at that moment. -/
def allNotStale (E : Engine) : List ValidationCall → GameManager → Prop
  | [], _ => True
  | c :: cs, g => c.notStale g ∧ ∀ g', c.run E g = .ok g' → allNotStale E cs g'

end ValidationCall

/-- The six words `GetValidatePhysicsState` sums, in the order it reads them. -/
def Body.words (body : Body) : List Nat :=
  [body.position.x, body.position.y, body.velocity.x, body.velocity.y, body.rotation,
    body.angularVelocity]

/-- Two bodies differ in the word `i` of the six and agree on the other five. -/
def Body.differOnlyAt (b1 b2 : Body) (i : Nat) : Prop :=
  i < 6 ∧ b1.words.getD i 0 ≠ b2.words.getD i 0 ∧
    ∀ j, j < 6 → j ≠ i → b1.words.getD j 0 = b2.words.getD j 0

/-- The log discipline of the game rules: the only statement that a
`FixedUpdate` reaches and that writes `_createdEntities` is the `push_back` of
`RollbackManager::SpawnBullet`, which appends `{entity, _testedFrame}`. -/
def Engine.LogsSpawnsOnly (E : Engine) : Prop :=
  ∀ g : GameManager,
    (∃ spawned : List Nat, (E.bulletFixedUpdate g).createdEntities
      = g.rollbackManager.createdEntities
        ++ spawned.map (fun e => ⟨e, g.rollbackManager.testedFrame⟩)) ∧
    (∃ spawned : List Nat, (E.playerFixedUpdate g).createdEntities
      = g.rollbackManager.createdEntities
        ++ spawned.map (fun e => ⟨e, g.rollbackManager.testedFrame⟩)) ∧
    (∃ spawned : List Nat, (E.physicsFixedUpdate g).createdEntities
      = g.rollbackManager.createdEntities
        ++ spawned.map (fun e => ⟨e, g.rollbackManager.testedFrame⟩))

/-- The current physics, player and bullet pools of a game. -/
def GameManager.currentPools (g : GameManager) :
    PhysicsManager × Pool PlayerCharacter × Pool Bullet :=
  (g.rollbackManager.currentPhysicsManager, g.rollbackManager.currentPlayerManager,
    g.rollbackManager.currentBulletManager)

/-! ### The physics engine (`physics_manager.cpp`, `rigidbody.cpp`)

The physics engine is embedded in exact arithmetic: a `float` is a rational
number.  The grid, the narrow phase, the two solvers and the registered
listeners are not among the sources; they are the fields of `Collaborators`.
The calls that `ResolveCollisions` makes to them are recorded, in order, in a
trace of `Event`s. -/

namespace physics

/-- Modelled from the spec: the vector `core::Vec2f` (maths/vec2.hpp is not
among the sources), a pair of floats with the componentwise sum and the
product by a scalar. -/
structure Vec2f where
  x : ℚ
  y : ℚ
  deriving DecidableEq

/-- The sum of two vectors, `operator+`. -/
def Vec2f.add (a b : Vec2f) : Vec2f := ⟨a.x + b.x, a.y + b.y⟩

/-- The product of a vector by a scalar, `operator*`. -/
def Vec2f.scale (a : Vec2f) (k : ℚ) : Vec2f := ⟨a.x * k, a.y * k⟩

instance : Add Vec2f := ⟨Vec2f.add⟩

instance : HMul Vec2f ℚ Vec2f := ⟨Vec2f.scale⟩

/-- The vector `{0, 0}`. -/
def Vec2f.zero : Vec2f := ⟨0, 0⟩

/-- The enumeration `BodyType` (`rigidbody.hpp`). -/
inductive BodyType where
  | Static
  | Kinematic
  | Dynamic
  deriving DecidableEq

/-- Modelled from the spec: the enumeration `Layer` (layers.hpp is not among the
sources), with the layers the spec and `physics_manager.cpp` name. -/
inductive Layer where
  | None
  | Player
  | Ball
  | Wall
  | MiddleWall
  | Door
  deriving DecidableEq

/-- Modelled from the spec: the physics `Transform` (physics/transform.hpp is
not among the sources), `{position, scale, rotation}`. -/
structure Transform where
  position : Vec2f
  scale : Vec2f
  rotation : ℚ
  deriving DecidableEq

/-- The private members of `Rigidbody`, in the order of `rigidbody.hpp`. -/
structure Rigidbody where
  gravityAcceleration : Vec2f
  force : Vec2f
  velocity : Vec2f
  invMass : ℚ
  takesGravity : Bool
  staticFriction : ℚ
  dynamicFriction : ℚ
  restitution : ℚ
  dragFactor : ℚ
  transform : Transform
  isTrigger : Bool
  bodyType : BodyType
  layer : Layer
  deriving DecidableEq

namespace Rigidbody

/-- The constructor `Rigidbody::Rigidbody()`: `_invMass(1)`, `_takesGravity(true)`,
the other members keeping their default member initialisers. -/
def new : Rigidbody :=
  { gravityAcceleration := Vec2f.zero
    force := Vec2f.zero
    velocity := Vec2f.zero
    invMass := 1
    takesGravity := true
    staticFriction := 0
    dynamicFriction := 0
    restitution := 0
    dragFactor := 1
    transform := ⟨Vec2f.zero, Vec2f.zero, 0⟩
    isTrigger := false
    bodyType := BodyType.Static
    layer := Layer.None }

/-- The getter `Trans`. -/
def Trans (b : Rigidbody) : Transform := b.transform

/-- The setter `SetTransform`. -/
def SetTransform (b : Rigidbody) (transform : Transform) : Rigidbody :=
  { b with transform := transform }

/-- The getter `IsTrigger`. -/
def IsTrigger (b : Rigidbody) : Bool := b.isTrigger

/-- The setter `SetIsTrigger`. -/
def SetIsTrigger (b : Rigidbody) (isTrigger : Bool) : Rigidbody :=
  { b with isTrigger := isTrigger }

/-- The getter `Position`. -/
def Position (b : Rigidbody) : Vec2f := b.transform.position

/-- The setter `SetPosition`. -/
def SetPosition (b : Rigidbody) (position : Vec2f) : Rigidbody :=
  { b with transform := { b.transform with position := position } }

/-- The getter `Rotation`. -/
def Rotation (b : Rigidbody) : ℚ := b.transform.rotation

/-- The setter `SetRotation`. -/
def SetRotation (b : Rigidbody) (rotation : ℚ) : Rigidbody :=
  { b with transform := { b.transform with rotation := rotation } }

/-- The getter `TakesGravity`. -/
def TakesGravity (b : Rigidbody) : Bool := b.takesGravity

/-- The getter `GravityAcceleration`. -/
def GravityAcceleration (b : Rigidbody) : Vec2f := b.gravityAcceleration

/-- The setter `SetGravityAcceleration`: `if (!TakesGravity()) return;` then the
assignment. -/
def SetGravityAcceleration (b : Rigidbody) (gravityAcceleration : Vec2f) : Rigidbody :=
  if !b.TakesGravity then b
  else { b with gravityAcceleration := gravityAcceleration }

/-- The getter `Force`. -/
def Force (b : Rigidbody) : Vec2f := b.force

/-- The method `ApplyForce`: `this->_force += addedForce`. -/
def ApplyForce (b : Rigidbody) (addedForce : Vec2f) : Rigidbody :=
  { b with force := b.force + addedForce }

/-- The setter `SetForce`. -/
def SetForce (b : Rigidbody) (force : Vec2f) : Rigidbody := { b with force := force }

/-- The getter `Velocity`. -/
def Velocity (b : Rigidbody) : Vec2f := b.velocity

/-- The setter `SetVelocity`. -/
def SetVelocity (b : Rigidbody) (velocity : Vec2f) : Rigidbody := { b with velocity := velocity }

/-- The getter `Mass`, `1.0f / _invMass`. -/
def Mass (b : Rigidbody) : ℚ := 1 / b.invMass

/-- The getter `InvMass`. -/
def InvMass (b : Rigidbody) : ℚ := b.invMass

/-- The setter `SetTakesGravity`: the flag is assigned first, then the gravity
acceleration is set to zero through `SetGravityAcceleration` when the flag is
false. -/
def SetTakesGravity (b : Rigidbody) (takesGravity : Bool) : Rigidbody :=
  let b1 := { b with takesGravity := takesGravity }
  if !b1.takesGravity then b1.SetGravityAcceleration ⟨0, 0⟩ else b1

/-- The getter `StaticFriction`. -/
def StaticFriction (b : Rigidbody) : ℚ := b.staticFriction

/-- The setter `SetStaticFriction`. -/
def SetStaticFriction (b : Rigidbody) (staticFriction : ℚ) : Rigidbody :=
  { b with staticFriction := staticFriction }

/-- The getter `DynamicFriction`. -/
def DynamicFriction (b : Rigidbody) : ℚ := b.dynamicFriction

/-- The setter `SetDynamicFriction`. -/
def SetDynamicFriction (b : Rigidbody) (dynamicFriction : ℚ) : Rigidbody :=
  { b with dynamicFriction := dynamicFriction }

/-- The getter `Restitution`. -/
def Restitution (b : Rigidbody) : ℚ := b.restitution

/-- The setter `SetRestitution`. -/
def SetRestitution (b : Rigidbody) (restitution : ℚ) : Rigidbody :=
  { b with restitution := restitution }

/-- The getter `DragFactor`. -/
def DragFactor (b : Rigidbody) : ℚ := b.dragFactor

/-- The setter `SetDragFactor`. -/
def SetDragFactor (b : Rigidbody) (dragFactor : ℚ) : Rigidbody :=
  { b with dragFactor := dragFactor }

/-- The getter `GetLayer`. -/
def GetLayer (b : Rigidbody) : Layer := b.layer

/-- The setter `SetLayer`. -/
def SetLayer (b : Rigidbody) (layer : Layer) : Rigidbody := { b with layer := layer }

/-- The test `IsDynamic`. -/
def IsDynamic (b : Rigidbody) : Bool := b.bodyType == BodyType.Dynamic

/-- The test `IsStatic`. -/
def IsStatic (b : Rigidbody) : Bool := b.bodyType == BodyType.Static

/-- The test `IsKinematic`. -/
def IsKinematic (b : Rigidbody) : Bool := b.bodyType == BodyType.Kinematic

/-- The getter `GetBodyType`. -/
def GetBodyType (b : Rigidbody) : BodyType := b.bodyType

/-- The setter `SetBodyType`. -/
def SetBodyType (b : Rigidbody) (bodyType : BodyType) : Rigidbody :=
  { b with bodyType := bodyType }

end Rigidbody

end physics

namespace physics

/-- The collider `AabbCollider` (`collider.hpp`). -/
structure AabbCollider where
  center : Vec2f
  halfWidth : ℚ
  halfHeight : ℚ
  deriving DecidableEq

/-- The collider `CircleCollider` (`collider.hpp`). -/
structure CircleCollider where
  center : Vec2f
  radius : ℚ
  deriving DecidableEq

/-- What a `Collider*` returned by `GetCollider` points to. -/
inductive Collider where
  | aabb (collider : AabbCollider)
  | circle (collider : CircleCollider)
  deriving DecidableEq

/-- Modelled from the spec: the `Manifold` (manifold.hpp is not among the
sources), `{hasCollision, a, b, normal, depth}`. -/
structure Manifold where
  hasCollision : Bool
  a : Vec2f
  b : Vec2f
  normal : Vec2f
  depth : ℚ
  deriving DecidableEq

/-- An element of the collision vectors, built by `emplace_back(firstEntity,
secondEntity, manifold)`. -/
structure Collision where
  bodyA : Nat
  bodyB : Nat
  manifold : Manifold
  deriving DecidableEq

/-- The members of `PhysicsManager` that are data: the entity registry it refers
to, the three component pools, the layer matrix and the gravity. -/
structure PhysicsManager where
  entityManager : EntityManager
  rigidbodyManager : Pool Rigidbody
  aabbManager : Pool AabbCollider
  circleManager : Pool CircleCollider
  layerCollisionMatrix : Layer → Layer → Bool
  gravity : Vec2f

/-- A callback registered in a `core::Action<core::Entity, core::Entity>`: it is
called with the two entities and may write the state the physics manager sees. -/
abbrev Callback := Nat → Nat → PhysicsManager → PhysicsManager

/-- A call made by `ResolveCollisions` to a collaborator. -/
inductive Event where
  /-- the narrow phase `firstCollider->TestCollision(...)` on a pair -/
  | testCollision (firstEntity secondEntity : Nat)
  /-- the call `SolveCollisions(collisions, deltaTime)`, made in the state `pm` -/
  | solve (collisions : List Collision) (pm : PhysicsManager)
  /-- the call of the trigger callback number `listener` with `(a, b)` -/
  | onTrigger (listener a b : Nat)
  /-- the call of the collision callback number `listener` with `(a, b)` -/
  | onCollision (listener a b : Nat)

/-- The parts of the physics engine that are not among the sources. -/
structure Collaborators where
  /-- the mask `core::ComponentType::Rigidbody` -/
  Rigidbody : Nat
  /-- the mask `core::ComponentType::AabbCollider` -/
  AabbCollider : Nat
  /-- the mask `core::ComponentType::CircleCollider` -/
  CircleCollider : Nat
  /-- the calls `_grid.Update(); _grid.GetCollisionPairs()` -/
  collisionPairs : PhysicsManager → List (Nat × Nat)
  /-- the narrow phase `Collider::TestCollision` -/
  testCollision : Collider → Transform → Collider → Transform → Manifold
  /-- the call `_impulseSolver.Solve(collisions, dt)`; the solver holds the
  registry and the rigidbody pool -/
  impulseSolve : List Collision → ℚ → EntityManager → Pool physics.Rigidbody → Pool physics.Rigidbody
  /-- the call `_smoothPositionSolver.Solve(collisions, dt)` -/
  smoothPositionSolve : List Collision → ℚ → EntityManager → Pool physics.Rigidbody → Pool physics.Rigidbody
  /-- the callbacks registered by `RegisterTriggerListener`, in order -/
  onTriggerAction : List Callback
  /-- the callbacks registered by `RegisterCollisionListener`, in order -/
  onCollisionAction : List Callback

namespace PhysicsManager

/-- The method `GetRigidbody`: the component of the rigidbody pool. -/
def GetRigidbody (pm : PhysicsManager) (entity : Nat) : Rigidbody := pm.rigidbodyManager entity

/-- The assignment through the reference `Rigidbody& rigidbody = GetRigidbody(entity)`. -/
def setRigidbodyAt (pm : PhysicsManager) (entity : Nat) (body : Rigidbody) : PhysicsManager :=
  { pm with rigidbodyManager := fun e => if e = entity then body else pm.rigidbodyManager e }

/-- The method `SetRigidbody(entity, body)`: the gravity of the manager is given
to a body that takes gravity, then the body is stored.  The pool is sized to
the registry; an entity beyond it is outside the pool. -/
def SetRigidbody (pm : PhysicsManager) (entity : Nat) (body : Rigidbody) :
    Except Fault PhysicsManager :=
  let body := if body.TakesGravity then body.SetGravityAcceleration pm.gravity else body
  if entity < pm.entityManager.GetEntitiesSize then .ok (pm.setRigidbodyAt entity body)
  else .error .outOfRange

/-- The static method `HasCollider`: the Aabb collider has priority over the
circle collider. -/
def HasCollider (C : Collaborators) (entityManager : EntityManager) (entity : Nat) :
    Option Nat :=
  let hasAabb := entityManager.HasComponent entity C.AabbCollider
  let hasCircle := entityManager.HasComponent entity C.CircleCollider
  if hasAabb then some C.AabbCollider
  else if hasCircle then some C.CircleCollider
  else none

/-- The method `GetCollider(entity)`; `none` is the null pointer. -/
def GetCollider (C : Collaborators) (pm : PhysicsManager) (entity : Nat) : Option Collider :=
  let hasAabb := pm.entityManager.HasComponent entity C.AabbCollider
  let hasCircle := pm.entityManager.HasComponent entity C.CircleCollider
  if hasAabb then some (Collider.aabb (pm.aabbManager entity))
  else if hasCircle then some (Collider.circle (pm.circleManager entity))
  else none

/-- The loop of `ApplyGravity`, for the entities below `n`, in increasing order. -/
def ApplyGravity.loop (C : Collaborators) : Nat → PhysicsManager → PhysicsManager
  | 0, pm => pm
  | n + 1, pm =>
    let pm' := ApplyGravity.loop C n pm
    let hasRigidbody := pm'.entityManager.HasComponent n C.Rigidbody
    if !hasRigidbody then pm'
    else
      let rigidbody := pm'.GetRigidbody n
      if !rigidbody.IsDynamic then pm'
      else if rigidbody.InvMass = 0 then pm'
      else
        let force := rigidbody.GravityAcceleration * rigidbody.Mass
        pm'.setRigidbodyAt n (rigidbody.ApplyForce force)

/-- The method `ApplyGravity`. -/
def ApplyGravity (C : Collaborators) (pm : PhysicsManager) : PhysicsManager :=
  ApplyGravity.loop C pm.entityManager.GetEntitiesSize pm

/-- The loop of `MoveBodies`, for the entities below `n`, in increasing order. -/
def MoveBodies.loop (C : Collaborators) (deltaTime : ℚ) : Nat → PhysicsManager → PhysicsManager
  | 0, pm => pm
  | n + 1, pm =>
    let pm' := MoveBodies.loop C deltaTime n pm
    let hasRigidbody := pm'.entityManager.HasComponent n C.Rigidbody
    if !hasRigidbody then pm'
    else
      let rigidbody := pm'.GetRigidbody n
      if rigidbody.IsStatic then pm'
      else
        let draggedVel := rigidbody.Velocity * rigidbody.DragFactor
        let vel := draggedVel + rigidbody.Force * rigidbody.InvMass * deltaTime
        let rigidbody := rigidbody.SetVelocity vel
        let pos := rigidbody.Position + rigidbody.Velocity * deltaTime
        let rigidbody := rigidbody.SetPosition pos
        let rigidbody := rigidbody.SetForce ⟨0, 0⟩
        pm'.setRigidbodyAt n rigidbody

/-- The method `MoveBodies`. -/
def MoveBodies (C : Collaborators) (deltaTime : ℚ) (pm : PhysicsManager) : PhysicsManager :=
  MoveBodies.loop C deltaTime pm.entityManager.GetEntitiesSize pm

/-- The state of the loop of `ResolveCollisions`: the manager, the two local
vectors and the calls made so far. -/
structure ResolveState where
  pm : PhysicsManager
  collisions : List Collision
  triggers : List Collision
  trace : List Event

/-- The method `core::Action::Execute(a, b)` (`action_utility.hpp`): the
registered callbacks are called in order; `i` is the number of the first one. -/
def Execute (tag : Nat → Nat → Nat → Event) (a b : Nat) :
    Nat → List Callback → PhysicsManager × List Event → PhysicsManager × List Event
  | _, [], s => s
  | i, callback :: rest, s =>
    Execute tag a b (i + 1) rest (callback a b s.1, s.2 ++ [tag i a b])

/-- The method `SendCollisionCallbacks(collisions, action)`. -/
def SendCollisionCallbacks (tag : Nat → Nat → Nat → Event) (action : List Callback) :
    List Collision → PhysicsManager × List Event → PhysicsManager × List Event
  | [], s => s
  | collision :: rest, s =>
    SendCollisionCallbacks tag action rest
      (Execute tag collision.bodyA collision.bodyB 0 action s)

/-- The method `SolveCollisions`: the impulse solver, then the smooth position
solver. -/
def SolveCollisions (C : Collaborators) (collisions : List Collision) (deltaTime : ℚ)
    (pm : PhysicsManager) : PhysicsManager :=
  let bodies := C.impulseSolve collisions deltaTime pm.entityManager pm.rigidbodyManager
  let bodies := C.smoothPositionSolve collisions deltaTime pm.entityManager bodies
  { pm with rigidbodyManager := bodies }

/-- The end of an iteration of `ResolveCollisions`, once the pair is in one of
the two vectors: `SolveCollisions(collisions, deltaTime)`, then the trigger
callbacks, then the collision callbacks. -/
def ResolveCollisions.dispatch (C : Collaborators) (deltaTime : ℚ) (s : ResolveState) :
    ResolveState :=
  let trace := s.trace ++ [Event.solve s.collisions s.pm]
  let pm := SolveCollisions C s.collisions deltaTime s.pm
  let r := SendCollisionCallbacks Event.onTrigger C.onTriggerAction s.triggers (pm, trace)
  let r := SendCollisionCallbacks Event.onCollision C.onCollisionAction s.collisions r
  { s with pm := r.1, trace := r.2 }

/-- One iteration of the loop of `ResolveCollisions` over the collision pairs. -/
def ResolveCollisions.step (C : Collaborators) (deltaTime : ℚ) (s : ResolveState)
    (pair : Nat × Nat) : ResolveState :=
  let firstEntity := pair.1
  let secondEntity := pair.2
  let firstHasRigidbody := s.pm.entityManager.HasComponent firstEntity C.Rigidbody
  let secondHasRigidbody := s.pm.entityManager.HasComponent secondEntity C.Rigidbody
  match GetCollider C s.pm firstEntity, GetCollider C s.pm secondEntity with
  | some firstCollider, some secondCollider =>
    if !(firstHasRigidbody && secondHasRigidbody) then s
    else
      let firstRigidbody := s.pm.GetRigidbody firstEntity
      let secondRigidbody := s.pm.GetRigidbody secondEntity
      let firstLayer := firstRigidbody.GetLayer
      let secondLayer := secondRigidbody.GetLayer
      if !s.pm.layerCollisionMatrix firstLayer secondLayer then s
      else
        let manifold := C.testCollision firstCollider firstRigidbody.Trans
          secondCollider secondRigidbody.Trans
        let s := { s with trace := s.trace ++ [Event.testCollision firstEntity secondEntity] }
        if !manifold.hasCollision then s
        else
          let s :=
            if firstRigidbody.IsTrigger || secondRigidbody.IsTrigger then
              { s with triggers := s.triggers ++ [⟨firstEntity, secondEntity, manifold⟩] }
            else
              { s with collisions := s.collisions ++ [⟨firstEntity, secondEntity, manifold⟩] }
          ResolveCollisions.dispatch C deltaTime s
  | _, _ => s

/-- The method `ResolveCollisions`, with its local vectors and the calls it made. -/
def ResolveCollisions.run (C : Collaborators) (deltaTime : ℚ) (pm : PhysicsManager) :
    ResolveState :=
  (C.collisionPairs pm).foldl (ResolveCollisions.step C deltaTime) ⟨pm, [], [], []⟩

/-- The method `ResolveCollisions`. -/
def ResolveCollisions (C : Collaborators) (deltaTime : ℚ) (pm : PhysicsManager) :
    PhysicsManager :=
  (ResolveCollisions.run C deltaTime pm).pm

/-- The method `FixedUpdate`: `ApplyGravity(); ResolveCollisions(deltaTime);
MoveBodies(deltaTime);`. -/
def FixedUpdate (C : Collaborators) (deltaTime : ℚ) (pm : PhysicsManager) : PhysicsManager :=
  MoveBodies C deltaTime (ResolveCollisions C deltaTime (ApplyGravity C pm))

/-- The calls that `FixedUpdate` makes to the collaborators, in order. -/
def FixedUpdate.trace (C : Collaborators) (deltaTime : ℚ) (pm : PhysicsManager) : List Event :=
  (ResolveCollisions.run C deltaTime (ApplyGravity C pm)).trace

end PhysicsManager

end physics

namespace physics

/-- A call to one of the public setters of `Rigidbody` (`rigidbody.hpp`) other
than `SetMass`, with its argument. -/
inductive Rigidbody.Setter where
  | SetTransform (transform : Transform)
  | SetIsTrigger (isTrigger : Bool)
  | SetPosition (position : Vec2f)
  | SetRotation (rotation : ℚ)
  | SetGravityAcceleration (gravityAcceleration : Vec2f)
  | ApplyForce (addedForce : Vec2f)
  | SetForce (force : Vec2f)
  | SetVelocity (velocity : Vec2f)
  | SetTakesGravity (takesGravity : Bool)
  | SetStaticFriction (staticFriction : ℚ)
  | SetDynamicFriction (dynamicFriction : ℚ)
  | SetRestitution (restitution : ℚ)
  | SetDragFactor (dragFactor : ℚ)
  | SetLayer (layer : Layer)
  | SetBodyType (bodyType : BodyType)

/-- The effect of a setter call on a body. -/
def Rigidbody.Setter.apply (b : Rigidbody) : Rigidbody.Setter → Rigidbody
  | .SetTransform transform => b.SetTransform transform
  | .SetIsTrigger isTrigger => b.SetIsTrigger isTrigger
  | .SetPosition position => b.SetPosition position
  | .SetRotation rotation => b.SetRotation rotation
  | .SetGravityAcceleration gravityAcceleration => b.SetGravityAcceleration gravityAcceleration
  | .ApplyForce addedForce => b.ApplyForce addedForce
  | .SetForce force => b.SetForce force
  | .SetVelocity velocity => b.SetVelocity velocity
  | .SetTakesGravity takesGravity => b.SetTakesGravity takesGravity
  | .SetStaticFriction staticFriction => b.SetStaticFriction staticFriction
  | .SetDynamicFriction dynamicFriction => b.SetDynamicFriction dynamicFriction
  | .SetRestitution restitution => b.SetRestitution restitution
  | .SetDragFactor dragFactor => b.SetDragFactor dragFactor
  | .SetLayer layer => b.SetLayer layer
  | .SetBodyType bodyType => b.SetBodyType bodyType

/-- The body that a sequence of setter calls makes of the default-constructed one. -/
def Rigidbody.afterCalls (calls : List Rigidbody.Setter) : Rigidbody :=
  calls.foldl Rigidbody.Setter.apply Rigidbody.new

/-- The collision `c` is between two entities other than `e`. -/
def Collision.avoids (c : Collision) (e : Nat) : Prop := c.bodyA ≠ e ∧ c.bodyB ≠ e

instance (c : Collision) (e : Nat) : Decidable (c.avoids e) := by
  unfold Collision.avoids; infer_instance

/-- The solvers write only the bodies of the collisions they are given. -/
def Collaborators.SolversLocal (C : Collaborators) : Prop :=
  ∀ (collisions : List Collision) (dt : ℚ) (em : EntityManager) (bodies : Pool physics.Rigidbody)
    (e : Nat), (∀ c ∈ collisions, c.avoids e) →
      C.impulseSolve collisions dt em bodies e = bodies e ∧
      C.smoothPositionSolve collisions dt em bodies e = bodies e

/-- A listener called with `(a, b)` leaves the body and the mask of every other
entity as they are, and does not shrink the registry. -/
def Collaborators.ListenersLocal (C : Collaborators) : Prop :=
  ∀ callback ∈ C.onTriggerAction ++ C.onCollisionAction,
    ∀ (a b : Nat) (pm : PhysicsManager) (e : Nat), e ≠ a → e ≠ b →
      (callback a b pm).rigidbodyManager e = pm.rigidbodyManager e ∧
      (callback a b pm).entityManager.mask e = pm.entityManager.mask e ∧
      pm.entityManager.GetEntitiesSize ≤ (callback a b pm).entityManager.GetEntitiesSize

/-- Neither the solvers nor the listeners change the trigger flag of a body. -/
def Collaborators.KeepsTriggers (C : Collaborators) : Prop :=
  (∀ (collisions : List Collision) (dt : ℚ) (em : EntityManager) (bodies : Pool physics.Rigidbody)
    (e : Nat),
      (C.impulseSolve collisions dt em bodies e).IsTrigger = (bodies e).IsTrigger ∧
      (C.smoothPositionSolve collisions dt em bodies e).IsTrigger = (bodies e).IsTrigger) ∧
  ∀ callback ∈ C.onTriggerAction ++ C.onCollisionAction,
    ∀ (a b : Nat) (pm : PhysicsManager) (e : Nat),
      ((callback a b pm).rigidbodyManager e).IsTrigger = (pm.rigidbodyManager e).IsTrigger

/-- A call of `SolveCollisions` is made with a list in which no body is a
trigger in the state of the call; the other calls are not concerned. -/
def Event.solvesNoTrigger : Event → Prop
  | .solve collisions pm =>
    ∀ c ∈ collisions, (pm.GetRigidbody c.bodyA).IsTrigger = false ∧
      (pm.GetRigidbody c.bodyB).IsTrigger = false
  | _ => True

/-- The event is the call of the trigger callback number `listener` with `(a, b)`. -/
def Event.isOnTrigger (listener a b : Nat) : Event → Bool
  | .onTrigger l x y => l == listener && x == a && y == b
  | _ => false

/-- The event is a call of a trigger or of a collision callback. -/
def Event.isCallback : Event → Bool
  | .onTrigger _ _ _ => true
  | .onCollision _ _ _ => true
  | _ => false

end physics

namespace EntityManager

/-- The index of the first slot of `masks` that is `Empty`, counted from `i`. -/
def firstFree : List Nat → Nat → Option Nat
  | [], _ => none
  | m :: rest, i => if m = Empty then some i else firstFree rest (i + 1)

/-- Modelled from the spec: `CreateEntity` (engine/entity.cpp is not among the
sources) "returns the first slot whose mask equals `Empty`; if none, grows the
pool", here by `growth + 1` free slots, and "sets the slot mask to 0". -/
def CreateEntity (em : EntityManager) (growth : Nat) : Nat × EntityManager :=
  match firstFree em.entityMasks 0 with
  | some e => (e, { entityMasks := em.entityMasks.set e 0 })
  | none =>
    let e := em.entityMasks.length
    (e, { entityMasks := (em.entityMasks ++ List.replicate (growth + 1) Empty).set e 0 })

end EntityManager

namespace physics

namespace PhysicsManager

/-- What the loop of `ResolveCollisions` keeps of an entity outside every accepted
pair: its body, its mask, and its being in the registry. -/
def keeps (e : Nat) (b : Rigidbody) (m n : Nat) (pm : PhysicsManager) : Prop :=
  pm.rigidbodyManager e = b ∧ pm.entityManager.mask e = m ∧ n ≤ pm.entityManager.GetEntitiesSize

end PhysicsManager

end physics

namespace EntityManager

/-- A call of `AddComponent` or of `RemoveComponent` on an entity, with its mask. -/
inductive MaskCall where
  | AddComponent (mask : Nat)
  | RemoveComponent (mask : Nat)
  deriving DecidableEq

/-- The mask of the call. -/
def MaskCall.mask : MaskCall → Nat
  | .AddComponent mask => mask
  | .RemoveComponent mask => mask

/-- The call made on the entity `e`. -/
def MaskCall.apply (e : Nat) (em : EntityManager) : MaskCall → EntityManager
  | .AddComponent mask => em.AddComponent e mask
  | .RemoveComponent mask => em.RemoveComponent e mask

/-- The mask `c` was added and not removed since: the last of the calls made with
`c` is an `AddComponent`; `start` says whether this held before the calls. -/
def MaskCall.added (c : Nat) : List MaskCall → Bool → Bool
  | [], start => start
  | .AddComponent mask :: rest, start => MaskCall.added c rest (if mask = c then true else start)
  | .RemoveComponent mask :: rest, start =>
    MaskCall.added c rest (if mask = c then false else start)

end EntityManager

/-- The method `GameManager::SetPlayerInput`: nothing is done for `INVALID_PLAYER`;
any other player number goes to the rollback manager. -/
def GameManager.SetPlayerInput (g : GameManager) (playerNumber playerInput inputFrame : Nat) :
    Outcome :=
  if playerNumber = INVALID_PLAYER then .ok g
  else
    atState g (g.rollbackManager.SetPlayerInput playerNumber playerInput inputFrame) >>= fun r =>
      .ok { g with rollbackManager := r }

/-- The method `RollbackManager::DestroyEntity`: an entity found in the log of
created entities is destroyed at once; any other entity gets the flag
`Destroyed`. -/
def RollbackManager.DestroyEntity (E : Engine) (g : GameManager) (entity : Nat) : GameManager :=
  if g.rollbackManager.createdEntities.any (fun newEntity => newEntity.entity == entity) then
    { g with entityManager := g.entityManager.DestroyEntity entity }
  else
    { g with entityManager := g.entityManager.AddComponent entity E.Destroyed }

/-! ### The player character manager (`player_character.cpp`) -/

namespace physics

/-- The constant `PLAYER_SPEED` (`game_globals.hpp`). -/
def PLAYER_SPEED : ℚ := 400

/-- The constant `BALL_SPEED` (`game_globals.hpp`). -/
def BALL_SPEED : ℚ := 2

namespace player_input_enum

/-- The bit `PlayerInput::Up`. -/
def Up : Nat := 1 <<< 0

/-- The bit `PlayerInput::Down`. -/
def Down : Nat := 1 <<< 1

/-- The bit `PlayerInput::Left`. -/
def Left : Nat := 1 <<< 2

/-- The bit `PlayerInput::Right`. -/
def Right : Nat := 1 <<< 3

/-- The bit `PlayerInput::Shoot`. -/
def Shoot : Nat := 1 <<< 4

end player_input_enum

/-- The player component, with the members that `PlayerCharacterManager::FixedUpdate`
and the two ball methods use (player_character.hpp is not among the sources). -/
structure PlayerCharacter where
  input : Nat
  rotation : ℚ
  aimDirection : Vec2f
  hasBall : Bool
  hadBall : Bool
  deriving DecidableEq

/-- The method `PlayerCharacter::CatchBall`. -/
def PlayerCharacter.CatchBall (c : PlayerCharacter) : PlayerCharacter :=
  if c.hasBall then c
  else { c with hadBall := c.hasBall, hasBall := true }

/-- The method `PlayerCharacter::ThrowBall`. -/
def PlayerCharacter.ThrowBall (c : PlayerCharacter) : PlayerCharacter :=
  if !c.hasBall then c
  else { c with hadBall := c.hasBall, hasBall := false }

/-- What `PlayerCharacterManager::FixedUpdate` reads and writes: the map from
player numbers to entities, the registry, the rigidbodies and the player
components. -/
structure PlayerWorld where
  playerEntityMap : Nat → Nat
  entityManager : EntityManager
  physicsManager : PhysicsManager
  playerCharacters : Pool PlayerCharacter

/-- A call of `GameManager::SpawnBall`, with the player whose iteration made it. -/
structure SpawnCall where
  playerNumber : Nat
  position : Vec2f
  velocity : Vec2f
  deriving DecidableEq

/-- The parts used by the player character manager that are not among the
sources. -/
structure PlayerCollaborators where
  /-- the mask `ComponentType::PlayerCharacter` -/
  PlayerCharacter : Nat
  /-- the method `core::Vec2f::Angle` -/
  Angle : Vec2f → Vec2f → ℚ
  /-- the vector `core::Vec2f::Up()` -/
  Up : Vec2f
  /-- the method `core::Vec2f::GetNormalized` -/
  GetNormalized : Vec2f → Vec2f
  /-- the method `core::Vec2f::GetMagnitude` -/
  GetMagnitude : Vec2f → ℚ
  /-- the function `core::Vec2f::Dot` -/
  Dot : Vec2f → Vec2f → ℚ
  /-- the method `GameManager::SpawnBall` -/
  SpawnBall : Vec2f → Vec2f → PlayerWorld → PlayerWorld

namespace PlayerWorld

/-- A write through the reference `Rigidbody& playerBody`. -/
def setBody (w : PlayerWorld) (entity : Nat) (body : Rigidbody) : PlayerWorld :=
  { w with physicsManager := w.physicsManager.setRigidbodyAt entity body }

/-- A write through the reference `PlayerCharacter& playerCharacter`. -/
def setCharacter (w : PlayerWorld) (entity : Nat) (c : PlayerCharacter) : PlayerWorld :=
  { w with playerCharacters := fun e => if e = entity then c else w.playerCharacters e }

end PlayerWorld

namespace PlayerCharacterManager

/-- The local `right` of `FixedUpdate`. -/
def right (input : Nat) : Bool := input &&& player_input_enum.Right != 0

/-- The local `left` of `FixedUpdate`. -/
def left (input : Nat) : Bool := input &&& player_input_enum.Left != 0

/-- The local `up` of `FixedUpdate`. -/
def up (input : Nat) : Bool := input &&& player_input_enum.Up != 0

/-- The local `down` of `FixedUpdate`. -/
def down (input : Nat) : Bool := input &&& player_input_enum.Down != 0

/-- The local `isMoving` of `FixedUpdate`. -/
def isMoving (input : Nat) : Bool :=
  (xor (right input) (left input)) || (xor (up input) (down input))

/-- The local `addedForce` of `FixedUpdate`. -/
def addedForce (input : Nat) : Vec2f :=
  let horizontalForce :=
    ((if left input then -1 else 0) + (if right input then 1 else 0)) * PLAYER_SPEED
  let verticalForce :=
    ((if down input then -1 else 0) + (if up input then 1 else 0)) * PLAYER_SPEED
  ⟨horizontalForce, verticalForce⟩

/-- The first part of the body of the loop of `FixedUpdate`, for a player entity:
the force of the input is applied to the body and, when the player is moving,
the rotation and the aim direction are set. -/
def FixedUpdate.move (C : PlayerCollaborators) (playerEntity : Nat) (w : PlayerWorld) :
    PlayerWorld :=
  let input := (w.playerCharacters playerEntity).input
  let addedForce := addedForce input
  let w := w.setBody playerEntity
    ((w.physicsManager.GetRigidbody playerEntity).ApplyForce addedForce)
  if isMoving input then
    let angle := C.Angle addedForce C.Up
    let angle := if addedForce.x < 0 then angle * -1 else angle
    let w := w.setCharacter playerEntity
      { w.playerCharacters playerEntity with rotation := angle }
    let w := w.setBody playerEntity
      ((w.physicsManager.GetRigidbody playerEntity).SetRotation
        (w.playerCharacters playerEntity).rotation)
    w.setCharacter playerEntity
      { w.playerCharacters playerEntity with aimDirection := C.GetNormalized addedForce }
  else w

/-- The body of the loop of `FixedUpdate` for one player number; the second
component collects the calls of `SpawnBall`. -/
def FixedUpdate.player (C : PlayerCollaborators) (deltaTime : ℚ) (playerNumber : Nat)
    (s : PlayerWorld × List SpawnCall) : PlayerWorld × List SpawnCall :=
  let playerEntity := s.1.playerEntityMap playerNumber
  let isPlayer := s.1.entityManager.HasComponent playerEntity C.PlayerCharacter
  if !isPlayer then s
  else
    let input := (s.1.playerCharacters playerEntity).input
    let w := FixedUpdate.move C playerEntity s.1
    if (input &&& player_input_enum.Shoot != 0) && (w.playerCharacters playerEntity).hasBall then
      let playerBody := w.physicsManager.GetRigidbody playerEntity
      let playerCharacter := w.playerCharacters playerEntity
      let currentPlayerSpeed := C.GetMagnitude playerBody.Velocity
      let ballVelocity := playerCharacter.aimDirection *
        ((if C.Dot playerBody.Velocity playerCharacter.aimDirection > 0 then currentPlayerSpeed
          else 0) + BALL_SPEED)
      let ballPosition := playerBody.Position + playerCharacter.aimDirection * (1 / 2 : ℚ) +
        playerBody.Position * deltaTime
      let w := C.SpawnBall ballPosition ballVelocity w
      let w := w.setCharacter playerEntity (w.playerCharacters playerEntity).ThrowBall
      (w, s.2 ++ [⟨playerNumber, ballPosition, ballVelocity⟩])
    else (w, s.2)

/-- The loop of `FixedUpdate`, for the player numbers below `n`, in increasing
order. -/
def FixedUpdate.loop (C : PlayerCollaborators) (deltaTime : ℚ) :
    Nat → PlayerWorld × List SpawnCall → PlayerWorld × List SpawnCall
  | 0, s => s
  | n + 1, s => FixedUpdate.player C deltaTime n (FixedUpdate.loop C deltaTime n s)

/-- The method `PlayerCharacterManager::FixedUpdate`, with the calls of `SpawnBall`
it made. -/
def FixedUpdate (C : PlayerCollaborators) (deltaTime : ℚ) (w : PlayerWorld) :
    PlayerWorld × List SpawnCall :=
  FixedUpdate.loop C deltaTime MAX_PLAYER_NMB (w, [])

end PlayerCharacterManager

/-- The method `SpawnBall` leaves the spawned players alone: the map of the players
is as before, and so are the mask, the body and the component of the entity of
every player number that has a player component. -/
def PlayerCollaborators.SpawnBallLocal (C : PlayerCollaborators) : Prop :=
  ∀ (position velocity : Vec2f) (w : PlayerWorld),
    (C.SpawnBall position velocity w).playerEntityMap = w.playerEntityMap ∧
    ∀ p, p < MAX_PLAYER_NMB →
      w.entityManager.HasComponent (w.playerEntityMap p) C.PlayerCharacter = true →
      (C.SpawnBall position velocity w).entityManager.mask (w.playerEntityMap p) =
        w.entityManager.mask (w.playerEntityMap p) ∧
      (C.SpawnBall position velocity w).physicsManager.rigidbodyManager (w.playerEntityMap p) =
        w.physicsManager.rigidbodyManager (w.playerEntityMap p) ∧
      (C.SpawnBall position velocity w).playerCharacters (w.playerEntityMap p) =
        w.playerCharacters (w.playerEntityMap p)

end physics

/-- Two bodies differ by compensating changes of two of the six words: the word
`i` of the second is the word `i` of the first plus `d`, its word `j` is the word
`j` of the first minus `d`, both modulo `2^32`, and the other four words agree. -/
def Body.compensates (b1 b2 : Body) (i j d : Nat) : Prop :=
  i < 6 ∧ j < 6 ∧ i ≠ j ∧
    b2.words.getD i 0 = (b1.words.getD i 0 + d) % 2 ^ 32 ∧
    b2.words.getD j 0 = (b1.words.getD j 0 + 2 ^ 32 - d % 2 ^ 32) % 2 ^ 32 ∧
    ∀ k, k < 6 → k ≠ i → k ≠ j → b2.words.getD k 0 = b1.words.getD k 0

namespace physics

/-- The value of the `float` member `_invMass` after a division: a number, or the
infinity that IEEE 754 gives for the quotient of a non-zero number by zero. -/
inductive FloatValue where
  | number (q : ℚ)
  | infinity
  deriving DecidableEq

/-- The quotient `1.0f / x`: the infinity for `x = 0`, the number `1 / x`
otherwise. -/
def FloatValue.inverse (x : ℚ) : FloatValue :=
  if x = 0 then .infinity else .number (1 / x)

/-- What `SetMass` takes from outside `rigidbody.cpp`: the comparison `core::Equal`
(maths/basic.hpp is not among the sources), the test
`std::fpclassify(x) == FP_SUBNORMAL` on a number, and the constant
`std::numeric_limits<float>::min()`. -/
structure FloatOps where
  Equal : ℚ → ℚ → Bool
  isSubnormal : ℚ → Bool
  min : ℚ

/-- The test `std::fpclassify(v) == FP_SUBNORMAL`; the infinity is classified
`FP_INFINITE`. -/
def FloatOps.subnormal (F : FloatOps) : FloatValue → Bool
  | .number q => F.isSubnormal q
  | .infinity => false

/-- The run of `SetMass`: the member `_invMass`, and the divisors of the quotients
`1.0f / mass` evaluated so far. -/
structure Rigidbody.SetMass.Run where
  invMass : FloatValue
  divisors : List ℚ
  deriving DecidableEq

/-- The statements of `Rigidbody::SetMass(mass)`, in order, from the value
`invMass` of `_invMass`: the `if (core::Equal(mass, 0))` that stores 0 and goes
on, the assignment `_invMass = 1.0f / mass`, and the replacement of a subnormal
quotient by `std::numeric_limits<float>::min()`. -/
def Rigidbody.SetMass.run (F : FloatOps) (invMass : FloatValue) (mass : ℚ) :
    Rigidbody.SetMass.Run :=
  let s0 : Rigidbody.SetMass.Run := ⟨invMass, []⟩
  let s1 : Rigidbody.SetMass.Run :=
    if F.Equal mass 0 then ⟨FloatValue.number 0, s0.divisors⟩ else s0
  let s2 : Rigidbody.SetMass.Run := ⟨FloatValue.inverse mass, s1.divisors ++ [mass]⟩
  if F.subnormal s2.invMass then ⟨FloatValue.number F.min, s2.divisors⟩ else s2

/-- The setter `SetMass` on a body; a body whose `_invMass` is the infinity is
not a body of this model, in which the members are numbers. -/
def Rigidbody.SetMass (F : FloatOps) (b : Rigidbody) (mass : ℚ) : Option Rigidbody :=
  match (Rigidbody.SetMass.run F (FloatValue.number b.invMass) mass).invMass with
  | .number q => some { b with invMass := q }
  | .infinity => none

end physics

namespace physics

/-- The collisions given to a call of `SolveCollisions`; another call has none. -/
def Event.solved : Event → Option (List Collision)
  | .solve collisions _ => some collisions
  | _ => none

namespace PhysicsManager

/-- The checks of an iteration of `ResolveCollisions` on a pair, in the state `pm`
in which the iteration starts: both entities have a collider and a rigidbody,
the layers of the two bodies collide, and the narrow phase reports a
collision.  A pair that passes gives the collision that is recorded, with the
answer to `firstRigidbody.IsTrigger() || secondRigidbody.IsTrigger()`. -/
def ResolveCollisions.accepts (C : Collaborators) (pm : PhysicsManager) (pair : Nat × Nat) :
    Option (Bool × Collision) :=
  let firstEntity := pair.1
  let secondEntity := pair.2
  let firstHasRigidbody := pm.entityManager.HasComponent firstEntity C.Rigidbody
  let secondHasRigidbody := pm.entityManager.HasComponent secondEntity C.Rigidbody
  match GetCollider C pm firstEntity, GetCollider C pm secondEntity with
  | some firstCollider, some secondCollider =>
    if !(firstHasRigidbody && secondHasRigidbody) then none
    else
      let firstRigidbody := pm.GetRigidbody firstEntity
      let secondRigidbody := pm.GetRigidbody secondEntity
      let firstLayer := firstRigidbody.GetLayer
      let secondLayer := secondRigidbody.GetLayer
      if !pm.layerCollisionMatrix firstLayer secondLayer then none
      else
        let manifold := C.testCollision firstCollider firstRigidbody.Trans
          secondCollider secondRigidbody.Trans
        if !manifold.hasCollision then none
        else
          some (firstRigidbody.IsTrigger || secondRigidbody.IsTrigger,
            ⟨firstEntity, secondEntity, manifold⟩)
  | _, _ => none

/-- The pairs that the loop of `ResolveCollisions` accepts, in the order of the
loop, each checked in the state in which its iteration starts. -/
def ResolveCollisions.accepted (C : Collaborators) (deltaTime : ℚ) :
    List (Nat × Nat) → ResolveState → List (Bool × Collision)
  | [], _ => []
  | pair :: rest, s =>
    (ResolveCollisions.accepts C s.pm pair).toList ++
      ResolveCollisions.accepted C deltaTime rest (ResolveCollisions.step C deltaTime s pair)

/-- The hard collisions among accepted pairs: those with no trigger body. -/
def ResolveCollisions.hard (accepted : List (Bool × Collision)) : List Collision :=
  (accepted.filter (fun a => !a.1)).map Prod.snd

/-- The trigger collisions among accepted pairs. -/
def ResolveCollisions.soft (accepted : List (Bool × Collision)) : List Collision :=
  (accepted.filter (fun a => a.1)).map Prod.snd

/-- The calls that `SendCollisionCallbacks(collisions, action)` makes when `n`
callbacks are registered: for each collision in order, each callback in order. -/
def SendCollisionCallbacks.calls (tag : Nat → Nat → Nat → Event) (n : Nat)
    (collisions : List Collision) : List Event :=
  collisions.flatMap (fun c => (List.range n).map (fun l => tag l c.bodyA c.bodyB))

/-- The calls of the callbacks made at the end of an iteration whose two vectors
hold the trigger and the hard collisions of `accepted`. -/
def ResolveCollisions.callbacks (C : Collaborators) (accepted : List (Bool × Collision)) :
    List Event :=
  SendCollisionCallbacks.calls Event.onTrigger C.onTriggerAction.length
      (ResolveCollisions.soft accepted) ++
    SendCollisionCallbacks.calls Event.onCollision C.onCollisionAction.length
      (ResolveCollisions.hard accepted)

end PhysicsManager

end physics

/-- The state with the two transform managers replaced: `_transformManager` of the
game manager and `_currentTransformManager` of the rollback manager. -/
def GameManager.withTransforms (g : GameManager) (transforms currentTransforms : TransformManager) :
    GameManager :=
  { g with
    transformManager := transforms
    rollbackManager := { g.rollbackManager with currentTransformManager := currentTransforms } }

/-- Two states agree on everything but the two transform managers. -/
def GameManager.sameButTransforms (g1 g2 : GameManager) : Prop :=
  ∃ transforms currentTransforms, g2 = g1.withTransforms transforms currentTransforms

/-- Two calls end the same way, normally or on the same fault, in states that
agree on everything but the two transform managers. -/
def Outcome.sameButTransforms : Outcome → Outcome → Prop
  | .ok g1, .ok g2 => g1.sameButTransforms g2
  | .error (f1, g1), .error (f2, g2) => f1 = f2 ∧ g1.sameButTransforms g2
  | _, _ => False

/-- What two `FixedUpdate` calls leave agrees on the registry, the three current
pools and the created-entity log. -/
def Simulated.sameButTransforms (s1 s2 : Simulated) : Prop :=
  s1.entityManager = s2.entityManager ∧
  s1.currentPhysicsManager = s2.currentPhysicsManager ∧
  s1.currentPlayerManager = s2.currentPlayerManager ∧
  s1.currentBulletManager = s2.currentBulletManager ∧
  s1.createdEntities = s2.createdEntities

/-- The entity `e` is out of the created-entity log and exists whether or not it
carries the soft flag: its mask without `Destroyed` is not `Empty`. -/
def GameManager.Survives (E : Engine) (g : GameManager) (e : Nat) : Prop :=
  g.entityManager.mask e &&& (0xFFFFFFFF ^^^ E.Destroyed) ≠ EntityManager.Empty ∧
  ∀ created ∈ g.rollbackManager.createdEntities, created.entity ≠ e

/-- The game rules free an entity only through `RollbackManager::DestroyEntity`
(in the sources `GameManager::DestroyBullet` is the only caller, and the only
other calls of `EntityManager::DestroyEntity` are the two loops of the rollback
manager), and they log only the entities they create: a `FixedUpdate` leaves an
entity that exists apart from the flag and is out of the log in that
condition. -/
def Engine.FreesThroughRollbackManager (E : Engine) : Prop :=
  ∀ (g : GameManager) (e : Nat), g.Survives E e →
    (g.withSimulated (E.bulletFixedUpdate g)).Survives E e ∧
    (g.withSimulated (E.playerFixedUpdate g)).Survives E e ∧
    (g.withSimulated (E.physicsFixedUpdate g)).Survives E e

/-- A call on the running game other than a validation: the rollback to the
current frame, the arrival of an input, the destruction of an entity. -/
inductive SpeculativeCall where
  | simulateToCurrentFrame
  | setPlayerInput (playerNumber playerInput inputFrame : Nat)
  | destroyEntity (entity : Nat)

namespace SpeculativeCall

/-- The call itself. -/
def run (E : Engine) (g : GameManager) : SpeculativeCall → Outcome
  | simulateToCurrentFrame => RollbackManager.SimulateToCurrentFrame E g
  | setPlayerInput playerNumber playerInput inputFrame =>
    GameManager.SetPlayerInput g playerNumber playerInput inputFrame
  | destroyEntity entity => .ok (RollbackManager.DestroyEntity E g entity)

/-- A sequence of calls, one after the other; a fault ends the run. -/
def runAll (E : Engine) : List SpeculativeCall → GameManager → Outcome
  | [], g => .ok g
  | c :: cs, g => c.run E g >>= fun g' => runAll E cs g'

end SpeculativeCall

/-! ### States used to instantiate the properties -/

/-- A transform manager with every component at zero. -/
def TransformManager.zero : TransformManager :=
  { positions := fun _ => ⟨0, 0⟩, scales := fun _ => ⟨0, 0⟩, rotations := fun _ => 0 }

/-- A physics manager with every component at zero. -/
def PhysicsManager.zero : PhysicsManager :=
  { bodies := fun _ => ⟨⟨0, 0⟩, ⟨0, 0⟩, 0, 0, 0⟩, boxes := fun _ => ⟨⟨0, 0⟩⟩ }

/-- The rollback manager after its constructor: the input rings are filled
with `'\0'`, the frame counters are zero, nothing has been created. -/
def RollbackManager.initial : RollbackManager :=
  { currentTransformManager := TransformManager.zero
    currentPhysicsManager := PhysicsManager.zero
    currentPlayerManager := fun _ => ⟨0, 0, 0, 0⟩
    currentBulletManager := fun _ => ⟨0, 0⟩
    lastValidatePhysicsManager := PhysicsManager.zero
    lastValidatePlayerManager := fun _ => ⟨0, 0, 0, 0⟩
    lastValidateBulletManager := fun _ => ⟨0, 0⟩
    lastValidateFrame := 0
    currentFrame := 0
    testedFrame := 0
    lastReceivedFrame := fun _ => 0
    inputs := fun _ _ => 0
    createdEntities := [] }

/-- A rollback manager at frame 7 whose ring slots differ from their neighbours. -/
def RollbackManager.sample : RollbackManager :=
  { RollbackManager.initial with
    currentFrame := 7
    lastReceivedFrame := fun _ => 4
    inputs := fun p i => (p + i) % 32 }

/-- An engine for the samples: the bullet update does nothing; the player update
sets the velocity of player 0 from its input and, when the `Shoot` bit is set,
logs the entity 2 as created at the tested frame; the physics update moves
each body of the first three entities by its velocity. -/
def Engine.sample : Engine :=
  { OtherType := 256
    Body2D := 32
    Transform := 14
    INVALID_ENTITY := 4294967295
    bulletFixedUpdate := fun g => g.simulated
    playerFixedUpdate := fun g =>
      let s := g.simulated
      let e0 := g.playerEntityMap 0
      let input := (s.currentPlayerManager e0).input
      { s with
        currentPhysicsManager := { s.currentPhysicsManager with
          bodies := fun e =>
            if e = e0 then { s.currentPhysicsManager.bodies e with velocity := ⟨input, 0⟩ }
            else s.currentPhysicsManager.bodies e }
        createdEntities :=
          if input &&& 16 = 16 then
            s.createdEntities ++ [⟨2, g.rollbackManager.testedFrame⟩]
          else s.createdEntities }
    physicsFixedUpdate := fun g =>
      let s := g.simulated
      { s with
        currentPhysicsManager := { s.currentPhysicsManager with
          bodies := fun e =>
            let b := s.currentPhysicsManager.bodies e
            if e < 3 then
              { b with position := ⟨(b.position.x + b.velocity.x) % 2 ^ 32, b.position.y⟩ }
            else b } } }

/-- A game at frame 7 with three entities: the two players (entities 0 and 1)
and a bullet (entity 2) created at frame 5; frame 3 is validated, the inputs
are received up to frame 4, player 0 holds `Shoot | Right` in its ring. -/
def GameManager.sample : GameManager :=
  { entityManager := { entityMasks := [256 + 32 + 14, 256 + 32 + 14, 512 + 32 + 14] }
    transformManager := TransformManager.zero
    rollbackManager := { RollbackManager.sample with
      lastValidateFrame := 3
      inputs := fun p i => if p = 0 then 24 else i % 4
      createdEntities := [⟨2, 5⟩] }
    playerEntityMap := fun p => p
    currentFrame := 7 }

/-- The sample game with the validated body of player 0 moved by one unit in
the last place of `position.x`: the word 0 (`+0.0f`) becomes the word 1. -/
def GameManager.sampleOneUlp : GameManager :=
  { GameManager.sample with
    rollbackManager := { GameManager.sample.rollbackManager with
      lastValidatePhysicsManager :=
        { bodies := fun e =>
            if e = 0 then ⟨⟨1, 0⟩, ⟨0, 0⟩, 0, 0, 0⟩
            else GameManager.sample.rollbackManager.lastValidatePhysicsManager.bodies e
          boxes := GameManager.sample.rollbackManager.lastValidatePhysicsManager.boxes } } }

/-- The sample game once the inputs of both players are received up to frame 7. -/
def GameManager.sampleReceived : GameManager :=
  { GameManager.sample with
    rollbackManager := { GameManager.sample.rollbackManager with
      lastReceivedFrame := fun _ => 7 } }

namespace physics

/-- A manifold that reports a contact. -/
def Manifold.contact : Manifold := ⟨true, Vec2f.zero, Vec2f.zero, ⟨1, 0⟩, 0⟩

/-- Collaborators for the samples: the broad phase proposes the pairs `(0, 1)`,
`(0, 2)` and `(1, 2)`, the narrow phase reports a contact for every pair, the
impulse solver stops the bodies of the collisions it is given, one trigger
listener flags the second entity and one collision listener does nothing. -/
def Collaborators.sample : Collaborators :=
  { Rigidbody := 16
    AabbCollider := 32
    CircleCollider := 64
    collisionPairs := fun _ => [(0, 1), (0, 2), (1, 2)]
    testCollision := fun _ _ _ _ => Manifold.contact
    impulseSolve := fun collisions _ _ bodies e =>
      if collisions.any (fun c => c.bodyA == e || c.bodyB == e) then
        (bodies e).SetVelocity ⟨0, 0⟩
      else bodies e
    smoothPositionSolve := fun _ _ _ bodies => bodies
    onTriggerAction :=
      [fun _ b pm => { pm with entityManager := pm.entityManager.AddComponent b 1024 }]
    onCollisionAction := [fun _ _ pm => pm] }

/-- A layer matrix in which two walls do not collide and every other pair does. -/
def PhysicsManager.sampleMatrix : Layer → Layer → Bool
  | .Wall, .Wall => false
  | _, _ => true

/-- A dynamic trigger body on the layer `Player`. -/
def Rigidbody.sampleTrigger : Rigidbody :=
  { Rigidbody.new with bodyType := .Dynamic, layer := .Player, isTrigger := true }

/-- A dynamic body on the layer `Ball`, moving. -/
def Rigidbody.sampleBall : Rigidbody :=
  { Rigidbody.new with bodyType := .Dynamic, layer := .Ball, velocity := ⟨1, 0⟩ }

/-- A dynamic body of mass one half with a force, a velocity and a gravity. -/
def Rigidbody.sampleFree : Rigidbody :=
  { Rigidbody.new with
    bodyType := .Dynamic, invMass := 2, force := ⟨1, 0⟩, velocity := ⟨1, 1⟩,
    gravityAcceleration := ⟨0, -10⟩ }

/-- A static body, as constructed, on which a force has been set. -/
def Rigidbody.sampleStatic : Rigidbody := Rigidbody.new.SetForce ⟨1, 0⟩

/-- A world of five entities: a trigger and two balls with circle colliders, a
free dynamic body and a static body without collider. -/
def PhysicsManager.sample : PhysicsManager :=
  { entityManager := ⟨[80, 80, 80, 16, 16]⟩
    rigidbodyManager := fun e =>
      match e with
      | 0 => Rigidbody.sampleTrigger
      | 1 => Rigidbody.sampleBall
      | 2 => Rigidbody.sampleBall
      | 3 => Rigidbody.sampleFree
      | _ => Rigidbody.sampleStatic
    aabbManager := fun _ => ⟨Vec2f.zero, 1, 1⟩
    circleManager := fun _ => ⟨Vec2f.zero, 1⟩
    layerCollisionMatrix := PhysicsManager.sampleMatrix
    gravity := ⟨0, -10⟩ }

/-- The same world with every body on the layer `Wall`. -/
def PhysicsManager.sampleWalls : PhysicsManager :=
  { PhysicsManager.sample with
    rigidbodyManager := fun e => (PhysicsManager.sample.rigidbodyManager e).SetLayer .Wall }

end physics

namespace physics

/-- Collaborators for the samples of the player manager: the normalisation and the
magnitude are those of axis-aligned vectors, and `SpawnBall` creates an entity
with a Rigidbody component and a dynamic body at the position and with the
velocity it is given. -/
def PlayerCollaborators.sample : PlayerCollaborators :=
  { PlayerCharacter := 256
    Angle := fun _ _ => 0
    Up := ⟨0, 1⟩
    GetNormalized := fun v => ⟨SignType.sign v.x, SignType.sign v.y⟩
    GetMagnitude := fun v => |v.x| + |v.y|
    Dot := fun a b => a.x * b.x + a.y * b.y
    SpawnBall := fun position velocity w =>
      let created := w.entityManager.CreateEntity 0
      { w with
        entityManager := created.2.AddComponent created.1 16
        physicsManager := w.physicsManager.setRigidbodyAt created.1
          (({ Rigidbody.new with bodyType := .Dynamic }.SetVelocity velocity).SetPosition
            position) } }

/-- A world with the two players at the entities 0 and 1: player 0 is at `(1, 2)`,
aims up, holds `Shoot` and has the ball; player 1 holds `Right` and `Up` and
has no ball. -/
def PlayerWorld.sample : PlayerWorld :=
  { playerEntityMap := fun p => p
    entityManager := ⟨[256 + 16 + 64, 256 + 16 + 64]⟩
    physicsManager :=
      { PhysicsManager.sample with
        entityManager := ⟨[256 + 16 + 64, 256 + 16 + 64]⟩
        rigidbodyManager := fun e =>
          if e = 0 then { Rigidbody.new with bodyType := .Dynamic }.SetPosition ⟨1, 2⟩
          else { Rigidbody.new with bodyType := .Dynamic } }
    playerCharacters := fun e =>
      if e = 0 then ⟨16, 0, ⟨0, 1⟩, true, false⟩ else ⟨9, 0, ⟨1, 0⟩, false, false⟩ }

end physics

/-- The sample game with the validated body of player 0 at `position`. -/
def GameManager.sampleMoved (position : Vec2f) : GameManager :=
  { GameManager.sample with
    rollbackManager := { GameManager.sample.rollbackManager with
      lastValidatePhysicsManager :=
        { bodies := fun e =>
            if e = 0 then ⟨position, ⟨0, 0⟩, 0, 0, 0⟩
            else GameManager.sample.rollbackManager.lastValidatePhysicsManager.bodies e
          boxes := GameManager.sample.rollbackManager.lastValidatePhysicsManager.boxes } } }

/-- The sample game with nothing to replay (the game is at the last validated
frame 3) and the rollback manager 297 frames ahead, at frame 300. -/
def GameManager.sampleAhead : GameManager :=
  { GameManager.sample with
    rollbackManager := { GameManager.sample.rollbackManager with currentFrame := 300 }
    currentFrame := 3 }

namespace physics

/-- Float operations for the samples: `core::Equal` with the tolerance `1e-7`,
the subnormal numbers as the non-zero numbers below `2^-126` in absolute value. -/
def FloatOps.sample : FloatOps :=
  { Equal := fun a b => decide (|a - b| < 1 / 10000000)
    isSubnormal := fun q => decide (q ≠ 0 ∧ |q| < 1 / 2 ^ 126)
    min := 1 / 2 ^ 126 }

end physics

/-- Game rules for the samples in which an entity is destroyed during the replay:
the rules of the sample engine, but the player update logs nothing and the
bullet update calls `RollbackManager::DestroyEntity(1)` at the tested frame 4. -/
def Engine.sampleRules : Engine :=
  { Engine.sample with
    bulletFixedUpdate := fun g =>
      if g.rollbackManager.testedFrame = 4 then
        (RollbackManager.DestroyEntity Engine.sample g 1).simulated
      else g.simulated
    playerFixedUpdate := fun g =>
      { Engine.sample.playerFixedUpdate g with
        createdEntities := g.rollbackManager.createdEntities } }

/-! ## Properties -/

theorem InputRing.write_ok (r : InputRing) (i : Nat) (v : Nat)
    (h : i < WINDOW_BUFFER_SIZE) :
    r.write i v = .ok (fun j => if j = i then v else r j) := by
  simp [InputRing.write, h]

theorem InputRing.read_ok (r : InputRing) (i : Nat) (h : i < WINDOW_BUFFER_SIZE) :
    r.read i = .ok (r i) := by
  simp [InputRing.read, h]

/-- The downward copy loop, started at counter `c`, moves every slot `j` with
`delta ≤ j < c` up from `j - delta` and leaves the others. -/
theorem shiftLoop_eq (delta : Nat) (hd : 1 ≤ delta) :
    ∀ (c : Nat) (r : InputRing), c ≤ WINDOW_BUFFER_SIZE →
      shiftLoop delta c r
        = .ok (fun j => if delta ≤ j ∧ j < c then r (j - delta) else r j) := by
  intro c
  induction c with
  | zero => intro r _; simp [shiftLoop]
  | succ c ih =>
    intro r hc
    unfold shiftLoop
    by_cases hdc : delta ≤ c
    · have h1 : c - delta < WINDOW_BUFFER_SIZE := by omega
      have h2 : c < WINDOW_BUFFER_SIZE := by omega
      simp only [hdc, if_true, InputRing.read_ok _ _ h1, InputRing.write_ok _ _ _ h2,
        bind, Except.bind]
      rw [ih _ (by omega)]
      congr 1
      funext j
      by_cases hj : j = c
      · subst hj
        simp [hdc]
      · by_cases hj2 : delta ≤ j ∧ j < c
        · have : j - delta ≠ c := by omega
          have h3 : delta ≤ j ∧ j < c + 1 := ⟨hj2.1, by omega⟩
          simp [hj2, this, h3]
        · have h3 : ¬ (delta ≤ j ∧ j < c + 1) := by omega
          simp [hj2, hj, h3]
    · have : ∀ j, ¬ (delta ≤ j ∧ j < c + 1) := by intro j; omega
      simp [hdc, this]

/-- The fill loop with `n` iterations left writes `r delta` into the slots
`delta - n ≤ j < delta`. -/
theorem fillLoop_eq (delta : Nat) (hd : delta < WINDOW_BUFFER_SIZE) :
    ∀ (n : Nat) (r : InputRing), n ≤ delta →
      fillLoop delta n r
        = .ok (fun j => if delta - n ≤ j ∧ j < delta then r delta else r j) := by
  intro n
  induction n with
  | zero =>
    intro r _
    simp only [fillLoop]
    congr 1
    funext j
    split_ifs <;> first | rfl | (exfalso; omega)
  | succ n ih =>
    intro r hn
    unfold fillLoop
    have h2 : delta - (n + 1) < WINDOW_BUFFER_SIZE := by omega
    simp only [InputRing.read_ok _ _ hd, InputRing.write_ok _ _ _ h2, bind, Except.bind]
    rw [ih _ (by omega)]
    congr 1
    funext j
    split_ifs <;> first | rfl | (exfalso; omega)

/-- One ring after the window advance by `delta`: the head slots hold the old
slot 0, the slots from `delta` on hold the old slot `j - delta`. -/
theorem shiftRing_eq (delta : Nat) (hd1 : 1 ≤ delta) (hd : delta < WINDOW_BUFFER_SIZE)
    (r : InputRing) :
    shiftRing delta r
      = .ok (fun j => if j < delta then r 0
                      else if j < WINDOW_BUFFER_SIZE then r (j - delta) else r j) := by
  unfold shiftRing
  rw [shiftLoop_eq delta hd1 _ _ (Nat.le_refl _)]
  simp only [bind, Except.bind]
  rw [fillLoop_eq delta hd _ _ (Nat.le_refl _)]
  congr 1
  funext j
  split_ifs <;> first | rfl | (exfalso; omega) | (congr 1; omega)

/-- The rings of the first `n` players after the window advance by `delta`. -/
theorem shiftRings_eq (delta : Nat) (hd1 : 1 ≤ delta) (hd : delta < WINDOW_BUFFER_SIZE)
    (inputs : Nat → InputRing) :
    ∀ n : Nat, shiftRings delta n inputs
      = .ok (fun p => if p < n then
               (fun j => if j < delta then inputs p 0
                         else if j < WINDOW_BUFFER_SIZE then inputs p (j - delta) else inputs p j)
             else inputs p) := by
  intro n
  induction n with
  | zero => simp [shiftRings]
  | succ n ih =>
    unfold shiftRings
    rw [ih]
    simp only [bind, Except.bind, shiftRing_eq delta hd1 hd]
    congr 1
    funext p
    split_ifs <;> first | rfl | (exfalso; omega) | (subst_vars; rfl)

theorem Frame.sub_eq (a b : Nat) (hba : b ≤ a) (h : a - b < 4294967296) :
    Frame.sub a b = a - b := by
  unfold Frame.sub
  omega

/-- A window advance by `k` frames, `1 ≤ k < WINDOW_BUFFER_SIZE`, in closed form. -/
theorem RollbackManager.StartNewFrame_eq (r : RollbackManager) (k : Nat) (hk1 : 1 ≤ k)
    (hk : k < WINDOW_BUFFER_SIZE) :
    r.StartNewFrame (r.currentFrame + k)
      = .ok { r with
          inputs := fun p => if p < MAX_PLAYER_NMB then
              (fun j => if j < k then r.inputs p 0
                        else if j < WINDOW_BUFFER_SIZE then r.inputs p (j - k) else r.inputs p j)
            else r.inputs p
          currentFrame := r.currentFrame + k } := by
  have hW : WINDOW_BUFFER_SIZE = 250 := rfl
  have hsub : Frame.sub (r.currentFrame + k) r.currentFrame = k := by
    rw [Frame.sub_eq _ _ (by omega) (by omega)]; omega
  unfold RollbackManager.StartNewFrame
  have h1 : ¬ r.currentFrame > r.currentFrame + k := by omega
  have h2 : ¬ k = 0 := by omega
  simp only [h1, if_false, hsub, h2, shiftRings_eq k hk1 hk, bind, Except.bind]

/-- C1 (input shift law): after `StartNewFrame(f + k)` from current frame `f`,
with `1 ≤ k < WINDOW_BUFFER_SIZE`, the call succeeds, the current frame is
`f + k`, and each player's ring holds the old slot 0 at every index `i ≤ k` and
the old slot `i - k` at every index `k ≤ i < WINDOW_BUFFER_SIZE`. -/
theorem RollbackManager.StartNewFrame_input_shift_law (r : RollbackManager) (k : Nat)
    (hk1 : 1 ≤ k) (hk : k < WINDOW_BUFFER_SIZE) :
    ∃ r', r.StartNewFrame (r.currentFrame + k) = .ok r' ∧
      r'.currentFrame = r.currentFrame + k ∧
      ∀ p, p < MAX_PLAYER_NMB →
        (∀ i, i ≤ k → r'.inputs p i = r.inputs p 0) ∧
        (∀ i, k ≤ i → i < WINDOW_BUFFER_SIZE → r'.inputs p i = r.inputs p (i - k)) := by
  refine ⟨_, r.StartNewFrame_eq k hk1 hk, rfl, ?_⟩
  intro p hp
  constructor
  · intro i hi
    simp only [hp, if_true]
    split_ifs <;> first | rfl | (exfalso; omega) | (congr 1; omega)
  · intro i hki hi
    simp only [hp, if_true]
    split_ifs <;> first | rfl | (exfalso; omega)

/-- C1 at the sample state: an advance by 3 frames from frame 7. -/
theorem RollbackManager.StartNewFrame_input_shift_law_witness :
    1 ≤ 3 ∧ 3 < WINDOW_BUFFER_SIZE ∧
    ∃ r', RollbackManager.sample.StartNewFrame (RollbackManager.sample.currentFrame + 3) = .ok r' ∧
      r'.currentFrame = RollbackManager.sample.currentFrame + 3 ∧
      ∀ p, p < MAX_PLAYER_NMB →
        (∀ i, i ≤ 3 → r'.inputs p i = RollbackManager.sample.inputs p 0) ∧
        (∀ i, 3 ≤ i → i < WINDOW_BUFFER_SIZE →
          r'.inputs p i = RollbackManager.sample.inputs p (i - 3)) :=
  ⟨by decide, by decide,
    RollbackManager.StartNewFrame_input_shift_law RollbackManager.sample 3 (by decide) (by decide)⟩

/-- The repeat loop with `n` iterations left writes the input into the slots
`bound - n ≤ j < bound`. -/
theorem repeatLoop_eq (v bound : Nat) (hb : bound ≤ WINDOW_BUFFER_SIZE) :
    ∀ (n : Nat) (r : InputRing), n ≤ bound →
      repeatLoop v bound n r
        = .ok (fun j => if bound - n ≤ j ∧ j < bound then v else r j) := by
  intro n
  induction n with
  | zero =>
    intro r _
    simp only [repeatLoop]
    congr 1
    funext j
    split_ifs <;> first | rfl | (exfalso; omega)
  | succ n ih =>
    intro r hn
    unfold repeatLoop
    have h2 : bound - (n + 1) < WINDOW_BUFFER_SIZE := by omega
    simp only [InputRing.write_ok _ _ _ h2, bind, Except.bind]
    rw [ih _ (by omega)]
    congr 1
    funext j
    split_ifs <;> first | rfl | (exfalso; omega)

/-- The call `SetPlayerInput` once the window stands at `r1`, a state whose current
frame is at most `WINDOW_BUFFER_SIZE - 1` frames after `inputFrame`: the slot of
`inputFrame` is written, and when the frame is newer than the last received
one, the newer slots are written too and the last received frame is set. -/
theorem RollbackManager.SetPlayerInput_eq (r r1 : RollbackManager) (p input inputFrame : Nat)
    (hadv : (if r.currentFrame < inputFrame then r.StartNewFrame inputFrame else .ok r)
      = .ok r1)
    (hp : p < MAX_PLAYER_NMB) (hle : inputFrame ≤ r1.currentFrame)
    (hd : r1.currentFrame - inputFrame < WINDOW_BUFFER_SIZE) :
    r.SetPlayerInput p input inputFrame
      = .ok { r1 with
          inputs := fun q => if q = p then
              (fun j => if j = r1.currentFrame - inputFrame
                          ∨ (r1.lastReceivedFrame p < inputFrame
                              ∧ j < r1.currentFrame - inputFrame)
                        then input else r1.inputs p j)
            else r1.inputs q
          lastReceivedFrame := fun q =>
            if q = p ∧ r1.lastReceivedFrame p < inputFrame then inputFrame
            else r1.lastReceivedFrame q } := by
  have hW : WINDOW_BUFFER_SIZE = 250 := rfl
  have hsub : Frame.sub r1.currentFrame inputFrame = r1.currentFrame - inputFrame :=
    Frame.sub_eq _ _ hle (by omega)
  unfold RollbackManager.SetPlayerInput
  rw [hadv]
  simp only [bind, Except.bind, hp, if_true, hsub, InputRing.write_ok _ _ _ hd]
  by_cases hlast : r1.lastReceivedFrame p < inputFrame
  · simp only [hlast, if_true, and_true, true_and,
      repeatLoop_eq input _ (Nat.le_of_lt hd) _ _ (Nat.le_refl _)]
    congr 2
    funext q
    split_ifs <;> first | rfl | (exfalso; omega) | (funext j; split_ifs <;> first | rfl | (exfalso; omega))
  · simp only [hlast, if_false, and_false, false_and, or_false]

/-- The window advance at the head of `SetPlayerInput`, for an input frame less
than `WINDOW_BUFFER_SIZE` frames ahead: it succeeds, the current frame becomes
the later of the two frames and the last received frames are kept. -/
theorem RollbackManager.advance_ok (r : RollbackManager) (inputFrame : Nat)
    (hnew : inputFrame - r.currentFrame < WINDOW_BUFFER_SIZE) :
    ∃ r1, (if r.currentFrame < inputFrame then r.StartNewFrame inputFrame else .ok r)
        = .ok r1 ∧
      r1.currentFrame = max r.currentFrame inputFrame ∧
      r1.lastReceivedFrame = r.lastReceivedFrame := by
  by_cases h : r.currentFrame < inputFrame
  · have hk : inputFrame = r.currentFrame + (inputFrame - r.currentFrame) := by omega
    have heq := r.StartNewFrame_eq (inputFrame - r.currentFrame) (by omega) hnew
    rw [← hk] at heq
    rw [if_pos h, heq]
    refine ⟨_, rfl, ?_, rfl⟩
    show inputFrame = max r.currentFrame inputFrame
    omega
  · rw [if_neg h]
    refine ⟨r, rfl, ?_, rfl⟩
    omega

/-- Reading the frame `g` of player `p` once `g` is at most the current frame
and less than `WINDOW_BUFFER_SIZE` frames old. -/
theorem RollbackManager.GetInputAtFrame_eq (r : RollbackManager) (p g : Nat)
    (hp : p < MAX_PLAYER_NMB) (hg : g ≤ r.currentFrame)
    (hw : r.currentFrame - g < WINDOW_BUFFER_SIZE) :
    r.GetInputAtFrame p g = .ok (r.inputs p (r.currentFrame - g)) := by
  have hW : WINDOW_BUFFER_SIZE = 250 := rfl
  have hsub : Frame.sub r.currentFrame g = r.currentFrame - g :=
    Frame.sub_eq _ _ hg (by omega)
  simp [RollbackManager.GetInputAtFrame, hsub, hw, hp, InputRing.read]

/-- C2, amended (round trip of input intake): for a player `p < 2`, an input and
an input frame that is less than `WINDOW_BUFFER_SIZE` frames behind the current
frame and also less than `WINDOW_BUFFER_SIZE` frames ahead of it,
`SetPlayerInput` succeeds, the current frame becomes the later of the two
frames, and `GetInputAtFrame(p, inputFrame)` returns the input. -/
theorem RollbackManager.SetPlayerInput_round_trip (r : RollbackManager)
    (p input inputFrame : Nat) (hp : p < MAX_PLAYER_NMB)
    (hold : max r.currentFrame inputFrame - inputFrame < WINDOW_BUFFER_SIZE)
    (hnew : inputFrame - r.currentFrame < WINDOW_BUFFER_SIZE) :
    ∃ r', r.SetPlayerInput p input inputFrame = .ok r' ∧
      r'.currentFrame = max r.currentFrame inputFrame ∧
      r'.GetInputAtFrame p inputFrame = .ok input := by
  obtain ⟨r1, hadv, hcur, _⟩ := r.advance_ok inputFrame hnew
  have hle : inputFrame ≤ r1.currentFrame := by rw [hcur]; omega
  have hd : r1.currentFrame - inputFrame < WINDOW_BUFFER_SIZE := by rw [hcur]; exact hold
  refine ⟨_, r.SetPlayerInput_eq r1 p input inputFrame hadv hp hle hd, hcur, ?_⟩
  refine (RollbackManager.GetInputAtFrame_eq _ p inputFrame hp (by exact hle) (by exact hd)).trans ?_
  simp

/-- C2 at the sample state: an input for frame 5 while the current frame is 7. -/
theorem RollbackManager.SetPlayerInput_round_trip_witness :
    1 < MAX_PLAYER_NMB ∧
    max RollbackManager.sample.currentFrame 5 - 5 < WINDOW_BUFFER_SIZE ∧
    5 - RollbackManager.sample.currentFrame < WINDOW_BUFFER_SIZE ∧
    ∃ r', RollbackManager.sample.SetPlayerInput 1 9 5 = .ok r' ∧
      r'.currentFrame = max RollbackManager.sample.currentFrame 5 ∧
      r'.GetInputAtFrame 1 5 = .ok 9 :=
  ⟨by decide, by decide, by decide,
    RollbackManager.SetPlayerInput_round_trip RollbackManager.sample 1 9 5
      (by decide) (by decide) (by decide)⟩

/-- C2 as stated fails: from the initial state (current frame 0) the input frame
250 satisfies `max(currentFrame, inputFrame) - inputFrame < 250`, yet the window
advance inside `SetPlayerInput` reads `inputs[250]`, outside the ring, so there
is no resulting state in which the input could be read back. -/
theorem RollbackManager.SetPlayerInput_round_trip_counterexample :
    0 < MAX_PLAYER_NMB ∧
    max RollbackManager.initial.currentFrame 250 - 250 < WINDOW_BUFFER_SIZE ∧
    RollbackManager.initial.SetPlayerInput 0 1 250 = .error .outOfRange ∧
    ¬ ∃ r', RollbackManager.initial.SetPlayerInput 0 1 250 = .ok r' ∧
      r'.currentFrame = max RollbackManager.initial.currentFrame 250 ∧
      r'.GetInputAtFrame 0 250 = .ok 1 := by
  have h : RollbackManager.initial.SetPlayerInput 0 1 250 = .error .outOfRange := rfl
  refine ⟨by decide, by decide, h, ?_⟩
  rintro ⟨r', hr', _⟩
  rw [h] at hr'
  cases hr'

/-- C3, amended (backfill): when `SetPlayerInput(p, input, inputFrame)` is called
with `inputFrame` greater than the previous `lastReceivedFrame[p]`, inside the
window on both sides, it succeeds, `lastReceivedFrame[p]` becomes `inputFrame`,
and every frame `g` from `inputFrame` up to the resulting current frame reads
as the new input, while every frame `g` older than `inputFrame` that is still in
the window reads what it read after the window advance alone. -/
theorem RollbackManager.SetPlayerInput_backfill (r : RollbackManager)
    (p input inputFrame : Nat) (hp : p < MAX_PLAYER_NMB)
    (hlast : r.lastReceivedFrame p < inputFrame)
    (hold : max r.currentFrame inputFrame - inputFrame < WINDOW_BUFFER_SIZE)
    (hnew : inputFrame - r.currentFrame < WINDOW_BUFFER_SIZE) :
    ∃ r1 r', (if r.currentFrame < inputFrame then r.StartNewFrame inputFrame else .ok r)
        = .ok r1 ∧
      r.SetPlayerInput p input inputFrame = .ok r' ∧
      r'.lastReceivedFrame p = inputFrame ∧
      (∀ g, inputFrame ≤ g → g ≤ r'.currentFrame → r'.GetInputAtFrame p g = .ok input) ∧
      (∀ g, g < inputFrame → r'.currentFrame - g < WINDOW_BUFFER_SIZE →
        r'.GetInputAtFrame p g = r1.GetInputAtFrame p g) := by
  obtain ⟨r1, hadv, hcur, hlr⟩ := r.advance_ok inputFrame hnew
  have hle : inputFrame ≤ r1.currentFrame := by rw [hcur]; omega
  have hd : r1.currentFrame - inputFrame < WINDOW_BUFFER_SIZE := by rw [hcur]; exact hold
  have hlast1 : r1.lastReceivedFrame p < inputFrame := by rw [hlr]; exact hlast
  refine ⟨r1, _, hadv, r.SetPlayerInput_eq r1 p input inputFrame hadv hp hle hd, ?_, ?_, ?_⟩
  · simp [hlast1]
  · intro g hg1 hg2
    have hg2' : g ≤ r1.currentFrame := hg2
    refine (RollbackManager.GetInputAtFrame_eq _ p g hp (by exact hg2)
      (by show r1.currentFrame - g < _; omega)).trans ?_
    have : r1.currentFrame - g = r1.currentFrame - inputFrame
        ∨ r1.lastReceivedFrame p < inputFrame ∧ r1.currentFrame - g < r1.currentFrame - inputFrame := by
      omega
    simp [this]
  · intro g hg1 hg2
    have hg2' : r1.currentFrame - g < WINDOW_BUFFER_SIZE := hg2
    have hg3 : g ≤ r1.currentFrame := by omega
    rw [RollbackManager.GetInputAtFrame_eq r1 p g hp hg3 hg2']
    refine (RollbackManager.GetInputAtFrame_eq _ p g hp (by exact hg3) (by exact hg2)).trans ?_
    have h1 : ¬ (r1.currentFrame - g = r1.currentFrame - inputFrame
        ∨ r1.lastReceivedFrame p < inputFrame ∧ r1.currentFrame - g < r1.currentFrame - inputFrame) := by
      omega
    simp [h1]

/-- C3 at the sample state: frame 5 arrives while the last received frame is 4
and the current frame is 7. -/
theorem RollbackManager.SetPlayerInput_backfill_witness :
    1 < MAX_PLAYER_NMB ∧
    RollbackManager.sample.lastReceivedFrame 1 < 5 ∧
    max RollbackManager.sample.currentFrame 5 - 5 < WINDOW_BUFFER_SIZE ∧
    5 - RollbackManager.sample.currentFrame < WINDOW_BUFFER_SIZE ∧
    ∃ r1 r', (if RollbackManager.sample.currentFrame < 5
          then RollbackManager.sample.StartNewFrame 5 else .ok RollbackManager.sample)
        = .ok r1 ∧
      RollbackManager.sample.SetPlayerInput 1 9 5 = .ok r' ∧
      r'.lastReceivedFrame 1 = 5 ∧
      (∀ g, 5 ≤ g → g ≤ r'.currentFrame → r'.GetInputAtFrame 1 g = .ok 9) ∧
      (∀ g, g < 5 → r'.currentFrame - g < WINDOW_BUFFER_SIZE →
        r'.GetInputAtFrame 1 g = r1.GetInputAtFrame 1 g) :=
  ⟨by decide, by decide, by decide, by decide,
    RollbackManager.SetPlayerInput_backfill RollbackManager.sample 1 9 5
      (by decide) (by decide) (by decide) (by decide)⟩

/-- C3 as stated fails: at the sample state (current frame 7, last received
frame 4 for player 1) the input 9 arrives for frame 6; frame 5 lies strictly
between the previous last received frame and the input frame and is inside the
window, yet it still reads the old value 3, not 9. -/
theorem RollbackManager.SetPlayerInput_backfill_counterexample :
    RollbackManager.sample.lastReceivedFrame 1 < 6 ∧
    RollbackManager.sample.lastReceivedFrame 1 < 5 ∧ 5 < 6 ∧
    (RollbackManager.sample.SetPlayerInput 1 9 6).bind (fun r' => r'.GetInputAtFrame 1 5)
      = .ok 3 ∧
    (RollbackManager.sample.SetPlayerInput 1 9 6).bind (fun r' => r'.GetInputAtFrame 1 5)
      ≠ .ok 9 := by
  have h : (RollbackManager.sample.SetPlayerInput 1 9 6).bind
      (fun r' => r'.GetInputAtFrame 1 5) = .ok 3 := rfl
  refine ⟨by decide, by decide, by decide, h, ?_⟩
  rw [h]
  intro h'
  cases h'

/-! ### What the replay loops keep -/

/-- A property of the state that survives the stamping of an input. -/
theorem stampInput_keeps (P : GameManager → Prop)
    (hR : ∀ (g : GameManager) (pm : Pool PlayerCharacter), P g →
      P { g with rollbackManager := { g.rollbackManager with currentPlayerManager := pm } })
    (g : GameManager) (e i : Nat) (h : P g) : P (finalState (stampInput g e i)) := by
  unfold stampInput
  split_ifs
  · exact hR g _ h
  · exact h

/-- A property of the state that survives the three `FixedUpdate` calls. -/
theorem Engine.simulateOneFrame_keeps (E : Engine) (P : GameManager → Prop)
    (hS : ∀ (g : GameManager) (s : Simulated), P g → P (g.withSimulated s))
    (g : GameManager) (h : P g) : P (E.simulateOneFrame g) := by
  unfold Engine.simulateOneFrame
  exact hS _ _ (hS _ _ (hS _ _ h))

theorem RollbackManager.validateCopyInputs_keeps (P : GameManager → Prop)
    (hR : ∀ (g : GameManager) (pm : Pool PlayerCharacter), P g →
      P { g with rollbackManager := { g.rollbackManager with currentPlayerManager := pm } })
    (frame : Nat) :
    ∀ (n : Nat) (g : GameManager), P g →
      P (finalState (RollbackManager.ValidateFrame.copyInputs frame n g)) := by
  intro n
  induction n with
  | zero => intro g h; exact h
  | succ n ih =>
    intro g h
    have h1 := ih g h
    unfold RollbackManager.ValidateFrame.copyInputs
    cases hc : RollbackManager.ValidateFrame.copyInputs frame n g with
    | error e =>
      rw [hc] at h1
      exact h1
    | ok g' =>
      rw [hc] at h1
      simp only [bind, Except.bind]
      cases hi : g'.rollbackManager.GetInputAtFrame n frame with
      | error f => exact h1
      | ok playerInput => exact stampInput_keeps P hR g' _ _ h1

theorem RollbackManager.simulateCopyInputs_keeps (E : Engine)
    (P : GameManager → Prop)
    (hR : ∀ (g : GameManager) (pm : Pool PlayerCharacter), P g →
      P { g with rollbackManager := { g.rollbackManager with currentPlayerManager := pm } })
    (frame : Nat) :
    ∀ (n : Nat) (g : GameManager), P g →
      P (finalState (RollbackManager.SimulateToCurrentFrame.copyInputs E frame n g)) := by
  intro n
  induction n with
  | zero => intro g h; exact h
  | succ n ih =>
    intro g h
    have h1 := ih g h
    unfold RollbackManager.SimulateToCurrentFrame.copyInputs
    cases hc : RollbackManager.SimulateToCurrentFrame.copyInputs E frame n g with
    | error e =>
      rw [hc] at h1
      exact h1
    | ok g' =>
      rw [hc] at h1
      simp only [bind, Except.bind]
      cases hi : g'.rollbackManager.GetInputAtFrame n frame with
      | error f => exact h1
      | ok playerInput =>
        simp only [atState]
        split_ifs
        · exact h1
        · exact stampInput_keeps P hR g' _ _ h1

/-- A property of the state that no statement of the replay loop of
`ValidateFrame` touches holds when the loop ends, normally or on a fault. -/
theorem RollbackManager.validateReplay_keeps (E : Engine) (P : GameManager → Prop)
    (hT : ∀ (g : GameManager) (f : Nat), P g →
      P { g with rollbackManager := { g.rollbackManager with testedFrame := f } })
    (hR : ∀ (g : GameManager) (pm : Pool PlayerCharacter), P g →
      P { g with rollbackManager := { g.rollbackManager with currentPlayerManager := pm } })
    (hS : ∀ (g : GameManager) (s : Simulated), P g → P (g.withSimulated s)) :
    ∀ (count frame : Nat) (g : GameManager), P g →
      P (finalState (RollbackManager.ValidateFrame.replay E count frame g)) := by
  intro count
  induction count with
  | zero => intro frame g h; exact h
  | succ count ih =>
    intro frame g h
    unfold RollbackManager.ValidateFrame.replay
    have h1 := RollbackManager.validateCopyInputs_keeps P hR frame MAX_PLAYER_NMB _
      (hT g frame h)
    simp only [bind, Except.bind]
    cases hc : RollbackManager.ValidateFrame.copyInputs frame MAX_PLAYER_NMB
        { g with rollbackManager := { g.rollbackManager with testedFrame := frame } } with
    | error e =>
      rw [hc] at h1
      exact h1
    | ok g2 =>
      rw [hc] at h1
      exact ih _ _ (E.simulateOneFrame_keeps P hS g2 h1)

/-- A property of the state that no statement of the replay loop of
`SimulateToCurrentFrame` touches holds when the loop ends, normally or on a fault. -/
theorem RollbackManager.simulateReplay_keeps (E : Engine)
    (P : GameManager → Prop)
    (hT : ∀ (g : GameManager) (f : Nat), P g →
      P { g with rollbackManager := { g.rollbackManager with testedFrame := f } })
    (hR : ∀ (g : GameManager) (pm : Pool PlayerCharacter), P g →
      P { g with rollbackManager := { g.rollbackManager with currentPlayerManager := pm } })
    (hS : ∀ (g : GameManager) (s : Simulated), P g → P (g.withSimulated s)) :
    ∀ (count frame : Nat) (g : GameManager), P g →
      P (finalState (RollbackManager.SimulateToCurrentFrame.replay E count frame g)) := by
  intro count
  induction count with
  | zero => intro frame g h; exact h
  | succ count ih =>
    intro frame g h
    unfold RollbackManager.SimulateToCurrentFrame.replay
    have h1 := RollbackManager.simulateCopyInputs_keeps E P hR frame
      MAX_PLAYER_NMB _ (hT g frame h)
    simp only [bind, Except.bind]
    cases hc : RollbackManager.SimulateToCurrentFrame.copyInputs E frame MAX_PLAYER_NMB
        { g with rollbackManager := { g.rollbackManager with testedFrame := frame } } with
    | error e =>
      rw [hc] at h1
      exact h1
    | ok g2 =>
      rw [hc] at h1
      exact ih _ _ (E.simulateOneFrame_keeps P hS g2 h1)

/-! ### The last validated frame -/

theorem RollbackManager.StartNewFrame_lastValidateFrame (r r' : RollbackManager)
    (newFrame : Nat) (h : r.StartNewFrame newFrame = .ok r') :
    r'.lastValidateFrame = r.lastValidateFrame := by
  unfold RollbackManager.StartNewFrame at h
  dsimp only at h
  split_ifs at h
  · cases h; rfl
  · cases h; rfl
  · simp only [bind, Except.bind] at h
    cases hs : shiftRings (Frame.sub newFrame r.currentFrame) MAX_PLAYER_NMB r.inputs with
    | error f => rw [hs] at h; cases h
    | ok inputs => rw [hs] at h; cases h; rfl

/-- The replay loop of `ValidateFrame` never writes the last validated frame. -/
theorem RollbackManager.ValidateFrame.replayed_lastValidateFrame (E : Engine)
    (g : GameManager) (n : Nat) :
    (finalState (RollbackManager.ValidateFrame.replayed E g n)).rollbackManager.lastValidateFrame
      = g.rollbackManager.lastValidateFrame := by
  unfold RollbackManager.ValidateFrame.replayed
  exact RollbackManager.validateReplay_keeps E
    (fun x => x.rollbackManager.lastValidateFrame = g.rollbackManager.lastValidateFrame)
    (fun _ _ h => h) (fun _ _ h => h) (fun _ _ h => h) _ _ _ rfl

/-- The call `ValidateFrame(n)` ends with the last validated frame at `n` when it
succeeds, and unchanged when it stops on a fault. -/
theorem RollbackManager.ValidateFrame_lastValidateFrame (E : Engine) (g : GameManager)
    (n : Nat) :
    (∀ g', RollbackManager.ValidateFrame E g n = .ok g' →
      g'.rollbackManager.lastValidateFrame = n) ∧
    (∀ f g', RollbackManager.ValidateFrame E g n = .error (f, g') →
      g'.rollbackManager.lastValidateFrame = g.rollbackManager.lastValidateFrame) := by
  have hr := RollbackManager.ValidateFrame.replayed_lastValidateFrame E g n
  unfold RollbackManager.ValidateFrame
  split_ifs
  · constructor
    · intro g' h; cases h
    · intro f g' h; cases h; rfl
  · simp only [bind, Except.bind]
    cases hc : RollbackManager.ValidateFrame.replayed E g n with
    | error e =>
      rw [hc] at hr
      constructor
      · intro g' h; cases h
      · intro f g' h
        cases h
        exact hr
    | ok g1 =>
      constructor
      · intro g' h; cases h; rfl
      · intro f g' h; cases h

/-- The comparison loop of `ConfirmFrame` stops, if it does, in the state it
was given. -/
theorem RollbackManager.ConfirmFrame.compare_state (g : GameManager) (s : Nat → Nat) :
    ∀ (n : Nat) (f : Fault) (g' : GameManager),
      RollbackManager.ConfirmFrame.compare g s n = .error (f, g') → g' = g := by
  intro n
  induction n with
  | zero => intro f g' h; cases h
  | succ n ih =>
    intro f g' h
    unfold RollbackManager.ConfirmFrame.compare at h
    simp only [bind, Except.bind] at h
    cases hc : RollbackManager.ConfirmFrame.compare g s n with
    | error e =>
      rw [hc] at h
      obtain ⟨f1, g1⟩ := e
      cases h
      exact ih _ _ hc
    | ok u =>
      rw [hc] at h
      cases hd : RollbackManager.GetValidatePhysicsState g n with
      | error e => rw [hd] at h; simp only [atState] at h; cases h; rfl
      | ok d =>
        rw [hd] at h
        simp only [atState] at h
        split_ifs at h
        cases h
        rfl

/-- Each of the four calls ends, normally or on a fault, with the last
validated frame either unchanged or equal to the frame it was called for, and
`ConfirmValidateFrame` leaves it unchanged when the frame is stale. -/
theorem ValidationCall.run_lastValidateFrame (E : Engine) (g : GameManager)
    (c : ValidationCall) (h : c.notStale g) :
    g.rollbackManager.lastValidateFrame
      ≤ (finalState (c.run E g)).rollbackManager.lastValidateFrame := by
  cases c with
  | validateFrame n =>
    have hv := RollbackManager.ValidateFrame_lastValidateFrame E g n
    simp only [ValidationCall.run]
    cases hc : RollbackManager.ValidateFrame E g n with
    | error e => obtain ⟨f, g'⟩ := e; exact Nat.le_of_eq (hv.2 f g' hc).symm
    | ok g' => exact (hv.1 g' hc).symm ▸ h
  | confirmFrame n s =>
    have hv := RollbackManager.ValidateFrame_lastValidateFrame E g n
    simp only [ValidationCall.run, RollbackManager.ConfirmFrame, bind, Except.bind]
    cases hc : RollbackManager.ValidateFrame E g n with
    | error e => obtain ⟨f, g'⟩ := e; exact Nat.le_of_eq (hv.2 f g' hc).symm
    | ok g' =>
      have hn : g.rollbackManager.lastValidateFrame ≤ g'.rollbackManager.lastValidateFrame :=
        (hv.1 g' hc).symm ▸ h
      dsimp only
      cases hd : RollbackManager.ConfirmFrame.compare g' s MAX_PLAYER_NMB with
      | error e =>
        obtain ⟨f, g''⟩ := e
        dsimp only [finalState]
        rw [RollbackManager.ConfirmFrame.compare_state g' s _ f g'' hd]
        exact hn
      | ok u => exact hn
  | validate n =>
    simp only [ValidationCall.run, GameManager.Validate, bind, Except.bind]
    have key : ∀ g1 : GameManager,
        g1.rollbackManager.lastValidateFrame = g.rollbackManager.lastValidateFrame →
        g.rollbackManager.lastValidateFrame
          ≤ (finalState (RollbackManager.ValidateFrame E g1 n)).rollbackManager.lastValidateFrame := by
      intro g1 h1
      have hv := RollbackManager.ValidateFrame_lastValidateFrame E g1 n
      cases hc : RollbackManager.ValidateFrame E g1 n with
      | error e =>
        obtain ⟨f, g'⟩ := e
        exact Nat.le_of_eq ((hv.2 f g' hc).trans h1).symm
      | ok g' => exact (hv.1 g' hc).symm ▸ h
    split_ifs
    · cases hs : g.rollbackManager.StartNewFrame n with
      | error f => exact Nat.le_refl _
      | ok r =>
        exact key _ (RollbackManager.StartNewFrame_lastValidateFrame _ _ _ hs)
    · exact key g rfl
  | confirmValidateFrame n s =>
    simp only [ValidationCall.run, ClientGameManager.ConfirmValidateFrame]
    split_ifs with h1 h2
    · exact Nat.le_refl _
    · exact Nat.le_refl _
    · have hv := RollbackManager.ValidateFrame_lastValidateFrame E g n
      simp only [RollbackManager.ConfirmFrame, bind, Except.bind]
      cases hc : RollbackManager.ValidateFrame E g n with
      | error e => obtain ⟨f, g'⟩ := e; exact Nat.le_of_eq (hv.2 f g' hc).symm
      | ok g' =>
        have hn : g.rollbackManager.lastValidateFrame
            ≤ g'.rollbackManager.lastValidateFrame := by
          rw [hv.1 g' hc]; omega
        dsimp only
        cases hd : RollbackManager.ConfirmFrame.compare g' s MAX_PLAYER_NMB with
        | error e =>
          obtain ⟨f, g''⟩ := e
          dsimp only [finalState]
          rw [RollbackManager.ConfirmFrame.compare_state g' s _ f g'' hd]
          exact hn
        | ok u => exact hn

/-- C4, amended (validation monotonicity): over every sequence of calls to
`ValidateFrame`, `ConfirmFrame`, `GameManager::Validate` and
`ConfirmValidateFrame` in which each direct `ValidateFrame`, `ConfirmFrame` or
`Validate` is made for a frame that is not older than the last validated frame
at that moment, the last validated frame at the end of the run (or at the
fault that ends it) is at least the one at its start; `ConfirmValidateFrame`
needs no such condition. -/
theorem ValidationCall.runAll_lastValidateFrame_mono (E : Engine) (cs : List ValidationCall) :
    ∀ g : GameManager, ValidationCall.allNotStale E cs g →
      g.rollbackManager.lastValidateFrame
        ≤ (finalState (ValidationCall.runAll E cs g)).rollbackManager.lastValidateFrame := by
  induction cs with
  | nil => intro g _; exact Nat.le_refl _
  | cons c cs ih =>
    intro g h
    have h1 := ValidationCall.run_lastValidateFrame E g c h.1
    simp only [ValidationCall.runAll, bind, Except.bind]
    cases hc : c.run E g with
    | error e =>
      rw [hc] at h1
      exact h1
    | ok g' =>
      rw [hc] at h1
      exact Nat.le_trans h1 (ih g' (h.2 g' hc))

/-- C4 at the sample game (frame 3 validated): `ValidateFrame(4)` followed by a
stale `ConfirmValidateFrame(2, ·)`. -/
theorem ValidationCall.runAll_lastValidateFrame_mono_witness :
    ValidationCall.allNotStale Engine.sample
        [.validateFrame 4, .confirmValidateFrame 2 (fun _ => 0)] GameManager.sample ∧
    GameManager.sample.rollbackManager.lastValidateFrame
      ≤ (finalState (ValidationCall.runAll Engine.sample
          [.validateFrame 4, .confirmValidateFrame 2 (fun _ => 0)]
          GameManager.sample)).rollbackManager.lastValidateFrame :=
  ⟨⟨(by decide : (3 : Nat) ≤ 4), fun _ _ => ⟨trivial, fun _ _ => trivial⟩⟩,
    ValidationCall.runAll_lastValidateFrame_mono Engine.sample
      [.validateFrame 4, .confirmValidateFrame 2 (fun _ => 0)] GameManager.sample
      ⟨(by decide : (3 : Nat) ≤ 4), fun _ _ => ⟨trivial, fun _ _ => trivial⟩⟩⟩

/-- C4 as stated fails: at the sample game frame 3 is validated and both
players' inputs are received up to frame 4; `ValidateFrame(2)`,
`GameManager::Validate(2)` and `ConfirmFrame(2, ·)` with matching digests all
succeed and leave the last validated frame at 2. -/
theorem ValidationCall.lastValidateFrame_mono_counterexample :
    GameManager.sample.rollbackManager.lastValidateFrame = 3 ∧
    (∃ g', RollbackManager.ValidateFrame Engine.sample GameManager.sample 2 = .ok g' ∧
      g'.rollbackManager.lastValidateFrame = 2) ∧
    (∃ g', GameManager.Validate Engine.sample GameManager.sample 2 = .ok g' ∧
      g'.rollbackManager.lastValidateFrame = 2) ∧
    (∃ g', RollbackManager.ConfirmFrame Engine.sample GameManager.sample 2 (fun _ => 0)
        = .ok g' ∧
      g'.rollbackManager.lastValidateFrame = 2) :=
  ⟨rfl, ⟨_, rfl, rfl⟩, ⟨_, rfl, rfl⟩, ⟨_, rfl, rfl⟩⟩

/-! ### The input check of `ValidateFrame` -/

theorem RollbackManager.inputsMissing_iff (r : RollbackManager) (frame : Nat) :
    ∀ n : Nat, r.inputsMissing frame n = true ↔ ∃ p, p < n ∧ r.lastReceivedFrame p < frame := by
  intro n
  induction n with
  | zero => simp [RollbackManager.inputsMissing]
  | succ n ih =>
    simp only [RollbackManager.inputsMissing, Bool.or_eq_true, ih, decide_eq_true_eq,
      RollbackManager.GetLastReceivedFrame]
    constructor
    · rintro (⟨p, hp, h⟩ | h)
      · exact ⟨p, by omega, h⟩
      · exact ⟨n, by omega, h⟩
    · rintro ⟨p, hp, h⟩
      by_cases hpn : p = n
      · subst hpn; exact Or.inr h
      · exact Or.inl ⟨p, by omega, h⟩

/-- The replay loop of `ValidateFrame` stops, if it does, on an access outside
an array or on the assertion of `GetInputAtFrame`. -/
theorem RollbackManager.validateCopyInputs_fault (frame : Nat) :
    ∀ (n : Nat) (g : GameManager) (f : Fault) (g' : GameManager),
      RollbackManager.ValidateFrame.copyInputs frame n g = .error (f, g') →
      f = .outOfRange ∨ f = .inputTooOld := by
  intro n
  induction n with
  | zero => intro g f g' h; cases h
  | succ n ih =>
    intro g f g' h
    unfold RollbackManager.ValidateFrame.copyInputs at h
    simp only [bind, Except.bind] at h
    cases hc : RollbackManager.ValidateFrame.copyInputs frame n g with
    | error e =>
      rw [hc] at h
      obtain ⟨f1, g1⟩ := e
      cases h
      exact ih _ _ _ hc
    | ok g1 =>
      rw [hc] at h
      dsimp only at h
      cases hi : g1.rollbackManager.GetInputAtFrame n frame with
      | error f1 =>
        rw [hi] at h
        simp only [atState] at h
        cases h
        unfold RollbackManager.GetInputAtFrame at hi
        split_ifs at hi
        · unfold InputRing.read at hi
          split_ifs at hi
        · cases hi; exact Or.inl rfl
        · cases hi; exact Or.inr rfl
      | ok v =>
        rw [hi] at h
        simp only [atState, stampInput] at h
        split_ifs at h
        cases h
        exact Or.inl rfl

theorem RollbackManager.validateReplay_fault (E : Engine) :
    ∀ (count frame : Nat) (g : GameManager) (f : Fault) (g' : GameManager),
      RollbackManager.ValidateFrame.replay E count frame g = .error (f, g') →
      f = .outOfRange ∨ f = .inputTooOld := by
  intro count
  induction count with
  | zero => intro frame g f g' h; cases h
  | succ count ih =>
    intro frame g f g' h
    unfold RollbackManager.ValidateFrame.replay at h
    simp only [bind, Except.bind] at h
    cases hc : RollbackManager.ValidateFrame.copyInputs frame MAX_PLAYER_NMB
        { g with rollbackManager := { g.rollbackManager with testedFrame := frame } } with
    | error e =>
      rw [hc] at h
      obtain ⟨f1, g1⟩ := e
      cases h
      exact RollbackManager.validateCopyInputs_fault _ _ _ _ _ hc
    | ok g2 =>
      rw [hc] at h
      exact ih _ _ _ _ h

/-- C5: `ValidateFrame(n)` stops on the assertion "We should not validate a
frame if we did not receive all inputs!!!" if and only if some player `p < 2`
has `lastReceivedFrame[p] < n`, and the state at that assertion is the state
the call was made in: nothing has been written. -/
theorem RollbackManager.ValidateFrame_missingInputs (E : Engine) (g : GameManager) (n : Nat) :
    ((∃ g', RollbackManager.ValidateFrame E g n = .error (.missingInputs, g')) ↔
      ∃ p, p < MAX_PLAYER_NMB ∧ g.rollbackManager.lastReceivedFrame p < n) ∧
    (∀ g', RollbackManager.ValidateFrame E g n = .error (.missingInputs, g') → g' = g) := by
  have hiff := g.rollbackManager.inputsMissing_iff n MAX_PLAYER_NMB
  have hno : ¬ g.rollbackManager.inputsMissing n MAX_PLAYER_NMB = true →
      ∀ g', RollbackManager.ValidateFrame E g n ≠ .error (.missingInputs, g') := by
    intro hm g' h
    unfold RollbackManager.ValidateFrame at h
    rw [if_neg hm] at h
    simp only [bind, Except.bind] at h
    cases hc : RollbackManager.ValidateFrame.replayed E g n with
    | error e =>
      rw [hc] at h
      obtain ⟨f1, g1⟩ := e
      cases h
      unfold RollbackManager.ValidateFrame.replayed at hc
      rcases RollbackManager.validateReplay_fault E _ _ _ _ _ hc with h1 | h1 <;> cases h1
    | ok g1 =>
      rw [hc] at h
      cases h
  refine ⟨⟨?_, ?_⟩, ?_⟩
  · rintro ⟨g', h⟩
    by_contra hp
    exact hno (fun hm => hp (hiff.mp hm)) g' h
  · intro hp
    refine ⟨g, ?_⟩
    unfold RollbackManager.ValidateFrame
    rw [if_pos (hiff.mpr hp)]
  · intro g' h
    by_cases hm : g.rollbackManager.inputsMissing n MAX_PLAYER_NMB = true
    · unfold RollbackManager.ValidateFrame at h
      rw [if_pos hm] at h
      cases h
      rfl
    · exact absurd h (hno hm g')

/-! ### Confirmation and the physics digest -/

/-- The comparison loop of `ConfirmFrame` over the players below `n`, when the
digest of each of them is defined: it stops on the desync assertion of some
player if and only if a digest differs from the peer's. -/
theorem RollbackManager.ConfirmFrame.compare_iff (g : GameManager) (s : Nat → Nat) :
    ∀ n : Nat, (∀ p, p < n → g.GetEntityFromPlayerNumber p < g.entityManager.GetEntitiesSize) →
      ((∃ p, RollbackManager.ConfirmFrame.compare g s n = .error (.desync p, g)) ↔
        ∃ p, p < n ∧ RollbackManager.GetValidatePhysicsState g p ≠ .ok (s p)) ∧
      (RollbackManager.ConfirmFrame.compare g s n = .ok () ↔
        ∀ p, p < n → RollbackManager.GetValidatePhysicsState g p = .ok (s p)) := by
  intro n
  induction n with
  | zero =>
    intro _
    simp [RollbackManager.ConfirmFrame.compare]
  | succ n ih =>
    intro hv
    obtain ⟨ih1, ih2⟩ := ih (fun p hp => hv p (by omega))
    have hd : RollbackManager.GetValidatePhysicsState g n
        = .ok (physicsStateOf (g.rollbackManager.lastValidatePhysicsManager.bodies
            (g.GetEntityFromPlayerNumber n))) := by
      unfold RollbackManager.GetValidatePhysicsState
      simp only [hv n (by omega), if_true]
    unfold RollbackManager.ConfirmFrame.compare
    simp only [bind, Except.bind]
    cases hc : RollbackManager.ConfirmFrame.compare g s n with
    | error e =>
      obtain ⟨f, g1⟩ := e
      have hg1 := RollbackManager.ConfirmFrame.compare_state g s n f g1 hc
      subst hg1
      have hnok : ¬ ∀ p, p < n → RollbackManager.GetValidatePhysicsState g1 p = .ok (s p) := by
        intro hall
        rw [ih2.mpr hall] at hc
        cases hc
      constructor
      · constructor
        · rintro ⟨p, hp⟩
          dsimp only at hp
          obtain ⟨q, hq, hne⟩ := ih1.mp ⟨p, by rw [hc]; exact hp⟩
          exact ⟨q, by omega, hne⟩
        · intro _
          by_contra hcon
          apply hnok
          intro p hp
          by_contra hne
          obtain ⟨q, hq⟩ := ih1.mpr ⟨p, hp, hne⟩
          exact hcon ⟨q, by dsimp only; rw [← hq, hc]⟩
      · constructor
        · intro h; cases h
        · intro hall
          exact absurd (fun p hp => hall p (by omega)) hnok
    | ok u =>
      have hall := ih2.mp hc
      dsimp only
      rw [hd]
      simp only [atState]
      by_cases hs : s n = physicsStateOf (g.rollbackManager.lastValidatePhysicsManager.bodies
          (g.GetEntityFromPlayerNumber n))
      · simp only [hs, ne_eq, not_true_eq_false, if_false]
        constructor
        · constructor
          · rintro ⟨p, hp⟩; cases hp
          · rintro ⟨p, hp, hne⟩
            by_cases hpn : p = n
            · subst hpn
              rw [hd, hs] at hne
              exact absurd rfl hne
            · exact absurd (hall p (by omega)) hne
        · constructor
          · intro _ p hp
            by_cases hpn : p = n
            · subst hpn; rw [hd, hs]
            · exact hall p (by omega)
          · intro _; trivial
      · simp only [ne_eq, hs, not_false_eq_true, if_true]
        constructor
        · constructor
          · intro _
            refine ⟨n, by omega, ?_⟩
            rw [hd]
            intro h
            exact hs (Except.ok.inj h).symm
          · intro _
            exact ⟨n, rfl⟩
        · constructor
          · intro h; cases h
          · intro hall'
            have := hall' n (by omega)
            rw [hd] at this
            exact absurd (Except.ok.inj this).symm hs

/-- C6: `ConfirmFrame(frame, peerDigests)` performs `ValidateFrame(frame)`: it
stops on the same fault when that call does, and otherwise, from the state
`g'` that `ValidateFrame(frame)` leaves (in which both players have a body), it
raises the desync assertion if and only if some player `p < 2` has a
`GetValidatePhysicsState(p)`, computed on `g'`, that differs from
`peerDigests[p]`; when all digests are equal it ends normally in the state `g'`. -/
theorem RollbackManager.ConfirmFrame_desync_iff (E : Engine) (g : GameManager) (frame : Nat)
    (peerDigests : Nat → Nat) :
    (∀ f g0, RollbackManager.ValidateFrame E g frame = .error (f, g0) →
      RollbackManager.ConfirmFrame E g frame peerDigests = .error (f, g0)) ∧
    (∀ g', RollbackManager.ValidateFrame E g frame = .ok g' →
      (∀ p, p < MAX_PLAYER_NMB →
        g'.GetEntityFromPlayerNumber p < g'.entityManager.GetEntitiesSize) →
      ((∃ p, RollbackManager.ConfirmFrame E g frame peerDigests = .error (.desync p, g')) ↔
        ∃ p, p < MAX_PLAYER_NMB ∧
          RollbackManager.GetValidatePhysicsState g' p ≠ .ok (peerDigests p)) ∧
      ((∀ p, p < MAX_PLAYER_NMB →
          RollbackManager.GetValidatePhysicsState g' p = .ok (peerDigests p)) →
        RollbackManager.ConfirmFrame E g frame peerDigests = .ok g')) := by
  constructor
  · intro f g0 h
    unfold RollbackManager.ConfirmFrame
    rw [h]
    rfl
  · intro g' h hv
    obtain ⟨h1, h2⟩ := RollbackManager.ConfirmFrame.compare_iff g' peerDigests MAX_PLAYER_NMB hv
    unfold RollbackManager.ConfirmFrame
    rw [h]
    simp only [bind, Except.bind]
    constructor
    · rw [← h1]
      constructor
      · rintro ⟨p, hp⟩
        refine ⟨p, ?_⟩
        cases hc : RollbackManager.ConfirmFrame.compare g' peerDigests MAX_PLAYER_NMB with
        | error e => rw [hc] at hp; dsimp only at hp; rw [Except.error.inj hp]
        | ok u => rw [hc] at hp; dsimp only at hp; cases hp
      · rintro ⟨p, hp⟩
        exact ⟨p, by rw [hp]⟩
    · intro hall
      rw [h2.mpr hall]

/-- C6 at the sample game: `ConfirmFrame(4, ·)` against the digests `(48, 0)`,
which are those of the state validated at frame 4. -/
theorem RollbackManager.ConfirmFrame_desync_iff_witness :
    RollbackManager.ValidateFrame Engine.sample GameManager.sample 4
      = .ok (finalState (RollbackManager.ValidateFrame Engine.sample GameManager.sample 4)) ∧
    (∀ p, p < MAX_PLAYER_NMB →
      (finalState (RollbackManager.ValidateFrame Engine.sample GameManager.sample 4)).GetEntityFromPlayerNumber p
        < (finalState (RollbackManager.ValidateFrame Engine.sample
            GameManager.sample 4)).entityManager.GetEntitiesSize) ∧
    ((∃ p, RollbackManager.ConfirmFrame Engine.sample GameManager.sample 4
          (fun p => if p = 0 then 48 else 0)
        = .error (.desync p,
            finalState (RollbackManager.ValidateFrame Engine.sample GameManager.sample 4))) ↔
      ∃ p, p < MAX_PLAYER_NMB ∧
        RollbackManager.GetValidatePhysicsState
          (finalState (RollbackManager.ValidateFrame Engine.sample GameManager.sample 4)) p
          ≠ .ok ((fun p => if p = 0 then 48 else 0) p)) ∧
    ((∀ p, p < MAX_PLAYER_NMB →
        RollbackManager.GetValidatePhysicsState
          (finalState (RollbackManager.ValidateFrame Engine.sample GameManager.sample 4)) p
          = .ok ((fun p => if p = 0 then 48 else 0) p)) →
      RollbackManager.ConfirmFrame Engine.sample GameManager.sample 4
          (fun p => if p = 0 then 48 else 0)
        = .ok (finalState (RollbackManager.ValidateFrame Engine.sample GameManager.sample 4))) :=
  ⟨rfl, by decide,
    (RollbackManager.ConfirmFrame_desync_iff Engine.sample GameManager.sample 4
      (fun p => if p = 0 then 48 else 0)).2 _ rfl (by decide)⟩

theorem RollbackManager.physicsStateOf_eq (body : Body) :
    physicsStateOf body
      = (body.position.x + body.position.y + body.velocity.x + body.velocity.y
          + body.rotation + body.angularVelocity) % 2 ^ 32 := by
  simp only [physicsStateOf, addPhysicsState]
  omega

/-- C7: for a player whose entity has a body, `GetValidatePhysicsState` returns
the sum modulo `2^32` of the words of `position.x`, `position.y`, `velocity.x`,
`velocity.y`, `rotation` and `angularVelocity` of its last validated body; the
result is the same whatever the `bodyType` of that body, and whatever the rest
of the game state. -/
theorem RollbackManager.GetValidatePhysicsState_eq (g : GameManager) (p : Nat)
    (hbody : g.GetEntityFromPlayerNumber p < g.entityManager.GetEntitiesSize) :
    (∀ body, g.rollbackManager.lastValidatePhysicsManager.bodies
        (g.GetEntityFromPlayerNumber p) = body →
      RollbackManager.GetValidatePhysicsState g p
        = .ok ((body.position.x + body.position.y + body.velocity.x + body.velocity.y
            + body.rotation + body.angularVelocity) % 2 ^ 32)) ∧
    (∀ (g2 : GameManager) (p2 : Nat),
      g2.GetEntityFromPlayerNumber p2 < g2.entityManager.GetEntitiesSize →
      (g2.rollbackManager.lastValidatePhysicsManager.bodies
          (g2.GetEntityFromPlayerNumber p2)).words
        = (g.rollbackManager.lastValidatePhysicsManager.bodies
          (g.GetEntityFromPlayerNumber p)).words →
      RollbackManager.GetValidatePhysicsState g2 p2
        = RollbackManager.GetValidatePhysicsState g p) := by
  constructor
  · intro body hb
    unfold RollbackManager.GetValidatePhysicsState
    simp only [hbody, if_true, hb, physicsStateOf_eq]
  · intro g2 p2 h2 hw
    unfold RollbackManager.GetValidatePhysicsState
    simp only [hbody, h2, if_true, physicsStateOf_eq]
    simp only [Body.words, List.cons.injEq, and_true] at hw
    obtain ⟨h1, h2, h3, h4, h5, h6⟩ := hw
    rw [h1, h2, h3, h4, h5, h6]

/-- C7 at the sample game, for player 0. -/
theorem RollbackManager.GetValidatePhysicsState_eq_witness :
    GameManager.sample.GetEntityFromPlayerNumber 0
      < GameManager.sample.entityManager.GetEntitiesSize ∧
    (∀ body, GameManager.sample.rollbackManager.lastValidatePhysicsManager.bodies
        (GameManager.sample.GetEntityFromPlayerNumber 0) = body →
      RollbackManager.GetValidatePhysicsState GameManager.sample 0
        = .ok ((body.position.x + body.position.y + body.velocity.x + body.velocity.y
            + body.rotation + body.angularVelocity) % 2 ^ 32)) ∧
    (∀ (g2 : GameManager) (p2 : Nat),
      g2.GetEntityFromPlayerNumber p2 < g2.entityManager.GetEntitiesSize →
      (g2.rollbackManager.lastValidatePhysicsManager.bodies
          (g2.GetEntityFromPlayerNumber p2)).words
        = (GameManager.sample.rollbackManager.lastValidatePhysicsManager.bodies
          (GameManager.sample.GetEntityFromPlayerNumber 0)).words →
      RollbackManager.GetValidatePhysicsState g2 p2
        = RollbackManager.GetValidatePhysicsState GameManager.sample 0) :=
  ⟨by decide, RollbackManager.GetValidatePhysicsState_eq GameManager.sample 0 (by decide)⟩

/-- Two bodies of 32-bit words that differ in exactly one of the six summed
words have different sums. -/
theorem RollbackManager.physicsStateOf_ne (b1 b2 : Body) (i : Nat)
    (h1 : ∀ w ∈ b1.words, w < 2 ^ 32) (h2 : ∀ w ∈ b2.words, w < 2 ^ 32)
    (hd : b1.differOnlyAt b2 i) : physicsStateOf b1 ≠ physicsStateOf b2 := by
  obtain ⟨⟨px1, py1⟩, ⟨vx1, vy1⟩, a1, r1, t1⟩ := b1
  obtain ⟨⟨px2, py2⟩, ⟨vx2, vy2⟩, a2, r2, t2⟩ := b2
  obtain ⟨hi, hne, heq⟩ := hd
  have e0 := heq 0 (by omega)
  have e1 := heq 1 (by omega)
  have e2 := heq 2 (by omega)
  have e3 := heq 3 (by omega)
  have e4 := heq 4 (by omega)
  have e5 := heq 5 (by omega)
  simp only [Body.words, List.mem_cons, List.mem_singleton, forall_eq_or_imp, forall_eq,
    List.not_mem_nil, false_imp_iff, implies_true, and_true] at h1 h2
  rw [physicsStateOf_eq, physicsStateOf_eq]
  dsimp only
  simp only [Body.words] at hne e0 e1 e2 e3 e4 e5
  interval_cases i <;> simp at hne e0 e1 e2 e3 e4 e5 <;> omega

/-- C8 (digest sensitivity): for two validated player bodies made of 32-bit
words that differ in exactly one of the six words of `position.x`,
`position.y`, `velocity.x`, `velocity.y`, `rotation` and `angularVelocity`,
`GetValidatePhysicsState` returns different digests. -/
theorem RollbackManager.GetValidatePhysicsState_sensitive (g1 g2 : GameManager)
    (p1 p2 i : Nat)
    (hb1 : g1.GetEntityFromPlayerNumber p1 < g1.entityManager.GetEntitiesSize)
    (hb2 : g2.GetEntityFromPlayerNumber p2 < g2.entityManager.GetEntitiesSize)
    (hw1 : ∀ w ∈ (g1.rollbackManager.lastValidatePhysicsManager.bodies
      (g1.GetEntityFromPlayerNumber p1)).words, w < 2 ^ 32)
    (hw2 : ∀ w ∈ (g2.rollbackManager.lastValidatePhysicsManager.bodies
      (g2.GetEntityFromPlayerNumber p2)).words, w < 2 ^ 32)
    (hd : (g1.rollbackManager.lastValidatePhysicsManager.bodies
        (g1.GetEntityFromPlayerNumber p1)).differOnlyAt
      (g2.rollbackManager.lastValidatePhysicsManager.bodies
        (g2.GetEntityFromPlayerNumber p2)) i) :
    RollbackManager.GetValidatePhysicsState g1 p1
      ≠ RollbackManager.GetValidatePhysicsState g2 p2 := by
  unfold RollbackManager.GetValidatePhysicsState
  simp only [hb1, hb2, if_true]
  intro h
  exact RollbackManager.physicsStateOf_ne _ _ i hw1 hw2 hd (Except.ok.inj h)

/-- C8 at the sample game and its copy with `position.x` of player 0 one unit
in the last place away. -/
theorem RollbackManager.GetValidatePhysicsState_sensitive_witness :
    GameManager.sample.GetEntityFromPlayerNumber 0
      < GameManager.sample.entityManager.GetEntitiesSize ∧
    GameManager.sampleOneUlp.GetEntityFromPlayerNumber 0
      < GameManager.sampleOneUlp.entityManager.GetEntitiesSize ∧
    (∀ w ∈ (GameManager.sample.rollbackManager.lastValidatePhysicsManager.bodies
      (GameManager.sample.GetEntityFromPlayerNumber 0)).words, w < 2 ^ 32) ∧
    (∀ w ∈ (GameManager.sampleOneUlp.rollbackManager.lastValidatePhysicsManager.bodies
      (GameManager.sampleOneUlp.GetEntityFromPlayerNumber 0)).words, w < 2 ^ 32) ∧
    (GameManager.sample.rollbackManager.lastValidatePhysicsManager.bodies
        (GameManager.sample.GetEntityFromPlayerNumber 0)).differOnlyAt
      (GameManager.sampleOneUlp.rollbackManager.lastValidatePhysicsManager.bodies
        (GameManager.sampleOneUlp.GetEntityFromPlayerNumber 0)) 0 ∧
    RollbackManager.GetValidatePhysicsState GameManager.sample 0
      ≠ RollbackManager.GetValidatePhysicsState GameManager.sampleOneUlp 0 :=
  ⟨by decide, by decide, by decide, by decide, by unfold Body.differOnlyAt; decide,
    RollbackManager.GetValidatePhysicsState_sensitive GameManager.sample
      GameManager.sampleOneUlp 0 0 0 (by decide) (by decide) (by decide) (by decide)
      (by unfold Body.differOnlyAt; decide)⟩

/-! ### The reset step and the created-entity log -/

theorem EntityManager.mask_set (em : EntityManager) (e e' : Nat) (m : Nat) :
    EntityManager.mask { entityMasks := em.entityMasks.set e' m } e
      = if e = e' ∧ e' < em.entityMasks.length then m else em.mask e := by
  simp only [EntityManager.mask, List.getD_eq_getElem?_getD, List.getElem?_set]
  by_cases h : e' = e
  · subst h
    by_cases h2 : e' < em.entityMasks.length
    · simp [h2]
    · simp [h2, List.getElem?_eq_none (Nat.le_of_not_lt h2)]
  · have h' : ¬ e = e' := fun hh => h hh.symm
    simp [h, h']

theorem EntityManager.mask_of_length_le (em : EntityManager) (e : Nat)
    (h : em.entityMasks.length ≤ e) : em.mask e = EntityManager.Empty := by
  simp [EntityManager.mask, List.getD_eq_getElem?_getD, List.getElem?_eq_none h]

/-- After `DestroyEntity(e')` the slot `e'` reads as free and the other slots
are unchanged. -/
theorem EntityManager.mask_DestroyEntity (em : EntityManager) (e e' : Nat) :
    (em.DestroyEntity e').mask e = if e = e' then EntityManager.Empty else em.mask e := by
  unfold EntityManager.DestroyEntity
  rw [EntityManager.mask_set]
  by_cases h : e = e'
  · subst h
    by_cases h2 : e < em.entityMasks.length
    · simp [h2]
    · simp [h2, EntityManager.mask_of_length_le em e (Nat.le_of_not_lt h2)]
  · simp [h]

/-- A slot that is free stays free along the loop that destroys the created
entities, and the slot of every entry created after the last validated frame
is free at its end. -/
theorem destroyCreatedEntities_free (lastValidateFrame : Nat) :
    ∀ (log : List CreatedEntity) (em : EntityManager) (e : Nat),
      (em.mask e = EntityManager.Empty ∨
        ∃ c ∈ log, c.entity = e ∧ c.createdFrame > lastValidateFrame) →
      (destroyCreatedEntities lastValidateFrame log em).mask e = EntityManager.Empty := by
  intro log
  induction log with
  | nil =>
    intro em e h
    rcases h with h | ⟨c, hc, _⟩
    · exact h
    · cases hc
  | cons c log ih =>
    intro em e h
    unfold destroyCreatedEntities
    apply ih
    rcases h with h | ⟨c', hc', he, hf⟩
    · left
      split_ifs
      · rw [EntityManager.mask_DestroyEntity]; split_ifs <;> first | rfl | exact h
      · exact h
    · rcases List.mem_cons.mp hc' with hcc | hcl
      · subst hcc
        left
        rw [if_pos hf, EntityManager.mask_DestroyEntity, if_pos he.symm]
      · right
        exact ⟨c', hcl, he, hf⟩

/-- A free slot does not carry `Destroyed`, or `Destroyed` is the empty mask
and its removal changes nothing: either way the slot stays free. -/
theorem Engine.removeDestroyed_Empty (E : Engine) :
    (if (EntityManager.Empty &&& E.Destroyed == E.Destroyed) = true
      then EntityManager.Empty &&& (0xFFFFFFFF ^^^ E.Destroyed) else EntityManager.Empty)
      = EntityManager.Empty := by
  split_ifs with h
  · have h' : EntityManager.Empty &&& E.Destroyed = E.Destroyed := by simpa using h
    have h0 : E.Destroyed = 0 := by
      unfold EntityManager.Empty Engine.Destroyed at h'
      rw [Nat.one_and_eq_mod_two, Nat.shiftLeft_eq] at h'
      unfold Engine.Destroyed
      rw [Nat.shiftLeft_eq]
      omega
    rw [h0]
    decide
  · rfl

/-- A free slot stays free along the loop that removes the `Destroyed` flags. -/
theorem removeDestroyedFlags_free (E : Engine) :
    ∀ (n : Nat) (em : EntityManager) (e : Nat), em.mask e = EntityManager.Empty →
      (removeDestroyedFlags E.Destroyed n em).mask e = EntityManager.Empty := by
  intro n
  induction n with
  | zero => intro em e h; exact h
  | succ n ih =>
    intro em e h
    have h1 := ih em e h
    unfold removeDestroyedFlags
    dsimp only
    split_ifs with hc
    · unfold EntityManager.RemoveComponent
      rw [EntityManager.mask_set]
      split_ifs with he
      · obtain ⟨he1, _⟩ := he
        subst he1
        have := E.removeDestroyed_Empty
        unfold EntityManager.HasComponent at hc
        rw [h1] at hc ⊢
        rw [if_pos hc] at this
        exact this
      · exact h1
    · exact h1

/-- Under the log discipline, one replayed frame extends the log by entries
stamped with the tested frame, which it leaves as it is. -/
theorem Engine.simulateOneFrame_log (E : Engine) (hE : E.LogsSpawnsOnly) (g : GameManager) :
    (E.simulateOneFrame g).rollbackManager.testedFrame = g.rollbackManager.testedFrame ∧
    ∃ spawned : List Nat, (E.simulateOneFrame g).rollbackManager.createdEntities
      = g.rollbackManager.createdEntities
        ++ spawned.map (fun e => ⟨e, g.rollbackManager.testedFrame⟩) := by
  obtain ⟨⟨s1, h1⟩, _, _⟩ := hE g
  obtain ⟨_, ⟨s2, h2⟩, _⟩ := hE (g.withSimulated (E.bulletFixedUpdate g))
  obtain ⟨_, _, ⟨s3, h3⟩⟩ := hE ((g.withSimulated (E.bulletFixedUpdate g)).withSimulated
    (E.playerFixedUpdate (g.withSimulated (E.bulletFixedUpdate g))))
  refine ⟨rfl, s1 ++ s2 ++ s3, ?_⟩
  unfold Engine.simulateOneFrame
  simp only [GameManager.withSimulated] at h2 h3 ⊢
  rw [h3, h2, h1]
  simp [List.append_assoc]

/-- Under the log discipline, the replay loop of `SimulateToCurrentFrame`,
started at `frame` with a log whose entries were created after `L` and before
`frame`, ends with a log whose entries were created after `L` and before
`frame + count`. -/
theorem RollbackManager.simulateReplay_log (E : Engine) (hE : E.LogsSpawnsOnly) (L : Nat) :
    ∀ (count frame : Nat) (g g' : GameManager), L < frame →
      (∀ c ∈ g.rollbackManager.createdEntities, L < c.createdFrame ∧ c.createdFrame < frame) →
      RollbackManager.SimulateToCurrentFrame.replay E count frame g = .ok g' →
      ∀ c ∈ g'.rollbackManager.createdEntities,
        L < c.createdFrame ∧ c.createdFrame < frame + count := by
  intro count
  induction count with
  | zero =>
    intro frame g g' _ hlog h
    cases h
    exact hlog
  | succ count ih =>
    intro frame g g' hL hlog h
    unfold RollbackManager.SimulateToCurrentFrame.replay at h
    simp only [bind, Except.bind] at h
    have hk := RollbackManager.simulateCopyInputs_keeps E
      (fun x => x.rollbackManager.createdEntities = g.rollbackManager.createdEntities
        ∧ x.rollbackManager.testedFrame = frame)
      (fun _ _ hx => hx) frame MAX_PLAYER_NMB
      { g with rollbackManager := { g.rollbackManager with testedFrame := frame } } ⟨rfl, rfl⟩
    cases hc : RollbackManager.SimulateToCurrentFrame.copyInputs E frame MAX_PLAYER_NMB
        { g with rollbackManager := { g.rollbackManager with testedFrame := frame } } with
    | error e => rw [hc] at h; cases h
    | ok g2 =>
      rw [hc] at h hk
      dsimp only at h
      obtain ⟨hk1, hk2⟩ := hk
      simp only [finalState] at hk1 hk2
      obtain ⟨_, spawned, hs⟩ := E.simulateOneFrame_log hE g2
      have := ih (frame + 1) (E.simulateOneFrame g2) g' (by omega) (by
        intro c hcm
        rw [hs, hk1, hk2] at hcm
        rcases List.mem_append.mp hcm with h1 | h1
        · have := hlog c h1
          omega
        · obtain ⟨e, _, he⟩ := List.mem_map.mp h1
          subst he
          dsimp only
          omega) h
      intro c hcm
      have := this c hcm
      omega

/-- C9 (speculative spawns are rolled back): in the state in which the replay
of `SimulateToCurrentFrame` begins, every entity of the created-entity log with
`createdFrame > lastValidateFrame` no longer exists and the log is empty; the
replay starts from that state; and when the game rules write the log only by
the `push_back` of `SpawnBullet`, every entry of the log on return was created
at a frame replayed by this call, after the last validated frame and up to
the game manager's current frame. -/
theorem RollbackManager.SimulateToCurrentFrame_rolls_back_spawns (E : Engine)
    (g : GameManager) :
    (∀ c ∈ g.rollbackManager.createdEntities,
      c.createdFrame > g.rollbackManager.lastValidateFrame →
      (RollbackManager.SimulateToCurrentFrame.reset E g).entityManager.EntityExists c.entity
        = false) ∧
    (RollbackManager.SimulateToCurrentFrame.reset E g).rollbackManager.createdEntities = [] ∧
    RollbackManager.SimulateToCurrentFrame E g
      = (RollbackManager.SimulateToCurrentFrame.replay E
            (g.currentFrame - g.rollbackManager.lastValidateFrame)
            (g.rollbackManager.lastValidateFrame + 1)
            (RollbackManager.SimulateToCurrentFrame.reset E g) >>= fun g' =>
          .ok (RollbackManager.SimulateToCurrentFrame.copyToTransforms E
            g'.entityManager.GetEntitiesSize g')) ∧
    (E.LogsSpawnsOnly → ∀ g', RollbackManager.SimulateToCurrentFrame E g = .ok g' →
      ∀ c ∈ g'.rollbackManager.createdEntities,
        g.rollbackManager.lastValidateFrame < c.createdFrame ∧
        c.createdFrame ≤ g.currentFrame) := by
  refine ⟨?_, rfl, rfl, ?_⟩
  · intro c hc hf
    have h1 := destroyCreatedEntities_free g.rollbackManager.lastValidateFrame
      g.rollbackManager.createdEntities g.entityManager c.entity (Or.inr ⟨c, hc, rfl, hf⟩)
    have h2 := removeDestroyedFlags_free E
      (destroyCreatedEntities g.rollbackManager.lastValidateFrame
        g.rollbackManager.createdEntities g.entityManager).GetEntitiesSize _ _ h1
    unfold EntityManager.EntityExists
    simp only [RollbackManager.SimulateToCurrentFrame.reset, GameManager.GetLastValidateFrame]
    rw [h2]
    decide
  · intro hE g' h
    unfold RollbackManager.SimulateToCurrentFrame RollbackManager.SimulateToCurrentFrame.replayed
      at h
    simp only [bind, Except.bind, GameManager.GetCurrentFrame,
      GameManager.GetLastValidateFrame] at h
    cases hr : RollbackManager.SimulateToCurrentFrame.replay E
        (g.currentFrame - g.rollbackManager.lastValidateFrame)
        (g.rollbackManager.lastValidateFrame + 1)
        (RollbackManager.SimulateToCurrentFrame.reset E g) with
    | error e => rw [hr] at h; cases h
    | ok g1 =>
      rw [hr] at h
      dsimp only at h
      have hlog := RollbackManager.simulateReplay_log E hE g.rollbackManager.lastValidateFrame
        _ _ _ g1 (Nat.lt_succ_self _) (by intro c hc; cases hc) hr
      have hsame : ∀ (n : Nat) (x : GameManager),
          (RollbackManager.SimulateToCurrentFrame.copyToTransforms E n x).rollbackManager.createdEntities
            = x.rollbackManager.createdEntities := by
        intro n
        induction n with
        | zero => intro x; rfl
        | succ n ihn =>
          intro x
          unfold RollbackManager.SimulateToCurrentFrame.copyToTransforms
          dsimp only
          split_ifs
          · exact ihn x
          · exact ihn x
      cases h
      intro c hc
      rw [hsame] at hc
      have := hlog c hc
      omega

/-- The sample engine writes the log only by entries stamped with the tested frame. -/
theorem Engine.sample_logsSpawnsOnly : Engine.sample.LogsSpawnsOnly := by
  intro g
  refine ⟨⟨[], by simp [Engine.sample, GameManager.simulated]⟩, ?_, ⟨[], by simp [Engine.sample, GameManager.simulated]⟩⟩
  by_cases h : (g.rollbackManager.currentPlayerManager (g.playerEntityMap 0)).input &&& 16 = 16
  · exact ⟨[2], by simp [Engine.sample, GameManager.simulated, h]⟩
  · exact ⟨[], by simp [Engine.sample, GameManager.simulated, h]⟩

/-- C9 at the sample game: the bullet logged at frame 5 while frame 3 is the
last validated one is gone when the replay begins, and the log on return holds
only entries of the frames 4 to 7. -/
theorem RollbackManager.SimulateToCurrentFrame_rolls_back_spawns_witness :
    Engine.sample.LogsSpawnsOnly ∧
    (⟨2, 5⟩ : CreatedEntity) ∈ GameManager.sample.rollbackManager.createdEntities ∧
    (⟨2, 5⟩ : CreatedEntity).createdFrame > GameManager.sample.rollbackManager.lastValidateFrame ∧
    (RollbackManager.SimulateToCurrentFrame.reset Engine.sample
      GameManager.sample).entityManager.EntityExists 2 = false ∧
    RollbackManager.SimulateToCurrentFrame Engine.sample GameManager.sample
      = .ok (finalState (RollbackManager.SimulateToCurrentFrame Engine.sample
          GameManager.sample)) ∧
    ∀ c ∈ (finalState (RollbackManager.SimulateToCurrentFrame Engine.sample
        GameManager.sample)).rollbackManager.createdEntities,
      GameManager.sample.rollbackManager.lastValidateFrame < c.createdFrame ∧
      c.createdFrame ≤ GameManager.sample.currentFrame :=
  ⟨Engine.sample_logsSpawnsOnly, by decide, by decide,
    (RollbackManager.SimulateToCurrentFrame_rolls_back_spawns Engine.sample
      GameManager.sample).1 ⟨2, 5⟩ (by decide) (by decide),
    rfl,
    (RollbackManager.SimulateToCurrentFrame_rolls_back_spawns Engine.sample
      GameManager.sample).2.2.2 Engine.sample_logsSpawnsOnly _ rfl⟩

/-! ### The two replay loops -/

/-- With both players spawned, the player loops of the two replays are the same. -/
theorem RollbackManager.copyInputs_eq (E : Engine) (frame : Nat) :
    ∀ (n : Nat) (g : GameManager),
      (∀ p, p < n → g.GetEntityFromPlayerNumber p ≠ E.INVALID_ENTITY) →
      RollbackManager.ValidateFrame.copyInputs frame n g
        = RollbackManager.SimulateToCurrentFrame.copyInputs E frame n g := by
  intro n
  induction n with
  | zero => intro g _; rfl
  | succ n ih =>
    intro g hsp
    unfold RollbackManager.ValidateFrame.copyInputs RollbackManager.SimulateToCurrentFrame.copyInputs
    rw [ih g (fun p hp => hsp p (by omega))]
    have hk := RollbackManager.simulateCopyInputs_keeps E
      (fun x => x.playerEntityMap = g.playerEntityMap) (fun _ _ hx => hx) frame n g rfl
    simp only [bind, Except.bind]
    cases hc : RollbackManager.SimulateToCurrentFrame.copyInputs E frame n g with
    | error e => rfl
    | ok g1 =>
      rw [hc] at hk
      simp only [finalState] at hk
      dsimp only
      cases hi : atState g1 (g1.rollbackManager.GetInputAtFrame n frame) with
      | error e => rfl
      | ok playerInput =>
        dsimp only
        have : ¬ g1.GetEntityFromPlayerNumber n = E.INVALID_ENTITY := by
          have := hsp n (by omega)
          unfold GameManager.GetEntityFromPlayerNumber at this ⊢
          rw [hk]
          exact this
        rw [if_neg this]

/-- With both players spawned, the two replay loops are the same function of
the number of frames, the first frame and the state. -/
theorem RollbackManager.replay_eq (E : Engine) :
    ∀ (count frame : Nat) (g : GameManager),
      (∀ p, p < MAX_PLAYER_NMB → g.GetEntityFromPlayerNumber p ≠ E.INVALID_ENTITY) →
      RollbackManager.ValidateFrame.replay E count frame g
        = RollbackManager.SimulateToCurrentFrame.replay E count frame g := by
  intro count
  induction count with
  | zero => intro frame g _; rfl
  | succ count ih =>
    intro frame g hsp
    unfold RollbackManager.ValidateFrame.replay RollbackManager.SimulateToCurrentFrame.replay
    dsimp only
    have hci := RollbackManager.copyInputs_eq E frame MAX_PLAYER_NMB
      { g with rollbackManager := { g.rollbackManager with testedFrame := frame } } hsp
    rw [hci]
    have hk := RollbackManager.simulateCopyInputs_keeps E
      (fun x => x.playerEntityMap = g.playerEntityMap) (fun _ _ hx => hx) frame MAX_PLAYER_NMB
      { g with rollbackManager := { g.rollbackManager with testedFrame := frame } } rfl
    simp only [bind, Except.bind]
    cases hc : RollbackManager.SimulateToCurrentFrame.copyInputs E frame MAX_PLAYER_NMB
        { g with rollbackManager := { g.rollbackManager with testedFrame := frame } } with
    | error e => rfl
    | ok g2 =>
      rw [hc] at hk
      simp only [finalState] at hk
      dsimp only
      apply ih
      intro p hp
      have h1 : (E.simulateOneFrame g2).playerEntityMap = g2.playerEntityMap := rfl
      unfold GameManager.GetEntityFromPlayerNumber
      rw [h1, hk]
      exact hsp p hp

/-- The copy of the physics states to the transforms leaves the current
physics, player and bullet pools as they are. -/
theorem RollbackManager.copyToTransforms_currentPools (E : Engine) :
    ∀ (n : Nat) (g : GameManager),
      (RollbackManager.SimulateToCurrentFrame.copyToTransforms E n g).currentPools
        = g.currentPools := by
  intro n
  induction n with
  | zero => intro g; rfl
  | succ n ih =>
    intro g
    unfold RollbackManager.SimulateToCurrentFrame.copyToTransforms
    dsimp only
    split_ifs
    · exact ih g
    · exact ih g

/-- C10 (validation replays what prediction replays): in a state in which both
players are spawned, the inputs of both are received up to frame `n` and the
game manager's current frame is `n`, `ValidateFrame(n)` passes its input check
and runs its replay loop, that loop ends exactly as the one of
`SimulateToCurrentFrame` does (same state, or same fault in the same state),
and the current physics, player and bullet pools that `SimulateToCurrentFrame`
returns are those at the end of the replay loop of `ValidateFrame(n)`. -/
theorem RollbackManager.ValidateFrame_replay_eq_SimulateToCurrentFrame (E : Engine)
    (g : GameManager) (n : Nat)
    (hspawned : ∀ p, p < MAX_PLAYER_NMB → g.GetEntityFromPlayerNumber p ≠ E.INVALID_ENTITY)
    (hreceived : ∀ p, p < MAX_PLAYER_NMB → n ≤ g.rollbackManager.lastReceivedFrame p)
    (hcurrent : g.GetCurrentFrame = n) :
    RollbackManager.ValidateFrame E g n
      = (RollbackManager.ValidateFrame.replayed E g n >>= fun g' =>
          .ok (RollbackManager.ValidateFrame.commit E g' n)) ∧
    RollbackManager.ValidateFrame.replayed E g n
      = RollbackManager.SimulateToCurrentFrame.replayed E g ∧
    Except.map GameManager.currentPools (RollbackManager.SimulateToCurrentFrame E g)
      = Except.map GameManager.currentPools (RollbackManager.ValidateFrame.replayed E g n) := by
  have hrep : RollbackManager.ValidateFrame.replayed E g n
      = RollbackManager.SimulateToCurrentFrame.replayed E g := by
    unfold RollbackManager.ValidateFrame.replayed RollbackManager.SimulateToCurrentFrame.replayed
    dsimp only
    rw [hcurrent]
    exact RollbackManager.replay_eq E _ _ _ hspawned
  refine ⟨?_, hrep, ?_⟩
  · have hm : ¬ g.rollbackManager.inputsMissing n MAX_PLAYER_NMB = true := by
      rw [RollbackManager.inputsMissing_iff]
      rintro ⟨p, hp, hlt⟩
      have := hreceived p hp
      omega
    unfold RollbackManager.ValidateFrame
    rw [if_neg hm]
  · rw [hrep]
    unfold RollbackManager.SimulateToCurrentFrame
    simp only [bind, Except.bind]
    cases hc : RollbackManager.SimulateToCurrentFrame.replayed E g with
    | error e => rfl
    | ok g1 =>
      simp only [Except.map]
      rw [RollbackManager.copyToTransforms_currentPools]

/-- C10 at the sample game with the inputs received up to frame 7, the current
frame of the game manager. -/
theorem RollbackManager.ValidateFrame_replay_eq_SimulateToCurrentFrame_witness :
    (∀ p, p < MAX_PLAYER_NMB →
      GameManager.sampleReceived.GetEntityFromPlayerNumber p ≠ Engine.sample.INVALID_ENTITY) ∧
    (∀ p, p < MAX_PLAYER_NMB → 7 ≤ GameManager.sampleReceived.rollbackManager.lastReceivedFrame p) ∧
    GameManager.sampleReceived.GetCurrentFrame = 7 ∧
    RollbackManager.ValidateFrame Engine.sample GameManager.sampleReceived 7
      = (RollbackManager.ValidateFrame.replayed Engine.sample GameManager.sampleReceived 7
          >>= fun g' => .ok (RollbackManager.ValidateFrame.commit Engine.sample g' 7)) ∧
    RollbackManager.ValidateFrame.replayed Engine.sample GameManager.sampleReceived 7
      = RollbackManager.SimulateToCurrentFrame.replayed Engine.sample
          GameManager.sampleReceived ∧
    Except.map GameManager.currentPools
        (RollbackManager.SimulateToCurrentFrame Engine.sample GameManager.sampleReceived)
      = Except.map GameManager.currentPools
        (RollbackManager.ValidateFrame.replayed Engine.sample GameManager.sampleReceived 7) :=
  ⟨by decide, by decide, rfl,
    RollbackManager.ValidateFrame_replay_eq_SimulateToCurrentFrame Engine.sample
      GameManager.sampleReceived 7 (by decide) (by decide) rfl⟩

/-! ### The commit of `ValidateFrame` -/

/-- The loop that destroys the flagged entities, run over the entities below
`n`, frees exactly the slots below `n` that carried the flag. -/
theorem destroyFlaggedEntities_mask (destroyed : Nat) :
    ∀ (n : Nat) (em : EntityManager) (e : Nat),
      (destroyFlaggedEntities destroyed n em).mask e
        = if e < n ∧ em.HasComponent e destroyed = true then EntityManager.Empty
          else em.mask e := by
  intro n
  induction n with
  | zero => intro em e; simp [destroyFlaggedEntities]
  | succ n ih =>
    intro em e
    unfold destroyFlaggedEntities
    dsimp only
    have hn : (destroyFlaggedEntities destroyed n em).HasComponent n destroyed
        = em.HasComponent n destroyed := by
      unfold EntityManager.HasComponent
      rw [ih em n]
      simp
    rw [hn]
    by_cases hc : em.HasComponent n destroyed = true
    · rw [if_pos hc, EntityManager.mask_DestroyEntity, ih em e]
      by_cases hen : e = n
      · subst hen
        simp [hc]
      · simp only [hen, if_false]
        have : (e < n + 1 ∧ em.HasComponent e destroyed = true)
            ↔ (e < n ∧ em.HasComponent e destroyed = true) := by
          constructor
          · rintro ⟨h1, h2⟩; exact ⟨by omega, h2⟩
          · rintro ⟨h1, h2⟩; exact ⟨by omega, h2⟩
        simp only [this]
    · rw [if_neg hc, ih em e]
      have : (e < n + 1 ∧ em.HasComponent e destroyed = true)
          ↔ (e < n ∧ em.HasComponent e destroyed = true) := by
        constructor
        · rintro ⟨h1, h2⟩
          refine ⟨?_, h2⟩
          by_contra hlt
          have : e = n := by omega
          subst this
          exact hc h2
        · rintro ⟨h1, h2⟩; exact ⟨by omega, h2⟩
      simp only [this]

/-- The outcome of `SimulateToCurrentFrame`, and so the current physics, player
and bullet pools it produces, is the same from two states that differ only in
the previous contents of the current physics, player and bullet pools, for
any game rules: the reset step overwrites the three pools. -/
theorem RollbackManager.SimulateToCurrentFrame_overwrites_pools (E : Engine) (g : GameManager)
    (physics : PhysicsManager) (players : Pool PlayerCharacter) (bullets : Pool Bullet) :
    RollbackManager.SimulateToCurrentFrame E
        { g with rollbackManager := { g.rollbackManager with
            currentPhysicsManager := physics
            currentPlayerManager := players
            currentBulletManager := bullets } }
      = RollbackManager.SimulateToCurrentFrame E g ∧
    Except.map GameManager.currentPools
        (RollbackManager.SimulateToCurrentFrame E
          { g with rollbackManager := { g.rollbackManager with
              currentPhysicsManager := physics
              currentPlayerManager := players
              currentBulletManager := bullets } })
      = Except.map GameManager.currentPools (RollbackManager.SimulateToCurrentFrame E g) := by
  have h : RollbackManager.SimulateToCurrentFrame E
        { g with rollbackManager := { g.rollbackManager with
            currentPhysicsManager := physics
            currentPlayerManager := players
            currentBulletManager := bullets } }
      = RollbackManager.SimulateToCurrentFrame E g := by
    unfold RollbackManager.SimulateToCurrentFrame RollbackManager.SimulateToCurrentFrame.replayed
    rfl
  exact ⟨h, by rw [h]⟩

/-! ### The rigidbody -/

namespace physics

/-- No setter other than `SetMass` writes the inverse mass. -/
theorem Rigidbody.Setter.apply_invMass (b : Rigidbody) (call : Rigidbody.Setter) :
    (Rigidbody.Setter.apply b call).invMass = b.invMass := by
  cases call <;> simp only [Rigidbody.Setter.apply, Rigidbody.SetTransform,
    Rigidbody.SetIsTrigger, Rigidbody.SetPosition, Rigidbody.SetRotation,
    Rigidbody.SetGravityAcceleration, Rigidbody.ApplyForce, Rigidbody.SetForce,
    Rigidbody.SetVelocity, Rigidbody.SetTakesGravity, Rigidbody.SetStaticFriction,
    Rigidbody.SetDynamicFriction, Rigidbody.SetRestitution, Rigidbody.SetDragFactor,
    Rigidbody.SetLayer, Rigidbody.SetBodyType, Rigidbody.TakesGravity] <;>
    (repeat' split) <;> rfl

/-- The inverse mass after a sequence of setter calls is that of the start. -/
theorem Rigidbody.Setter.foldl_invMass (calls : List Rigidbody.Setter) (b : Rigidbody) :
    (calls.foldl Rigidbody.Setter.apply b).invMass = b.invMass := by
  induction calls generalizing b with
  | nil => rfl
  | cons call rest ih =>
    rw [List.foldl_cons, ih, Rigidbody.Setter.apply_invMass]

/-- Claim C15, as the code has it: the body type and the mass are independent.
The default-constructed body is `Static` with `InvMass() == 1`, and in every
state reached from it through the public setters other than `SetMass` the
inverse mass is still 1, whatever the body type; `SetBodyType` then gives the
body any type, `Static` included, and leaves the inverse mass at 1. -/
theorem Rigidbody.afterCalls_InvMass (calls : List Rigidbody.Setter) (bodyType : BodyType) :
    Rigidbody.new.IsStatic = true ∧ Rigidbody.new.InvMass = 1 ∧
    (Rigidbody.afterCalls calls).InvMass = 1 ∧
    ((Rigidbody.afterCalls calls).SetBodyType bodyType).GetBodyType = bodyType ∧
    ((Rigidbody.afterCalls calls).SetBodyType bodyType).InvMass = 1 := by
  have h : (Rigidbody.afterCalls calls).invMass = 1 :=
    Rigidbody.Setter.foldl_invMass calls Rigidbody.new
  exact ⟨rfl, rfl, h, rfl, h⟩

/-- Claim C15, as stated, fails in the state the default constructor builds, which
is reached with no setter call: the body is `Static` and `InvMass()` is 1. -/
theorem Rigidbody.static_massless_counterexample :
    ¬ (∀ calls : List Rigidbody.Setter,
        (Rigidbody.afterCalls calls).GetBodyType = BodyType.Static →
          (Rigidbody.afterCalls calls).InvMass = 0) := by
  intro h
  have h0 : (Rigidbody.afterCalls []).InvMass = 0 := h [] rfl
  have h1 : (Rigidbody.afterCalls []).InvMass = 1 := rfl
  rw [h1] at h0
  exact one_ne_zero h0

/-- Claim C16: `SetGravityAcceleration(g)` leaves the whole body unchanged when
`TakesGravity()` is false and otherwise sets the gravity acceleration to `g`,
changing no other field; `PhysicsManager::SetRigidbody` stores a body that does
not take gravity as it is, gravity acceleration included, and writes no other
body. -/
theorem Rigidbody.SetGravityAcceleration_frame (b : Rigidbody) (g : Vec2f)
    (pm : PhysicsManager) (entity : Nat) :
    (b.TakesGravity = false → b.SetGravityAcceleration g = b) ∧
    (b.TakesGravity = true →
      b.SetGravityAcceleration g = { b with gravityAcceleration := g } ∧
      (b.SetGravityAcceleration g).GravityAcceleration = g) ∧
    (b.TakesGravity = false → entity < pm.entityManager.GetEntitiesSize →
      ∃ pm', pm.SetRigidbody entity b = .ok pm' ∧ pm'.GetRigidbody entity = b ∧
        (pm'.GetRigidbody entity).GravityAcceleration = b.GravityAcceleration ∧
        ∀ e, e ≠ entity → pm'.GetRigidbody e = pm.GetRigidbody e) := by
  refine ⟨?_, ?_, ?_⟩
  · intro h
    simp [Rigidbody.SetGravityAcceleration, h]
  · intro h
    simp [Rigidbody.SetGravityAcceleration, Rigidbody.GravityAcceleration, h]
  · intro h he
    refine ⟨pm.setRigidbodyAt entity b, ?_, ?_, ?_, ?_⟩
    · simp [PhysicsManager.SetRigidbody, h, he]
    · simp [PhysicsManager.GetRigidbody, PhysicsManager.setRigidbodyAt]
    · simp [PhysicsManager.GetRigidbody, PhysicsManager.setRigidbodyAt]
    · intro e hne
      simp [PhysicsManager.GetRigidbody, PhysicsManager.setRigidbodyAt, hne]

/-- Claim C16 on sample bodies: one that takes no gravity, stored at entity 3 of the
sample world, and the default-constructed one, which takes gravity. -/
theorem Rigidbody.SetGravityAcceleration_frame_witness :
    ((Rigidbody.new.SetTakesGravity false).TakesGravity = false ∧
      (Rigidbody.new.SetTakesGravity false).SetGravityAcceleration ⟨0, -10⟩ =
        Rigidbody.new.SetTakesGravity false ∧
      3 < PhysicsManager.sample.entityManager.GetEntitiesSize ∧
      ∃ pm', PhysicsManager.sample.SetRigidbody 3 (Rigidbody.new.SetTakesGravity false) = .ok pm' ∧
        pm'.GetRigidbody 3 = Rigidbody.new.SetTakesGravity false ∧
        (pm'.GetRigidbody 3).GravityAcceleration =
          (Rigidbody.new.SetTakesGravity false).GravityAcceleration ∧
        ∀ e, e ≠ 3 → pm'.GetRigidbody e = PhysicsManager.sample.GetRigidbody e) ∧
    (Rigidbody.new.TakesGravity = true ∧
      Rigidbody.new.SetGravityAcceleration ⟨0, -10⟩ =
        { Rigidbody.new with gravityAcceleration := ⟨0, -10⟩ } ∧
      (Rigidbody.new.SetGravityAcceleration ⟨0, -10⟩).GravityAcceleration = ⟨0, -10⟩) :=
  ⟨⟨rfl,
    (Rigidbody.SetGravityAcceleration_frame (Rigidbody.new.SetTakesGravity false) ⟨0, -10⟩
      PhysicsManager.sample 3).1 rfl, by decide,
    (Rigidbody.SetGravityAcceleration_frame (Rigidbody.new.SetTakesGravity false) ⟨0, -10⟩
      PhysicsManager.sample 3).2.2 rfl (by decide)⟩,
   ⟨rfl, (Rigidbody.SetGravityAcceleration_frame Rigidbody.new ⟨0, -10⟩
      PhysicsManager.sample 3).2.1 rfl⟩⟩

end physics

/-! ### The registry -/

/-- The slot found by `firstFree` lies in the list, counted from `i`. -/
theorem EntityManager.firstFree_bounds (masks : List Nat) (i e : Nat)
    (h : EntityManager.firstFree masks i = some e) : i ≤ e ∧ e < i + masks.length := by
  induction masks generalizing i with
  | nil => simp [EntityManager.firstFree] at h
  | cons m rest ih =>
    unfold EntityManager.firstFree at h
    split_ifs at h with hm
    · have := Option.some.inj h
      simp only [List.length_cons]
      omega
    · have := ih (i + 1) h
      simp only [List.length_cons]
      omega

/-- The entity that `CreateEntity` returns has the mask 0 afterwards. -/
theorem EntityManager.CreateEntity_mask (em : EntityManager) (growth : Nat) :
    (em.CreateEntity growth).2.mask (em.CreateEntity growth).1 = 0 := by
  unfold EntityManager.CreateEntity
  cases hf : EntityManager.firstFree em.entityMasks 0 with
  | some e =>
    have hb := EntityManager.firstFree_bounds _ _ _ hf
    simp only [EntityManager.mask]
    rw [List.getD_eq_getElem _ _ (by rw [List.length_set]; omega)]
    simp
  | none =>
    simp only [EntityManager.mask]
    rw [List.getD_eq_getElem _ _ (by
      rw [List.length_set, List.length_append, List.length_replicate]; omega)]
    exact List.getElem_set_self _

/-- On the registry as the spec describes it, the entity `e` returned by
`CreateEntity` satisfies `EntityExists(e)`, and `HasComponent(e, Empty)` is
false, since that `CreateEntity` sets the mask to 0 and `Empty` is the bit of
value 1.  The test `TEST(Entity, CreateEntity)` of the repository expects
`HasComponent(e, Empty)` to be true; `engine/entity.cpp`, which would decide, is
not among the sources. -/
theorem EntityManager.CreateEntity_not_Empty (em : EntityManager) (growth : Nat) :
    (em.CreateEntity growth).2.EntityExists (em.CreateEntity growth).1 = true ∧
    (em.CreateEntity growth).2.HasComponent (em.CreateEntity growth).1
      EntityManager.Empty = false := by
  have h := EntityManager.CreateEntity_mask em growth
  constructor
  · simp [EntityManager.EntityExists, h, EntityManager.Empty]
  · simp [EntityManager.HasComponent, h, EntityManager.Empty]

/-! ### The fixed step of the physics -/

namespace physics

namespace PhysicsManager

/-- The loop of `ApplyGravity` writes the rigidbody pool only. -/
theorem ApplyGravity_loop_frame (C : Collaborators) (n : Nat) (pm : PhysicsManager) :
    (ApplyGravity.loop C n pm).entityManager = pm.entityManager ∧
    (ApplyGravity.loop C n pm).layerCollisionMatrix = pm.layerCollisionMatrix := by
  induction n with
  | zero => exact ⟨rfl, rfl⟩
  | succ n ih =>
    simp only [ApplyGravity.loop]
    split_ifs <;> exact ih

/-- The loop of `ApplyGravity` in closed form: the dynamic bodies below `n` with a
Rigidbody component and a mass have received the force of their gravity. -/
theorem ApplyGravity_loop_rigidbody (C : Collaborators) (n : Nat) (pm : PhysicsManager)
    (e : Nat) :
    (ApplyGravity.loop C n pm).rigidbodyManager e =
      if e < n ∧ pm.entityManager.HasComponent e C.Rigidbody = true ∧
          (pm.rigidbodyManager e).IsDynamic = true ∧ (pm.rigidbodyManager e).InvMass ≠ 0 then
        (pm.rigidbodyManager e).ApplyForce
          ((pm.rigidbodyManager e).GravityAcceleration * (pm.rigidbodyManager e).Mass)
      else pm.rigidbodyManager e := by
  induction n generalizing e with
  | zero => simp [ApplyGravity.loop]
  | succ n ih =>
    have hem := (ApplyGravity_loop_frame C n pm).1
    have hn : (ApplyGravity.loop C n pm).rigidbodyManager n = pm.rigidbodyManager n := by
      have := ih n
      simpa using this
    by_cases hen : e = n
    · subst hen
      simp only [ApplyGravity.loop, hem, GetRigidbody, hn, setRigidbodyAt]
      by_cases h1 : pm.entityManager.HasComponent e C.Rigidbody = true
      · by_cases h2 : (pm.rigidbodyManager e).IsDynamic = true
        · by_cases h3 : (pm.rigidbodyManager e).InvMass = 0
          · simp [h1, h2, h3, hn]
          · simp [h1, h2, h3]
        · simp [h1, h2, hn]
      · simp [h1, hn]
    · have hstep : (ApplyGravity.loop C (n + 1) pm).rigidbodyManager e =
          (ApplyGravity.loop C n pm).rigidbodyManager e := by
        simp only [ApplyGravity.loop, setRigidbodyAt]
        split_ifs <;> simp [hen]
      rw [hstep, ih e]
      refine if_congr ?_ rfl rfl
      constructor <;> (intro h; exact ⟨by omega, h.2⟩)

/-- The loop of `MoveBodies` writes the rigidbody pool only. -/
theorem MoveBodies_loop_frame (C : Collaborators) (dt : ℚ) (n : Nat) (pm : PhysicsManager) :
    (MoveBodies.loop C dt n pm).entityManager = pm.entityManager := by
  induction n with
  | zero => rfl
  | succ n ih =>
    simp only [MoveBodies.loop]
    split_ifs <;> exact ih

/-- The loop of `MoveBodies` in closed form: the bodies below `n` with a Rigidbody
component that are not static have been integrated and their force reset. -/
theorem MoveBodies_loop_rigidbody (C : Collaborators) (dt : ℚ) (n : Nat) (pm : PhysicsManager)
    (e : Nat) :
    (MoveBodies.loop C dt n pm).rigidbodyManager e =
      if e < n ∧ pm.entityManager.HasComponent e C.Rigidbody = true ∧
          (pm.rigidbodyManager e).IsStatic = false then
        (((pm.rigidbodyManager e).SetVelocity
            ((pm.rigidbodyManager e).Velocity * (pm.rigidbodyManager e).DragFactor +
              (pm.rigidbodyManager e).Force * (pm.rigidbodyManager e).InvMass * dt)).SetPosition
          ((pm.rigidbodyManager e).Position +
            ((pm.rigidbodyManager e).Velocity * (pm.rigidbodyManager e).DragFactor +
              (pm.rigidbodyManager e).Force * (pm.rigidbodyManager e).InvMass * dt) * dt)).SetForce
          ⟨0, 0⟩
      else pm.rigidbodyManager e := by
  induction n generalizing e with
  | zero => simp [MoveBodies.loop]
  | succ n ih =>
    have hem := MoveBodies_loop_frame C dt n pm
    have hn : (MoveBodies.loop C dt n pm).rigidbodyManager n = pm.rigidbodyManager n := by
      have := ih n
      simpa using this
    by_cases hen : e = n
    · subst hen
      simp only [MoveBodies.loop, hem, GetRigidbody, hn, setRigidbodyAt]
      by_cases h1 : pm.entityManager.HasComponent e C.Rigidbody = true
      · by_cases h2 : (pm.rigidbodyManager e).IsStatic = true
        · simp [h1, h2, hn]
        · simp [h1, h2, Rigidbody.SetVelocity, Rigidbody.SetPosition, Rigidbody.Position,
            Rigidbody.Velocity]
      · simp [h1, hn]
    · have hstep : (MoveBodies.loop C dt (n + 1) pm).rigidbodyManager e =
          (MoveBodies.loop C dt n pm).rigidbodyManager e := by
        simp only [MoveBodies.loop, setRigidbodyAt]
        split_ifs <;> simp [hen]
      rw [hstep, ih e]
      refine if_congr ?_ rfl rfl
      constructor <;> (intro h; exact ⟨by omega, h.2⟩)

end PhysicsManager

end physics

namespace physics

namespace PhysicsManager

/-- Claim C14, amended to the bodies that `MoveBodies` does not skip: after
`FixedUpdate`, the force accumulator of every entity of the registry that has a
Rigidbody component and whose body is not `Static` is `(0, 0)`, whatever force
it had before the step. -/
theorem FixedUpdate_resets_force (C : Collaborators) (dt : ℚ) (pm : PhysicsManager) (e : Nat)
    (he : e < (FixedUpdate C dt pm).entityManager.GetEntitiesSize)
    (hrb : (FixedUpdate C dt pm).entityManager.HasComponent e C.Rigidbody = true)
    (hns : ((FixedUpdate C dt pm).GetRigidbody e).IsStatic = false) :
    ((FixedUpdate C dt pm).GetRigidbody e).Force = ⟨0, 0⟩ := by
  unfold FixedUpdate MoveBodies at he hrb hns ⊢
  generalize ResolveCollisions C dt (ApplyGravity C pm) = pm2 at he hrb hns ⊢
  rw [MoveBodies_loop_frame] at he hrb
  simp only [GetRigidbody] at hns ⊢
  rw [MoveBodies_loop_rigidbody] at hns ⊢
  by_cases hs : (pm2.rigidbodyManager e).IsStatic = false
  · rw [if_pos ⟨he, hrb, hs⟩]
    rfl
  · rw [if_neg (fun h => hs h.2.2)] at hns
    exact absurd hns hs

/-- Claim C14 on the sample world: entity 3 is dynamic and has a force before the
step. -/
theorem FixedUpdate_resets_force_witness :
    (PhysicsManager.sample.GetRigidbody 3).Force = ⟨1, 0⟩ ∧
    3 < (FixedUpdate Collaborators.sample (1 / 50) PhysicsManager.sample).entityManager.GetEntitiesSize ∧
    (FixedUpdate Collaborators.sample (1 / 50) PhysicsManager.sample).entityManager.HasComponent 3
      Collaborators.sample.Rigidbody = true ∧
    ((FixedUpdate Collaborators.sample (1 / 50) PhysicsManager.sample).GetRigidbody 3).IsStatic = false ∧
    ((FixedUpdate Collaborators.sample (1 / 50) PhysicsManager.sample).GetRigidbody 3).Force = ⟨0, 0⟩ :=
  ⟨rfl, by decide, by decide, rfl,
    FixedUpdate_resets_force Collaborators.sample (1 / 50) PhysicsManager.sample 3
      (by decide) (by decide) rfl⟩

/-- Claim C14, as stated, fails for a static body: entity 4 of the sample world has
a Rigidbody component and a static body on which the force `(1, 0)` was set;
after `FixedUpdate` its force accumulator is still `(1, 0)`. -/
theorem FixedUpdate_static_force_counterexample :
    (FixedUpdate Collaborators.sample (1 / 50) PhysicsManager.sample).entityManager.HasComponent 4
      Collaborators.sample.Rigidbody = true ∧
    ((FixedUpdate Collaborators.sample (1 / 50) PhysicsManager.sample).GetRigidbody 4).Force = ⟨1, 0⟩ ∧
    ((FixedUpdate Collaborators.sample (1 / 50) PhysicsManager.sample).GetRigidbody 4).Force ≠ ⟨0, 0⟩ := by
  refine ⟨by decide, rfl, ?_⟩
  have h : ((FixedUpdate Collaborators.sample (1 / 50) PhysicsManager.sample).GetRigidbody 4).Force =
      ⟨1, 0⟩ := rfl
  rw [h]
  decide

/-- A pair that the layer matrix filters leaves the state of the loop as it is. -/
theorem ResolveCollisions.step_filtered (C : Collaborators) (dt : ℚ) (s : ResolveState)
    (pair : Nat × Nat)
    (h : s.pm.layerCollisionMatrix (s.pm.GetRigidbody pair.1).GetLayer
      (s.pm.GetRigidbody pair.2).GetLayer = false) :
    ResolveCollisions.step C dt s pair = s := by
  unfold ResolveCollisions.step
  dsimp only
  split
  · simp [h]
  · rfl

/-- When the layer matrix filters every pair of a list, the loop over the list
leaves its state as it is. -/
theorem ResolveCollisions.foldl_filtered (C : Collaborators) (dt : ℚ) (pairs : List (Nat × Nat))
    (s : ResolveState)
    (h : ∀ pair ∈ pairs, s.pm.layerCollisionMatrix (s.pm.GetRigidbody pair.1).GetLayer
      (s.pm.GetRigidbody pair.2).GetLayer = false) :
    pairs.foldl (ResolveCollisions.step C dt) s = s := by
  induction pairs with
  | nil => rfl
  | cons pair rest ih =>
    rw [List.foldl_cons, ResolveCollisions.step_filtered C dt s pair (h pair (by simp))]
    exact ih (fun p hp => h p (by simp [hp]))

/-- The method `ApplyGravity` leaves the layer of every body as it is. -/
theorem ApplyGravity_GetLayer (C : Collaborators) (pm : PhysicsManager) (e : Nat) :
    ((ApplyGravity C pm).GetRigidbody e).GetLayer = (pm.GetRigidbody e).GetLayer := by
  unfold ApplyGravity GetRigidbody
  rw [ApplyGravity_loop_rigidbody]
  split_ifs <;> rfl

/-- Claim C17: in an iteration of `ResolveCollisions` on a pair whose two
rigidbody layers have `HasCollision` false, nothing happens: no narrow-phase
test, no solver call and no callback are added to the calls made, both lists
and the manager are as before.  When this holds of every candidate pair of a
fixed step, the step makes no call at all (no `OnCollision`, no `OnTrigger`, no
solver), `ResolveCollisions` leaves the manager unchanged and the step is
`ApplyGravity` followed by `MoveBodies`. -/
theorem ResolveCollisions_layer_filter (C : Collaborators) (dt : ℚ) (pm : PhysicsManager) :
    (∀ (s : ResolveState) (pair : Nat × Nat),
      s.pm.layerCollisionMatrix (s.pm.GetRigidbody pair.1).GetLayer
        (s.pm.GetRigidbody pair.2).GetLayer = false →
      ResolveCollisions.step C dt s pair = s) ∧
    ((∀ pair ∈ C.collisionPairs (ApplyGravity C pm),
      pm.layerCollisionMatrix (pm.GetRigidbody pair.1).GetLayer
        (pm.GetRigidbody pair.2).GetLayer = false) →
      FixedUpdate.trace C dt pm = [] ∧
      (ResolveCollisions.run C dt (ApplyGravity C pm)).collisions = [] ∧
      (ResolveCollisions.run C dt (ApplyGravity C pm)).triggers = [] ∧
      ResolveCollisions C dt (ApplyGravity C pm) = ApplyGravity C pm ∧
      FixedUpdate C dt pm = MoveBodies C dt (ApplyGravity C pm)) := by
  refine ⟨fun s pair h => ResolveCollisions.step_filtered C dt s pair h, fun h => ?_⟩
  have hrun : ResolveCollisions.run C dt (ApplyGravity C pm) = ⟨ApplyGravity C pm, [], [], []⟩ := by
    unfold ResolveCollisions.run
    apply ResolveCollisions.foldl_filtered
    intro pair hp
    show (ApplyGravity C pm).layerCollisionMatrix _ _ = false
    rw [ApplyGravity_GetLayer, ApplyGravity_GetLayer]
    have hm : (ApplyGravity C pm).layerCollisionMatrix = pm.layerCollisionMatrix :=
      (ApplyGravity_loop_frame C _ pm).2
    rw [hm]
    exact h pair hp
  unfold FixedUpdate.trace FixedUpdate ResolveCollisions
  rw [hrun]
  exact ⟨rfl, rfl, rfl, rfl, rfl⟩

/-- Claim C17 on the sample world in which every body is on the layer `Wall`: the
three candidate pairs are filtered. -/
theorem ResolveCollisions_layer_filter_witness :
    (PhysicsManager.sampleWalls.layerCollisionMatrix (PhysicsManager.sampleWalls.GetRigidbody 0).GetLayer
        (PhysicsManager.sampleWalls.GetRigidbody 1).GetLayer = false ∧
      ResolveCollisions.step Collaborators.sample (1 / 50) ⟨PhysicsManager.sampleWalls, [], [], []⟩ (0, 1) =
        ⟨PhysicsManager.sampleWalls, [], [], []⟩) ∧
    ((∀ pair ∈ Collaborators.sample.collisionPairs
        (ApplyGravity Collaborators.sample PhysicsManager.sampleWalls),
      PhysicsManager.sampleWalls.layerCollisionMatrix
        (PhysicsManager.sampleWalls.GetRigidbody pair.1).GetLayer
        (PhysicsManager.sampleWalls.GetRigidbody pair.2).GetLayer = false) ∧
      FixedUpdate.trace Collaborators.sample (1 / 50) PhysicsManager.sampleWalls = [] ∧
      (ResolveCollisions.run Collaborators.sample (1 / 50)
        (ApplyGravity Collaborators.sample PhysicsManager.sampleWalls)).collisions = [] ∧
      (ResolveCollisions.run Collaborators.sample (1 / 50)
        (ApplyGravity Collaborators.sample PhysicsManager.sampleWalls)).triggers = [] ∧
      ResolveCollisions Collaborators.sample (1 / 50)
        (ApplyGravity Collaborators.sample PhysicsManager.sampleWalls) =
          ApplyGravity Collaborators.sample PhysicsManager.sampleWalls ∧
      FixedUpdate Collaborators.sample (1 / 50) PhysicsManager.sampleWalls =
        MoveBodies Collaborators.sample (1 / 50)
          (ApplyGravity Collaborators.sample PhysicsManager.sampleWalls)) :=
  ⟨⟨rfl, (ResolveCollisions_layer_filter Collaborators.sample (1 / 50) PhysicsManager.sampleWalls).1
      ⟨PhysicsManager.sampleWalls, [], [], []⟩ (0, 1) rfl⟩,
   ⟨by decide, (ResolveCollisions_layer_filter Collaborators.sample (1 / 50)
      PhysicsManager.sampleWalls).2 (by decide)⟩⟩

end PhysicsManager

end physics

namespace physics

namespace PhysicsManager

/-- A property of the manager that every callback keeps is kept by `Execute`. -/
theorem Execute_inv (P : PhysicsManager → Prop) (tag : Nat → Nat → Nat → Event) (a b : Nat)
    (callbacks : List Callback) (h : ∀ cb ∈ callbacks, ∀ pm, P pm → P (cb a b pm)) (i : Nat)
    (s : PhysicsManager × List Event) (hs : P s.1) :
    P (Execute tag a b i callbacks s).1 := by
  induction callbacks generalizing i s with
  | nil => exact hs
  | cons cb rest ih =>
    unfold Execute
    exact ih (fun cb' hcb => h cb' (by simp [hcb])) (i + 1) _ (h cb (by simp) s.1 hs)

/-- The calls that `Execute` records are calls of callbacks. -/
theorem Execute_trace (Q : Event → Prop) (tag : Nat → Nat → Nat → Event)
    (hQ : ∀ i a b, Q (tag i a b)) (a b : Nat) (callbacks : List Callback) (i : Nat)
    (s : PhysicsManager × List Event) (hs : ∀ ev ∈ s.2, Q ev) :
    ∀ ev ∈ (Execute tag a b i callbacks s).2, Q ev := by
  induction callbacks generalizing i s with
  | nil => exact hs
  | cons cb rest ih =>
    unfold Execute
    apply ih
    intro ev hev
    rcases List.mem_append.1 hev with h | h
    · exact hs ev h
    · rw [List.mem_singleton.1 h]
      exact hQ i a b

/-- A property of the manager that every callback keeps, when called with the
entities of one of the collisions, is kept by `SendCollisionCallbacks`. -/
theorem SendCollisionCallbacks_inv (P : PhysicsManager → Prop) (tag : Nat → Nat → Nat → Event)
    (action : List Callback) (collisions : List Collision)
    (h : ∀ c ∈ collisions, ∀ cb ∈ action, ∀ pm, P pm → P (cb c.bodyA c.bodyB pm))
    (s : PhysicsManager × List Event) (hs : P s.1) :
    P (SendCollisionCallbacks tag action collisions s).1 := by
  induction collisions generalizing s with
  | nil => exact hs
  | cons c rest ih =>
    unfold SendCollisionCallbacks
    exact ih (fun c' hc => h c' (by simp [hc])) _
      (Execute_inv P tag c.bodyA c.bodyB action (h c (by simp)) 0 s hs)

/-- The calls that `SendCollisionCallbacks` records are calls of callbacks. -/
theorem SendCollisionCallbacks_trace (Q : Event → Prop) (tag : Nat → Nat → Nat → Event)
    (hQ : ∀ i a b, Q (tag i a b)) (action : List Callback) (collisions : List Collision)
    (s : PhysicsManager × List Event) (hs : ∀ ev ∈ s.2, Q ev) :
    ∀ ev ∈ (SendCollisionCallbacks tag action collisions s).2, Q ev := by
  induction collisions generalizing s with
  | nil => exact hs
  | cons c rest ih =>
    unfold SendCollisionCallbacks
    exact ih _ (Execute_trace Q tag hQ c.bodyA c.bodyB action 0 s hs)

/-- The end of an iteration keeps a property of the manager that the solvers keep
on its collisions and the callbacks keep on the entities of its two lists. -/
theorem ResolveCollisions.dispatch_inv (P : PhysicsManager → Prop) (C : Collaborators) (dt : ℚ)
    (s : ResolveState)
    (hsolve : ∀ pm, P pm → P (SolveCollisions C s.collisions dt pm))
    (ht : ∀ c ∈ s.triggers, ∀ cb ∈ C.onTriggerAction, ∀ pm, P pm → P (cb c.bodyA c.bodyB pm))
    (hc : ∀ c ∈ s.collisions, ∀ cb ∈ C.onCollisionAction, ∀ pm, P pm → P (cb c.bodyA c.bodyB pm))
    (hs : P s.pm) : P (ResolveCollisions.dispatch C dt s).pm := by
  unfold ResolveCollisions.dispatch
  dsimp only
  apply SendCollisionCallbacks_inv P _ _ _ hc
  apply SendCollisionCallbacks_inv P _ _ _ ht
  exact hsolve _ hs

/-- The calls that the end of an iteration records: one call of the solvers, with
the collisions and the manager of that moment, then calls of callbacks. -/
theorem ResolveCollisions.dispatch_trace (Q : Event → Prop) (C : Collaborators) (dt : ℚ)
    (s : ResolveState) (hsolve : Q (Event.solve s.collisions s.pm))
    (hT : ∀ i a b, Q (Event.onTrigger i a b)) (hC : ∀ i a b, Q (Event.onCollision i a b))
    (hs : ∀ ev ∈ s.trace, Q ev) : ∀ ev ∈ (ResolveCollisions.dispatch C dt s).trace, Q ev := by
  unfold ResolveCollisions.dispatch
  dsimp only
  apply SendCollisionCallbacks_trace Q _ hC
  apply SendCollisionCallbacks_trace Q _ hT
  intro ev hev
  rcases List.mem_append.1 hev with h | h
  · exact hs ev h
  · rw [List.mem_singleton.1 h]
    exact hsolve

/-- The four ways an iteration of `ResolveCollisions` can end: the pair is skipped
before the narrow phase; it is tested and does not collide; it collides and
goes to the triggers; it collides and goes to the collisions. -/
theorem ResolveCollisions.step_cases (C : Collaborators) (dt : ℚ) (s : ResolveState)
    (pair : Nat × Nat) :
    ResolveCollisions.step C dt s pair = s ∨
    ResolveCollisions.step C dt s pair =
      { s with trace := s.trace ++ [Event.testCollision pair.1 pair.2] } ∨
    (∃ m, ((s.pm.GetRigidbody pair.1).IsTrigger || (s.pm.GetRigidbody pair.2).IsTrigger) = true ∧
      ResolveCollisions.step C dt s pair = ResolveCollisions.dispatch C dt
        { s with trace := s.trace ++ [Event.testCollision pair.1 pair.2],
                 triggers := s.triggers ++ [⟨pair.1, pair.2, m⟩] }) ∨
    (∃ m, ((s.pm.GetRigidbody pair.1).IsTrigger || (s.pm.GetRigidbody pair.2).IsTrigger) = false ∧
      ResolveCollisions.step C dt s pair = ResolveCollisions.dispatch C dt
        { s with trace := s.trace ++ [Event.testCollision pair.1 pair.2],
                 collisions := s.collisions ++ [⟨pair.1, pair.2, m⟩] }) := by
  unfold ResolveCollisions.step
  dsimp only
  split
  · rename_i firstCollider secondCollider _ _
    split_ifs with h1 h2 h3 h4
    · exact Or.inl rfl
    · exact Or.inl rfl
    · exact Or.inr (Or.inl rfl)
    · exact Or.inr (Or.inr (Or.inl ⟨_, h4, rfl⟩))
    · exact Or.inr (Or.inr (Or.inr ⟨_, by simpa using h4, rfl⟩))
  · exact Or.inl rfl

/-- An iteration of `ResolveCollisions` removes nothing from the two lists. -/
theorem ResolveCollisions.step_mono (C : Collaborators) (dt : ℚ) (s : ResolveState)
    (pair : Nat × Nat) (c : Collision) :
    (c ∈ s.collisions → c ∈ (ResolveCollisions.step C dt s pair).collisions) ∧
    (c ∈ s.triggers → c ∈ (ResolveCollisions.step C dt s pair).triggers) := by
  rcases ResolveCollisions.step_cases C dt s pair with h | h | ⟨m, _, h⟩ | ⟨m, _, h⟩ <;> rw [h]
  · exact ⟨id, id⟩
  · exact ⟨id, id⟩
  · exact ⟨id, fun hc => List.mem_append_left _ hc⟩
  · exact ⟨fun hc => List.mem_append_left _ hc, id⟩

/-- The loop of `ResolveCollisions` removes nothing from the two lists. -/
theorem ResolveCollisions.foldl_mono (C : Collaborators) (dt : ℚ) (pairs : List (Nat × Nat))
    (s : ResolveState) (c : Collision) :
    (c ∈ s.collisions → c ∈ (pairs.foldl (ResolveCollisions.step C dt) s).collisions) ∧
    (c ∈ s.triggers → c ∈ (pairs.foldl (ResolveCollisions.step C dt) s).triggers) := by
  induction pairs generalizing s with
  | nil => exact ⟨id, id⟩
  | cons pair rest ih =>
    rw [List.foldl_cons]
    have h1 := ResolveCollisions.step_mono C dt s pair c
    have h2 := ih (ResolveCollisions.step C dt s pair)
    exact ⟨fun hc => h2.1 (h1.1 hc), fun hc => h2.2 (h1.2 hc)⟩

end PhysicsManager

end physics

namespace physics

namespace PhysicsManager

/-- An iteration of `ResolveCollisions` whose two lists avoid the entity `e` keeps
the body and the mask of `e`, the solvers and the listeners being local. -/
theorem ResolveCollisions.step_keeps (C : Collaborators) (dt : ℚ) (hS : C.SolversLocal)
    (hL : C.ListenersLocal) (e : Nat) (b : Rigidbody) (m n : Nat) (s : ResolveState)
    (pair : Nat × Nat)
    (hfree : ∀ c ∈ (ResolveCollisions.step C dt s pair).collisions ++
      (ResolveCollisions.step C dt s pair).triggers, c.avoids e)
    (hs : keeps e b m n s.pm) : keeps e b m n (ResolveCollisions.step C dt s pair).pm := by
  have hdispatch : ∀ s1 : ResolveState, s1.pm = s.pm →
      (∀ c ∈ s1.collisions ++ s1.triggers, c.avoids e) →
      keeps e b m n (ResolveCollisions.dispatch C dt s1).pm := by
    intro s1 hpm hav
    apply ResolveCollisions.dispatch_inv (keeps e b m n)
    · intro pm hp
      have hloc := hS s1.collisions dt pm.entityManager pm.rigidbodyManager e
        (fun c hc => hav c (List.mem_append_left _ hc))
      have hloc2 := hS s1.collisions dt pm.entityManager
        (C.impulseSolve s1.collisions dt pm.entityManager pm.rigidbodyManager) e
        (fun c hc => hav c (List.mem_append_left _ hc))
      refine ⟨?_, hp.2.1, hp.2.2⟩
      show C.smoothPositionSolve _ _ _ _ e = b
      rw [hloc2.2, hloc.1]
      exact hp.1
    · intro c hc cb hcb pm hp
      have hav' := hav c (List.mem_append_right _ hc)
      have hloc := hL cb (List.mem_append_left _ hcb) c.bodyA c.bodyB pm e
        (Ne.symm hav'.1) (Ne.symm hav'.2)
      exact ⟨hloc.1.trans hp.1, hloc.2.1.trans hp.2.1, le_trans hp.2.2 hloc.2.2⟩
    · intro c hc cb hcb pm hp
      have hav' := hav c (List.mem_append_left _ hc)
      have hloc := hL cb (List.mem_append_right _ hcb) c.bodyA c.bodyB pm e
        (Ne.symm hav'.1) (Ne.symm hav'.2)
      exact ⟨hloc.1.trans hp.1, hloc.2.1.trans hp.2.1, le_trans hp.2.2 hloc.2.2⟩
    · rw [hpm]
      exact hs
  rcases ResolveCollisions.step_cases C dt s pair with h | h | ⟨m', _, h⟩ | ⟨m', _, h⟩
  · rw [h]
    exact hs
  · rw [h]
    exact hs
  · rw [h] at hfree ⊢
    exact hdispatch _ rfl hfree
  · rw [h] at hfree ⊢
    exact hdispatch _ rfl hfree

/-- The loop of `ResolveCollisions` keeps the body and the mask of an entity that
its two lists avoid in the end, the solvers and the listeners being local. -/
theorem ResolveCollisions.foldl_keeps (C : Collaborators) (dt : ℚ) (hS : C.SolversLocal)
    (hL : C.ListenersLocal) (e : Nat) (b : Rigidbody) (m n : Nat) (pairs : List (Nat × Nat))
    (s : ResolveState)
    (hfree : ∀ c ∈ (pairs.foldl (ResolveCollisions.step C dt) s).collisions ++
      (pairs.foldl (ResolveCollisions.step C dt) s).triggers, c.avoids e)
    (hs : keeps e b m n s.pm) :
    keeps e b m n (pairs.foldl (ResolveCollisions.step C dt) s).pm := by
  induction pairs generalizing s with
  | nil => exact hs
  | cons pair rest ih =>
    rw [List.foldl_cons] at hfree ⊢
    apply ih _ hfree
    apply ResolveCollisions.step_keeps C dt hS hL e b m n s pair _ hs
    intro c hc
    have hmono := ResolveCollisions.foldl_mono C dt rest (ResolveCollisions.step C dt s pair) c
    apply hfree c
    rcases List.mem_append.1 hc with h | h
    · exact List.mem_append_left _ (hmono.1 h)
    · exact List.mem_append_right _ (hmono.2 h)

/-- Claim C13: for an entity of the registry with a Rigidbody component whose body
is `Dynamic` with `invMass != 0` and which is in no pair accepted by
`ResolveCollisions` during the step (in neither of its two lists), one
`FixedUpdate(dt)` yields, in exact arithmetic, `velocity' = velocity *
dragFactor + (force + gravityAccel * (1 / invMass)) * invMass * dt`,
`position' = position + velocity' * dt` and `force' = (0, 0)`: the gravity added
in the step is integrated in the step.  The solvers and the listeners are taken
to be local: they leave the entities outside the pairs they are given alone. -/
theorem FixedUpdate_integrates (C : Collaborators) (dt : ℚ) (pm : PhysicsManager) (e : Nat)
    (hS : C.SolversLocal) (hL : C.ListenersLocal)
    (he : e < pm.entityManager.GetEntitiesSize)
    (hrb : pm.entityManager.HasComponent e C.Rigidbody = true)
    (hdyn : (pm.GetRigidbody e).GetBodyType = BodyType.Dynamic)
    (hmass : (pm.GetRigidbody e).InvMass ≠ 0)
    (hfree : ∀ c ∈ (ResolveCollisions.run C dt (ApplyGravity C pm)).collisions ++
      (ResolveCollisions.run C dt (ApplyGravity C pm)).triggers, c.avoids e) :
    ((FixedUpdate C dt pm).GetRigidbody e).Velocity =
      (pm.GetRigidbody e).Velocity * (pm.GetRigidbody e).DragFactor +
        ((pm.GetRigidbody e).Force +
          (pm.GetRigidbody e).GravityAcceleration * (1 / (pm.GetRigidbody e).InvMass)) *
          (pm.GetRigidbody e).InvMass * dt ∧
    ((FixedUpdate C dt pm).GetRigidbody e).Position =
      (pm.GetRigidbody e).Position + ((FixedUpdate C dt pm).GetRigidbody e).Velocity * dt ∧
    ((FixedUpdate C dt pm).GetRigidbody e).Force = ⟨0, 0⟩ := by
  have hdyn' : (pm.rigidbodyManager e).IsDynamic = true := by
    have : (pm.rigidbodyManager e).bodyType = BodyType.Dynamic := hdyn
    simp [Rigidbody.IsDynamic, this]
  -- gravity
  have h1 : (ApplyGravity C pm).rigidbodyManager e =
      (pm.rigidbodyManager e).ApplyForce
        ((pm.rigidbodyManager e).GravityAcceleration * (pm.rigidbodyManager e).Mass) := by
    unfold ApplyGravity
    rw [ApplyGravity_loop_rigidbody, if_pos ⟨he, hrb, hdyn', hmass⟩]
  have h1em : (ApplyGravity C pm).entityManager = pm.entityManager :=
    (ApplyGravity_loop_frame C _ pm).1
  -- collisions
  have h2 := ResolveCollisions.foldl_keeps C dt hS hL e _ _ _
    (C.collisionPairs (ApplyGravity C pm)) ⟨ApplyGravity C pm, [], [], []⟩ hfree
    ⟨rfl, rfl, le_refl _⟩
  obtain ⟨h2b, h2m, h2n⟩ := h2
  rw [h1em] at h2m h2n
  -- integration
  have h2rb : (ResolveCollisions C dt (ApplyGravity C pm)).entityManager.HasComponent e
      C.Rigidbody = true := by
    have : (ResolveCollisions C dt (ApplyGravity C pm)).entityManager.mask e =
        pm.entityManager.mask e := h2m
    unfold EntityManager.HasComponent at hrb ⊢
    rw [this]
    exact hrb
  have h2s : ((ResolveCollisions C dt (ApplyGravity C pm)).rigidbodyManager e).IsStatic = false := by
    have hb : (ResolveCollisions C dt (ApplyGravity C pm)).rigidbodyManager e = _ := h2b
    have : (pm.rigidbodyManager e).bodyType = BodyType.Dynamic := hdyn
    rw [hb, h1]
    simp [Rigidbody.IsStatic, Rigidbody.ApplyForce, this]
  have h3 : (FixedUpdate C dt pm).rigidbodyManager e = _ :=
    (MoveBodies_loop_rigidbody C dt _ _ e).trans
      (if_pos ⟨lt_of_lt_of_le he h2n, h2rb, h2s⟩)
  have hb : (ResolveCollisions C dt (ApplyGravity C pm)).rigidbodyManager e = _ := h2b
  simp only [GetRigidbody]
  rw [h3, hb, h1]
  exact ⟨rfl, rfl, rfl⟩

end PhysicsManager

end physics

namespace physics

/-- The solvers of the sample collaborators are local. -/
theorem Collaborators.sample_solversLocal : Collaborators.sample.SolversLocal := by
  intro collisions dt em bodies e h
  refine ⟨?_, rfl⟩
  show (if collisions.any (fun c => c.bodyA == e || c.bodyB == e) then _ else _) = _
  have hany : collisions.any (fun c => c.bodyA == e || c.bodyB == e) = false := by
    rw [List.any_eq_false]
    intro c hc
    have := h c hc
    simp [this.1, this.2]
  rw [hany]
  rfl

/-- The listeners of the sample collaborators are local. -/
theorem Collaborators.sample_listenersLocal : Collaborators.sample.ListenersLocal := by
  intro cb hcb a b pm e hea heb
  simp only [Collaborators.sample, List.cons_append, List.nil_append, List.mem_cons,
    List.mem_singleton, List.not_mem_nil, or_false] at hcb
  rcases hcb with h | h
  · subst h
    refine ⟨rfl, ?_, ?_⟩
    · show (pm.entityManager.AddComponent b 1024).mask e = pm.entityManager.mask e
      unfold EntityManager.AddComponent
      rw [EntityManager.mask_set]
      simp [heb]
    · show pm.entityManager.GetEntitiesSize ≤ (pm.entityManager.AddComponent b 1024).GetEntitiesSize
      simp [EntityManager.AddComponent, EntityManager.GetEntitiesSize]
  · subst h
    exact ⟨rfl, rfl, le_refl _⟩

/-- The sample collaborators leave the trigger flags as they are. -/
theorem Collaborators.sample_keepsTriggers : Collaborators.sample.KeepsTriggers := by
  constructor
  · intro collisions dt em bodies e
    refine ⟨?_, rfl⟩
    show Rigidbody.IsTrigger (if collisions.any (fun c => c.bodyA == e || c.bodyB == e) then _ else _) = _
    split_ifs <;> rfl
  · intro cb hcb a b pm e
    simp only [Collaborators.sample, List.cons_append, List.nil_append, List.mem_cons,
      List.mem_singleton, List.not_mem_nil, or_false] at hcb
    rcases hcb with h | h <;> subst h <;> rfl

namespace PhysicsManager

/-- Claim C13 on the sample world: entity 3 is dynamic, of inverse mass 2, and in
none of the three accepted pairs. -/
theorem FixedUpdate_integrates_witness :
    (3 < PhysicsManager.sample.entityManager.GetEntitiesSize ∧
      PhysicsManager.sample.entityManager.HasComponent 3 Collaborators.sample.Rigidbody = true ∧
      (PhysicsManager.sample.GetRigidbody 3).GetBodyType = BodyType.Dynamic ∧
      (PhysicsManager.sample.GetRigidbody 3).InvMass ≠ 0 ∧
      (ResolveCollisions.run Collaborators.sample (1 / 50)
        (ApplyGravity Collaborators.sample PhysicsManager.sample)).collisions.length = 1 ∧
      (ResolveCollisions.run Collaborators.sample (1 / 50)
        (ApplyGravity Collaborators.sample PhysicsManager.sample)).triggers.length = 2 ∧
      ∀ c ∈ (ResolveCollisions.run Collaborators.sample (1 / 50)
          (ApplyGravity Collaborators.sample PhysicsManager.sample)).collisions ++
        (ResolveCollisions.run Collaborators.sample (1 / 50)
          (ApplyGravity Collaborators.sample PhysicsManager.sample)).triggers, c.avoids 3) ∧
    (((FixedUpdate Collaborators.sample (1 / 50) PhysicsManager.sample).GetRigidbody 3).Velocity =
      (PhysicsManager.sample.GetRigidbody 3).Velocity * (PhysicsManager.sample.GetRigidbody 3).DragFactor +
        ((PhysicsManager.sample.GetRigidbody 3).Force +
          (PhysicsManager.sample.GetRigidbody 3).GravityAcceleration *
            (1 / (PhysicsManager.sample.GetRigidbody 3).InvMass)) *
          (PhysicsManager.sample.GetRigidbody 3).InvMass * ((1 : ℚ) / 50) ∧
    ((FixedUpdate Collaborators.sample (1 / 50) PhysicsManager.sample).GetRigidbody 3).Position =
      (PhysicsManager.sample.GetRigidbody 3).Position +
        ((FixedUpdate Collaborators.sample (1 / 50) PhysicsManager.sample).GetRigidbody 3).Velocity *
          ((1 : ℚ) / 50) ∧
    ((FixedUpdate Collaborators.sample (1 / 50) PhysicsManager.sample).GetRigidbody 3).Force = ⟨0, 0⟩) :=
  ⟨⟨by decide, by decide, rfl, by decide, rfl, rfl, by decide⟩,
    FixedUpdate_integrates Collaborators.sample (1 / 50) PhysicsManager.sample 3
      Collaborators.sample_solversLocal Collaborators.sample_listenersLocal
      (by decide) (by decide) rfl (by decide) (by decide)⟩

end PhysicsManager

end physics

namespace physics

namespace PhysicsManager

/-- An iteration of `ResolveCollisions` on a pair with a colliding manifold puts
the pair at the end of the triggers when one of the two bodies is a trigger and
at the end of the collisions otherwise, and leaves the other list as it is. -/
theorem ResolveCollisions.step_partition (C : Collaborators) (dt : ℚ) (s : ResolveState)
    (a b : Nat) (firstCollider secondCollider : Collider)
    (hfc : GetCollider C s.pm a = some firstCollider)
    (hsc : GetCollider C s.pm b = some secondCollider)
    (hra : s.pm.entityManager.HasComponent a C.Rigidbody = true)
    (hrb : s.pm.entityManager.HasComponent b C.Rigidbody = true)
    (hlayer : s.pm.layerCollisionMatrix (s.pm.GetRigidbody a).GetLayer
      (s.pm.GetRigidbody b).GetLayer = true)
    (hcol : (C.testCollision firstCollider (s.pm.GetRigidbody a).Trans secondCollider
      (s.pm.GetRigidbody b).Trans).hasCollision = true) :
    (ResolveCollisions.step C dt s (a, b)).triggers =
      (if (s.pm.GetRigidbody a).IsTrigger = true ∨ (s.pm.GetRigidbody b).IsTrigger = true then
        s.triggers ++ [⟨a, b, C.testCollision firstCollider (s.pm.GetRigidbody a).Trans
          secondCollider (s.pm.GetRigidbody b).Trans⟩]
      else s.triggers) ∧
    (ResolveCollisions.step C dt s (a, b)).collisions =
      (if (s.pm.GetRigidbody a).IsTrigger = true ∨ (s.pm.GetRigidbody b).IsTrigger = true then
        s.collisions
      else s.collisions ++ [⟨a, b, C.testCollision firstCollider (s.pm.GetRigidbody a).Trans
          secondCollider (s.pm.GetRigidbody b).Trans⟩]) := by
  unfold ResolveCollisions.step
  simp only [hfc, hsc, hra, hrb, hlayer, hcol, Bool.and_self, Bool.not_true, Bool.false_eq_true,
    if_false, Bool.or_eq_true]
  by_cases ht : (s.pm.GetRigidbody a).IsTrigger = true ∨ (s.pm.GetRigidbody b).IsTrigger = true
  · simp only [if_pos ht]
    exact ⟨rfl, rfl⟩
  · simp only [if_neg ht]
    exact ⟨rfl, rfl⟩

/-- The loop of `ResolveCollisions` keeps this: no body of the collisions is a
trigger, and every call of the solvers was made with such a list. -/
theorem ResolveCollisions.foldl_solvesNoTrigger (C : Collaborators) (dt : ℚ)
    (hK : C.KeepsTriggers) (pairs : List (Nat × Nat)) (s : ResolveState)
    (hc : ∀ c ∈ s.collisions, (s.pm.GetRigidbody c.bodyA).IsTrigger = false ∧
      (s.pm.GetRigidbody c.bodyB).IsTrigger = false)
    (ht : ∀ ev ∈ s.trace, ev.solvesNoTrigger) :
    (∀ c ∈ (pairs.foldl (ResolveCollisions.step C dt) s).collisions,
      ((pairs.foldl (ResolveCollisions.step C dt) s).pm.GetRigidbody c.bodyA).IsTrigger = false ∧
      ((pairs.foldl (ResolveCollisions.step C dt) s).pm.GetRigidbody c.bodyB).IsTrigger = false) ∧
    ∀ ev ∈ (pairs.foldl (ResolveCollisions.step C dt) s).trace, ev.solvesNoTrigger := by
  induction pairs generalizing s with
  | nil => exact ⟨hc, ht⟩
  | cons pair rest ih =>
    rw [List.foldl_cons]
    have htest : ∀ ev ∈ s.trace ++ [Event.testCollision pair.1 pair.2], ev.solvesNoTrigger := by
      intro ev hev
      rcases List.mem_append.1 hev with h | h
      · exact ht ev h
      · rw [List.mem_singleton.1 h]
        exact True.intro
    -- the end of the iteration, from a state with the manager of `s`
    have hdispatch : ∀ s1 : ResolveState, s1.pm = s.pm →
        (∀ c ∈ s1.collisions, (s.pm.GetRigidbody c.bodyA).IsTrigger = false ∧
          (s.pm.GetRigidbody c.bodyB).IsTrigger = false) →
        (∀ ev ∈ s1.trace, ev.solvesNoTrigger) →
        (∀ c ∈ (ResolveCollisions.dispatch C dt s1).collisions,
          ((ResolveCollisions.dispatch C dt s1).pm.GetRigidbody c.bodyA).IsTrigger = false ∧
          ((ResolveCollisions.dispatch C dt s1).pm.GetRigidbody c.bodyB).IsTrigger = false) ∧
        ∀ ev ∈ (ResolveCollisions.dispatch C dt s1).trace, ev.solvesNoTrigger := by
      intro s1 hpm hc1 ht1
      have hflags : ∀ e, ((ResolveCollisions.dispatch C dt s1).pm.rigidbodyManager e).IsTrigger =
          (s.pm.rigidbodyManager e).IsTrigger := by
        apply ResolveCollisions.dispatch_inv
          (fun pm => ∀ e, (pm.rigidbodyManager e).IsTrigger = (s.pm.rigidbodyManager e).IsTrigger)
        · intro pm hp e
          have h1 := hK.1 s1.collisions dt pm.entityManager pm.rigidbodyManager e
          have h2 := hK.1 s1.collisions dt pm.entityManager
            (C.impulseSolve s1.collisions dt pm.entityManager pm.rigidbodyManager) e
          show (C.smoothPositionSolve _ _ _ _ e).IsTrigger = _
          rw [h2.2, h1.1]
          exact hp e
        · intro c _ cb hcb pm hp e
          rw [hK.2 cb (List.mem_append_left _ hcb) c.bodyA c.bodyB pm e]
          exact hp e
        · intro c _ cb hcb pm hp e
          rw [hK.2 cb (List.mem_append_right _ hcb) c.bodyA c.bodyB pm e]
          exact hp e
        · intro e
          rw [hpm]
      refine ⟨?_, ?_⟩
      · intro c hcm
        have := hc1 c hcm
        simp only [GetRigidbody] at this ⊢
        rw [hflags, hflags]
        exact this
      · apply ResolveCollisions.dispatch_trace Event.solvesNoTrigger C dt s1 _
          (fun _ _ _ => True.intro) (fun _ _ _ => True.intro) ht1
        show ∀ c ∈ s1.collisions, _
        rw [hpm]
        exact hc1
    apply ih
    · rcases ResolveCollisions.step_cases C dt s pair with h | h | ⟨m, _, h⟩ | ⟨m, _, h⟩ <;> rw [h]
      · exact hc
      · exact hc
      · exact (hdispatch
          ⟨s.pm, s.collisions, s.triggers ++ [⟨pair.1, pair.2, m⟩],
            s.trace ++ [Event.testCollision pair.1 pair.2]⟩ rfl hc htest).1
      · rename_i hnt
        refine (hdispatch
          ⟨s.pm, s.collisions ++ [⟨pair.1, pair.2, m⟩], s.triggers,
            s.trace ++ [Event.testCollision pair.1 pair.2]⟩ rfl ?_ htest).1
        intro c hcm
        rcases List.mem_append.1 hcm with h' | h'
        · exact hc c h'
        · rw [List.mem_singleton.1 h']
          simpa using hnt
    · rcases ResolveCollisions.step_cases C dt s pair with h | h | ⟨m, _, h⟩ | ⟨m, _, h⟩ <;> rw [h]
      · exact ht
      · exact htest
      · exact (hdispatch
          ⟨s.pm, s.collisions, s.triggers ++ [⟨pair.1, pair.2, m⟩],
            s.trace ++ [Event.testCollision pair.1 pair.2]⟩ rfl hc htest).2
      · rename_i hnt
        refine (hdispatch
          ⟨s.pm, s.collisions ++ [⟨pair.1, pair.2, m⟩], s.triggers,
            s.trace ++ [Event.testCollision pair.1 pair.2]⟩ rfl ?_ htest).2
        intro c hcm
        rcases List.mem_append.1 hcm with h' | h'
        · exact hc c h'
        · rw [List.mem_singleton.1 h']
          simpa using hnt

/-- Claim C19: an iteration of `ResolveCollisions` on a pair with a colliding
manifold puts the pair in exactly one of the two lists, in the triggers if and
only if at least one of its two rigidbodies `IsTrigger()`; and every list
handed to `SolveCollisions` during `ResolveCollisions` (hence during a fixed
step) holds no pair of which a body is a trigger at that moment, nor do the
collisions in the end, the solvers and the listeners leaving the trigger flags
as they are. -/
theorem ResolveCollisions_partition (C : Collaborators) (dt : ℚ) :
    (∀ (s : ResolveState) (a b : Nat) (firstCollider secondCollider : Collider),
      GetCollider C s.pm a = some firstCollider →
      GetCollider C s.pm b = some secondCollider →
      s.pm.entityManager.HasComponent a C.Rigidbody = true →
      s.pm.entityManager.HasComponent b C.Rigidbody = true →
      s.pm.layerCollisionMatrix (s.pm.GetRigidbody a).GetLayer
        (s.pm.GetRigidbody b).GetLayer = true →
      (C.testCollision firstCollider (s.pm.GetRigidbody a).Trans secondCollider
        (s.pm.GetRigidbody b).Trans).hasCollision = true →
      (ResolveCollisions.step C dt s (a, b)).triggers =
        (if (s.pm.GetRigidbody a).IsTrigger = true ∨ (s.pm.GetRigidbody b).IsTrigger = true then
          s.triggers ++ [⟨a, b, C.testCollision firstCollider (s.pm.GetRigidbody a).Trans
            secondCollider (s.pm.GetRigidbody b).Trans⟩]
        else s.triggers) ∧
      (ResolveCollisions.step C dt s (a, b)).collisions =
        (if (s.pm.GetRigidbody a).IsTrigger = true ∨ (s.pm.GetRigidbody b).IsTrigger = true then
          s.collisions
        else s.collisions ++ [⟨a, b, C.testCollision firstCollider (s.pm.GetRigidbody a).Trans
            secondCollider (s.pm.GetRigidbody b).Trans⟩])) ∧
    (C.KeepsTriggers → ∀ pm : PhysicsManager,
      (∀ ev ∈ (ResolveCollisions.run C dt pm).trace, ev.solvesNoTrigger) ∧
      (∀ ev ∈ FixedUpdate.trace C dt pm, ev.solvesNoTrigger) ∧
      ∀ c ∈ (ResolveCollisions.run C dt pm).collisions,
        ((ResolveCollisions C dt pm).GetRigidbody c.bodyA).IsTrigger = false ∧
        ((ResolveCollisions C dt pm).GetRigidbody c.bodyB).IsTrigger = false) := by
  refine ⟨fun s a b fc sc h1 h2 h3 h4 h5 h6 =>
    ResolveCollisions.step_partition C dt s a b fc sc h1 h2 h3 h4 h5 h6, fun hK pm => ?_⟩
  have hrun : ∀ pm0 : PhysicsManager, _ := fun pm0 =>
    ResolveCollisions.foldl_solvesNoTrigger C dt hK (C.collisionPairs pm0) ⟨pm0, [], [], []⟩
      (fun c hc => absurd hc (List.not_mem_nil c)) (fun ev hev => absurd hev (List.not_mem_nil ev))
  exact ⟨(hrun pm).2, (hrun (ApplyGravity C pm)).2, (hrun pm).1⟩

end PhysicsManager

end physics

namespace physics

namespace PhysicsManager

/-- Claim C19 on the sample world: the pair `(1, 2)` of two balls, neither a
trigger, goes to the collisions; the sample collaborators leave the trigger
flags as they are. -/
theorem ResolveCollisions_partition_witness :
    (GetCollider Collaborators.sample PhysicsManager.sample 1 = some (Collider.circle ⟨Vec2f.zero, 1⟩) ∧
      GetCollider Collaborators.sample PhysicsManager.sample 2 = some (Collider.circle ⟨Vec2f.zero, 1⟩) ∧
      PhysicsManager.sample.entityManager.HasComponent 1 Collaborators.sample.Rigidbody = true ∧
      PhysicsManager.sample.entityManager.HasComponent 2 Collaborators.sample.Rigidbody = true ∧
      PhysicsManager.sample.layerCollisionMatrix (PhysicsManager.sample.GetRigidbody 1).GetLayer
        (PhysicsManager.sample.GetRigidbody 2).GetLayer = true ∧
      (Collaborators.sample.testCollision (Collider.circle ⟨Vec2f.zero, 1⟩)
        (PhysicsManager.sample.GetRigidbody 1).Trans (Collider.circle ⟨Vec2f.zero, 1⟩)
        (PhysicsManager.sample.GetRigidbody 2).Trans).hasCollision = true ∧
      (PhysicsManager.sample.GetRigidbody 1).IsTrigger = false ∧
      (PhysicsManager.sample.GetRigidbody 2).IsTrigger = false) ∧
    ((ResolveCollisions.step Collaborators.sample (1 / 50) ⟨PhysicsManager.sample, [], [], []⟩
        (1, 2)).triggers =
      (if (PhysicsManager.sample.GetRigidbody 1).IsTrigger = true ∨
          (PhysicsManager.sample.GetRigidbody 2).IsTrigger = true then
        [] ++ [⟨1, 2, Collaborators.sample.testCollision (Collider.circle ⟨Vec2f.zero, 1⟩)
          (PhysicsManager.sample.GetRigidbody 1).Trans (Collider.circle ⟨Vec2f.zero, 1⟩)
          (PhysicsManager.sample.GetRigidbody 2).Trans⟩]
      else []) ∧
    (ResolveCollisions.step Collaborators.sample (1 / 50) ⟨PhysicsManager.sample, [], [], []⟩
        (1, 2)).collisions =
      (if (PhysicsManager.sample.GetRigidbody 1).IsTrigger = true ∨
          (PhysicsManager.sample.GetRigidbody 2).IsTrigger = true then
        []
      else [] ++ [⟨1, 2, Collaborators.sample.testCollision (Collider.circle ⟨Vec2f.zero, 1⟩)
          (PhysicsManager.sample.GetRigidbody 1).Trans (Collider.circle ⟨Vec2f.zero, 1⟩)
          (PhysicsManager.sample.GetRigidbody 2).Trans⟩])) ∧
    Collaborators.sample.KeepsTriggers ∧
    ((∀ ev ∈ (ResolveCollisions.run Collaborators.sample (1 / 50) PhysicsManager.sample).trace,
        ev.solvesNoTrigger) ∧
      (∀ ev ∈ FixedUpdate.trace Collaborators.sample (1 / 50) PhysicsManager.sample,
        ev.solvesNoTrigger) ∧
      ∀ c ∈ (ResolveCollisions.run Collaborators.sample (1 / 50) PhysicsManager.sample).collisions,
        ((ResolveCollisions Collaborators.sample (1 / 50) PhysicsManager.sample).GetRigidbody
          c.bodyA).IsTrigger = false ∧
        ((ResolveCollisions Collaborators.sample (1 / 50) PhysicsManager.sample).GetRigidbody
          c.bodyB).IsTrigger = false) :=
  ⟨⟨rfl, rfl, by decide, by decide, rfl, rfl, rfl, rfl⟩,
    (ResolveCollisions_partition Collaborators.sample (1 / 50)).1
      ⟨PhysicsManager.sample, [], [], []⟩ 1 2 (Collider.circle ⟨Vec2f.zero, 1⟩)
      (Collider.circle ⟨Vec2f.zero, 1⟩) rfl rfl (by decide) (by decide) rfl rfl,
    Collaborators.sample_keepsTriggers,
    (ResolveCollisions_partition Collaborators.sample (1 / 50)).2
      Collaborators.sample_keepsTriggers PhysicsManager.sample⟩

/-- Claim C18, evaluated on the sample world: one `FixedUpdate` accepts three
pairs, `(0, 1)` and `(0, 2)` as trigger collisions and `(1, 2)` as a hard one,
and the calls of the callbacks are made inside the loop over the pairs, on the
lists accumulated so far: the only trigger listener is called three times with
`(0, 1)` and twice with `(0, 2)`, not once each. -/
theorem FixedUpdate_repeats_callbacks :
    (ResolveCollisions.run Collaborators.sample (1 / 50)
      (ApplyGravity Collaborators.sample PhysicsManager.sample)).triggers.map
        (fun c => (c.bodyA, c.bodyB)) = [(0, 1), (0, 2)] ∧
    (ResolveCollisions.run Collaborators.sample (1 / 50)
      (ApplyGravity Collaborators.sample PhysicsManager.sample)).collisions.map
        (fun c => (c.bodyA, c.bodyB)) = [(1, 2)] ∧
    Collaborators.sample.onTriggerAction.length = 1 ∧
    (FixedUpdate.trace Collaborators.sample (1 / 50) PhysicsManager.sample).countP
      (Event.isOnTrigger 0 0 1) = 3 ∧
    (FixedUpdate.trace Collaborators.sample (1 / 50) PhysicsManager.sample).countP
      (Event.isOnTrigger 0 0 2) = 2 := by
  refine ⟨by decide, by decide, rfl, by decide, by decide⟩

end PhysicsManager

end physics

/-! ### The masks of the registry -/

/-- A mask that was OR-ed in is there. -/
theorem Nat.or_and_self_mask (m c : Nat) : (m ||| c) &&& c = c := by
  apply Nat.eq_of_testBit_eq
  intro i
  simp only [Nat.testBit_and, Nat.testBit_or]
  cases m.testBit i <;> cases c.testBit i <;> rfl

/-- An OR with `c` does not touch the bits outside `c`. -/
theorem Nat.or_and_disjoint_mask (m c d : Nat) (h : c &&& d = 0) : (m ||| c) &&& d = m &&& d := by
  apply Nat.eq_of_testBit_eq
  intro i
  have hi : (c &&& d).testBit i = false := by rw [h]; exact Nat.zero_testBit i
  simp only [Nat.testBit_and, Nat.testBit_or] at hi ⊢
  cases hm : m.testBit i <;> cases hc : c.testBit i <;> cases hd : d.testBit i <;> simp_all

/-- The bits of the 32-bit mask of all ones. -/
theorem Nat.testBit_allOnes32 (i : Nat) : (0xFFFFFFFF : Nat).testBit i = decide (i < 32) := by
  have h : (0xFFFFFFFF : Nat) = 2 ^ 32 - 1 := by norm_num
  rw [h, Nat.testBit_two_pow_sub_one]

/-- A 32-bit value has no bit from 32 on. -/
theorem Nat.testBit_of_lt_32 (c i : Nat) (hc : c < 2 ^ 32) (hi : ¬ i < 32) :
    c.testBit i = false :=
  Nat.testBit_lt_two_pow (lt_of_lt_of_le hc (Nat.pow_le_pow_right (by norm_num) (by omega)))

/-- The AND-NOT with a 32-bit mask `c` leaves no bit of `c`. -/
theorem Nat.andNot_and_self_mask (m c : Nat) (hc : c < 2 ^ 32) :
    (m &&& (0xFFFFFFFF ^^^ c)) &&& c = 0 := by
  apply Nat.eq_of_testBit_eq
  intro i
  simp only [Nat.testBit_and, Nat.testBit_xor, Nat.testBit_allOnes32, Nat.zero_testBit]
  by_cases hi : i < 32
  · cases m.testBit i <;> cases c.testBit i <;> simp [hi]
  · simp [Nat.testBit_of_lt_32 c i hc hi]

/-- The AND-NOT with `c` does not touch the bits of a 32-bit mask outside `c`. -/
theorem Nat.andNot_and_disjoint_mask (m c d : Nat) (h : c &&& d = 0) (hd : d < 2 ^ 32) :
    (m &&& (0xFFFFFFFF ^^^ c)) &&& d = m &&& d := by
  apply Nat.eq_of_testBit_eq
  intro i
  have hi : (c &&& d).testBit i = false := by rw [h]; exact Nat.zero_testBit i
  simp only [Nat.testBit_and, Nat.testBit_xor, Nat.testBit_allOnes32] at hi ⊢
  by_cases h32 : i < 32
  · cases hm : m.testBit i <;> cases hc : c.testBit i <;> cases hd' : d.testBit i <;> simp_all
  · simp [Nat.testBit_of_lt_32 d i hd h32]

/-- A mask holds a union of two masks exactly when it holds both. -/
theorem Nat.and_or_mask_iff (m c d : Nat) :
    m &&& (c ||| d) = c ||| d ↔ (m &&& c = c ∧ m &&& d = d) := by
  constructor
  · intro h
    constructor
    · apply Nat.eq_of_testBit_eq
      intro i
      have := congrArg (fun x => x.testBit i) h
      simp only [Nat.testBit_and, Nat.testBit_or] at this ⊢
      cases hm : m.testBit i <;> cases hc : c.testBit i <;> cases hd' : d.testBit i <;> simp_all
    · apply Nat.eq_of_testBit_eq
      intro i
      have := congrArg (fun x => x.testBit i) h
      simp only [Nat.testBit_and, Nat.testBit_or] at this ⊢
      cases hm : m.testBit i <;> cases hc : c.testBit i <;> cases hd' : d.testBit i <;> simp_all
  · rintro ⟨h1, h2⟩
    rw [Nat.and_or_distrib_left, h1, h2]

/-- An entity that exists is inside the registry. -/
theorem EntityManager.lt_size_of_EntityExists (em : EntityManager) (e : Nat)
    (h : em.EntityExists e = true) : e < em.GetEntitiesSize := by
  by_contra hlt
  have hm := EntityManager.mask_of_length_le em e (Nat.le_of_not_lt hlt)
  simp [EntityManager.EntityExists, hm] at h

/-- The mask of an entity of the registry after `AddComponent`. -/
theorem EntityManager.mask_AddComponent (em : EntityManager) (e e' c : Nat)
    (he : e' < em.GetEntitiesSize) :
    (em.AddComponent e' c).mask e = if e = e' then em.mask e' ||| c else em.mask e := by
  unfold EntityManager.AddComponent
  rw [EntityManager.mask_set]
  have he' : e' < em.entityMasks.length := he
  by_cases h : e = e' <;> simp [h, he']

/-- The mask of an entity of the registry after `RemoveComponent`. -/
theorem EntityManager.mask_RemoveComponent (em : EntityManager) (e e' c : Nat)
    (he : e' < em.GetEntitiesSize) :
    (em.RemoveComponent e' c).mask e =
      if e = e' then em.mask e' &&& (0xFFFFFFFF ^^^ c) else em.mask e := by
  unfold EntityManager.RemoveComponent
  rw [EntityManager.mask_set]
  have he' : e' < em.entityMasks.length := he
  by_cases h : e = e' <;> simp [h, he']

/-- A call on an entity keeps the size of the registry. -/
theorem EntityManager.MaskCall.apply_size (e : Nat) (em : EntityManager)
    (call : EntityManager.MaskCall) :
    (EntityManager.MaskCall.apply e em call).GetEntitiesSize = em.GetEntitiesSize := by
  cases call <;>
    simp [EntityManager.MaskCall.apply, EntityManager.AddComponent,
      EntityManager.RemoveComponent, EntityManager.GetEntitiesSize]

/-- On the registry as the spec describes it, after `DestroyEntity(e)` the mask
of `e` is `Empty`, so `EntityExists(e)` is false, `HasComponent(e, c)` is false
for every mask `c` other than 0 and `Empty`, and `HasComponent(e, Empty)` is
true.  The test `TEST(Entity, CreateEntity)` of the repository expects
`HasComponent(e, Empty)` to be false; `engine/entity.cpp`, which would decide, is
not among the sources. -/
theorem EntityManager.DestroyEntity_has_Empty (em : EntityManager) (e c : Nat) :
    (em.DestroyEntity e).EntityExists e = false ∧
    (em.DestroyEntity e).HasComponent e EntityManager.Empty = true ∧
    (em.DestroyEntity e).HasComponent e c = (c == 0 || c == EntityManager.Empty) := by
  have hm : (em.DestroyEntity e).mask e = EntityManager.Empty := by
    rw [EntityManager.mask_DestroyEntity, if_pos rfl]
  refine ⟨?_, ?_, ?_⟩
  · simp [EntityManager.EntityExists, hm]
  · simp [EntityManager.HasComponent, hm, EntityManager.Empty]
  · simp only [EntityManager.HasComponent, hm, EntityManager.Empty, Nat.one_and_eq_mod_two]
    rw [Bool.eq_iff_iff]
    simp only [beq_iff_eq, Bool.or_eq_true]
    omega

/-- The effect of `AddComponent` and `RemoveComponent` on `HasComponent`, for an
entity of the registry and two masks without a common bit. -/
theorem EntityManager.HasComponent_calls (em : EntityManager) (e c d : Nat)
    (he : e < em.GetEntitiesSize) (hc0 : c ≠ 0) (hc : c < 2 ^ 32) (hd : d < 2 ^ 32)
    (hcd : c &&& d = 0) :
    (em.AddComponent e c).HasComponent e c = true ∧
    (em.AddComponent e c).HasComponent e d = em.HasComponent e d ∧
    (em.RemoveComponent e c).HasComponent e c = false ∧
    (em.RemoveComponent e c).HasComponent e d = em.HasComponent e d := by
  simp only [EntityManager.HasComponent, EntityManager.mask_AddComponent em e e c he,
    EntityManager.mask_RemoveComponent em e e c he, if_true]
  refine ⟨?_, ?_, ?_, ?_⟩
  · rw [Nat.or_and_self_mask]
    simp
  · rw [Nat.or_and_disjoint_mask _ _ _ hcd]
  · rw [Nat.andNot_and_self_mask _ _ hc]
    simp [Ne.symm hc0]
  · rw [Nat.andNot_and_disjoint_mask _ _ _ hcd hd]

/-- Along calls whose masks are `c` or have no bit of `c`, `HasComponent(e, c)`
follows the last call made with `c`. -/
theorem EntityManager.HasComponent_foldl (e c : Nat) (hc0 : c ≠ 0) (hc : c < 2 ^ 32)
    (calls : List EntityManager.MaskCall) (em : EntityManager)
    (he : e < em.GetEntitiesSize)
    (hcalls : ∀ call ∈ calls, call.mask = c ∨ call.mask &&& c = 0) :
    (calls.foldl (EntityManager.MaskCall.apply e) em).HasComponent e c =
      EntityManager.MaskCall.added c calls (em.HasComponent e c) := by
  induction calls generalizing em with
  | nil => rfl
  | cons call rest ih =>
    rw [List.foldl_cons]
    have he' : e < (EntityManager.MaskCall.apply e em call).GetEntitiesSize := by
      rw [EntityManager.MaskCall.apply_size]
      exact he
    rw [ih _ he' (fun call' h => hcalls call' (by simp [h]))]
    have hcall := hcalls call (by simp)
    cases call with
    | AddComponent mask =>
      simp only [EntityManager.MaskCall.mask] at hcall
      simp only [EntityManager.MaskCall.added, EntityManager.MaskCall.apply]
      congr 1
      by_cases hm : mask = c
      · subst hm
        rw [if_pos rfl]
        simp only [EntityManager.HasComponent, EntityManager.mask_AddComponent em e e mask he,
          if_true, Nat.or_and_self_mask]
        simp
      · rw [if_neg hm]
        have hdis : mask &&& c = 0 := hcall.resolve_left hm
        simp only [EntityManager.HasComponent, EntityManager.mask_AddComponent em e e mask he,
          if_true, Nat.or_and_disjoint_mask _ _ _ hdis]
    | RemoveComponent mask =>
      simp only [EntityManager.MaskCall.mask] at hcall
      simp only [EntityManager.MaskCall.added, EntityManager.MaskCall.apply]
      congr 1
      by_cases hm : mask = c
      · subst hm
        rw [if_pos rfl]
        simp only [EntityManager.HasComponent, EntityManager.mask_RemoveComponent em e e mask he,
          if_true, Nat.andNot_and_self_mask _ _ hc]
        simp [Ne.symm hc0]
      · rw [if_neg hm]
        have hdis : mask &&& c = 0 := hcall.resolve_left hm
        simp only [EntityManager.HasComponent, EntityManager.mask_RemoveComponent em e e mask he,
          if_true, Nat.andNot_and_disjoint_mask _ _ _ hdis hc]

/-- The slot that `firstFree` finds is free and no slot before it is. -/
theorem EntityManager.firstFree_some (masks : List Nat) (i e : Nat)
    (h : EntityManager.firstFree masks i = some e) :
    i ≤ e ∧ e < i + masks.length ∧ masks.getD (e - i) EntityManager.Empty = EntityManager.Empty ∧
      ∀ j, j < e - i → masks.getD j EntityManager.Empty ≠ EntityManager.Empty := by
  induction masks generalizing i with
  | nil => simp [EntityManager.firstFree] at h
  | cons m rest ih =>
    unfold EntityManager.firstFree at h
    split_ifs at h with hm
    · have he : i = e := Option.some.inj h
      subst he
      refine ⟨le_refl _, by simp, by simpa using hm, ?_⟩
      intro j hj
      omega
    · obtain ⟨h1, h2, h3, h4⟩ := ih (i + 1) h
      have hk : e - i = (e - (i + 1)) + 1 := by omega
      refine ⟨by omega, by simp only [List.length_cons]; omega, ?_, ?_⟩
      · rw [hk, List.getD_cons_succ]
        exact h3
      · intro j hj
        cases j with
        | zero => simpa using hm
        | succ k =>
          rw [List.getD_cons_succ]
          exact h4 k (by omega)

/-- When `firstFree` finds nothing, no slot is free. -/
theorem EntityManager.firstFree_none (masks : List Nat) (i : Nat)
    (h : EntityManager.firstFree masks i = none) :
    ∀ j, j < masks.length → masks.getD j EntityManager.Empty ≠ EntityManager.Empty := by
  induction masks generalizing i with
  | nil => intro j hj; simp at hj
  | cons m rest ih =>
    unfold EntityManager.firstFree at h
    split_ifs at h with hm
    intro j hj
    cases j with
    | zero => simpa using hm
    | succ k =>
      rw [List.getD_cons_succ]
      exact ih (i + 1) h k (by simpa using hj)

/-- The entity that `CreateEntity` returns, the size and the masks afterwards, in
the two cases: a free slot exists, or none does and the registry grows. -/
theorem EntityManager.CreateEntity_cases (em : EntityManager) (growth : Nat) :
    ((em.CreateEntity growth).1 < em.GetEntitiesSize ∧
      em.mask (em.CreateEntity growth).1 = EntityManager.Empty ∧
      (∀ j, j < (em.CreateEntity growth).1 → em.mask j ≠ EntityManager.Empty) ∧
      (em.CreateEntity growth).2.GetEntitiesSize = em.GetEntitiesSize ∨
    (em.CreateEntity growth).1 = em.GetEntitiesSize ∧
      (∀ j, j < em.GetEntitiesSize → em.mask j ≠ EntityManager.Empty) ∧
      em.GetEntitiesSize < (em.CreateEntity growth).2.GetEntitiesSize) ∧
    (em.CreateEntity growth).1 < (em.CreateEntity growth).2.GetEntitiesSize ∧
    ∀ j, j ≠ (em.CreateEntity growth).1 → j < em.GetEntitiesSize →
      (em.CreateEntity growth).2.mask j = em.mask j := by
  unfold EntityManager.CreateEntity
  cases hf : EntityManager.firstFree em.entityMasks 0 with
  | some e =>
    obtain ⟨_, h2, h3, h4⟩ := EntityManager.firstFree_some _ _ _ hf
    simp only [Nat.sub_zero, Nat.zero_add] at h2 h3 h4
    refine ⟨Or.inl ⟨h2, h3, h4, by simp [EntityManager.GetEntitiesSize]⟩,
      by simpa [EntityManager.GetEntitiesSize] using h2, ?_⟩
    intro j hj _
    rw [EntityManager.mask_set]
    simp [hj]
  | none =>
    have h := EntityManager.firstFree_none _ _ hf
    refine ⟨Or.inr ⟨rfl, h, by simp [EntityManager.GetEntitiesSize]⟩,
      by simp [EntityManager.GetEntitiesSize], ?_⟩
    intro j hj hlt
    have hlt' : j < em.entityMasks.length := hlt
    have hj' : ¬ j = em.entityMasks.length := by omega
    simp only [EntityManager.mask, List.getD_eq_getElem?_getD, List.getElem?_set, hj',
      List.getElem?_append_left hlt']
    simp [Ne.symm hj']

/-- Claim C22: for an existing entity `e` and two 32-bit component masks `c`, `d`
without a common bit (`c` not the empty mask): after `AddComponent(e, c)`,
`HasComponent(e, c)` is true and `HasComponent(e, d)` is unchanged; after
`RemoveComponent(e, c)`, `HasComponent(e, c)` is false and `HasComponent(e, d)`
is unchanged; `HasComponent(e, c | d)` holds iff both `HasComponent(e, c)` and
`HasComponent(e, d)` hold; and on an entity just created, after any calls whose
masks are `c` or have no bit of `c`, `HasComponent(e, c)` holds exactly when `c`
was added and not removed since. -/
theorem EntityManager.HasComponent_consistency (em : EntityManager) (e c d : Nat)
    (he : em.EntityExists e = true) (hc0 : c ≠ 0) (hc : c < 2 ^ 32) (hd : d < 2 ^ 32)
    (hcd : c &&& d = 0) :
    ((em.AddComponent e c).HasComponent e c = true ∧
      (em.AddComponent e c).HasComponent e d = em.HasComponent e d ∧
      (em.RemoveComponent e c).HasComponent e c = false ∧
      (em.RemoveComponent e c).HasComponent e d = em.HasComponent e d) ∧
    (em.HasComponent e (c ||| d) = true ↔
      em.HasComponent e c = true ∧ em.HasComponent e d = true) ∧
    ∀ (growth : Nat) (calls : List EntityManager.MaskCall),
      (∀ call ∈ calls, call.mask = c ∨ call.mask &&& c = 0) →
      (calls.foldl (EntityManager.MaskCall.apply (em.CreateEntity growth).1)
          (em.CreateEntity growth).2).HasComponent (em.CreateEntity growth).1 c =
        EntityManager.MaskCall.added c calls false := by
  refine ⟨EntityManager.HasComponent_calls em e c d
    (EntityManager.lt_size_of_EntityExists em e he) hc0 hc hd hcd, ?_, ?_⟩
  · simp only [EntityManager.HasComponent, beq_iff_eq]
    exact Nat.and_or_mask_iff _ c d
  · intro growth calls hcalls
    have hlt := (EntityManager.CreateEntity_cases em growth).2.1
    rw [EntityManager.HasComponent_foldl _ c hc0 hc calls _ hlt hcalls]
    congr 1
    simp only [EntityManager.HasComponent, EntityManager.CreateEntity_mask, Nat.zero_and]
    simp [Ne.symm hc0]

/-- Claim C22 on the registry of the test `Entity.EntityComponent`: the entity 0,
the masks 2 and 4, and the calls `Add 2`, `Add 4`, `Remove 2`. -/
theorem EntityManager.HasComponent_consistency_witness :
    (EntityManager.EntityExists ⟨[0]⟩ 0 = true ∧ (2 : Nat) ≠ 0 ∧ (2 : Nat) < 2 ^ 32 ∧
      (4 : Nat) < 2 ^ 32 ∧ (2 : Nat) &&& 4 = 0) ∧
    ((EntityManager.AddComponent ⟨[0]⟩ 0 2).HasComponent 0 2 = true ∧
      (EntityManager.AddComponent ⟨[0]⟩ 0 2).HasComponent 0 4 =
        EntityManager.HasComponent ⟨[0]⟩ 0 4 ∧
      (EntityManager.RemoveComponent ⟨[0]⟩ 0 2).HasComponent 0 2 = false ∧
      (EntityManager.RemoveComponent ⟨[0]⟩ 0 2).HasComponent 0 4 =
        EntityManager.HasComponent ⟨[0]⟩ 0 4) ∧
    (EntityManager.HasComponent ⟨[0]⟩ 0 (2 ||| 4) = true ↔
      EntityManager.HasComponent ⟨[0]⟩ 0 2 = true ∧ EntityManager.HasComponent ⟨[0]⟩ 0 4 = true) ∧
    (∀ call ∈ [EntityManager.MaskCall.AddComponent 2, EntityManager.MaskCall.AddComponent 4,
        EntityManager.MaskCall.RemoveComponent 2], call.mask = 2 ∨ call.mask &&& 2 = 0) ∧
    ([EntityManager.MaskCall.AddComponent 2, EntityManager.MaskCall.AddComponent 4,
        EntityManager.MaskCall.RemoveComponent 2].foldl
        (EntityManager.MaskCall.apply (EntityManager.CreateEntity ⟨[0]⟩ 0).1)
        (EntityManager.CreateEntity ⟨[0]⟩ 0).2).HasComponent
        (EntityManager.CreateEntity ⟨[0]⟩ 0).1 2 =
      EntityManager.MaskCall.added 2 [EntityManager.MaskCall.AddComponent 2,
        EntityManager.MaskCall.AddComponent 4, EntityManager.MaskCall.RemoveComponent 2] false :=
  ⟨⟨by decide, by decide, by decide, by decide, by decide⟩,
    (EntityManager.HasComponent_consistency ⟨[0]⟩ 0 2 4 (by decide) (by decide) (by decide)
      (by decide) (by decide)).1,
    (EntityManager.HasComponent_consistency ⟨[0]⟩ 0 2 4 (by decide) (by decide) (by decide)
      (by decide) (by decide)).2.1,
    by decide,
    (EntityManager.HasComponent_consistency ⟨[0]⟩ 0 2 4 (by decide) (by decide) (by decide)
      (by decide) (by decide)).2.2 0 _ (by decide)⟩

/-- Claim C23: `CreateEntity` returns the lowest free slot when there is one and
then does not grow the registry; it returns the slot past the end, growing the
registry, only when no slot is free; the mask of the returned slot is 0 (no
component bit, `Empty` included, so the entity exists); the other slots keep
their masks; and a slot freed by `DestroyEntity` is returned by the next
`CreateEntity` when no slot before it is free. -/
theorem EntityManager.CreateEntity_lowest_free (em : EntityManager) (growth : Nat) :
    (∀ i, i < em.GetEntitiesSize → em.mask i = EntityManager.Empty →
      (em.CreateEntity growth).1 ≤ i ∧
      em.mask (em.CreateEntity growth).1 = EntityManager.Empty ∧
      (em.CreateEntity growth).2.GetEntitiesSize = em.GetEntitiesSize) ∧
    ((∀ i, i < em.GetEntitiesSize → em.mask i ≠ EntityManager.Empty) →
      (em.CreateEntity growth).1 = em.GetEntitiesSize ∧
      em.GetEntitiesSize < (em.CreateEntity growth).2.GetEntitiesSize) ∧
    ((em.CreateEntity growth).2.mask (em.CreateEntity growth).1 = 0 ∧
      (em.CreateEntity growth).2.HasComponent (em.CreateEntity growth).1
        EntityManager.Empty = false ∧
      (em.CreateEntity growth).2.EntityExists (em.CreateEntity growth).1 = true) ∧
    (∀ c, c ≠ 0 →
      (em.CreateEntity growth).2.HasComponent (em.CreateEntity growth).1 c = false) ∧
    (∀ j, j ≠ (em.CreateEntity growth).1 → j < em.GetEntitiesSize →
      (em.CreateEntity growth).2.mask j = em.mask j) ∧
    (∀ e, e < em.GetEntitiesSize → (∀ j, j < e → em.mask j ≠ EntityManager.Empty) →
      ((em.DestroyEntity e).CreateEntity growth).1 = e) := by
  have hmask := EntityManager.CreateEntity_mask em growth
  obtain ⟨hcases, _, hothers⟩ := EntityManager.CreateEntity_cases em growth
  refine ⟨?_, ?_, ⟨hmask, ?_, ?_⟩, ?_, hothers, ?_⟩
  · intro i hi hfree
    rcases hcases with ⟨_, h2, h3, h4⟩ | ⟨_, h2, _⟩
    · refine ⟨?_, h2, h4⟩
      by_contra hlt
      exact h3 i (by omega) hfree
    · exact absurd hfree (h2 i hi)
  · intro hnone
    rcases hcases with ⟨h1, h2, _, _⟩ | ⟨h1, _, h3⟩
    · exact absurd h2 (hnone _ h1)
    · exact ⟨h1, h3⟩
  · simp [EntityManager.HasComponent, hmask, EntityManager.Empty]
  · simp [EntityManager.EntityExists, hmask, EntityManager.Empty]
  · intro c hc
    simp [EntityManager.HasComponent, hmask, Ne.symm hc]
  · intro e he hbelow
    have hsize : (em.DestroyEntity e).GetEntitiesSize = em.GetEntitiesSize := by
      simp [EntityManager.DestroyEntity, EntityManager.GetEntitiesSize]
    obtain ⟨hc', _, _⟩ := EntityManager.CreateEntity_cases (em.DestroyEntity e) growth
    have hfree : (em.DestroyEntity e).mask e = EntityManager.Empty := by
      rw [EntityManager.mask_DestroyEntity, if_pos rfl]
    rcases hc' with ⟨_, h2, h3, _⟩ | ⟨_, h2, _⟩
    · by_contra hne
      rcases Nat.lt_or_gt_of_ne hne with hlt | hgt
      · rw [EntityManager.mask_DestroyEntity, if_neg (by omega)] at h2
        exact hbelow _ hlt h2
      · exact h3 e hgt hfree
    · exact absurd hfree (h2 e (by rw [hsize]; exact he))

/-- Claim C23 on two registries: `[302, 1, 558, 1]`, where the slots 1 and 3 are
free, and `[302, 558]`, where none is; and on the reuse of the slot 0. -/
theorem EntityManager.CreateEntity_lowest_free_witness :
    ((3 < EntityManager.GetEntitiesSize ⟨[302, 1, 558, 1]⟩ ∧
      EntityManager.mask ⟨[302, 1, 558, 1]⟩ 3 = EntityManager.Empty) ∧
      (EntityManager.CreateEntity ⟨[302, 1, 558, 1]⟩ 0).1 ≤ 3 ∧
      EntityManager.mask ⟨[302, 1, 558, 1]⟩ (EntityManager.CreateEntity ⟨[302, 1, 558, 1]⟩ 0).1 =
        EntityManager.Empty ∧
      (EntityManager.CreateEntity ⟨[302, 1, 558, 1]⟩ 0).2.GetEntitiesSize =
        EntityManager.GetEntitiesSize ⟨[302, 1, 558, 1]⟩) ∧
    ((∀ i, i < EntityManager.GetEntitiesSize ⟨[302, 558]⟩ →
        EntityManager.mask ⟨[302, 558]⟩ i ≠ EntityManager.Empty) ∧
      (EntityManager.CreateEntity ⟨[302, 558]⟩ 0).1 = EntityManager.GetEntitiesSize ⟨[302, 558]⟩ ∧
      EntityManager.GetEntitiesSize ⟨[302, 558]⟩ <
        (EntityManager.CreateEntity ⟨[302, 558]⟩ 0).2.GetEntitiesSize) ∧
    ((2 : Nat) ≠ 0 ∧
      (EntityManager.CreateEntity ⟨[302, 558]⟩ 0).2.HasComponent
        (EntityManager.CreateEntity ⟨[302, 558]⟩ 0).1 2 = false) ∧
    ((0 ≠ (EntityManager.CreateEntity ⟨[302, 558]⟩ 0).1 ∧
        0 < EntityManager.GetEntitiesSize ⟨[302, 558]⟩) ∧
      (EntityManager.CreateEntity ⟨[302, 558]⟩ 0).2.mask 0 = EntityManager.mask ⟨[302, 558]⟩ 0) ∧
    ((0 < EntityManager.GetEntitiesSize ⟨[302, 558]⟩ ∧
        ∀ j, j < 0 → EntityManager.mask ⟨[302, 558]⟩ j ≠ EntityManager.Empty) ∧
      ((EntityManager.DestroyEntity ⟨[302, 558]⟩ 0).CreateEntity 0).1 = 0) :=
  ⟨⟨⟨by decide, by decide⟩,
      (EntityManager.CreateEntity_lowest_free ⟨[302, 1, 558, 1]⟩ 0).1 3 (by decide) (by decide)⟩,
    ⟨by decide,
      (EntityManager.CreateEntity_lowest_free ⟨[302, 558]⟩ 0).2.1 (by decide)⟩,
    ⟨by decide,
      (EntityManager.CreateEntity_lowest_free ⟨[302, 558]⟩ 0).2.2.2.1 2 (by decide)⟩,
    ⟨⟨by decide, by decide⟩,
      (EntityManager.CreateEntity_lowest_free ⟨[302, 558]⟩ 0).2.2.2.2.1 0 (by decide) (by decide)⟩,
    ⟨⟨by decide, by decide⟩,
      (EntityManager.CreateEntity_lowest_free ⟨[302, 558]⟩ 0).2.2.2.2.2 0 (by decide) (by decide)⟩⟩

/-! ### Inputs and confirmations that are dropped -/

/-- Claim C27, amended to the player number that the code checks: for
`INVALID_PLAYER` (255), `GameManager::SetPlayerInput` returns at once; the whole
game state, hence the input rings, `lastReceivedFrame` and the current frame
of the rollback manager, is unchanged and no array is accessed. -/
theorem GameManager.SetPlayerInput_INVALID_PLAYER (g : GameManager) (playerInput inputFrame : Nat) :
    g.SetPlayerInput INVALID_PLAYER playerInput inputFrame = .ok g ∧
    (finalState (g.SetPlayerInput INVALID_PLAYER playerInput inputFrame)).rollbackManager.inputs =
      g.rollbackManager.inputs ∧
    (finalState (g.SetPlayerInput INVALID_PLAYER playerInput inputFrame)).rollbackManager.lastReceivedFrame =
      g.rollbackManager.lastReceivedFrame ∧
    (finalState (g.SetPlayerInput INVALID_PLAYER playerInput inputFrame)).rollbackManager.currentFrame =
      g.rollbackManager.currentFrame := by
  have h : g.SetPlayerInput INVALID_PLAYER playerInput inputFrame = .ok g := by
    unfold GameManager.SetPlayerInput
    rw [if_pos rfl]
  rw [h]
  exact ⟨rfl, rfl, rfl, rfl⟩

/-- Claim C27, as stated, fails for the player number 2, which is not a valid
index and is not `INVALID_PLAYER`: at the sample game, `SetPlayerInput(2, 9, 7)`
is passed to the rollback manager, where `_inputs[2]` is outside the array of
two rings. -/
theorem GameManager.SetPlayerInput_unknown_player_counterexample :
    MAX_PLAYER_NMB ≤ 2 ∧
    ((GameManager.sample.SetPlayerInput 2 9 7).toOption.isSome = false) ∧
    ((GameManager.sample.SetPlayerInput 2 9 7).mapError (fun fault => fault.1) =
      (Except.error Fault.outOfRange : Except Fault GameManager)) := by
  refine ⟨by decide, rfl, rfl⟩

/-- Claim C28: `ConfirmValidateFrame(n, digests)` returns at once, with the whole
state unchanged and without a fault (neither assertion is reached), whenever
`n < lastValidateFrame` or the last received frame of some player is before
`n`; in every other case it is the call `ConfirmFrame(n, digests)`. -/
theorem ClientGameManager.ConfirmValidateFrame_ignores (E : Engine) (g : GameManager)
    (newValidateFrame : Nat) (physicsStates : Nat → Nat) :
    ((newValidateFrame < g.rollbackManager.lastValidateFrame ∨
        ∃ p, p < MAX_PLAYER_NMB ∧
          g.rollbackManager.GetLastReceivedFrame p < newValidateFrame) →
      ClientGameManager.ConfirmValidateFrame E g newValidateFrame physicsStates = .ok g) ∧
    (¬ (newValidateFrame < g.rollbackManager.lastValidateFrame ∨
        ∃ p, p < MAX_PLAYER_NMB ∧
          g.rollbackManager.GetLastReceivedFrame p < newValidateFrame) →
      ClientGameManager.ConfirmValidateFrame E g newValidateFrame physicsStates =
        RollbackManager.ConfirmFrame E g newValidateFrame physicsStates) := by
  have hiff := RollbackManager.inputsMissing_iff g.rollbackManager newValidateFrame MAX_PLAYER_NMB
  unfold ClientGameManager.ConfirmValidateFrame
  constructor
  · rintro (h | h)
    · rw [if_pos h]
    · have hm : g.rollbackManager.inputsMissing newValidateFrame MAX_PLAYER_NMB = true :=
        hiff.2 h
      split_ifs <;> rfl
  · intro h
    have h1 : ¬ newValidateFrame < g.rollbackManager.lastValidateFrame := fun h' => h (Or.inl h')
    have h2 : ¬ g.rollbackManager.inputsMissing newValidateFrame MAX_PLAYER_NMB = true :=
      fun h' => h (Or.inr (hiff.1 h'))
    rw [if_neg h1, if_neg h2]

/-- Claim C28 at the sample game (frame 3 validated, inputs received up to frame
4): the confirmation of frame 2 is stale, that of frame 5 is premature, and
that of frame 4 goes to `ConfirmFrame`. -/
theorem ClientGameManager.ConfirmValidateFrame_ignores_witness :
    ((2 < GameManager.sample.rollbackManager.lastValidateFrame ∨
        ∃ p, p < MAX_PLAYER_NMB ∧ GameManager.sample.rollbackManager.GetLastReceivedFrame p < 2) ∧
      ClientGameManager.ConfirmValidateFrame Engine.sample GameManager.sample 2 (fun _ => 0) =
        .ok GameManager.sample) ∧
    ((5 < GameManager.sample.rollbackManager.lastValidateFrame ∨
        ∃ p, p < MAX_PLAYER_NMB ∧ GameManager.sample.rollbackManager.GetLastReceivedFrame p < 5) ∧
      ClientGameManager.ConfirmValidateFrame Engine.sample GameManager.sample 5 (fun _ => 0) =
        .ok GameManager.sample) ∧
    (¬ (4 < GameManager.sample.rollbackManager.lastValidateFrame ∨
        ∃ p, p < MAX_PLAYER_NMB ∧ GameManager.sample.rollbackManager.GetLastReceivedFrame p < 4) ∧
      ClientGameManager.ConfirmValidateFrame Engine.sample GameManager.sample 4 (fun _ => 0) =
        RollbackManager.ConfirmFrame Engine.sample GameManager.sample 4 (fun _ => 0)) :=
  ⟨⟨Or.inl (by decide),
      (ClientGameManager.ConfirmValidateFrame_ignores Engine.sample GameManager.sample 2
        (fun _ => 0)).1 (Or.inl (by decide))⟩,
    ⟨Or.inr ⟨0, by decide, by decide⟩,
      (ClientGameManager.ConfirmValidateFrame_ignores Engine.sample GameManager.sample 5
        (fun _ => 0)).1 (Or.inr ⟨0, by decide, by decide⟩)⟩,
    ⟨by decide,
      (ClientGameManager.ConfirmValidateFrame_ignores Engine.sample GameManager.sample 4
        (fun _ => 0)).2 (by decide)⟩⟩

/-! ### Soft destruction -/

/-- A mask other than `Empty` is not `Empty` once `Destroyed` is OR-ed in. -/
theorem Engine.or_Destroyed_ne_Empty (E : Engine) (m : Nat) (hm : m ≠ EntityManager.Empty) :
    m ||| E.Destroyed ≠ EntityManager.Empty := by
  unfold Engine.Destroyed EntityManager.Empty at *
  intro h
  apply hm
  apply Nat.eq_of_testBit_eq
  intro i
  have hi := congrArg (fun x => x.testBit i) h
  simp only [Nat.testBit_or, Nat.testBit_shiftLeft] at hi
  by_cases h4 : 4 ≤ i
  · have h1 : (1 : Nat).testBit i = false :=
      Nat.testBit_lt_two_pow
        (lt_of_lt_of_le (by norm_num) (Nat.pow_le_pow_right (by norm_num : 0 < 2) h4))
    rw [h1] at hi ⊢
    cases hmi : m.testBit i
    · rfl
    · rw [hmi] at hi
      simp at hi
  · have hd : decide (i ≥ 4) = false := by simpa using h4
    rw [hd] at hi
    simpa using hi

/-- A mask that holds `c` still holds it once another mask is OR-ed in. -/
theorem Nat.or_and_keeps_mask (m d c : Nat) (h : m &&& c = c) : (m ||| d) &&& c = c := by
  apply Nat.eq_of_testBit_eq
  intro i
  have := congrArg (fun x => x.testBit i) h
  simp only [Nat.testBit_and, Nat.testBit_or] at this ⊢
  cases hm : m.testBit i <;> cases hc : c.testBit i <;> cases hd' : d.testBit i <;> simp_all

/-- For an existing entity `e` that is not in the log of created entities,
`RollbackManager::DestroyEntity(e)` sets the flag `Destroyed` and nothing else:
`e` still exists and keeps every component it had (its mask is the old one
with the flag OR-ed in), the other entities keep their masks, the rollback
manager is untouched, and the last loop of `ValidateFrame`, were it run in
that very state, would free `e`. -/
theorem RollbackManager.DestroyEntity_marks (E : Engine) (g : GameManager) (e : Nat)
    (he : g.entityManager.EntityExists e = true)
    (hlog : ∀ created ∈ g.rollbackManager.createdEntities, created.entity ≠ e) :
    (RollbackManager.DestroyEntity E g e).entityManager.EntityExists e = true ∧
    (RollbackManager.DestroyEntity E g e).entityManager.HasComponent e E.Destroyed = true ∧
    (RollbackManager.DestroyEntity E g e).entityManager.mask e =
      g.entityManager.mask e ||| E.Destroyed ∧
    (∀ c, g.entityManager.HasComponent e c = true →
      (RollbackManager.DestroyEntity E g e).entityManager.HasComponent e c = true) ∧
    (∀ e', e' ≠ e →
      (RollbackManager.DestroyEntity E g e).entityManager.mask e' = g.entityManager.mask e') ∧
    (RollbackManager.DestroyEntity E g e).rollbackManager = g.rollbackManager ∧
    ∀ n, (RollbackManager.ValidateFrame.commit E (RollbackManager.DestroyEntity E g e)
      n).entityManager.EntityExists e = false := by
  have hlt := EntityManager.lt_size_of_EntityExists _ e he
  have hany : g.rollbackManager.createdEntities.any (fun newEntity => newEntity.entity == e)
      = false := by
    rw [List.any_eq_false]
    intro c hc
    simpa using hlog c hc
  have hg : RollbackManager.DestroyEntity E g e =
      { g with entityManager := g.entityManager.AddComponent e E.Destroyed } := by
    unfold RollbackManager.DestroyEntity
    rw [hany]
    rfl
  have hmask : ∀ e', (RollbackManager.DestroyEntity E g e).entityManager.mask e' =
      if e' = e then g.entityManager.mask e ||| E.Destroyed else g.entityManager.mask e' := by
    intro e'
    rw [hg]
    exact EntityManager.mask_AddComponent _ e' e _ hlt
  have hme := hmask e
  rw [if_pos rfl] at hme
  have hne : g.entityManager.mask e ≠ EntityManager.Empty := by
    simpa [EntityManager.EntityExists] using he
  have hflag : (RollbackManager.DestroyEntity E g e).entityManager.HasComponent e E.Destroyed
      = true := by
    simp only [EntityManager.HasComponent, hme, Nat.or_and_self_mask]
    simp
  refine ⟨?_, hflag, hme, ?_, ?_, ?_, ?_⟩
  · simp only [EntityManager.EntityExists, hme]
    simpa using Engine.or_Destroyed_ne_Empty E _ hne
  · intro c hc
    have hc' : g.entityManager.mask e &&& c = c := by
      simpa [EntityManager.HasComponent] using hc
    simp only [EntityManager.HasComponent, hme, Nat.or_and_keeps_mask _ _ _ hc']
    simp
  · intro e' hne'
    rw [hmask e', if_neg hne']
  · rw [hg]
  · intro n
    have hsize : e < (RollbackManager.DestroyEntity E g e).entityManager.GetEntitiesSize := by
      rw [hg]
      simpa [EntityManager.AddComponent, EntityManager.GetEntitiesSize] using hlt
    simp only [RollbackManager.ValidateFrame.commit, EntityManager.EntityExists,
      destroyFlaggedEntities_mask, hflag, hsize, and_self, if_true]
    simp

/-- Claim C29, as stated, fails for an entity of the log of created entities: at
the sample game the entity 2 exists and was created at frame 5, inside the
rollback window; `RollbackManager::DestroyEntity(2)` frees it at once, without
setting the flag. -/
theorem RollbackManager.DestroyEntity_soft_counterexample :
    GameManager.sample.entityManager.EntityExists 2 = true ∧
    (RollbackManager.DestroyEntity Engine.sample GameManager.sample 2).entityManager.EntityExists 2
      = false ∧
    (RollbackManager.DestroyEntity Engine.sample GameManager.sample 2).entityManager.HasComponent 2
      Engine.sample.Destroyed = false := by
  refine ⟨by decide, by decide, by decide⟩

/-! ### The predicted input -/

/-- Claim C30, amended with the bound on the window advance: for a player `p < 2`
and an input frame less than `WINDOW_BUFFER_SIZE` frames ahead of the current
frame and, once the window stands at the resulting current frame, less than
`WINDOW_BUFFER_SIZE` frames behind it, `SetPlayerInput(p, input, inputFrame)`
succeeds.  If `inputFrame > lastReceivedFrame[p]` on entry, then afterwards
`lastReceivedFrame[p] == inputFrame` and `GetInputAtFrame(p, g) == input` for
every frame `g` with `inputFrame <= g <= currentFrame`.  If
`inputFrame <= lastReceivedFrame[p]`, then `lastReceivedFrame` is unchanged and,
of the rings as the window advance left them, only the slot of `inputFrame` of
player `p` is written. -/
theorem RollbackManager.SetPlayerInput_predicted_hold (r : RollbackManager)
    (p input inputFrame : Nat) (hp : p < MAX_PLAYER_NMB)
    (hold : max r.currentFrame inputFrame - inputFrame < WINDOW_BUFFER_SIZE)
    (hnew : inputFrame - r.currentFrame < WINDOW_BUFFER_SIZE) :
    ∃ r1 r', (if r.currentFrame < inputFrame then r.StartNewFrame inputFrame else .ok r)
        = .ok r1 ∧
      r.SetPlayerInput p input inputFrame = .ok r' ∧
      r'.currentFrame = max r.currentFrame inputFrame ∧
      (r.lastReceivedFrame p < inputFrame →
        r'.lastReceivedFrame p = inputFrame ∧
        ∀ g, inputFrame ≤ g → g ≤ r'.currentFrame → r'.GetInputAtFrame p g = .ok input) ∧
      (inputFrame ≤ r.lastReceivedFrame p →
        r'.lastReceivedFrame = r.lastReceivedFrame ∧
        r'.inputs p (r'.currentFrame - inputFrame) = input ∧
        r'.GetInputAtFrame p inputFrame = .ok input ∧
        ∀ q j, (q ≠ p ∨ j ≠ r'.currentFrame - inputFrame) → r'.inputs q j = r1.inputs q j) := by
  obtain ⟨r1, hadv, hcur, hlr⟩ := r.advance_ok inputFrame hnew
  have hle : inputFrame ≤ r1.currentFrame := by rw [hcur]; omega
  have hd : r1.currentFrame - inputFrame < WINDOW_BUFFER_SIZE := by rw [hcur]; exact hold
  refine ⟨r1, _, hadv, r.SetPlayerInput_eq r1 p input inputFrame hadv hp hle hd, hcur, ?_, ?_⟩
  · intro hlast
    have hlast1 : r1.lastReceivedFrame p < inputFrame := by rw [hlr]; exact hlast
    refine ⟨by simp [hlast1], ?_⟩
    intro g hg1 hg2
    have hg2' : g ≤ r1.currentFrame := hg2
    refine (RollbackManager.GetInputAtFrame_eq _ p g hp (by exact hg2)
      (by show r1.currentFrame - g < _; omega)).trans ?_
    have : r1.currentFrame - g = r1.currentFrame - inputFrame
        ∨ r1.lastReceivedFrame p < inputFrame ∧
          r1.currentFrame - g < r1.currentFrame - inputFrame := by
      omega
    simp [this]
  · intro hlast
    have hlast1 : ¬ r1.lastReceivedFrame p < inputFrame := by rw [hlr]; omega
    refine ⟨?_, ?_, ?_, ?_⟩
    · funext q
      show (if q = p ∧ r1.lastReceivedFrame p < inputFrame then inputFrame
        else r1.lastReceivedFrame q) = r.lastReceivedFrame q
      rw [if_neg (fun h => hlast1 h.2), hlr]
    · simp
    · refine (RollbackManager.GetInputAtFrame_eq _ p inputFrame hp (by exact hle)
        (by exact hd)).trans ?_
      simp
    · intro q j hqj
      by_cases hq : q = p
      · subst hq
        have hj : ¬ j = r1.currentFrame - inputFrame := by
          rcases hqj with h | h
          · exact absurd rfl h
          · exact h
        simp [hj, hlast1]
      · simp [hq]

/-- Claim C30 at the sample state (current frame 7, last received frame 4): the
input 9 for frame 5 is newer than the last received one; the input 9 for
frame 3 is not. -/
theorem RollbackManager.SetPlayerInput_predicted_hold_witness :
    (1 < MAX_PLAYER_NMB ∧
      max RollbackManager.sample.currentFrame 5 - 5 < WINDOW_BUFFER_SIZE ∧
      5 - RollbackManager.sample.currentFrame < WINDOW_BUFFER_SIZE ∧
      RollbackManager.sample.lastReceivedFrame 1 < 5 ∧
      ∃ r1 r', (if RollbackManager.sample.currentFrame < 5
            then RollbackManager.sample.StartNewFrame 5 else .ok RollbackManager.sample)
          = .ok r1 ∧
        RollbackManager.sample.SetPlayerInput 1 9 5 = .ok r' ∧
        r'.currentFrame = max RollbackManager.sample.currentFrame 5 ∧
        (RollbackManager.sample.lastReceivedFrame 1 < 5 →
          r'.lastReceivedFrame 1 = 5 ∧
          ∀ g, 5 ≤ g → g ≤ r'.currentFrame → r'.GetInputAtFrame 1 g = .ok 9) ∧
        (5 ≤ RollbackManager.sample.lastReceivedFrame 1 →
          r'.lastReceivedFrame = RollbackManager.sample.lastReceivedFrame ∧
          r'.inputs 1 (r'.currentFrame - 5) = 9 ∧
          r'.GetInputAtFrame 1 5 = .ok 9 ∧
          ∀ q j, (q ≠ 1 ∨ j ≠ r'.currentFrame - 5) → r'.inputs q j = r1.inputs q j)) ∧
    (max RollbackManager.sample.currentFrame 3 - 3 < WINDOW_BUFFER_SIZE ∧
      3 - RollbackManager.sample.currentFrame < WINDOW_BUFFER_SIZE ∧
      3 ≤ RollbackManager.sample.lastReceivedFrame 1 ∧
      ∃ r1 r', (if RollbackManager.sample.currentFrame < 3
            then RollbackManager.sample.StartNewFrame 3 else .ok RollbackManager.sample)
          = .ok r1 ∧
        RollbackManager.sample.SetPlayerInput 1 9 3 = .ok r' ∧
        r'.currentFrame = max RollbackManager.sample.currentFrame 3 ∧
        (RollbackManager.sample.lastReceivedFrame 1 < 3 →
          r'.lastReceivedFrame 1 = 3 ∧
          ∀ g, 3 ≤ g → g ≤ r'.currentFrame → r'.GetInputAtFrame 1 g = .ok 9) ∧
        (3 ≤ RollbackManager.sample.lastReceivedFrame 1 →
          r'.lastReceivedFrame = RollbackManager.sample.lastReceivedFrame ∧
          r'.inputs 1 (r'.currentFrame - 3) = 9 ∧
          r'.GetInputAtFrame 1 3 = .ok 9 ∧
          ∀ q j, (q ≠ 1 ∨ j ≠ r'.currentFrame - 3) → r'.inputs q j = r1.inputs q j)) :=
  ⟨⟨by decide, by decide, by decide, by decide,
      RollbackManager.SetPlayerInput_predicted_hold RollbackManager.sample 1 9 5
        (by decide) (by decide) (by decide)⟩,
    ⟨by decide, by decide, by decide,
      RollbackManager.SetPlayerInput_predicted_hold RollbackManager.sample 1 9 3
        (by decide) (by decide) (by decide)⟩⟩

/-- Claim C30, as stated, fails for an input frame a whole window ahead: from the
initial state (current frame 0, last received frame 0), the input frame 250 is
newer than the last received one and the resulting current frame would be 250
itself, but the window advance of `SetPlayerInput(0, 1, 250)` reads `inputs[250]`,
outside the ring, so the call does not produce a state in which frame 250 reads
as the input. -/
theorem RollbackManager.SetPlayerInput_predicted_hold_counterexample :
    RollbackManager.initial.lastReceivedFrame 0 < 250 ∧
    max RollbackManager.initial.currentFrame 250 - 250 < WINDOW_BUFFER_SIZE ∧
    RollbackManager.initial.SetPlayerInput 0 1 250 = .error .outOfRange ∧
    ¬ ∃ r', RollbackManager.initial.SetPlayerInput 0 1 250 = .ok r' ∧
      r'.lastReceivedFrame 0 = 250 ∧
      ∀ g, 250 ≤ g → g ≤ r'.currentFrame → r'.GetInputAtFrame 0 g = .ok 1 := by
  have h : RollbackManager.initial.SetPlayerInput 0 1 250 = .error .outOfRange := rfl
  refine ⟨by decide, by decide, h, ?_⟩
  rintro ⟨r', hr', _⟩
  rw [h] at hr'
  cases hr'

/-! ### The player character manager -/

namespace physics

namespace PlayerCharacterManager

/-- The first part of the body of the loop: what it writes for the player entity
and what it leaves. -/
theorem FixedUpdate.move_frame (C : PlayerCollaborators) (e : Nat) (w : PlayerWorld) :
    (FixedUpdate.move C e w).playerEntityMap = w.playerEntityMap ∧
    (FixedUpdate.move C e w).entityManager = w.entityManager ∧
    ((FixedUpdate.move C e w).physicsManager.rigidbodyManager e).Force =
      (w.physicsManager.rigidbodyManager e).Force + addedForce (w.playerCharacters e).input ∧
    ((FixedUpdate.move C e w).physicsManager.rigidbodyManager e).Position =
      (w.physicsManager.rigidbodyManager e).Position ∧
    ((FixedUpdate.move C e w).playerCharacters e).input = (w.playerCharacters e).input ∧
    ((FixedUpdate.move C e w).playerCharacters e).hasBall = (w.playerCharacters e).hasBall ∧
    ((FixedUpdate.move C e w).playerCharacters e).hadBall = (w.playerCharacters e).hadBall ∧
    ((FixedUpdate.move C e w).playerCharacters e).aimDirection =
      (if isMoving (w.playerCharacters e).input then
        C.GetNormalized (addedForce (w.playerCharacters e).input)
      else (w.playerCharacters e).aimDirection) ∧
    ∀ k, k ≠ e →
      (FixedUpdate.move C e w).physicsManager.rigidbodyManager k =
        w.physicsManager.rigidbodyManager k ∧
      (FixedUpdate.move C e w).playerCharacters k = w.playerCharacters k := by
  unfold FixedUpdate.move
  dsimp only
  by_cases hm : isMoving (w.playerCharacters e).input = true
  · simp only [hm, if_true]
    refine ⟨rfl, rfl, ?_, ?_, ?_, ?_, ?_, ?_, ?_⟩
    · simp [PlayerWorld.setBody, PlayerWorld.setCharacter, PhysicsManager.setRigidbodyAt,
        PhysicsManager.GetRigidbody, Rigidbody.ApplyForce, Rigidbody.SetRotation, Rigidbody.Force]
    · simp [PlayerWorld.setBody, PlayerWorld.setCharacter, PhysicsManager.setRigidbodyAt,
        PhysicsManager.GetRigidbody, Rigidbody.ApplyForce, Rigidbody.SetRotation,
        Rigidbody.Position]
    · simp [PlayerWorld.setBody, PlayerWorld.setCharacter]
    · simp [PlayerWorld.setBody, PlayerWorld.setCharacter]
    · simp [PlayerWorld.setBody, PlayerWorld.setCharacter]
    · simp [PlayerWorld.setBody, PlayerWorld.setCharacter]
    · intro k hk
      simp [PlayerWorld.setBody, PlayerWorld.setCharacter, PhysicsManager.setRigidbodyAt, hk]
  · simp only [hm, if_false, Bool.false_eq_true]
    refine ⟨rfl, rfl, ?_, ?_, rfl, rfl, rfl, rfl, ?_⟩
    · simp [PlayerWorld.setBody, PhysicsManager.setRigidbodyAt, PhysicsManager.GetRigidbody,
        Rigidbody.ApplyForce, Rigidbody.Force]
    · simp [PlayerWorld.setBody, PhysicsManager.setRigidbodyAt, PhysicsManager.GetRigidbody,
        Rigidbody.ApplyForce, Rigidbody.Position]
    · intro k hk
      simp [PlayerWorld.setBody, PhysicsManager.setRigidbodyAt, hk]

/-- The iteration of a player number whose entity has no player component does
nothing. -/
theorem FixedUpdate.player_skip (C : PlayerCollaborators) (dt : ℚ) (q : Nat)
    (s : PlayerWorld × List SpawnCall)
    (h : s.1.entityManager.HasComponent (s.1.playerEntityMap q) C.PlayerCharacter = false) :
    FixedUpdate.player C dt q s = s := by
  unfold FixedUpdate.player
  simp [h]

end PlayerCharacterManager

end physics

namespace physics

namespace PlayerCharacterManager

/-- The iteration of a spawned player: the force of its input is added to its
body; when `Shoot` is held and the player has the ball, `SpawnBall` is called
once, at the position of the body plus half the aim direction plus the
position times the time step, and the ball is thrown; otherwise `SpawnBall`
is not called and the ball flags are kept; the other spawned players are left
alone. -/
theorem FixedUpdate.player_spec (C : PlayerCollaborators) (dt : ℚ) (q : Nat)
    (s : PlayerWorld × List SpawnCall) (hL : C.SpawnBallLocal) (hq : q < MAX_PLAYER_NMB)
    (hplayer : s.1.entityManager.HasComponent (s.1.playerEntityMap q) C.PlayerCharacter = true) :
    (FixedUpdate.player C dt q s).1.playerEntityMap = s.1.playerEntityMap ∧
    (FixedUpdate.player C dt q s).1.entityManager.mask (s.1.playerEntityMap q) =
      s.1.entityManager.mask (s.1.playerEntityMap q) ∧
    ((FixedUpdate.player C dt q s).1.physicsManager.rigidbodyManager
        (s.1.playerEntityMap q)).Force =
      (s.1.physicsManager.rigidbodyManager (s.1.playerEntityMap q)).Force +
        addedForce (s.1.playerCharacters (s.1.playerEntityMap q)).input ∧
    ((FixedUpdate.player C dt q s).1.playerCharacters (s.1.playerEntityMap q)).input =
      (s.1.playerCharacters (s.1.playerEntityMap q)).input ∧
    ((((s.1.playerCharacters (s.1.playerEntityMap q)).input &&& player_input_enum.Shoot != 0) &&
        (s.1.playerCharacters (s.1.playerEntityMap q)).hasBall) = true →
      (∃ velocity, (FixedUpdate.player C dt q s).2 = s.2 ++ [⟨q,
        (s.1.physicsManager.rigidbodyManager (s.1.playerEntityMap q)).Position +
          ((FixedUpdate.move C (s.1.playerEntityMap q) s.1).playerCharacters
            (s.1.playerEntityMap q)).aimDirection * (1 / 2 : ℚ) +
          (s.1.physicsManager.rigidbodyManager (s.1.playerEntityMap q)).Position * dt,
        velocity⟩]) ∧
      ((FixedUpdate.player C dt q s).1.playerCharacters (s.1.playerEntityMap q)).hasBall = false ∧
      ((FixedUpdate.player C dt q s).1.playerCharacters (s.1.playerEntityMap q)).hadBall = true) ∧
    ((((s.1.playerCharacters (s.1.playerEntityMap q)).input &&& player_input_enum.Shoot != 0) &&
        (s.1.playerCharacters (s.1.playerEntityMap q)).hasBall) = false →
      (FixedUpdate.player C dt q s).2 = s.2 ∧
      ((FixedUpdate.player C dt q s).1.playerCharacters (s.1.playerEntityMap q)).hasBall =
        (s.1.playerCharacters (s.1.playerEntityMap q)).hasBall ∧
      ((FixedUpdate.player C dt q s).1.playerCharacters (s.1.playerEntityMap q)).hadBall =
        (s.1.playerCharacters (s.1.playerEntityMap q)).hadBall) ∧
    ∀ k, k < MAX_PLAYER_NMB → s.1.playerEntityMap k ≠ s.1.playerEntityMap q →
      s.1.entityManager.HasComponent (s.1.playerEntityMap k) C.PlayerCharacter = true →
      (FixedUpdate.player C dt q s).1.entityManager.mask (s.1.playerEntityMap k) =
        s.1.entityManager.mask (s.1.playerEntityMap k) ∧
      (FixedUpdate.player C dt q s).1.physicsManager.rigidbodyManager (s.1.playerEntityMap k) =
        s.1.physicsManager.rigidbodyManager (s.1.playerEntityMap k) ∧
      (FixedUpdate.player C dt q s).1.playerCharacters (s.1.playerEntityMap k) =
        s.1.playerCharacters (s.1.playerEntityMap k) := by
  obtain ⟨hmap, hem, hforce, hpos, hinput, hhas, hhad, _, hothers⟩ :=
    FixedUpdate.move_frame C (s.1.playerEntityMap q) s.1
  unfold FixedUpdate.player
  simp only [hplayer, Bool.not_true, Bool.false_eq_true, if_false, hhas]
  by_cases hshoot : (((s.1.playerCharacters (s.1.playerEntityMap q)).input &&&
      player_input_enum.Shoot != 0) && (s.1.playerCharacters (s.1.playerEntityMap q)).hasBall) = true
  · -- the ball is thrown
    rw [if_pos hshoot]
    have hball : (s.1.playerCharacters (s.1.playerEntityMap q)).hasBall = true := by
      simp only [Bool.and_eq_true] at hshoot
      exact hshoot.2
    generalize hvel : ((FixedUpdate.move C (s.1.playerEntityMap q) s.1).playerCharacters
        (s.1.playerEntityMap q)).aimDirection *
      ((if C.Dot ((FixedUpdate.move C (s.1.playerEntityMap q) s.1).physicsManager.GetRigidbody
            (s.1.playerEntityMap q)).Velocity
          ((FixedUpdate.move C (s.1.playerEntityMap q) s.1).playerCharacters
            (s.1.playerEntityMap q)).aimDirection > 0 then
        C.GetMagnitude ((FixedUpdate.move C (s.1.playerEntityMap q) s.1).physicsManager.GetRigidbody
            (s.1.playerEntityMap q)).Velocity
        else 0) + BALL_SPEED) = vel
    generalize hposg : ((FixedUpdate.move C (s.1.playerEntityMap q) s.1).physicsManager.GetRigidbody
        (s.1.playerEntityMap q)).Position +
      ((FixedUpdate.move C (s.1.playerEntityMap q) s.1).playerCharacters
        (s.1.playerEntityMap q)).aimDirection * (1 / 2 : ℚ) +
      ((FixedUpdate.move C (s.1.playerEntityMap q) s.1).physicsManager.GetRigidbody
        (s.1.playerEntityMap q)).Position * dt = pos
    have hposeq : pos = (s.1.physicsManager.rigidbodyManager (s.1.playerEntityMap q)).Position +
        ((FixedUpdate.move C (s.1.playerEntityMap q) s.1).playerCharacters
          (s.1.playerEntityMap q)).aimDirection * (1 / 2 : ℚ) +
        (s.1.physicsManager.rigidbodyManager (s.1.playerEntityMap q)).Position * dt := by
      rw [← hposg]
      simp only [PhysicsManager.GetRigidbody, hpos]
    obtain ⟨hLmap, hLk⟩ := hL pos vel (FixedUpdate.move C (s.1.playerEntityMap q) s.1)
    rw [hmap, hem] at hLk
    obtain ⟨hq1, hq2, hq3⟩ := hLk q hq hplayer
    dsimp only
    refine ⟨?_, ?_, ?_, ?_, ?_, ?_, ?_⟩
    · exact hLmap.trans hmap
    · simpa [PlayerWorld.setCharacter] using hq1
    · simp only [PlayerWorld.setCharacter, hq2]
      exact hforce
    · simp only [PlayerWorld.setCharacter, if_true, hq3, PlayerCharacter.ThrowBall, hhas, hball,
        Bool.not_true, Bool.false_eq_true, if_false]
      exact hinput
    · intro _
      refine ⟨⟨vel, by rw [hposeq]⟩, ?_, ?_⟩
      · simp [PlayerWorld.setCharacter, hq3, PlayerCharacter.ThrowBall, hhas, hball]
      · simp [PlayerWorld.setCharacter, hq3, PlayerCharacter.ThrowBall, hhas, hball]
    · intro hno
      rw [hno] at hshoot
      exact absurd hshoot (by simp)
    · intro k hk hne hkp
      obtain ⟨hk1, hk2, hk3⟩ := hLk k hk hkp
      obtain ⟨ho1, ho2⟩ := hothers _ hne
      refine ⟨by simpa [PlayerWorld.setCharacter] using hk1, ?_, ?_⟩
      · simp only [PlayerWorld.setCharacter, hk2, ho1]
      · simp only [PlayerWorld.setCharacter, if_neg hne, hk3, ho2]
  · -- no ball is thrown
    rw [if_neg hshoot]
    dsimp only
    refine ⟨hmap, by rw [hem], hforce, hinput, ?_, ?_, ?_⟩
    · intro h
      exact absurd h hshoot
    · intro _
      exact ⟨rfl, hhas, hhad⟩
    · intro k _ hne _
      obtain ⟨ho1, ho2⟩ := hothers _ hne
      exact ⟨by rw [hem], ho1, ho2⟩

end PlayerCharacterManager

end physics

namespace physics

namespace PlayerCharacterManager

/-- The iteration of the player number `q` leaves another spawned player `k` alone
and makes no call of `SpawnBall` for it, whether `q` is spawned or not. -/
theorem FixedUpdate.player_other (C : PlayerCollaborators) (dt : ℚ) (q k : Nat)
    (s : PlayerWorld × List SpawnCall) (hL : C.SpawnBallLocal) (hq : q < MAX_PLAYER_NMB)
    (hk : k < MAX_PLAYER_NMB) (hne : s.1.playerEntityMap k ≠ s.1.playerEntityMap q)
    (hkp : s.1.entityManager.HasComponent (s.1.playerEntityMap k) C.PlayerCharacter = true) :
    (FixedUpdate.player C dt q s).1.playerEntityMap = s.1.playerEntityMap ∧
    (FixedUpdate.player C dt q s).1.entityManager.mask (s.1.playerEntityMap k) =
      s.1.entityManager.mask (s.1.playerEntityMap k) ∧
    (FixedUpdate.player C dt q s).1.physicsManager.rigidbodyManager (s.1.playerEntityMap k) =
      s.1.physicsManager.rigidbodyManager (s.1.playerEntityMap k) ∧
    (FixedUpdate.player C dt q s).1.playerCharacters (s.1.playerEntityMap k) =
      s.1.playerCharacters (s.1.playerEntityMap k) ∧
    (FixedUpdate.player C dt q s).2.countP (fun call => call.playerNumber == k) =
      s.2.countP (fun call => call.playerNumber == k) := by
  have hqk : ¬ q = k := fun h => hne (by rw [h])
  by_cases hqp : s.1.entityManager.HasComponent (s.1.playerEntityMap q) C.PlayerCharacter = true
  · obtain ⟨h1, _, _, _, hshoot, hno, hothers⟩ := FixedUpdate.player_spec C dt q s hL hq hqp
    obtain ⟨h2, h3, h4⟩ := hothers k hk hne hkp
    refine ⟨h1, h2, h3, h4, ?_⟩
    cases hb : (((s.1.playerCharacters (s.1.playerEntityMap q)).input &&&
        player_input_enum.Shoot != 0) && (s.1.playerCharacters (s.1.playerEntityMap q)).hasBall)
    · rw [(hno hb).1]
    · obtain ⟨⟨velocity, htrace⟩, _, _⟩ := hshoot hb
      rw [htrace, List.countP_append]
      simp [hqk]
  · have hskip := FixedUpdate.player_skip C dt q s (by simpa using hqp)
    rw [hskip]
    exact ⟨rfl, rfl, rfl, rfl, rfl⟩

/-- The iteration of a spawned player, with the number of calls of `SpawnBall`
made for it. -/
theorem FixedUpdate.player_own (C : PlayerCollaborators) (dt : ℚ) (q : Nat)
    (s : PlayerWorld × List SpawnCall) (hL : C.SpawnBallLocal) (hq : q < MAX_PLAYER_NMB)
    (hplayer : s.1.entityManager.HasComponent (s.1.playerEntityMap q) C.PlayerCharacter = true) :
    (FixedUpdate.player C dt q s).1.playerEntityMap = s.1.playerEntityMap ∧
    (FixedUpdate.player C dt q s).1.entityManager.mask (s.1.playerEntityMap q) =
      s.1.entityManager.mask (s.1.playerEntityMap q) ∧
    ((FixedUpdate.player C dt q s).1.physicsManager.rigidbodyManager
        (s.1.playerEntityMap q)).Force =
      (s.1.physicsManager.rigidbodyManager (s.1.playerEntityMap q)).Force +
        addedForce (s.1.playerCharacters (s.1.playerEntityMap q)).input ∧
    ((FixedUpdate.player C dt q s).1.playerCharacters (s.1.playerEntityMap q)).input =
      (s.1.playerCharacters (s.1.playerEntityMap q)).input ∧
    ((((s.1.playerCharacters (s.1.playerEntityMap q)).input &&& player_input_enum.Shoot != 0) &&
        (s.1.playerCharacters (s.1.playerEntityMap q)).hasBall) = true →
      (FixedUpdate.player C dt q s).2.countP (fun call => call.playerNumber == q) =
        s.2.countP (fun call => call.playerNumber == q) + 1 ∧
      ((FixedUpdate.player C dt q s).1.playerCharacters (s.1.playerEntityMap q)).hasBall = false ∧
      ((FixedUpdate.player C dt q s).1.playerCharacters (s.1.playerEntityMap q)).hadBall = true) ∧
    ((((s.1.playerCharacters (s.1.playerEntityMap q)).input &&& player_input_enum.Shoot != 0) &&
        (s.1.playerCharacters (s.1.playerEntityMap q)).hasBall) = false →
      (FixedUpdate.player C dt q s).2.countP (fun call => call.playerNumber == q) =
        s.2.countP (fun call => call.playerNumber == q) ∧
      ((FixedUpdate.player C dt q s).1.playerCharacters (s.1.playerEntityMap q)).hasBall =
        (s.1.playerCharacters (s.1.playerEntityMap q)).hasBall ∧
      ((FixedUpdate.player C dt q s).1.playerCharacters (s.1.playerEntityMap q)).hadBall =
        (s.1.playerCharacters (s.1.playerEntityMap q)).hadBall) := by
  obtain ⟨h1, h2, h3, h4, hshoot, hno, _⟩ := FixedUpdate.player_spec C dt q s hL hq hplayer
  refine ⟨h1, h2, h3, h4, ?_, ?_⟩
  · intro hb
    obtain ⟨⟨velocity, htrace⟩, h5, h6⟩ := hshoot hb
    refine ⟨?_, h5, h6⟩
    rw [htrace, List.countP_append]
    simp
  · intro hb
    obtain ⟨htrace, h5, h6⟩ := hno hb
    exact ⟨by rw [htrace], h5, h6⟩

/-- The whole `FixedUpdate` for a spawned player, the two players having distinct
entities: the force of its input is added to its body once, and `SpawnBall` is
called once for it, the ball being thrown, exactly when it holds `Shoot` and
has the ball on entry. -/
theorem FixedUpdate_spawned (C : PlayerCollaborators) (dt : ℚ) (w : PlayerWorld) (p : Nat)
    (hL : C.SpawnBallLocal) (hdist : w.playerEntityMap 0 ≠ w.playerEntityMap 1)
    (hp : p < MAX_PLAYER_NMB)
    (hplayer : w.entityManager.HasComponent (w.playerEntityMap p) C.PlayerCharacter = true) :
    ((FixedUpdate C dt w).1.physicsManager.rigidbodyManager (w.playerEntityMap p)).Force =
      (w.physicsManager.rigidbodyManager (w.playerEntityMap p)).Force +
        addedForce (w.playerCharacters (w.playerEntityMap p)).input ∧
    ((((w.playerCharacters (w.playerEntityMap p)).input &&& player_input_enum.Shoot != 0) &&
        (w.playerCharacters (w.playerEntityMap p)).hasBall) = true →
      (FixedUpdate C dt w).2.countP (fun call => call.playerNumber == p) = 1 ∧
      ((FixedUpdate C dt w).1.playerCharacters (w.playerEntityMap p)).hasBall = false ∧
      ((FixedUpdate C dt w).1.playerCharacters (w.playerEntityMap p)).hadBall = true) ∧
    ((((w.playerCharacters (w.playerEntityMap p)).input &&& player_input_enum.Shoot != 0) &&
        (w.playerCharacters (w.playerEntityMap p)).hasBall) = false →
      (FixedUpdate C dt w).2.countP (fun call => call.playerNumber == p) = 0 ∧
      ((FixedUpdate C dt w).1.playerCharacters (w.playerEntityMap p)).hasBall =
        (w.playerCharacters (w.playerEntityMap p)).hasBall ∧
      ((FixedUpdate C dt w).1.playerCharacters (w.playerEntityMap p)).hadBall =
        (w.playerCharacters (w.playerEntityMap p)).hadBall) := by
  have hFU : FixedUpdate C dt w =
      FixedUpdate.player C dt 1 (FixedUpdate.player C dt 0 (w, [])) := rfl
  have hp' : p = 0 ∨ p = 1 := by
    have : p < 2 := hp
    omega
  rcases hp' with rfl | rfl
  · -- player 0: its own iteration, then that of player 1
    obtain ⟨a1, a2, a3, a4, a5, a6⟩ :=
      FixedUpdate.player_own C dt 0 (w, []) hL (by decide) hplayer
    have hmask : (FixedUpdate.player C dt 0 (w, [])).1.entityManager.HasComponent
        ((FixedUpdate.player C dt 0 (w, [])).1.playerEntityMap 0) C.PlayerCharacter = true := by
      rw [a1]
      unfold EntityManager.HasComponent at hplayer ⊢
      rw [a2]
      exact hplayer
    obtain ⟨b1, b2, b3, b4, b5⟩ := FixedUpdate.player_other C dt 1 0
      (FixedUpdate.player C dt 0 (w, [])) hL (by decide) (by decide)
      (by rw [a1]; exact hdist) hmask
    rw [a1] at b3 b4
    rw [hFU, b3, b4, b5]
    refine ⟨a3, ?_, ?_⟩
    · intro hb
      obtain ⟨c1, c2, c3⟩ := a5 hb
      exact ⟨by rw [c1]; rfl, c2, c3⟩
    · intro hb
      obtain ⟨c1, c2, c3⟩ := a6 hb
      exact ⟨by rw [c1]; rfl, c2, c3⟩
  · -- player 1: the iteration of player 0, then its own
    obtain ⟨b1, b2, b3, b4, b5⟩ := FixedUpdate.player_other C dt 0 1 (w, []) hL
      (by decide) (by decide) (Ne.symm hdist) hplayer
    have hmask : (FixedUpdate.player C dt 0 (w, [])).1.entityManager.HasComponent
        ((FixedUpdate.player C dt 0 (w, [])).1.playerEntityMap 1) C.PlayerCharacter = true := by
      rw [b1]
      unfold EntityManager.HasComponent at hplayer ⊢
      rw [b2]
      exact hplayer
    obtain ⟨a1, a2, a3, a4, a5, a6⟩ := FixedUpdate.player_own C dt 1
      (FixedUpdate.player C dt 0 (w, [])) hL (by decide) hmask
    rw [b1] at a3 a4 a5 a6
    rw [b3] at a3
    rw [b4] at a3 a5 a6
    rw [b5] at a5 a6
    rw [hFU]
    refine ⟨a3, ?_, ?_⟩
    · intro hb
      obtain ⟨c1, c2, c3⟩ := a5 hb
      exact ⟨by rw [c1]; rfl, c2, c3⟩
    · intro hb
      obtain ⟨c1, c2, c3⟩ := a6 hb
      exact ⟨by rw [c1]; rfl, c2, c3⟩

end PlayerCharacterManager

end physics

namespace physics

/-- The sum of two vectors, by components. -/
theorem Vec2f.add_def (a b : Vec2f) : a + b = ⟨a.x + b.x, a.y + b.y⟩ := rfl

/-- The product of a vector and a number, by components. -/
theorem Vec2f.mul_def (a : Vec2f) (k : ℚ) : a * k = ⟨a.x * k, a.y * k⟩ := rfl

namespace PlayerCharacterManager

/-- The four direction bits of an input are those of its low four bits. -/
theorem directions_low (input : Nat) :
    right (input &&& 15) = right input ∧ left (input &&& 15) = left input ∧
    up (input &&& 15) = up input ∧ down (input &&& 15) = down input := by
  have h8 : (15 : Nat) &&& 8 = 8 := by decide
  have h4 : (15 : Nat) &&& 4 = 4 := by decide
  have h2 : (15 : Nat) &&& 2 = 2 := by decide
  have h1 : (15 : Nat) &&& 1 = 1 := by decide
  refine ⟨?_, ?_, ?_, ?_⟩
  · show ((input &&& 15) &&& 8 != 0) = (input &&& 8 != 0)
    rw [Nat.and_assoc, h8]
  · show ((input &&& 15) &&& 4 != 0) = (input &&& 4 != 0)
    rw [Nat.and_assoc, h4]
  · show ((input &&& 15) &&& 1 != 0) = (input &&& 1 != 0)
    rw [Nat.and_assoc, h1]
  · show ((input &&& 15) &&& 2 != 0) = (input &&& 2 != 0)
    rw [Nat.and_assoc, h2]

/-- The force of an input is `(right - left, up - down)` times the player speed. -/
theorem addedForce_eq (input : Nat) :
    addedForce input =
      (⟨(if right input then 1 else 0) - (if left input then 1 else 0),
        (if up input then 1 else 0) - (if down input then 1 else 0)⟩ : Vec2f) * PLAYER_SPEED := by
  unfold addedForce
  simp only [Vec2f.mul_def, Vec2f.mk.injEq]
  cases right input <;> cases left input <;> cases up input <;> cases down input <;>
    simp

/-- The force of an input is not zero exactly when the input is a move. -/
theorem addedForce_ne_zero_iff (input : Nat) :
    addedForce input ≠ ⟨0, 0⟩ ↔ isMoving input = true := by
  unfold addedForce isMoving PLAYER_SPEED
  simp only [ne_eq, Vec2f.mk.injEq]
  cases right input <;> cases left input <;> cases up input <;> cases down input <;>
    norm_num

end PlayerCharacterManager

/-- The method `SpawnBall` of the sample collaborators leaves the spawned players
alone: the entity it creates was free, and a spawned player is not. -/
theorem PlayerCollaborators.sample_spawnBallLocal : PlayerCollaborators.sample.SpawnBallLocal := by
  intro position velocity w
  refine ⟨rfl, ?_⟩
  intro p _ hplayer
  have hmask : w.entityManager.mask (w.playerEntityMap p) &&& 256 = 256 := by
    simpa [EntityManager.HasComponent, PlayerCollaborators.sample] using hplayer
  have hexists : w.entityManager.EntityExists (w.playerEntityMap p) = true := by
    simp only [EntityManager.EntityExists, EntityManager.Empty, bne_iff_ne, ne_eq]
    intro h1
    rw [h1] at hmask
    exact absurd hmask (by decide)
  have hlt := EntityManager.lt_size_of_EntityExists _ _ hexists
  obtain ⟨hcases, hnew, hothers⟩ := EntityManager.CreateEntity_cases w.entityManager 0
  have hfree : w.entityManager.mask (w.entityManager.CreateEntity 0).1 = EntityManager.Empty := by
    rcases hcases with ⟨_, h, _, _⟩ | ⟨h, _, _⟩
    · exact h
    · rw [h]
      exact EntityManager.mask_of_length_le _ _ (le_refl _)
  have hne : w.playerEntityMap p ≠ (w.entityManager.CreateEntity 0).1 := by
    intro h
    rw [← h] at hfree
    simp [EntityManager.EntityExists, hfree] at hexists
  refine ⟨?_, ?_, rfl⟩
  · show ((w.entityManager.CreateEntity 0).2.AddComponent (w.entityManager.CreateEntity 0).1 16).mask
      (w.playerEntityMap p) = _
    rw [EntityManager.mask_AddComponent _ _ _ _ hnew, if_neg hne]
    exact hothers _ hne hlt
  · show (w.physicsManager.setRigidbodyAt (w.entityManager.CreateEntity 0).1 _).rigidbodyManager
      (w.playerEntityMap p) = _
    simp [PhysicsManager.setRigidbodyAt, hne]

end physics

namespace physics

namespace PlayerCharacterManager

/-- Claim C24: for a spawned player (the two players having distinct entities, and
`SpawnBall` leaving the spawned players alone), `FixedUpdate` adds to the body of
the player exactly the force of its input, which is
`((Right ? 1 : 0) - (Left ? 1 : 0), (Up ? 1 : 0) - (Down ? 1 : 0)) * PLAYER_SPEED`
with `PLAYER_SPEED = 400`; two inputs with the same four low bits give the same
force, so `Shoot` and the bits 5 to 7 play no part; and the force is not zero
exactly when the player is moving (`Left` xor `Right`, or `Up` xor `Down`). -/
theorem FixedUpdate_movement_force (C : PlayerCollaborators) (dt : ℚ) (w : PlayerWorld) (p : Nat)
    (hL : C.SpawnBallLocal) (hdist : w.playerEntityMap 0 ≠ w.playerEntityMap 1)
    (hp : p < MAX_PLAYER_NMB)
    (hplayer : w.entityManager.HasComponent (w.playerEntityMap p) C.PlayerCharacter = true) :
    ((FixedUpdate C dt w).1.physicsManager.GetRigidbody (w.playerEntityMap p)).Force =
      (w.physicsManager.GetRigidbody (w.playerEntityMap p)).Force +
        addedForce (w.playerCharacters (w.playerEntityMap p)).input ∧
    (∀ input, addedForce input =
      (⟨(if right input then 1 else 0) - (if left input then 1 else 0),
        (if up input then 1 else 0) - (if down input then 1 else 0)⟩ : Vec2f) * PLAYER_SPEED) ∧
    PLAYER_SPEED = 400 ∧
    (∀ input, right input = (input &&& 8 != 0) ∧ left input = (input &&& 4 != 0) ∧
      up input = (input &&& 1 != 0) ∧ down input = (input &&& 2 != 0)) ∧
    (∀ i j, i &&& 15 = j &&& 15 → addedForce i = addedForce j) ∧
    (∀ input, addedForce input ≠ ⟨0, 0⟩ ↔ isMoving input = true) ∧
    (∀ input, isMoving input =
      (xor (right input) (left input) || xor (up input) (down input))) := by
  refine ⟨(FixedUpdate_spawned C dt w p hL hdist hp hplayer).1, addedForce_eq, rfl,
    fun _ => ⟨rfl, rfl, rfl, rfl⟩, ?_, addedForce_ne_zero_iff, fun _ => rfl⟩
  intro i j hij
  obtain ⟨r1, l1, u1, d1⟩ := directions_low i
  obtain ⟨r2, l2, u2, d2⟩ := directions_low j
  rw [hij] at r1 l1 u1 d1
  unfold addedForce
  rw [← r1, ← l1, ← u1, ← d1, ← r2, ← l2, ← u2, ← d2]

/-- Claim C24 on the sample world: player 1 holds `Right` and `Up`; the inputs 9 and
249 have the same four low bits. -/
theorem FixedUpdate_movement_force_witness :
    (PlayerWorld.sample.playerEntityMap 0 ≠ PlayerWorld.sample.playerEntityMap 1 ∧
      1 < MAX_PLAYER_NMB ∧
      PlayerWorld.sample.entityManager.HasComponent (PlayerWorld.sample.playerEntityMap 1)
        PlayerCollaborators.sample.PlayerCharacter = true ∧
      (PlayerWorld.sample.playerCharacters (PlayerWorld.sample.playerEntityMap 1)).input = 9) ∧
    ((FixedUpdate PlayerCollaborators.sample (1 / 50) PlayerWorld.sample).1.physicsManager.GetRigidbody
        (PlayerWorld.sample.playerEntityMap 1)).Force =
      (PlayerWorld.sample.physicsManager.GetRigidbody (PlayerWorld.sample.playerEntityMap 1)).Force +
        addedForce (PlayerWorld.sample.playerCharacters (PlayerWorld.sample.playerEntityMap 1)).input ∧
    ((9 : Nat) &&& 15 = 249 &&& 15 ∧ addedForce 9 = addedForce 249) :=
  ⟨⟨by decide, by decide, by decide, rfl⟩,
    (FixedUpdate_movement_force PlayerCollaborators.sample (1 / 50) PlayerWorld.sample 1
      PlayerCollaborators.sample_spawnBallLocal (by decide) (by decide) (by decide)).1,
    ⟨by decide,
      (FixedUpdate_movement_force PlayerCollaborators.sample (1 / 50) PlayerWorld.sample 1
        PlayerCollaborators.sample_spawnBallLocal (by decide) (by decide)
        (by decide)).2.2.2.2.1 9 249 (by decide)⟩⟩

/-- Claim C25, evaluated on the sample world: player 0 is at `(1, 2)`, aims at
`(0, 1)`, holds `Shoot` and has the ball; with the time step `1 / 50` the
position passed to `SpawnBall` is `(51 / 50, 127 / 50)`, the player position
plus half the aim direction plus the player position times the time step,
and not `(1, 5 / 2)`, the player position plus half the aim direction. -/
theorem FixedUpdate_ball_position :
    (FixedUpdate PlayerCollaborators.sample (1 / 50) PlayerWorld.sample).2.map
        (fun call => (call.playerNumber, call.position)) = [(0, ⟨51 / 50, 127 / 50⟩)] ∧
    (PlayerWorld.sample.physicsManager.GetRigidbody 0).Position +
        (PlayerWorld.sample.playerCharacters 0).aimDirection * (1 / 2 : ℚ) = ⟨1, 5 / 2⟩ ∧
    (PlayerWorld.sample.physicsManager.GetRigidbody 0).Position +
        (PlayerWorld.sample.playerCharacters 0).aimDirection * (1 / 2 : ℚ) +
        (PlayerWorld.sample.physicsManager.GetRigidbody 0).Position * (1 / 50 : ℚ) =
      ⟨51 / 50, 127 / 50⟩ ∧
    (⟨51 / 50, 127 / 50⟩ : Vec2f) ≠ ⟨1, 5 / 2⟩ := by
  have hsum : (⟨1, 2⟩ : Vec2f) + (⟨0, 1⟩ : Vec2f) * (1 / 2 : ℚ) + (⟨1, 2⟩ : Vec2f) * (1 / 50 : ℚ) =
      ⟨51 / 50, 127 / 50⟩ := by
    simp only [Vec2f.add_def, Vec2f.mul_def, Vec2f.mk.injEq]
    norm_num
  have hcalls : (FixedUpdate PlayerCollaborators.sample (1 / 50) PlayerWorld.sample).2.map
      (fun call => (call.playerNumber, call.position)) =
      [(0, (⟨1, 2⟩ : Vec2f) + (⟨0, 1⟩ : Vec2f) * (1 / 2 : ℚ) + (⟨1, 2⟩ : Vec2f) * (1 / 50 : ℚ))] :=
    rfl
  refine ⟨by rw [hcalls, hsum], ?_, ?_, ?_⟩
  · show (⟨1, 2⟩ : Vec2f) + (⟨0, 1⟩ : Vec2f) * (1 / 2 : ℚ) = ⟨1, 5 / 2⟩
    simp only [Vec2f.add_def, Vec2f.mul_def, Vec2f.mk.injEq]
    norm_num
  · exact hsum
  · simp only [ne_eq, Vec2f.mk.injEq]
    norm_num

/-- Claim C26: in one `FixedUpdate`, for a spawned player (the two players having
distinct entities, and `SpawnBall` leaving the spawned players alone): if on
entry the `Shoot` bit is set and `hasBall` is true, `SpawnBall` is called exactly
once for that player and afterwards `hasBall == false` and `hadBall == true`;
otherwise `SpawnBall` is not called for that player and `hasBall` and `hadBall`
are unchanged. -/
theorem FixedUpdate_throws_ball (C : PlayerCollaborators) (dt : ℚ) (w : PlayerWorld) (p : Nat)
    (hL : C.SpawnBallLocal) (hdist : w.playerEntityMap 0 ≠ w.playerEntityMap 1)
    (hp : p < MAX_PLAYER_NMB)
    (hplayer : w.entityManager.HasComponent (w.playerEntityMap p) C.PlayerCharacter = true) :
    ((w.playerCharacters (w.playerEntityMap p)).input &&& player_input_enum.Shoot ≠ 0 ∧
        (w.playerCharacters (w.playerEntityMap p)).hasBall = true →
      (FixedUpdate C dt w).2.countP (fun call => call.playerNumber == p) = 1 ∧
      ((FixedUpdate C dt w).1.playerCharacters (w.playerEntityMap p)).hasBall = false ∧
      ((FixedUpdate C dt w).1.playerCharacters (w.playerEntityMap p)).hadBall = true) ∧
    (¬ ((w.playerCharacters (w.playerEntityMap p)).input &&& player_input_enum.Shoot ≠ 0 ∧
        (w.playerCharacters (w.playerEntityMap p)).hasBall = true) →
      (FixedUpdate C dt w).2.countP (fun call => call.playerNumber == p) = 0 ∧
      ((FixedUpdate C dt w).1.playerCharacters (w.playerEntityMap p)).hasBall =
        (w.playerCharacters (w.playerEntityMap p)).hasBall ∧
      ((FixedUpdate C dt w).1.playerCharacters (w.playerEntityMap p)).hadBall =
        (w.playerCharacters (w.playerEntityMap p)).hadBall) := by
  obtain ⟨_, hyes, hno⟩ := FixedUpdate_spawned C dt w p hL hdist hp hplayer
  constructor
  · rintro ⟨h1, h2⟩
    apply hyes
    simp [h1, h2]
  · intro h
    apply hno
    rw [Bool.eq_false_iff]
    intro hb
    apply h
    simpa using hb

/-- Claim C26 on the sample world: player 0 holds `Shoot` and has the ball; player 1
does not hold `Shoot`. -/
theorem FixedUpdate_throws_ball_witness :
    (PlayerWorld.sample.playerEntityMap 0 ≠ PlayerWorld.sample.playerEntityMap 1 ∧
      0 < MAX_PLAYER_NMB ∧ 1 < MAX_PLAYER_NMB ∧
      PlayerWorld.sample.entityManager.HasComponent (PlayerWorld.sample.playerEntityMap 0)
        PlayerCollaborators.sample.PlayerCharacter = true ∧
      PlayerWorld.sample.entityManager.HasComponent (PlayerWorld.sample.playerEntityMap 1)
        PlayerCollaborators.sample.PlayerCharacter = true) ∧
    (((PlayerWorld.sample.playerCharacters (PlayerWorld.sample.playerEntityMap 0)).input &&&
          player_input_enum.Shoot ≠ 0 ∧
        (PlayerWorld.sample.playerCharacters (PlayerWorld.sample.playerEntityMap 0)).hasBall = true) ∧
      (FixedUpdate PlayerCollaborators.sample (1 / 50) PlayerWorld.sample).2.countP
        (fun call => call.playerNumber == 0) = 1 ∧
      ((FixedUpdate PlayerCollaborators.sample (1 / 50) PlayerWorld.sample).1.playerCharacters
        (PlayerWorld.sample.playerEntityMap 0)).hasBall = false ∧
      ((FixedUpdate PlayerCollaborators.sample (1 / 50) PlayerWorld.sample).1.playerCharacters
        (PlayerWorld.sample.playerEntityMap 0)).hadBall = true) ∧
    (¬ ((PlayerWorld.sample.playerCharacters (PlayerWorld.sample.playerEntityMap 1)).input &&&
          player_input_enum.Shoot ≠ 0 ∧
        (PlayerWorld.sample.playerCharacters (PlayerWorld.sample.playerEntityMap 1)).hasBall = true) ∧
      (FixedUpdate PlayerCollaborators.sample (1 / 50) PlayerWorld.sample).2.countP
        (fun call => call.playerNumber == 1) = 0 ∧
      ((FixedUpdate PlayerCollaborators.sample (1 / 50) PlayerWorld.sample).1.playerCharacters
        (PlayerWorld.sample.playerEntityMap 1)).hasBall =
        (PlayerWorld.sample.playerCharacters (PlayerWorld.sample.playerEntityMap 1)).hasBall ∧
      ((FixedUpdate PlayerCollaborators.sample (1 / 50) PlayerWorld.sample).1.playerCharacters
        (PlayerWorld.sample.playerEntityMap 1)).hadBall =
        (PlayerWorld.sample.playerCharacters (PlayerWorld.sample.playerEntityMap 1)).hadBall) :=
  ⟨⟨by decide, by decide, by decide, by decide, by decide⟩,
    ⟨⟨by decide, rfl⟩,
      (FixedUpdate_throws_ball PlayerCollaborators.sample (1 / 50) PlayerWorld.sample 0
        PlayerCollaborators.sample_spawnBallLocal (by decide) (by decide) (by decide)).1
        ⟨by decide, rfl⟩⟩,
    ⟨by decide,
      (FixedUpdate_throws_ball PlayerCollaborators.sample (1 / 50) PlayerWorld.sample 1
        PlayerCollaborators.sample_spawnBallLocal (by decide) (by decide) (by decide)).2
        (by decide)⟩⟩

end PlayerCharacterManager

end physics

/-! ### The setters and the integration step, once more -/

namespace physics

/-- Claim C39: `SetTakesGravity(false)` clears the flag and nothing else: the call
`SetGravityAcceleration((0, 0))` inside the setter finds the flag already
cleared and returns, so `GravityAcceleration()` and every other field are as
before; `SetTakesGravity(true)` sets the flag and nothing else. -/
theorem Rigidbody.SetTakesGravity_frame (b : Rigidbody) :
    b.SetTakesGravity false = { b with takesGravity := false } ∧
    (b.SetTakesGravity false).TakesGravity = false ∧
    (b.SetTakesGravity false).GravityAcceleration = b.GravityAcceleration ∧
    ({ b with takesGravity := false } : Rigidbody).SetGravityAcceleration ⟨0, 0⟩ =
      { b with takesGravity := false } ∧
    b.SetTakesGravity true = { b with takesGravity := true } ∧
    (b.SetTakesGravity true).TakesGravity = true ∧
    (b.SetTakesGravity true).GravityAcceleration = b.GravityAcceleration := by
  refine ⟨?_, ?_, ?_, ?_, ?_, ?_, ?_⟩ <;>
    simp [Rigidbody.SetTakesGravity, Rigidbody.SetGravityAcceleration, Rigidbody.TakesGravity,
      Rigidbody.GravityAcceleration]

namespace PhysicsManager

/-- The loop of `MoveBodies` leaves the colliders, the layer matrix and the gravity
as they are. -/
theorem MoveBodies_loop_others (C : Collaborators) (dt : ℚ) (n : Nat) (pm : PhysicsManager) :
    (MoveBodies.loop C dt n pm).aabbManager = pm.aabbManager ∧
    (MoveBodies.loop C dt n pm).circleManager = pm.circleManager ∧
    (MoveBodies.loop C dt n pm).layerCollisionMatrix = pm.layerCollisionMatrix ∧
    (MoveBodies.loop C dt n pm).gravity = pm.gravity := by
  induction n with
  | zero => exact ⟨rfl, rfl, rfl, rfl⟩
  | succ n ih =>
    simp only [MoveBodies.loop]
    split_ifs <;> exact ih

/-- Claim C31: for every entity of the registry with the Rigidbody component and a
body that is not `Static`, `MoveBodies(dt)` sets `velocity' = velocity *
dragFactor + force * invMass * dt`, then `position' = position + velocity' * dt`
with the velocity already updated, then `force' = (0, 0)`, in exact arithmetic,
and changes no other field of the body; every other body (static, or of an
entity without the Rigidbody component) is unchanged, and so are the registry,
the colliders, the layer matrix and the gravity. -/
theorem MoveBodies_integrates (C : Collaborators) (dt : ℚ) (pm : PhysicsManager) (e : Nat) :
    ((e < pm.entityManager.GetEntitiesSize ∧ pm.entityManager.HasComponent e C.Rigidbody = true ∧
        (pm.GetRigidbody e).IsStatic = false) →
      ((MoveBodies C dt pm).GetRigidbody e).Velocity =
        (pm.GetRigidbody e).Velocity * (pm.GetRigidbody e).DragFactor +
          (pm.GetRigidbody e).Force * (pm.GetRigidbody e).InvMass * dt ∧
      ((MoveBodies C dt pm).GetRigidbody e).Position =
        (pm.GetRigidbody e).Position + ((MoveBodies C dt pm).GetRigidbody e).Velocity * dt ∧
      ((MoveBodies C dt pm).GetRigidbody e).Force = ⟨0, 0⟩ ∧
      (MoveBodies C dt pm).GetRigidbody e =
        { pm.GetRigidbody e with
          velocity := ((MoveBodies C dt pm).GetRigidbody e).Velocity
          transform := { (pm.GetRigidbody e).transform with
            position := ((MoveBodies C dt pm).GetRigidbody e).Position }
          force := ⟨0, 0⟩ }) ∧
    (¬ (e < pm.entityManager.GetEntitiesSize ∧
        pm.entityManager.HasComponent e C.Rigidbody = true ∧
        (pm.GetRigidbody e).IsStatic = false) →
      (MoveBodies C dt pm).GetRigidbody e = pm.GetRigidbody e) ∧
    (MoveBodies C dt pm).entityManager = pm.entityManager ∧
    (MoveBodies C dt pm).aabbManager = pm.aabbManager ∧
    (MoveBodies C dt pm).circleManager = pm.circleManager ∧
    (MoveBodies C dt pm).layerCollisionMatrix = pm.layerCollisionMatrix ∧
    (MoveBodies C dt pm).gravity = pm.gravity := by
  have hbody := MoveBodies_loop_rigidbody C dt pm.entityManager.GetEntitiesSize pm e
  obtain ⟨h1, h2, h3, h4⟩ := MoveBodies_loop_others C dt pm.entityManager.GetEntitiesSize pm
  refine ⟨?_, ?_, MoveBodies_loop_frame C dt _ pm, h1, h2, h3, h4⟩
  · intro hc
    have hc' : e < pm.entityManager.GetEntitiesSize ∧
        pm.entityManager.HasComponent e C.Rigidbody = true ∧
        (pm.rigidbodyManager e).IsStatic = false := hc
    rw [if_pos hc'] at hbody
    have hb : (MoveBodies C dt pm).GetRigidbody e = _ := hbody
    rw [hb]
    exact ⟨rfl, rfl, rfl, rfl⟩
  · intro hc
    have hc' : ¬ (e < pm.entityManager.GetEntitiesSize ∧
        pm.entityManager.HasComponent e C.Rigidbody = true ∧
        (pm.rigidbodyManager e).IsStatic = false) := hc
    rw [if_neg hc'] at hbody
    exact hbody

/-- Claim C31 on the sample world: entity 3 is dynamic, entity 4 is static. -/
theorem MoveBodies_integrates_witness :
    ((3 < PhysicsManager.sample.entityManager.GetEntitiesSize ∧
        PhysicsManager.sample.entityManager.HasComponent 3 Collaborators.sample.Rigidbody = true ∧
        (PhysicsManager.sample.GetRigidbody 3).IsStatic = false) ∧
      ((MoveBodies Collaborators.sample (1 / 50) PhysicsManager.sample).GetRigidbody 3).Velocity =
        (PhysicsManager.sample.GetRigidbody 3).Velocity * (PhysicsManager.sample.GetRigidbody 3).DragFactor +
          (PhysicsManager.sample.GetRigidbody 3).Force * (PhysicsManager.sample.GetRigidbody 3).InvMass *
            ((1 : ℚ) / 50) ∧
      ((MoveBodies Collaborators.sample (1 / 50) PhysicsManager.sample).GetRigidbody 3).Position =
        (PhysicsManager.sample.GetRigidbody 3).Position +
          ((MoveBodies Collaborators.sample (1 / 50) PhysicsManager.sample).GetRigidbody 3).Velocity *
            ((1 : ℚ) / 50) ∧
      ((MoveBodies Collaborators.sample (1 / 50) PhysicsManager.sample).GetRigidbody 3).Force = ⟨0, 0⟩ ∧
      (MoveBodies Collaborators.sample (1 / 50) PhysicsManager.sample).GetRigidbody 3 =
        { PhysicsManager.sample.GetRigidbody 3 with
          velocity := ((MoveBodies Collaborators.sample (1 / 50) PhysicsManager.sample).GetRigidbody 3).Velocity
          transform := { (PhysicsManager.sample.GetRigidbody 3).transform with
            position :=
              ((MoveBodies Collaborators.sample (1 / 50) PhysicsManager.sample).GetRigidbody 3).Position }
          force := ⟨0, 0⟩ }) ∧
    (¬ (4 < PhysicsManager.sample.entityManager.GetEntitiesSize ∧
        PhysicsManager.sample.entityManager.HasComponent 4 Collaborators.sample.Rigidbody = true ∧
        (PhysicsManager.sample.GetRigidbody 4).IsStatic = false) ∧
      (MoveBodies Collaborators.sample (1 / 50) PhysicsManager.sample).GetRigidbody 4 =
        PhysicsManager.sample.GetRigidbody 4) :=
  ⟨⟨⟨by decide, by decide, rfl⟩,
      (MoveBodies_integrates Collaborators.sample (1 / 50) PhysicsManager.sample 3).1
        ⟨by decide, by decide, rfl⟩⟩,
    ⟨by decide,
      (MoveBodies_integrates Collaborators.sample (1 / 50) PhysicsManager.sample 4).2.1
        (by decide)⟩⟩

end PhysicsManager

end physics

/-! ### The window advance, once more -/

/-- The window advance to a frame that is not before the current one and less
than `WINDOW_BUFFER_SIZE` frames after it, in closed form; an advance to the
current frame changes nothing. -/
theorem RollbackManager.StartNewFrame_forward (r : RollbackManager) (newFrame : Nat)
    (hle : r.currentFrame ≤ newFrame)
    (hk : newFrame - r.currentFrame < WINDOW_BUFFER_SIZE) :
    r.StartNewFrame newFrame
      = .ok { r with
          inputs := fun p => if p < MAX_PLAYER_NMB then
              (fun j => if j < newFrame - r.currentFrame then r.inputs p 0
                        else if j < WINDOW_BUFFER_SIZE then
                          r.inputs p (j - (newFrame - r.currentFrame))
                        else r.inputs p j)
            else r.inputs p
          currentFrame := newFrame } := by
  by_cases h0 : newFrame = r.currentFrame
  · subst h0
    have hsub : Frame.sub r.currentFrame r.currentFrame = 0 := by
      unfold Frame.sub
      omega
    unfold RollbackManager.StartNewFrame
    simp only [gt_iff_lt, lt_self_iff_false, if_false, hsub, if_true, Nat.sub_self,
      Nat.not_lt_zero, Nat.sub_zero]
    congr 1
    have hin : r.inputs = fun p => if p < MAX_PLAYER_NMB then
        (fun j => if j < WINDOW_BUFFER_SIZE then r.inputs p j else r.inputs p j)
        else r.inputs p := by
      funext p
      split_ifs
      · funext j
        split_ifs <;> rfl
      · rfl
    cases r
    simp only at hin ⊢
    rw [← hin]
  · have hk1 : 1 ≤ newFrame - r.currentFrame := by omega
    have h := r.StartNewFrame_eq (newFrame - r.currentFrame) hk1 hk
    have hsum : r.currentFrame + (newFrame - r.currentFrame) = newFrame := by omega
    rw [hsum] at h
    exact h

/-- Claim C35: for every player `p`, every frame `g` at or before the current frame
and every new frame at or after the current frame with `newFrame - g < 250`,
`StartNewFrame(newFrame)` succeeds, the current frame becomes `newFrame`, and
`GetInputAtFrame(p, g)` returns afterwards what it returned before: for a player
of the game, the slot that held the frame `g`. -/
theorem RollbackManager.StartNewFrame_keeps_frames (r : RollbackManager) (p g newFrame : Nat)
    (hg : g ≤ r.currentFrame) (hnew : r.currentFrame ≤ newFrame)
    (hw : newFrame - g < WINDOW_BUFFER_SIZE) :
    ∃ r', r.StartNewFrame newFrame = .ok r' ∧ r'.currentFrame = newFrame ∧
      r'.GetInputAtFrame p g = r.GetInputAtFrame p g ∧
      (p < MAX_PLAYER_NMB →
        r.GetInputAtFrame p g = .ok (r.inputs p (r.currentFrame - g)) ∧
        r'.GetInputAtFrame p g = .ok (r.inputs p (r.currentFrame - g))) := by
  have hW : WINDOW_BUFFER_SIZE = 250 := rfl
  have hk : newFrame - r.currentFrame < WINDOW_BUFFER_SIZE := by omega
  refine ⟨_, r.StartNewFrame_forward newFrame hnew hk, rfl, ?_⟩
  have hsub1 : Frame.sub newFrame g = newFrame - g := Frame.sub_eq _ _ (by omega) (by omega)
  have hsub2 : Frame.sub r.currentFrame g = r.currentFrame - g :=
    Frame.sub_eq _ _ hg (by omega)
  have hw2 : r.currentFrame - g < WINDOW_BUFFER_SIZE := by omega
  by_cases hp : p < MAX_PLAYER_NMB
  · have hold : r.GetInputAtFrame p g = .ok (r.inputs p (r.currentFrame - g)) :=
      RollbackManager.GetInputAtFrame_eq r p g hp hg hw2
    have hafter : RollbackManager.GetInputAtFrame
        { r with
          inputs := fun p => if p < MAX_PLAYER_NMB then
              (fun j => if j < newFrame - r.currentFrame then r.inputs p 0
                        else if j < WINDOW_BUFFER_SIZE then
                          r.inputs p (j - (newFrame - r.currentFrame))
                        else r.inputs p j)
            else r.inputs p
          currentFrame := newFrame } p g = .ok (r.inputs p (r.currentFrame - g)) := by
      simp only [RollbackManager.GetInputAtFrame, hsub1, hw, hp, if_true, InputRing.read]
      have h1 : ¬ newFrame - g < newFrame - r.currentFrame := by omega
      have h2 : newFrame - g - (newFrame - r.currentFrame) = r.currentFrame - g := by omega
      simp only [h1, if_false, h2]
    exact ⟨hafter.trans hold.symm, fun _ => ⟨hold, hafter⟩⟩
  · refine ⟨?_, fun h => absurd h hp⟩
    simp only [RollbackManager.GetInputAtFrame, hsub1, hsub2, hw, hw2, hp, if_true, if_false]

/-- Claim C35 at the sample state (current frame 7): the frame 5 of player 1 across
an advance to frame 10. -/
theorem RollbackManager.StartNewFrame_keeps_frames_witness :
    5 ≤ RollbackManager.sample.currentFrame ∧ RollbackManager.sample.currentFrame ≤ 10 ∧
    10 - 5 < WINDOW_BUFFER_SIZE ∧
    ∃ r', RollbackManager.sample.StartNewFrame 10 = .ok r' ∧ r'.currentFrame = 10 ∧
      r'.GetInputAtFrame 1 5 = RollbackManager.sample.GetInputAtFrame 1 5 ∧
      (1 < MAX_PLAYER_NMB →
        RollbackManager.sample.GetInputAtFrame 1 5 =
          .ok (RollbackManager.sample.inputs 1 (RollbackManager.sample.currentFrame - 5)) ∧
        r'.GetInputAtFrame 1 5 =
          .ok (RollbackManager.sample.inputs 1 (RollbackManager.sample.currentFrame - 5))) :=
  ⟨by decide, by decide, by decide,
    RollbackManager.StartNewFrame_keeps_frames RollbackManager.sample 1 5 10
      (by decide) (by decide) (by decide)⟩

/-- Claim C36: for frames `a`, `b` with `currentFrame <= a <= b` and
`b - currentFrame < 250`, `StartNewFrame(a)` followed by `StartNewFrame(b)` succeeds
and gives exactly the state that the single `StartNewFrame(b)` gives: the same
input rings and the same current frame. -/
theorem RollbackManager.StartNewFrame_composes (r : RollbackManager) (a b : Nat)
    (ha : r.currentFrame ≤ a) (hab : a ≤ b) (hb : b - r.currentFrame < WINDOW_BUFFER_SIZE) :
    ∃ r1 r2, r.StartNewFrame a = .ok r1 ∧ r1.StartNewFrame b = .ok r2 ∧
      r.StartNewFrame b = .ok r2 ∧ r2.currentFrame = b ∧
      (r.StartNewFrame a >>= fun r1 => r1.StartNewFrame b) = r.StartNewFrame b := by
  have hW : WINDOW_BUFFER_SIZE = 250 := rfl
  have h1 := r.StartNewFrame_forward a ha (by omega)
  have h3 := r.StartNewFrame_forward b (by omega) hb
  have h2 := RollbackManager.StartNewFrame_forward
    { r with
      inputs := fun p => if p < MAX_PLAYER_NMB then
          (fun j => if j < a - r.currentFrame then r.inputs p 0
                    else if j < WINDOW_BUFFER_SIZE then r.inputs p (j - (a - r.currentFrame))
                    else r.inputs p j)
        else r.inputs p
      currentFrame := a } b hab (by show b - a < _; omega)
  have heq : ({ r with
      inputs := fun p => if p < MAX_PLAYER_NMB then
          (fun j => if j < b - r.currentFrame then r.inputs p 0
                    else if j < WINDOW_BUFFER_SIZE then r.inputs p (j - (b - r.currentFrame))
                    else r.inputs p j)
        else r.inputs p
      currentFrame := b } : RollbackManager) =
      { ({ r with
          inputs := fun p => if p < MAX_PLAYER_NMB then
              (fun j => if j < a - r.currentFrame then r.inputs p 0
                        else if j < WINDOW_BUFFER_SIZE then r.inputs p (j - (a - r.currentFrame))
                        else r.inputs p j)
            else r.inputs p
          currentFrame := a } : RollbackManager) with
        inputs := fun p => if p < MAX_PLAYER_NMB then
            (fun j => if j < b - a then
                (if p < MAX_PLAYER_NMB then
                  (fun j => if j < a - r.currentFrame then r.inputs p 0
                    else if j < WINDOW_BUFFER_SIZE then r.inputs p (j - (a - r.currentFrame))
                    else r.inputs p j)
                else r.inputs p) 0
              else if j < WINDOW_BUFFER_SIZE then
                (if p < MAX_PLAYER_NMB then
                  (fun j => if j < a - r.currentFrame then r.inputs p 0
                    else if j < WINDOW_BUFFER_SIZE then r.inputs p (j - (a - r.currentFrame))
                    else r.inputs p j)
                else r.inputs p) (j - (b - a))
              else
                (if p < MAX_PLAYER_NMB then
                  (fun j => if j < a - r.currentFrame then r.inputs p 0
                    else if j < WINDOW_BUFFER_SIZE then r.inputs p (j - (a - r.currentFrame))
                    else r.inputs p j)
                else r.inputs p) j)
          else
            (if p < MAX_PLAYER_NMB then
              (fun j => if j < a - r.currentFrame then r.inputs p 0
                else if j < WINDOW_BUFFER_SIZE then r.inputs p (j - (a - r.currentFrame))
                else r.inputs p j)
            else r.inputs p)
        currentFrame := b } := by
    congr 1
    funext p
    by_cases hp : p < MAX_PLAYER_NMB
    · simp only [hp, if_true]
      funext j
      split_ifs <;> first | rfl | (exfalso; omega) | (congr 1; omega)
    · simp only [hp, if_false]
  refine ⟨_, _, h1, h2, ?_, rfl, ?_⟩
  · rw [h3, heq]
  · rw [h1]
    show RollbackManager.StartNewFrame _ b = _
    rw [h2, h3, heq]

/-- Claim C36 at the sample state (current frame 7): an advance to frame 9 and then
to frame 12, against a single advance to frame 12. -/
theorem RollbackManager.StartNewFrame_composes_witness :
    RollbackManager.sample.currentFrame ≤ 9 ∧ 9 ≤ 12 ∧
    12 - RollbackManager.sample.currentFrame < WINDOW_BUFFER_SIZE ∧
    ∃ r1 r2, RollbackManager.sample.StartNewFrame 9 = .ok r1 ∧ r1.StartNewFrame 12 = .ok r2 ∧
      RollbackManager.sample.StartNewFrame 12 = .ok r2 ∧ r2.currentFrame = 12 ∧
      (RollbackManager.sample.StartNewFrame 9 >>= fun r1 => r1.StartNewFrame 12) =
        RollbackManager.sample.StartNewFrame 12 :=
  ⟨by decide, by decide, by decide,
    RollbackManager.StartNewFrame_composes RollbackManager.sample 9 12
      (by decide) (by decide) (by decide)⟩

/-- The shift loop of `StartNewFrame` does not run when `delta` is at least the
size of the ring. -/
theorem shiftLoop_skipped (delta : Nat) (hd : WINDOW_BUFFER_SIZE ≤ delta) (ring : InputRing) :
    shiftLoop delta WINDOW_BUFFER_SIZE ring = .ok ring := by
  have hW : WINDOW_BUFFER_SIZE = 249 + 1 := rfl
  rw [hW] at hd ⊢
  rw [shiftLoop]
  have h : ¬ delta ≤ 249 := by omega
  simp only [h, if_false]

/-- The fill loop of `StartNewFrame` reads `inputs[delta]` first, outside the ring
when `delta` is at least its size. -/
theorem fillLoop_out_of_range (delta : Nat) (hd : WINDOW_BUFFER_SIZE ≤ delta)
    (ring : InputRing) :
    ring.read delta = .error .outOfRange ∧ fillLoop delta delta ring = .error .outOfRange := by
  have hW : WINDOW_BUFFER_SIZE = 250 := rfl
  have hread : ring.read delta = .error .outOfRange := by
    unfold InputRing.read
    rw [if_neg (by omega)]
  refine ⟨hread, ?_⟩
  obtain ⟨n, hn⟩ : ∃ n, delta = n + 1 := ⟨delta - 1, by omega⟩
  have h : fillLoop delta (n + 1) ring = .error .outOfRange := by
    rw [fillLoop, hread]
    rfl
  rw [← hn] at h
  exact h

/-- The ring loop of `StartNewFrame` faults at the first ring when `delta` is at
least the size of a ring. -/
theorem shiftRings_out_of_range (delta : Nat) (hd : WINDOW_BUFFER_SIZE ≤ delta)
    (inputs : Nat → InputRing) :
    shiftRings delta MAX_PLAYER_NMB inputs = .error .outOfRange := by
  have h0 : shiftRing delta (inputs 0) = .error .outOfRange := by
    unfold shiftRing
    rw [shiftLoop_skipped delta hd]
    exact (fillLoop_out_of_range delta hd (inputs 0)).2
  show shiftRings delta (1 + 1) inputs = _
  rw [shiftRings, shiftRings, shiftRings]
  show (shiftRing delta (inputs 0) >>= _) >>= _ = _
  rw [h0]
  rfl

/-- Claim C37: with `d = newFrame - currentFrame > 0`, `StartNewFrame(newFrame)`
makes all its ring accesses inside the ring (it runs to its end, without an
out-of-range access) exactly when `d < 250`; for `d >= 250` the shift loop does
not run on any ring, the fill loop reads `inputs[d]`, which is outside the ring,
and `StartNewFrame` stops there. -/
theorem RollbackManager.StartNewFrame_in_range_iff (r : RollbackManager) (newFrame : Nat)
    (hlt : r.currentFrame < newFrame) (h32 : newFrame < 4294967296) :
    Frame.sub newFrame r.currentFrame = newFrame - r.currentFrame ∧
    ((∃ r', r.StartNewFrame newFrame = .ok r') ↔
      newFrame - r.currentFrame < WINDOW_BUFFER_SIZE) ∧
    (r.StartNewFrame newFrame = .error .outOfRange ↔
      WINDOW_BUFFER_SIZE ≤ newFrame - r.currentFrame) ∧
    (WINDOW_BUFFER_SIZE ≤ newFrame - r.currentFrame →
      ∀ ring : InputRing,
        shiftLoop (newFrame - r.currentFrame) WINDOW_BUFFER_SIZE ring = .ok ring ∧
        ring.read (newFrame - r.currentFrame) = .error .outOfRange ∧
        fillLoop (newFrame - r.currentFrame) (newFrame - r.currentFrame) ring
          = .error .outOfRange) := by
  have hsub : Frame.sub newFrame r.currentFrame = newFrame - r.currentFrame :=
    Frame.sub_eq _ _ (by omega) (by omega)
  have hin : newFrame - r.currentFrame < WINDOW_BUFFER_SIZE →
      ∃ r', r.StartNewFrame newFrame = .ok r' := fun h =>
    ⟨_, r.StartNewFrame_forward newFrame (by omega) h⟩
  have hout : WINDOW_BUFFER_SIZE ≤ newFrame - r.currentFrame →
      r.StartNewFrame newFrame = .error .outOfRange := by
    intro h
    unfold RollbackManager.StartNewFrame
    have h1 : ¬ r.currentFrame > newFrame := by omega
    have h2 : ¬ newFrame - r.currentFrame = 0 := by omega
    simp only [h1, if_false, hsub, h2, shiftRings_out_of_range _ h]
    rfl
  refine ⟨hsub, ⟨?_, hin⟩, ⟨?_, hout⟩, ?_⟩
  · rintro ⟨r', hr'⟩
    by_contra hn
    rw [hout (by omega)] at hr'
    cases hr'
  · intro he
    by_contra hn
    obtain ⟨r', hr'⟩ := hin (by omega)
    rw [he] at hr'
    cases hr'
  · intro h ring
    exact ⟨shiftLoop_skipped _ h ring, fillLoop_out_of_range _ h ring⟩

/-- Claim C37 at the sample state (current frame 7): an advance to frame 257, which
is 250 frames ahead. -/
theorem RollbackManager.StartNewFrame_in_range_iff_witness :
    RollbackManager.sample.currentFrame < 257 ∧ 257 < 4294967296 ∧
    Frame.sub 257 RollbackManager.sample.currentFrame
      = 257 - RollbackManager.sample.currentFrame ∧
    ((∃ r', RollbackManager.sample.StartNewFrame 257 = .ok r') ↔
      257 - RollbackManager.sample.currentFrame < WINDOW_BUFFER_SIZE) ∧
    (RollbackManager.sample.StartNewFrame 257 = .error .outOfRange ↔
      WINDOW_BUFFER_SIZE ≤ 257 - RollbackManager.sample.currentFrame) ∧
    (WINDOW_BUFFER_SIZE ≤ 257 - RollbackManager.sample.currentFrame →
      ∀ ring : InputRing,
        shiftLoop (257 - RollbackManager.sample.currentFrame) WINDOW_BUFFER_SIZE ring
          = .ok ring ∧
        ring.read (257 - RollbackManager.sample.currentFrame) = .error .outOfRange ∧
        fillLoop (257 - RollbackManager.sample.currentFrame)
          (257 - RollbackManager.sample.currentFrame) ring = .error .outOfRange) :=
  ⟨by decide, by decide,
    RollbackManager.StartNewFrame_in_range_iff RollbackManager.sample 257
      (by decide) (by decide)⟩

/-! ### Bodies with equal digests -/

/-- The digest of a body is the sum of its six words modulo `2^32`. -/
theorem RollbackManager.physicsStateOf_sum (body : Body) :
    RollbackManager.physicsStateOf body = body.words.sum % 2 ^ 32 := by
  rw [RollbackManager.physicsStateOf_eq]
  simp only [Body.words, List.sum_cons, List.sum_nil]
  congr 1
  omega

/-- Two bodies whose six words are a permutation of each other have equal sums. -/
theorem RollbackManager.physicsStateOf_perm (b1 b2 : Body) (h : b1.words.Perm b2.words) :
    RollbackManager.physicsStateOf b1 = RollbackManager.physicsStateOf b2 := by
  rw [RollbackManager.physicsStateOf_sum, RollbackManager.physicsStateOf_sum, h.sum_eq]

/-- Two bodies that differ by compensating changes of two words have equal sums. -/
theorem RollbackManager.physicsStateOf_compensates (b1 b2 : Body) (i j d : Nat)
    (h : b1.compensates b2 i j d) :
    RollbackManager.physicsStateOf b1 = RollbackManager.physicsStateOf b2 := by
  obtain ⟨⟨px1, py1⟩, ⟨vx1, vy1⟩, a1, r1, t1⟩ := b1
  obtain ⟨⟨px2, py2⟩, ⟨vx2, vy2⟩, a2, r2, t2⟩ := b2
  obtain ⟨hi, hj, hij, hpi, hpj, heq⟩ := h
  have e0 := heq 0 (by omega)
  have e1 := heq 1 (by omega)
  have e2 := heq 2 (by omega)
  have e3 := heq 3 (by omega)
  have e4 := heq 4 (by omega)
  have e5 := heq 5 (by omega)
  rw [RollbackManager.physicsStateOf_eq, RollbackManager.physicsStateOf_eq]
  dsimp only
  simp only [Body.words] at hpi hpj e0 e1 e2 e3 e4 e5
  interval_cases i <;> interval_cases j <;>
    simp at hij hpi hpj e0 e1 e2 e3 e4 e5 <;> omega

/-- Claim C34: the digest is not injective.  For two players with a validated body,
`GetValidatePhysicsState` returns the same digest when the six words of the one
body are a permutation of the six words of the other (for instance `position.x`
exchanged with `position.y`, or `position` exchanged with `velocity`), and when
the bodies differ by compensating changes of two words (one word `+d`, another
`-d` modulo `2^32`); and two games whose validated body states of player 0
differ pass `ConfirmFrame` against the same digests. -/
theorem RollbackManager.GetValidatePhysicsState_not_injective (g1 g2 : GameManager)
    (p1 p2 : Nat)
    (hb1 : g1.GetEntityFromPlayerNumber p1 < g1.entityManager.GetEntitiesSize)
    (hb2 : g2.GetEntityFromPlayerNumber p2 < g2.entityManager.GetEntitiesSize) :
    ((g1.rollbackManager.lastValidatePhysicsManager.bodies
          (g1.GetEntityFromPlayerNumber p1)).words.Perm
        (g2.rollbackManager.lastValidatePhysicsManager.bodies
          (g2.GetEntityFromPlayerNumber p2)).words →
      RollbackManager.GetValidatePhysicsState g1 p1
        = RollbackManager.GetValidatePhysicsState g2 p2) ∧
    (∀ body : Body,
      g1.rollbackManager.lastValidatePhysicsManager.bodies
          (g1.GetEntityFromPlayerNumber p1) = body →
      (g2.rollbackManager.lastValidatePhysicsManager.bodies
          (g2.GetEntityFromPlayerNumber p2)
        = { body with position := ⟨body.position.y, body.position.x⟩ } ∨
       g2.rollbackManager.lastValidatePhysicsManager.bodies
          (g2.GetEntityFromPlayerNumber p2)
        = { body with position := body.velocity, velocity := body.position }) →
      RollbackManager.GetValidatePhysicsState g1 p1
        = RollbackManager.GetValidatePhysicsState g2 p2) ∧
    (∀ i j d : Nat,
      (g1.rollbackManager.lastValidatePhysicsManager.bodies
          (g1.GetEntityFromPlayerNumber p1)).compensates
        (g2.rollbackManager.lastValidatePhysicsManager.bodies
          (g2.GetEntityFromPlayerNumber p2)) i j d →
      RollbackManager.GetValidatePhysicsState g1 p1
        = RollbackManager.GetValidatePhysicsState g2 p2) ∧
    (∃ (E : Engine) (gA gB gA' gB' : GameManager) (frame : Nat) (peerDigests : Nat → Nat),
      RollbackManager.ConfirmFrame E gA frame peerDigests = .ok gA' ∧
      RollbackManager.ConfirmFrame E gB frame peerDigests = .ok gB' ∧
      gA'.rollbackManager.lastValidatePhysicsManager.bodies (gA'.GetEntityFromPlayerNumber 0)
        ≠ gB'.rollbackManager.lastValidatePhysicsManager.bodies
            (gB'.GetEntityFromPlayerNumber 0) ∧
      RollbackManager.GetValidatePhysicsState gA' 0 = .ok (peerDigests 0) ∧
      RollbackManager.GetValidatePhysicsState gB' 0 = .ok (peerDigests 0)) := by
  have hperm : (g1.rollbackManager.lastValidatePhysicsManager.bodies
          (g1.GetEntityFromPlayerNumber p1)).words.Perm
        (g2.rollbackManager.lastValidatePhysicsManager.bodies
          (g2.GetEntityFromPlayerNumber p2)).words →
      RollbackManager.GetValidatePhysicsState g1 p1
        = RollbackManager.GetValidatePhysicsState g2 p2 := by
    intro h
    unfold RollbackManager.GetValidatePhysicsState
    simp only [hb1, hb2, if_true]
    rw [RollbackManager.physicsStateOf_perm _ _ h]
  refine ⟨hperm, ?_, ?_, ?_⟩
  · intro body hbody hswap
    apply hperm
    rw [hbody]
    rcases hswap with h | h
    · rw [h]
      exact List.Perm.swap _ _ _
    · rw [h]
      simp only [Body.words]
      have h3 : ([body.position.x, body.position.y] ++ [body.velocity.x, body.velocity.y]).Perm
          ([body.velocity.x, body.velocity.y] ++ [body.position.x, body.position.y]) :=
        List.perm_append_comm
      exact h3.append_right [body.rotation, body.angularVelocity]
  · intro i j d h
    unfold RollbackManager.GetValidatePhysicsState
    simp only [hb1, hb2, if_true]
    rw [RollbackManager.physicsStateOf_compensates _ _ i j d h]
  · exact ⟨Engine.sample, GameManager.sampleMoved ⟨5, 0⟩, GameManager.sampleMoved ⟨0, 5⟩, _, _,
      4, fun p => if p = 0 then 53 else 0, rfl, rfl, by decide, rfl, rfl⟩

/-- Claim C34 at the sample game, with the validated body of player 0 at `(5, 0)`
in the one game and at `(0, 5)` in the other. -/
theorem RollbackManager.GetValidatePhysicsState_not_injective_witness :
    (GameManager.sampleMoved ⟨5, 0⟩).GetEntityFromPlayerNumber 0
      < (GameManager.sampleMoved ⟨5, 0⟩).entityManager.GetEntitiesSize ∧
    (GameManager.sampleMoved ⟨0, 5⟩).GetEntityFromPlayerNumber 0
      < (GameManager.sampleMoved ⟨0, 5⟩).entityManager.GetEntitiesSize ∧
    (GameManager.sampleMoved ⟨5, 0⟩).rollbackManager.lastValidatePhysicsManager.bodies 0
      ≠ (GameManager.sampleMoved ⟨0, 5⟩).rollbackManager.lastValidatePhysicsManager.bodies 0 ∧
    RollbackManager.GetValidatePhysicsState (GameManager.sampleMoved ⟨5, 0⟩) 0
      = RollbackManager.GetValidatePhysicsState (GameManager.sampleMoved ⟨0, 5⟩) 0 :=
  ⟨by decide, by decide, by decide,
    (RollbackManager.GetValidatePhysicsState_not_injective (GameManager.sampleMoved ⟨5, 0⟩)
      (GameManager.sampleMoved ⟨0, 5⟩) 0 0 (by decide) (by decide)).1
      (List.Perm.swap _ _ _)⟩

/-! ### The reset step and the `Destroyed` flag -/

/-- The loop that removes the `Destroyed` flags keeps the size of the registry. -/
theorem removeDestroyedFlags_size (destroyed : Nat) :
    ∀ (n : Nat) (em : EntityManager),
      (removeDestroyedFlags destroyed n em).GetEntitiesSize = em.GetEntitiesSize := by
  intro n
  induction n with
  | zero => intro em; rfl
  | succ n ih =>
    intro em
    unfold removeDestroyedFlags
    dsimp only
    split_ifs
    · rw [← ih em]
      simp [EntityManager.RemoveComponent, EntityManager.GetEntitiesSize]
    · exact ih em

/-- The loop that removes the `Destroyed` flags, in closed form: the mask of an
entity below `n` that carries the flag loses it, every other mask is unchanged. -/
theorem removeDestroyedFlags_mask (destroyed : Nat) :
    ∀ (n : Nat) (em : EntityManager) (e : Nat), n ≤ em.GetEntitiesSize →
      (removeDestroyedFlags destroyed n em).mask e
        = if e < n ∧ em.HasComponent e destroyed = true
          then em.mask e &&& (0xFFFFFFFF ^^^ destroyed) else em.mask e := by
  intro n
  induction n with
  | zero =>
    intro em e _
    simp [removeDestroyedFlags]
  | succ n ih =>
    intro em e hn
    have ih1 : ∀ e, (removeDestroyedFlags destroyed n em).mask e
        = if e < n ∧ em.HasComponent e destroyed = true
          then em.mask e &&& (0xFFFFFFFF ^^^ destroyed) else em.mask e :=
      fun e => ih em e (by omega)
    have hsz := removeDestroyedFlags_size destroyed n em
    have hn1 : (removeDestroyedFlags destroyed n em).HasComponent n destroyed
        = em.HasComponent n destroyed := by
      unfold EntityManager.HasComponent
      rw [ih1 n]
      simp
    unfold removeDestroyedFlags
    dsimp only
    rw [hn1]
    by_cases hc : em.HasComponent n destroyed = true
    · rw [if_pos hc, EntityManager.mask_RemoveComponent _ _ _ _ (by rw [hsz]; omega)]
      by_cases he : e = n
      · subst he
        rw [if_pos rfl, ih1 e]
        simp [hc]
      · rw [if_neg he, ih1 e]
        have hlt : e < n + 1 ↔ e < n := by omega
        simp only [hlt]
    · rw [if_neg hc, ih1 e]
      by_cases he : e = n
      · subst he
        simp [hc]
      · have hlt : e < n + 1 ↔ e < n := by omega
        simp only [hlt]

/-- The loop that destroys the created entities does not touch the mask of an
entity that has no entry created after the last validated frame. -/
theorem destroyCreatedEntities_mask_other (lastValidateFrame : Nat) :
    ∀ (log : List CreatedEntity) (em : EntityManager) (e : Nat),
      (∀ c ∈ log, c.createdFrame > lastValidateFrame → c.entity ≠ e) →
      (destroyCreatedEntities lastValidateFrame log em).mask e = em.mask e := by
  intro log
  induction log with
  | nil => intro em e _; rfl
  | cons c log ih =>
    intro em e h
    unfold destroyCreatedEntities
    rw [ih _ e (fun c' hc' => h c' (List.mem_cons_of_mem _ hc'))]
    split_ifs with hf
    · rw [EntityManager.mask_DestroyEntity, if_neg (fun he => h c (List.mem_cons_self _ _) hf he.symm)]
    · rfl

/-- After the loop that removes the `Destroyed` flags has run over the whole
registry, no entity carries the flag. -/
theorem Engine.removeDestroyedFlags_clears (E : Engine) (hD0 : E.Destroyed ≠ 0)
    (hD : E.Destroyed < 2 ^ 32) (em : EntityManager) (e : Nat) :
    (removeDestroyedFlags E.Destroyed em.GetEntitiesSize em).HasComponent e E.Destroyed
      = false := by
  unfold EntityManager.HasComponent
  rw [removeDestroyedFlags_mask _ _ _ _ le_rfl]
  by_cases hc : em.HasComponent e E.Destroyed = true
  · by_cases hlt : e < em.GetEntitiesSize
    · rw [if_pos ⟨hlt, hc⟩, Nat.andNot_and_self_mask _ _ hD]
      simpa using fun h => hD0 h.symm
    · exfalso
      unfold EntityManager.HasComponent at hc
      rw [EntityManager.mask_of_length_le em e (Nat.le_of_not_lt hlt)] at hc
      have h' : EntityManager.Empty &&& E.Destroyed = E.Destroyed := by simpa using hc
      apply hD0
      unfold EntityManager.Empty Engine.Destroyed at h'
      rw [Nat.one_and_eq_mod_two, Nat.shiftLeft_eq] at h'
      unfold Engine.Destroyed
      rw [Nat.shiftLeft_eq]
      omega
  · rw [if_neg (fun h => hc h.2)]
    unfold EntityManager.HasComponent at hc
    simpa using hc

/-- The bits below 32 of a mask that are not in `c` are untouched by the AND-NOT
with `c`. -/
theorem Nat.testBit_andNot_mask (m c i : Nat) (hi : i < 32) (hc : c.testBit i = false) :
    (m &&& (0xFFFFFFFF ^^^ c)).testBit i = m.testBit i := by
  simp [Nat.testBit_and, Nat.testBit_xor, Nat.testBit_allOnes32, hi, hc]

/-- Claim C33: after the reset step of `SimulateToCurrentFrame`, and after that of
`ValidateFrame`, before any frame is replayed, no entity carries the `Destroyed`
flag; and for every entity that is not destroyed through the created-entity log
(no entry of the log for it is created after the last validated frame) the mask
is the mask before the call without the `Destroyed` flag when it carried it and
the same mask otherwise, so that every bit of the 32-bit mask outside `Destroyed`
is as before the call.  `Destroyed` is a non-empty 32-bit mask. -/
theorem RollbackManager.reset_revives (E : Engine) (g : GameManager)
    (hD0 : E.Destroyed ≠ 0) (hD : E.Destroyed < 2 ^ 32) :
    (∀ e, (RollbackManager.SimulateToCurrentFrame.reset E g).entityManager.HasComponent e
      E.Destroyed = false) ∧
    (∀ e, (RollbackManager.ValidateFrame.reset E g).entityManager.HasComponent e
      E.Destroyed = false) ∧
    (RollbackManager.ValidateFrame.reset E g).entityManager
      = (RollbackManager.SimulateToCurrentFrame.reset E g).entityManager ∧
    (∀ e, (∀ c ∈ g.rollbackManager.createdEntities,
        c.createdFrame > g.GetLastValidateFrame → c.entity ≠ e) →
      (RollbackManager.SimulateToCurrentFrame.reset E g).entityManager.mask e
        = (if g.entityManager.HasComponent e E.Destroyed = true
          then g.entityManager.mask e &&& (0xFFFFFFFF ^^^ E.Destroyed)
          else g.entityManager.mask e) ∧
      (RollbackManager.ValidateFrame.reset E g).entityManager.mask e
        = (if g.entityManager.HasComponent e E.Destroyed = true
          then g.entityManager.mask e &&& (0xFFFFFFFF ^^^ E.Destroyed)
          else g.entityManager.mask e) ∧
      (∀ i, i < 32 → E.Destroyed.testBit i = false →
        ((RollbackManager.SimulateToCurrentFrame.reset E g).entityManager.mask e).testBit i
          = (g.entityManager.mask e).testBit i ∧
        ((RollbackManager.ValidateFrame.reset E g).entityManager.mask e).testBit i
          = (g.entityManager.mask e).testBit i)) := by
  have hs : (RollbackManager.SimulateToCurrentFrame.reset E g).entityManager
      = removeDestroyedFlags E.Destroyed
          (destroyCreatedEntities g.GetLastValidateFrame g.rollbackManager.createdEntities
            g.entityManager).GetEntitiesSize
          (destroyCreatedEntities g.GetLastValidateFrame g.rollbackManager.createdEntities
            g.entityManager) := rfl
  have hv : (RollbackManager.ValidateFrame.reset E g).entityManager
      = (RollbackManager.SimulateToCurrentFrame.reset E g).entityManager := rfl
  have hmask : ∀ e, (∀ c ∈ g.rollbackManager.createdEntities,
        c.createdFrame > g.GetLastValidateFrame → c.entity ≠ e) →
      (RollbackManager.SimulateToCurrentFrame.reset E g).entityManager.mask e
        = (if g.entityManager.HasComponent e E.Destroyed = true
          then g.entityManager.mask e &&& (0xFFFFFFFF ^^^ E.Destroyed)
          else g.entityManager.mask e) := by
    intro e he
    have hm := destroyCreatedEntities_mask_other g.GetLastValidateFrame
      g.rollbackManager.createdEntities g.entityManager e he
    rw [hs, removeDestroyedFlags_mask _ _ _ _ le_rfl]
    unfold EntityManager.HasComponent
    rw [hm]
    by_cases hc : (g.entityManager.mask e &&& E.Destroyed == E.Destroyed) = true
    · by_cases hlt : e < (destroyCreatedEntities g.GetLastValidateFrame
          g.rollbackManager.createdEntities g.entityManager).GetEntitiesSize
      · rw [if_pos ⟨hlt, hc⟩, if_pos hc]
      · exfalso
        have hE := EntityManager.mask_of_length_le _ e (Nat.le_of_not_lt hlt)
        rw [hm] at hE
        rw [hE] at hc
        have h' : EntityManager.Empty &&& E.Destroyed = E.Destroyed := by simpa using hc
        apply hD0
        unfold EntityManager.Empty Engine.Destroyed at h'
        rw [Nat.one_and_eq_mod_two, Nat.shiftLeft_eq] at h'
        unfold Engine.Destroyed
        rw [Nat.shiftLeft_eq]
        omega
    · rw [if_neg (fun h => hc h.2), if_neg hc]
  refine ⟨?_, ?_, hv, ?_⟩
  · intro e
    rw [hs]
    exact E.removeDestroyedFlags_clears hD0 hD _ e
  · intro e
    rw [hv, hs]
    exact E.removeDestroyedFlags_clears hD0 hD _ e
  · intro e he
    refine ⟨hmask e he, by rw [hv]; exact hmask e he, ?_⟩
    intro i hi hbit
    have hb : ((RollbackManager.SimulateToCurrentFrame.reset E g).entityManager.mask e).testBit i
        = (g.entityManager.mask e).testBit i := by
      rw [hmask e he]
      split_ifs
      · exact Nat.testBit_andNot_mask _ _ i hi hbit
      · rfl
    exact ⟨hb, by rw [hv]; exact hb⟩

/-- Claim C33 at the sample game once `RollbackManager::DestroyEntity(0)` has put the
`Destroyed` flag on the entity 0. -/
theorem RollbackManager.reset_revives_witness :
    Engine.sample.Destroyed ≠ 0 ∧ Engine.sample.Destroyed < 2 ^ 32 ∧
    (RollbackManager.DestroyEntity Engine.sample GameManager.sample 0).entityManager.HasComponent 0
      Engine.sample.Destroyed = true ∧
    (∀ e, (RollbackManager.SimulateToCurrentFrame.reset Engine.sample
        (RollbackManager.DestroyEntity Engine.sample GameManager.sample 0)).entityManager.HasComponent
      e Engine.sample.Destroyed = false) ∧
    (∀ e, (RollbackManager.ValidateFrame.reset Engine.sample
        (RollbackManager.DestroyEntity Engine.sample GameManager.sample 0)).entityManager.HasComponent
      e Engine.sample.Destroyed = false) ∧
    (RollbackManager.SimulateToCurrentFrame.reset Engine.sample
        (RollbackManager.DestroyEntity Engine.sample GameManager.sample 0)).entityManager.mask 0
      = GameManager.sample.entityManager.mask 0 :=
  ⟨by decide, by decide, by decide,
    (RollbackManager.reset_revives Engine.sample
      (RollbackManager.DestroyEntity Engine.sample GameManager.sample 0)
      (by decide) (by decide)).1,
    (RollbackManager.reset_revives Engine.sample
      (RollbackManager.DestroyEntity Engine.sample GameManager.sample 0)
      (by decide) (by decide)).2.1,
    by decide⟩

/-! ### The replay and the input window -/

/-- When the assertion of `GetInputAtFrame` holds, the call does not stop on it. -/
theorem RollbackManager.GetInputAtFrame_fault (r : RollbackManager) (p frame : Nat)
    (h : Frame.sub r.currentFrame frame < WINDOW_BUFFER_SIZE) (f : Fault)
    (hf : r.GetInputAtFrame p frame = .error f) : f = .outOfRange := by
  unfold RollbackManager.GetInputAtFrame at hf
  rw [if_pos h] at hf
  split_ifs at hf
  · unfold InputRing.read at hf
    rw [if_pos h] at hf
    cases hf
  · cases hf
    rfl

/-- The write of `stampInput` can only stop on an access out of range. -/
theorem stampInput_fault (g : GameManager) (e i : Nat) (f : Fault) (g' : GameManager)
    (hf : stampInput g e i = .error (f, g')) : f = .outOfRange := by
  unfold stampInput at hf
  split_ifs at hf
  cases hf
  rfl

/-- The player loop of the replay does not stop on the assertion of
`GetInputAtFrame` when the frame is inside the window. -/
theorem RollbackManager.simulateCopyInputs_fault (E : Engine) (frame : Nat) :
    ∀ (n : Nat) (g : GameManager),
      Frame.sub g.rollbackManager.currentFrame frame < WINDOW_BUFFER_SIZE →
      ∀ (f : Fault) (g' : GameManager),
        RollbackManager.SimulateToCurrentFrame.copyInputs E frame n g = .error (f, g') →
        f = .outOfRange := by
  intro n
  induction n with
  | zero =>
    intro g _ f g' hf
    cases hf
  | succ n ih =>
    intro g h f g' hf
    have hk := RollbackManager.simulateCopyInputs_keeps E
      (fun x => x.rollbackManager.currentFrame = g.rollbackManager.currentFrame)
      (fun _ _ hx => hx) frame n g rfl
    unfold RollbackManager.SimulateToCurrentFrame.copyInputs at hf
    cases hc : RollbackManager.SimulateToCurrentFrame.copyInputs E frame n g with
    | error e =>
      rw [hc] at hf
      obtain ⟨f1, g1⟩ := e
      have h1 := ih g h f1 g1 hc
      cases hf
      exact h1
    | ok g1 =>
      rw [hc] at hf hk
      simp only [finalState] at hk
      simp only [bind, Except.bind] at hf
      cases hi : g1.rollbackManager.GetInputAtFrame n frame with
      | error f1 =>
        rw [hi] at hf
        simp only [atState] at hf
        have h1 := RollbackManager.GetInputAtFrame_fault g1.rollbackManager n frame
          (by rw [hk]; exact h) f1 hi
        cases hf
        exact h1
      | ok playerInput =>
        rw [hi] at hf
        simp only [atState] at hf
        split_ifs at hf
        exact stampInput_fault _ _ _ _ _ hf

/-- The replay loop of `SimulateToCurrentFrame` does not stop on the assertion of
`GetInputAtFrame` when all its frames are inside the window. -/
theorem RollbackManager.simulateReplay_fault (E : Engine) :
    ∀ (count frame : Nat) (g : GameManager),
      (∀ k, frame ≤ k → k < frame + count →
        Frame.sub g.rollbackManager.currentFrame k < WINDOW_BUFFER_SIZE) →
      ∀ (f : Fault) (g' : GameManager),
        RollbackManager.SimulateToCurrentFrame.replay E count frame g = .error (f, g') →
        f = .outOfRange := by
  intro count
  induction count with
  | zero =>
    intro frame g _ f g' hf
    cases hf
  | succ count ih =>
    intro frame g h f g' hf
    unfold RollbackManager.SimulateToCurrentFrame.replay at hf
    have hk := RollbackManager.simulateCopyInputs_keeps E
      (fun x => x.rollbackManager.currentFrame = g.rollbackManager.currentFrame)
      (fun _ _ hx => hx) frame MAX_PLAYER_NMB
      { g with rollbackManager := { g.rollbackManager with testedFrame := frame } } rfl
    simp only [bind, Except.bind] at hf
    cases hc : RollbackManager.SimulateToCurrentFrame.copyInputs E frame MAX_PLAYER_NMB
        { g with rollbackManager := { g.rollbackManager with testedFrame := frame } } with
    | error e =>
      rw [hc] at hf
      obtain ⟨f1, g1⟩ := e
      have h1 : f1 = .outOfRange := by
        refine RollbackManager.simulateCopyInputs_fault E frame MAX_PLAYER_NMB _ ?_ f1 g1 hc
        exact h frame le_rfl (by omega)
      cases hf
      exact h1
    | ok g2 =>
      rw [hc] at hf hk
      simp only [finalState] at hk
      dsimp only at hf
      have hcur : (E.simulateOneFrame g2).rollbackManager.currentFrame
          = g.rollbackManager.currentFrame := by
        rw [← hk]
        exact E.simulateOneFrame_keeps
          (fun x => x.rollbackManager.currentFrame = g2.rollbackManager.currentFrame)
          (fun _ _ hx => hx) g2 rfl
      refine ih (frame + 1) (E.simulateOneFrame g2) ?_ f g' hf
      intro k hk1 hk2
      rw [hcur]
      exact h k (by omega) (by omega)

/-- The player loop of the replay stops on the assertion of `GetInputAtFrame`, at
its first call, when the frame is outside the window. -/
theorem RollbackManager.simulateCopyInputs_inputTooOld (E : Engine) (frame : Nat)
    (g : GameManager)
    (h : ¬ Frame.sub g.rollbackManager.currentFrame frame < WINDOW_BUFFER_SIZE) :
    RollbackManager.SimulateToCurrentFrame.copyInputs E frame MAX_PLAYER_NMB g
      = .error (.inputTooOld, g) := by
  have hget : g.rollbackManager.GetInputAtFrame 0 frame = .error .inputTooOld := by
    unfold RollbackManager.GetInputAtFrame
    rw [if_neg h]
  show RollbackManager.SimulateToCurrentFrame.copyInputs E frame (1 + 1) g = _
  rw [RollbackManager.SimulateToCurrentFrame.copyInputs,
    RollbackManager.SimulateToCurrentFrame.copyInputs,
    RollbackManager.SimulateToCurrentFrame.copyInputs]
  simp only [bind, Except.bind, hget, atState]

/-- The replay loop of `SimulateToCurrentFrame` stops on the assertion of
`GetInputAtFrame` at its first frame when this frame is outside the window. -/
theorem RollbackManager.simulateReplay_inputTooOld (E : Engine) (count frame : Nat)
    (g : GameManager)
    (h : ¬ Frame.sub g.rollbackManager.currentFrame frame < WINDOW_BUFFER_SIZE) :
    RollbackManager.SimulateToCurrentFrame.replay E (count + 1) frame g
      = .error (.inputTooOld,
          { g with rollbackManager := { g.rollbackManager with testedFrame := frame } }) := by
  have hci := RollbackManager.simulateCopyInputs_inputTooOld E frame
    { g with rollbackManager := { g.rollbackManager with testedFrame := frame } } h
  rw [RollbackManager.SimulateToCurrentFrame.replay]
  dsimp only
  rw [hci]
  rfl

/-- Claim C38, amended: when at least one frame is replayed
(`lastValidateFrame < gameCurrentFrame`), every `GetInputAtFrame(p, frame)` call of
`SimulateToCurrentFrame` for `frame` in `lastValidateFrame + 1 .. gameCurrentFrame`
satisfies its assertion (`rollbackCurrentFrame - frame` computed without unsigned
wrap-around and `< 250`) if and only if `gameCurrentFrame <= rollbackCurrentFrame`
and `rollbackCurrentFrame - lastValidateFrame <= 250`; under this condition
`SimulateToCurrentFrame` does not stop on the assertion, and once more than 250
frames have passed without a validation it stops on the assertion at the first
replayed frame, before any input is copied. -/
theorem RollbackManager.SimulateToCurrentFrame_input_window (E : Engine) (g : GameManager)
    (hreplay : g.GetLastValidateFrame < g.GetCurrentFrame)
    (h32 : g.rollbackManager.currentFrame < 4294967296) :
    ((∀ frame p, g.GetLastValidateFrame + 1 ≤ frame → frame ≤ g.GetCurrentFrame →
        p < MAX_PLAYER_NMB →
        frame ≤ g.rollbackManager.currentFrame ∧
        g.rollbackManager.GetInputAtFrame p frame ≠ .error .inputTooOld) ↔
      (g.GetCurrentFrame ≤ g.rollbackManager.currentFrame ∧
        g.rollbackManager.currentFrame - g.GetLastValidateFrame ≤ WINDOW_BUFFER_SIZE)) ∧
    ((g.GetCurrentFrame ≤ g.rollbackManager.currentFrame ∧
        g.rollbackManager.currentFrame - g.GetLastValidateFrame ≤ WINDOW_BUFFER_SIZE) →
      ∀ g', RollbackManager.SimulateToCurrentFrame E g ≠ .error (.inputTooOld, g')) ∧
    (WINDOW_BUFFER_SIZE < g.rollbackManager.currentFrame - g.GetLastValidateFrame →
      g.rollbackManager.GetInputAtFrame 0 (g.GetLastValidateFrame + 1)
        = .error .inputTooOld ∧
      RollbackManager.SimulateToCurrentFrame E g
        = .error (.inputTooOld,
            { (RollbackManager.SimulateToCurrentFrame.reset E g) with
              rollbackManager :=
                { (RollbackManager.SimulateToCurrentFrame.reset E g).rollbackManager with
                  testedFrame := g.GetLastValidateFrame + 1 } })) := by
  have hW : WINDOW_BUFFER_SIZE = 250 := rfl
  have hP : MAX_PLAYER_NMB = 2 := rfl
  refine ⟨⟨?_, ?_⟩, ?_, ?_⟩
  · intro h
    have h1 := h g.GetCurrentFrame 0 (by omega) le_rfl (by omega)
    have h2 := h (g.GetLastValidateFrame + 1) 0 le_rfl (by omega) (by omega)
    refine ⟨h1.1, ?_⟩
    by_contra hn
    apply h2.2
    unfold RollbackManager.GetInputAtFrame
    have hsub : Frame.sub g.rollbackManager.currentFrame (g.GetLastValidateFrame + 1)
        = g.rollbackManager.currentFrame - (g.GetLastValidateFrame + 1) :=
      Frame.sub_eq _ _ h2.1 (by omega)
    rw [if_neg (by rw [hsub]; omega)]
  · rintro ⟨h1, h2⟩ frame p hf1 hf2 hp
    refine ⟨by omega, ?_⟩
    have hsub : Frame.sub g.rollbackManager.currentFrame frame
        = g.rollbackManager.currentFrame - frame := Frame.sub_eq _ _ (by omega) (by omega)
    unfold RollbackManager.GetInputAtFrame
    have hw : Frame.sub g.rollbackManager.currentFrame frame < WINDOW_BUFFER_SIZE := by
      rw [hsub]; omega
    rw [if_pos hw, if_pos hp]
    unfold InputRing.read
    rw [if_pos hw]
    intro hc
    cases hc
  · rintro ⟨h1, h2⟩ g' hc
    unfold RollbackManager.SimulateToCurrentFrame at hc
    cases hr : RollbackManager.SimulateToCurrentFrame.replayed E g with
    | ok g1 =>
      rw [hr] at hc
      cases hc
    | error e =>
      rw [hr] at hc
      obtain ⟨f1, g1⟩ := e
      unfold RollbackManager.SimulateToCurrentFrame.replayed at hr
      have hf := RollbackManager.simulateReplay_fault E _ _ _ (by
        intro k hk1 hk2
        have hcur : (RollbackManager.SimulateToCurrentFrame.reset E g).rollbackManager.currentFrame
            = g.rollbackManager.currentFrame := rfl
        rw [hcur, Frame.sub_eq _ _ (by omega) (by omega)]
        omega) f1 g1 hr
      subst hf
      cases hc
  · intro h
    have hsub : Frame.sub g.rollbackManager.currentFrame (g.GetLastValidateFrame + 1)
        = g.rollbackManager.currentFrame - (g.GetLastValidateFrame + 1) :=
      Frame.sub_eq _ _ (by omega) (by omega)
    have hout : ¬ Frame.sub g.rollbackManager.currentFrame (g.GetLastValidateFrame + 1)
        < WINDOW_BUFFER_SIZE := by
      rw [hsub]; omega
    constructor
    · unfold RollbackManager.GetInputAtFrame
      rw [if_neg hout]
    · obtain ⟨k, hk⟩ : ∃ k, g.GetCurrentFrame - g.GetLastValidateFrame = k + 1 :=
        ⟨g.GetCurrentFrame - g.GetLastValidateFrame - 1, by omega⟩
      unfold RollbackManager.SimulateToCurrentFrame
        RollbackManager.SimulateToCurrentFrame.replayed
      dsimp only
      have hr := RollbackManager.simulateReplay_inputTooOld E k (g.GetLastValidateFrame + 1)
        (RollbackManager.SimulateToCurrentFrame.reset E g) hout
      rw [hk, hr]
      rfl

/-- Claim C38, amended, at the sample game: the frames 4 to 7 are replayed and
the rollback manager is at frame 7. -/
theorem RollbackManager.SimulateToCurrentFrame_input_window_witness :
    GameManager.sample.GetLastValidateFrame < GameManager.sample.GetCurrentFrame ∧
    GameManager.sample.rollbackManager.currentFrame < 4294967296 ∧
    (GameManager.sample.GetCurrentFrame ≤ GameManager.sample.rollbackManager.currentFrame ∧
      GameManager.sample.rollbackManager.currentFrame - GameManager.sample.GetLastValidateFrame
        ≤ WINDOW_BUFFER_SIZE) ∧
    (∀ frame p, GameManager.sample.GetLastValidateFrame + 1 ≤ frame →
      frame ≤ GameManager.sample.GetCurrentFrame → p < MAX_PLAYER_NMB →
      frame ≤ GameManager.sample.rollbackManager.currentFrame ∧
      GameManager.sample.rollbackManager.GetInputAtFrame p frame ≠ .error .inputTooOld) :=
  ⟨by decide, by decide, by decide,
    (RollbackManager.SimulateToCurrentFrame_input_window Engine.sample GameManager.sample
      (by decide) (by decide)).1.2 (by decide)⟩

/-- Claim C38, as stated, fails when no frame is replayed: at the sample game
brought to its last validated frame 3, with the rollback manager at frame 300,
`SimulateToCurrentFrame` calls `GetInputAtFrame` for no frame and runs to its end,
so that every call satisfies its assertion, while
`rollbackCurrentFrame - lastValidateFrame` is 297. -/
theorem RollbackManager.SimulateToCurrentFrame_input_window_counterexample :
    ¬ ((∀ frame p, GameManager.sampleAhead.GetLastValidateFrame + 1 ≤ frame →
          frame ≤ GameManager.sampleAhead.GetCurrentFrame → p < MAX_PLAYER_NMB →
          frame ≤ GameManager.sampleAhead.rollbackManager.currentFrame ∧
          GameManager.sampleAhead.rollbackManager.GetInputAtFrame p frame
            ≠ .error .inputTooOld) ↔
        (GameManager.sampleAhead.GetCurrentFrame
            ≤ GameManager.sampleAhead.rollbackManager.currentFrame ∧
          GameManager.sampleAhead.rollbackManager.currentFrame
              - GameManager.sampleAhead.GetLastValidateFrame ≤ WINDOW_BUFFER_SIZE)) ∧
    GameManager.sampleAhead.GetCurrentFrame - GameManager.sampleAhead.GetLastValidateFrame = 0 ∧
    RollbackManager.SimulateToCurrentFrame.replayed Engine.sample GameManager.sampleAhead
      = .ok (RollbackManager.SimulateToCurrentFrame.reset Engine.sample
          GameManager.sampleAhead) ∧
    (∃ g', RollbackManager.SimulateToCurrentFrame Engine.sample GameManager.sampleAhead
      = .ok g') := by
  refine ⟨?_, by decide, rfl, ⟨_, rfl⟩⟩
  intro h
  have hlv : GameManager.sampleAhead.GetLastValidateFrame = 3 := rfl
  have hgc : GameManager.sampleAhead.GetCurrentFrame = 3 := rfl
  have hrc : GameManager.sampleAhead.rollbackManager.currentFrame = 300 := rfl
  have hW : WINDOW_BUFFER_SIZE = 250 := rfl
  rw [hlv, hgc, hrc, hW] at h
  have h2 := h.1 (fun frame p h1 h2 _ => absurd h2 (by omega))
  omega

/-! ### The mass of a body -/

namespace physics

/-- For a non-zero mass whose inverse is not subnormal, `SetMass(m)` stores `1 / m`
and nothing else of the body changes; `InvMass()` is then `1 / m` and, in the
exact arithmetic of this model, `Mass()` is `m` (with the rounding of `float`
the quotient `1 / (1 / m)` need not be `m`). -/
theorem Rigidbody.SetMass_normal (F : FloatOps) (b : Rigidbody) (m : ℚ) (hm : m ≠ 0)
    (hn : F.isSubnormal (1 / m) = false) :
    (Rigidbody.SetMass.run F (FloatValue.number b.invMass) m).divisors = [m] ∧
    b.SetMass F m = some { b with invMass := 1 / m } ∧
    ∀ b', b.SetMass F m = some b' → b'.InvMass = 1 / m ∧ b'.Mass = m := by
  have hrun : Rigidbody.SetMass.run F (FloatValue.number b.invMass) m
      = ⟨FloatValue.number (1 / m), [m]⟩ := by
    have hinv : FloatValue.inverse m = FloatValue.number (1 / m) := by
      unfold FloatValue.inverse
      rw [if_neg hm]
    unfold Rigidbody.SetMass.run
    dsimp only
    rw [hinv]
    have hn1 : F.isSubnormal m⁻¹ = false := by rwa [one_div] at hn
    by_cases he : F.Equal m 0 = true <;> simp [he, FloatOps.subnormal, hn1]
  have hset : b.SetMass F m = some { b with invMass := 1 / m } := by
    unfold Rigidbody.SetMass
    rw [hrun]
  refine ⟨by rw [hrun], hset, ?_⟩
  intro b' hb'
  rw [hset] at hb'
  cases hb'
  refine ⟨rfl, ?_⟩
  show 1 / (1 / m) = m
  rw [one_div_one_div]

/-- The case of `SetMass_normal` at the default body and the mass 2. -/
theorem Rigidbody.SetMass_normal_witness :
    ((2 : ℚ) ≠ 0 ∧ FloatOps.sample.isSubnormal (1 / 2) = false) ∧
    Rigidbody.new.SetMass FloatOps.sample 2 = some { Rigidbody.new with invMass := 1 / 2 } :=
  ⟨⟨by norm_num, by simp [FloatOps.sample]; rw [abs_of_pos] <;> norm_num⟩,
    (Rigidbody.SetMass_normal FloatOps.sample Rigidbody.new 2 (by norm_num)
      (by simp [FloatOps.sample]; rw [abs_of_pos] <;> norm_num)).2.1⟩

/-- Claim C40, on the code: `SetMass(0)` evaluates the quotient `1.0f / 0` whatever
`core::Equal(0, 0)` answers: the store of 0 in the `if` is followed by the
assignment `_invMass = 1.0f / mass`, which no `else` and no `return` guards, so
that `_invMass` is left infinite, not 0. -/
theorem Rigidbody.SetMass_zero_unguarded (F : FloatOps) (b : Rigidbody) :
    (Rigidbody.SetMass.run F (FloatValue.number b.invMass) 0).divisors = [0] ∧
    (Rigidbody.SetMass.run F (FloatValue.number b.invMass) 0).invMass = FloatValue.infinity ∧
    (Rigidbody.SetMass.run F (FloatValue.number b.invMass) 0).invMass ≠ FloatValue.number 0 ∧
    b.SetMass F 0 = none ∧
    ∀ m : ℚ, (Rigidbody.SetMass.run F (FloatValue.number b.invMass) m).divisors = [m] := by
  have hrun : Rigidbody.SetMass.run F (FloatValue.number b.invMass) 0
      = ⟨FloatValue.infinity, [0]⟩ := by
    have hinv : FloatValue.inverse 0 = FloatValue.infinity := rfl
    unfold Rigidbody.SetMass.run
    dsimp only
    rw [hinv]
    by_cases he : F.Equal 0 0 = true <;> simp [he, FloatOps.subnormal]
  have hne : (Rigidbody.SetMass.run F (FloatValue.number b.invMass) 0).invMass
      ≠ FloatValue.number 0 := by
    rw [hrun]
    intro h
    cases h
  refine ⟨by rw [hrun], by rw [hrun], hne, ?_, ?_⟩
  · unfold Rigidbody.SetMass
    rw [hrun]
  · intro m
    unfold Rigidbody.SetMass.run
    dsimp only
    by_cases he : F.Equal m 0 = true <;>
      by_cases hs : F.subnormal (FloatValue.inverse m) = true <;> simp [he, hs]

end physics

/-! ### The solver and the callbacks inside the pair loop -/

namespace physics

namespace PhysicsManager

/-- The calls that `Execute` records, exactly: one per registered callback. -/
theorem Execute_calls (tag : Nat → Nat → Nat → Event) (a b : Nat) (callbacks : List Callback) :
    ∀ (i : Nat) (s : PhysicsManager × List Event),
      (Execute tag a b i callbacks s).2
        = s.2 ++ (List.range callbacks.length).map (fun l => tag (i + l) a b) := by
  induction callbacks with
  | nil => intro i s; simp [Execute]
  | cons cb rest ih =>
    intro i s
    unfold Execute
    rw [ih (i + 1)]
    simp only [List.length_cons, List.range_succ_eq_map, List.map_cons, List.map_map,
      List.append_assoc, List.singleton_append, Nat.add_zero]
    congr 2
    apply List.map_congr_left
    intro l _
    simp only [Function.comp, Nat.succ_eq_add_one]
    congr 1
    omega

/-- The calls that `SendCollisionCallbacks` records, exactly. -/
theorem SendCollisionCallbacks_calls (tag : Nat → Nat → Nat → Event) (action : List Callback)
    (collisions : List Collision) :
    ∀ s : PhysicsManager × List Event,
      (SendCollisionCallbacks tag action collisions s).2
        = s.2 ++ SendCollisionCallbacks.calls tag action.length collisions := by
  induction collisions with
  | nil => intro s; simp [SendCollisionCallbacks, SendCollisionCallbacks.calls]
  | cons c rest ih =>
    intro s
    unfold SendCollisionCallbacks
    rw [ih, Execute_calls]
    simp [SendCollisionCallbacks.calls, List.flatMap_cons]

/-- The end of an iteration, exactly: the two vectors are unchanged, and the
calls are one call of `SolveCollisions` with the collisions, then the trigger
callbacks on the triggers, then the collision callbacks on the collisions. -/
theorem ResolveCollisions.dispatch_calls (C : Collaborators) (dt : ℚ) (s : ResolveState) :
    (ResolveCollisions.dispatch C dt s).collisions = s.collisions ∧
    (ResolveCollisions.dispatch C dt s).triggers = s.triggers ∧
    (ResolveCollisions.dispatch C dt s).trace
      = s.trace ++ [Event.solve s.collisions s.pm] ++
        (SendCollisionCallbacks.calls Event.onTrigger C.onTriggerAction.length s.triggers ++
          SendCollisionCallbacks.calls Event.onCollision C.onCollisionAction.length
            s.collisions) := by
  refine ⟨rfl, rfl, ?_⟩
  unfold ResolveCollisions.dispatch
  dsimp only
  rw [SendCollisionCallbacks_calls, SendCollisionCallbacks_calls]
  simp only [List.append_assoc]

/-- The calls of callbacks are not calls of `SolveCollisions`. -/
theorem SendCollisionCallbacks.calls_solved (tag : Nat → Nat → Nat → Event)
    (htag : ∀ l a b, (tag l a b).solved = none) (n : Nat) (collisions : List Collision) :
    (SendCollisionCallbacks.calls tag n collisions).filterMap Event.solved = [] := by
  rw [List.filterMap_eq_nil_iff]
  intro ev hev
  unfold SendCollisionCallbacks.calls at hev
  simp only [List.mem_flatMap, List.mem_map, List.mem_range] at hev
  obtain ⟨c, _, l, _, rfl⟩ := hev
  exact htag l _ _

/-- The calls of callbacks are calls of callbacks. -/
theorem SendCollisionCallbacks.calls_isCallback (tag : Nat → Nat → Nat → Event)
    (htag : ∀ l a b, (tag l a b).isCallback = true) (n : Nat) (collisions : List Collision) :
    (SendCollisionCallbacks.calls tag n collisions).filter Event.isCallback
      = SendCollisionCallbacks.calls tag n collisions := by
  rw [List.filter_eq_self]
  intro ev hev
  unfold SendCollisionCallbacks.calls at hev
  simp only [List.mem_flatMap, List.mem_map, List.mem_range] at hev
  obtain ⟨c, _, l, _, rfl⟩ := hev
  exact htag l _ _

/-- An iteration of `ResolveCollisions` against the checks: a pair that fails a
check leaves the manager and the two vectors as they are and makes no call of
the solvers or of a callback; a pair that passes is appended to its vector and
the iteration ends with the calls of the solvers and of the callbacks. -/
theorem ResolveCollisions.step_accepts (C : Collaborators) (dt : ℚ) (s : ResolveState)
    (pair : Nat × Nat) :
    (ResolveCollisions.accepts C s.pm pair = none ∧
      (ResolveCollisions.step C dt s pair).pm = s.pm ∧
      (ResolveCollisions.step C dt s pair).collisions = s.collisions ∧
      (ResolveCollisions.step C dt s pair).triggers = s.triggers ∧
      (ResolveCollisions.step C dt s pair).trace.filterMap Event.solved
        = s.trace.filterMap Event.solved ∧
      (ResolveCollisions.step C dt s pair).trace.filter Event.isCallback
        = s.trace.filter Event.isCallback) ∨
    (∃ c, ResolveCollisions.accepts C s.pm pair = some (true, c) ∧
      ResolveCollisions.step C dt s pair = ResolveCollisions.dispatch C dt
        { s with trace := s.trace ++ [Event.testCollision pair.1 pair.2],
                 triggers := s.triggers ++ [c] }) ∨
    (∃ c, ResolveCollisions.accepts C s.pm pair = some (false, c) ∧
      ResolveCollisions.step C dt s pair = ResolveCollisions.dispatch C dt
        { s with trace := s.trace ++ [Event.testCollision pair.1 pair.2],
                 collisions := s.collisions ++ [c] }) := by
  unfold ResolveCollisions.step ResolveCollisions.accepts
  dsimp only
  split
  · rename_i firstCollider secondCollider _ _
    split_ifs with h1 h2 h3 h4
    · exact Or.inl ⟨rfl, rfl, rfl, rfl, rfl, rfl⟩
    · exact Or.inl ⟨rfl, rfl, rfl, rfl, rfl, rfl⟩
    · refine Or.inl ⟨rfl, rfl, rfl, rfl, ?_, ?_⟩
      · simp [List.filterMap_append, Event.solved]
      · simp [List.filter_append, Event.isCallback]
    · refine Or.inr (Or.inl ⟨_, ?_, rfl⟩)
      rw [h4]
    · refine Or.inr (Or.inr ⟨_, ?_, rfl⟩)
      have h5 : ((s.pm.GetRigidbody pair.1).IsTrigger || (s.pm.GetRigidbody pair.2).IsTrigger)
          = false := by simpa using h4
      rw [h5]
  · exact Or.inl ⟨rfl, rfl, rfl, rfl, rfl, rfl⟩

end PhysicsManager

end physics

namespace physics

namespace PhysicsManager

/-- The hard collisions of a concatenation. -/
theorem ResolveCollisions.hard_append (P Q : List (Bool × Collision)) :
    ResolveCollisions.hard (P ++ Q) = ResolveCollisions.hard P ++ ResolveCollisions.hard Q := by
  simp [ResolveCollisions.hard]

/-- The trigger collisions of a concatenation. -/
theorem ResolveCollisions.soft_append (P Q : List (Bool × Collision)) :
    ResolveCollisions.soft (P ++ Q) = ResolveCollisions.soft P ++ ResolveCollisions.soft Q := by
  simp [ResolveCollisions.soft]

/-- The prefixes of `a :: rest` after `P` are `P ++ [a]` and the prefixes of
`rest` after `P ++ [a]`. -/
theorem ResolveCollisions.range_map_prefixes {β : Type} (g : List (Bool × Collision) → β)
    (P : List (Bool × Collision)) (a : Bool × Collision) (rest : List (Bool × Collision)) :
    (List.range (a :: rest).length).map (fun j => g (P ++ (a :: rest).take (j + 1)))
      = g (P ++ [a]) ::
        (List.range rest.length).map (fun j => g ((P ++ [a]) ++ rest.take (j + 1))) := by
  simp only [List.length_cons, List.range_succ_eq_map, List.map_cons, List.map_map]
  congr 1
  apply List.map_congr_left
  intro j _
  simp [Function.comp]

/-- The loop of `ResolveCollisions` from a state whose two vectors hold the
trigger and the hard collisions of the pairs `P` accepted before: the vectors
end with those of `P` and of the pairs accepted by the loop, and each accepted
pair adds one call of `SolveCollisions` and one dispatch of the callbacks, on
the pairs accepted up to it. -/
theorem ResolveCollisions.foldl_prefixes (C : Collaborators) (dt : ℚ) :
    ∀ (pairs : List (Nat × Nat)) (s : ResolveState) (P : List (Bool × Collision)),
      s.collisions = ResolveCollisions.hard P → s.triggers = ResolveCollisions.soft P →
      (pairs.foldl (ResolveCollisions.step C dt) s).collisions
        = ResolveCollisions.hard (P ++ ResolveCollisions.accepted C dt pairs s) ∧
      (pairs.foldl (ResolveCollisions.step C dt) s).triggers
        = ResolveCollisions.soft (P ++ ResolveCollisions.accepted C dt pairs s) ∧
      (pairs.foldl (ResolveCollisions.step C dt) s).trace.filterMap Event.solved
        = s.trace.filterMap Event.solved ++
          (List.range (ResolveCollisions.accepted C dt pairs s).length).map
            (fun j => ResolveCollisions.hard
              (P ++ (ResolveCollisions.accepted C dt pairs s).take (j + 1))) ∧
      (pairs.foldl (ResolveCollisions.step C dt) s).trace.filter Event.isCallback
        = s.trace.filter Event.isCallback ++
          ((List.range (ResolveCollisions.accepted C dt pairs s).length).map
            (fun j => ResolveCollisions.callbacks C
              (P ++ (ResolveCollisions.accepted C dt pairs s).take (j + 1)))).flatten := by
  intro pairs
  induction pairs with
  | nil =>
    intro s P hc ht
    simp [ResolveCollisions.accepted, hc, ht]
  | cons pair rest ih =>
    intro s P hc ht
    rw [List.foldl_cons]
    have hacc : ResolveCollisions.accepted C dt (pair :: rest) s
        = (ResolveCollisions.accepts C s.pm pair).toList ++
          ResolveCollisions.accepted C dt rest (ResolveCollisions.step C dt s pair) := rfl
    rcases ResolveCollisions.step_accepts C dt s pair with
      ⟨hn, _, hc1, ht1, hs1, hb1⟩ | ⟨c, ha, hstep⟩ | ⟨c, ha, hstep⟩
    · have h := ih (ResolveCollisions.step C dt s pair) P (by rw [hc1, hc]) (by rw [ht1, ht])
      rw [hacc, hn]
      simp only [Option.toList, List.nil_append]
      rw [← hs1, ← hb1]
      exact h
    · have hd := ResolveCollisions.dispatch_calls C dt
        { s with trace := s.trace ++ [Event.testCollision pair.1 pair.2],
                 triggers := s.triggers ++ [c] }
      rw [← hstep] at hd
      obtain ⟨hc1, ht1, htr⟩ := hd
      dsimp only at hc1 ht1 htr
      have hcP : (ResolveCollisions.step C dt s pair).collisions
          = ResolveCollisions.hard (P ++ [(true, c)]) := by
        rw [hc1, hc, ResolveCollisions.hard_append]
        simp [ResolveCollisions.hard]
      have htP : (ResolveCollisions.step C dt s pair).triggers
          = ResolveCollisions.soft (P ++ [(true, c)]) := by
        rw [ht1, ht, ResolveCollisions.soft_append]
        simp [ResolveCollisions.soft]
      have h := ih (ResolveCollisions.step C dt s pair) (P ++ [(true, c)]) hcP htP
      obtain ⟨h1, h2, h3, h4⟩ := h
      rw [hacc, ha]
      simp only [Option.toList, List.singleton_append]
      rw [ResolveCollisions.range_map_prefixes, ResolveCollisions.range_map_prefixes]
      refine ⟨?_, ?_, ?_, ?_⟩
      · rw [h1]; simp
      · rw [h2]; simp
      · rw [h3, htr]
        simp only [List.filterMap_append, List.append_assoc,
          SendCollisionCallbacks.calls_solved Event.onTrigger (fun _ _ _ => rfl),
          SendCollisionCallbacks.calls_solved Event.onCollision (fun _ _ _ => rfl)]
        simp [Event.solved, hc, ResolveCollisions.hard_append, ResolveCollisions.hard]
      · rw [h4, htr]
        simp only [List.filter_append, List.append_assoc, List.flatten_cons,
          SendCollisionCallbacks.calls_isCallback Event.onTrigger (fun _ _ _ => rfl),
          SendCollisionCallbacks.calls_isCallback Event.onCollision (fun _ _ _ => rfl)]
        simp [Event.isCallback, ResolveCollisions.callbacks, hc, ht,
          ResolveCollisions.hard_append, ResolveCollisions.soft_append,
          ResolveCollisions.hard, ResolveCollisions.soft]
    · have hd := ResolveCollisions.dispatch_calls C dt
        { s with trace := s.trace ++ [Event.testCollision pair.1 pair.2],
                 collisions := s.collisions ++ [c] }
      rw [← hstep] at hd
      obtain ⟨hc1, ht1, htr⟩ := hd
      dsimp only at hc1 ht1 htr
      have hcP : (ResolveCollisions.step C dt s pair).collisions
          = ResolveCollisions.hard (P ++ [(false, c)]) := by
        rw [hc1, hc, ResolveCollisions.hard_append]
        simp [ResolveCollisions.hard]
      have htP : (ResolveCollisions.step C dt s pair).triggers
          = ResolveCollisions.soft (P ++ [(false, c)]) := by
        rw [ht1, ht, ResolveCollisions.soft_append]
        simp [ResolveCollisions.soft]
      have h := ih (ResolveCollisions.step C dt s pair) (P ++ [(false, c)]) hcP htP
      obtain ⟨h1, h2, h3, h4⟩ := h
      rw [hacc, ha]
      simp only [Option.toList, List.singleton_append]
      rw [ResolveCollisions.range_map_prefixes, ResolveCollisions.range_map_prefixes]
      refine ⟨?_, ?_, ?_, ?_⟩
      · rw [h1]; simp
      · rw [h2]; simp
      · rw [h3, htr]
        simp only [List.filterMap_append, List.append_assoc,
          SendCollisionCallbacks.calls_solved Event.onTrigger (fun _ _ _ => rfl),
          SendCollisionCallbacks.calls_solved Event.onCollision (fun _ _ _ => rfl)]
        simp [Event.solved, hc, ResolveCollisions.hard_append, ResolveCollisions.hard]
      · rw [h4, htr]
        simp only [List.filter_append, List.append_assoc, List.flatten_cons,
          SendCollisionCallbacks.calls_isCallback Event.onTrigger (fun _ _ _ => rfl),
          SendCollisionCallbacks.calls_isCallback Event.onCollision (fun _ _ _ => rfl)]
        simp [Event.isCallback, ResolveCollisions.callbacks, hc, ht,
          ResolveCollisions.hard_append, ResolveCollisions.soft_append,
          ResolveCollisions.hard, ResolveCollisions.soft]

end PhysicsManager

end physics

namespace physics

namespace PhysicsManager

/-- The number of the prefixes of `k` accepted pairs that reach the position `i`. -/
theorem ResolveCollisions.range_filter_le (i : Nat) :
    ∀ k : Nat, ((List.range k).filter (fun j => decide (i ≤ j))).length = k - i := by
  intro k
  induction k with
  | zero => simp
  | succ k ih =>
    rw [List.range_succ, List.filter_append, List.length_append, ih]
    by_cases h : i ≤ k
    · simp [h]
      omega
    · simp [h]
      omega

/-- Claim C32: solvers and callbacks run once per accumulated prefix.  With
`accepted` the `k` pairs that pass the component, layer and narrow-phase checks
in one `ResolveCollisions`, in order, `SolveCollisions` is invoked exactly `k`
times, the invocation number `j` (counted from 0) receiving exactly the hard
collisions among the first `j + 1` accepted pairs, and the callbacks are
dispatched `k` times, the dispatch number `j` being that of the trigger and of
the hard collisions among the first `j + 1` accepted pairs; the two vectors end
with the trigger and the hard collisions of all accepted pairs.  The accepted
pair at the position `i` (counted from 0) is in the prefix of the invocation
`j` exactly when `i <= j`, that is in `k - i` of them; and with `k = 0` the run
makes no call of the solvers and no call of a callback. -/
theorem ResolveCollisions_prefixes (C : Collaborators) (dt : ℚ) (pm : PhysicsManager) :
    ((ResolveCollisions.run C dt pm).trace.filterMap Event.solved).length
      = (ResolveCollisions.accepted C dt (C.collisionPairs pm) ⟨pm, [], [], []⟩).length ∧
    (ResolveCollisions.run C dt pm).trace.filterMap Event.solved
      = (List.range
          (ResolveCollisions.accepted C dt (C.collisionPairs pm) ⟨pm, [], [], []⟩).length).map
        (fun j => ResolveCollisions.hard
          ((ResolveCollisions.accepted C dt (C.collisionPairs pm) ⟨pm, [], [], []⟩).take
            (j + 1))) ∧
    (ResolveCollisions.run C dt pm).trace.filter Event.isCallback
      = ((List.range
          (ResolveCollisions.accepted C dt (C.collisionPairs pm) ⟨pm, [], [], []⟩).length).map
        (fun j => ResolveCollisions.callbacks C
          ((ResolveCollisions.accepted C dt (C.collisionPairs pm) ⟨pm, [], [], []⟩).take
            (j + 1)))).flatten ∧
    (ResolveCollisions.run C dt pm).collisions
      = ResolveCollisions.hard
          (ResolveCollisions.accepted C dt (C.collisionPairs pm) ⟨pm, [], [], []⟩) ∧
    (ResolveCollisions.run C dt pm).triggers
      = ResolveCollisions.soft
          (ResolveCollisions.accepted C dt (C.collisionPairs pm) ⟨pm, [], [], []⟩) ∧
    (∀ i j : Nat,
      ((ResolveCollisions.accepted C dt (C.collisionPairs pm) ⟨pm, [], [], []⟩).take (j + 1))[i]?
        = if i ≤ j then
            (ResolveCollisions.accepted C dt (C.collisionPairs pm) ⟨pm, [], [], []⟩)[i]?
          else none) ∧
    (∀ i : Nat,
      ((List.range
          (ResolveCollisions.accepted C dt (C.collisionPairs pm) ⟨pm, [], [], []⟩).length).filter
        (fun j => decide (i ≤ j))).length
        = (ResolveCollisions.accepted C dt (C.collisionPairs pm) ⟨pm, [], [], []⟩).length - i) ∧
    (ResolveCollisions.accepted C dt (C.collisionPairs pm) ⟨pm, [], [], []⟩ = [] →
      ∀ ev ∈ (ResolveCollisions.run C dt pm).trace,
        ev.solved = none ∧ ev.isCallback = false) := by
  have h := ResolveCollisions.foldl_prefixes C dt (C.collisionPairs pm) ⟨pm, [], [], []⟩ []
    rfl rfl
  simp only [List.nil_append, List.filterMap_nil, List.filter_nil] at h
  obtain ⟨h1, h2, h3, h4⟩ := h
  have h3' : (ResolveCollisions.run C dt pm).trace.filterMap Event.solved
      = (List.range
          (ResolveCollisions.accepted C dt (C.collisionPairs pm) ⟨pm, [], [], []⟩).length).map
        (fun j => ResolveCollisions.hard
          ((ResolveCollisions.accepted C dt (C.collisionPairs pm) ⟨pm, [], [], []⟩).take
            (j + 1))) := h3
  have h4' : (ResolveCollisions.run C dt pm).trace.filter Event.isCallback
      = ((List.range
          (ResolveCollisions.accepted C dt (C.collisionPairs pm) ⟨pm, [], [], []⟩).length).map
        (fun j => ResolveCollisions.callbacks C
          ((ResolveCollisions.accepted C dt (C.collisionPairs pm) ⟨pm, [], [], []⟩).take
            (j + 1)))).flatten := h4
  refine ⟨?_, h3', h4', h1, h2, ?_, ?_, ?_⟩
  · rw [h3', List.length_map, List.length_range]
  · intro i j
    rw [List.getElem?_take]
    by_cases hij : i ≤ j
    · rw [if_pos hij, if_pos (by omega)]
    · rw [if_neg hij, if_neg (by omega)]
  · intro i
    exact ResolveCollisions.range_filter_le i _
  · intro hA ev hev
    rw [hA] at h3' h4'
    simp only [List.length_nil, List.range_zero, List.map_nil, List.flatten_nil] at h3' h4'
    refine ⟨List.filterMap_eq_nil_iff.1 h3' ev hev, ?_⟩
    have := List.filter_eq_nil_iff.1 h4' ev hev
    simpa using this

/-- The sample world in the terms of claim C32: three pairs are accepted, the
triggers `(0, 1)` and `(0, 2)` and then the hard collision `(1, 2)`; the solvers
are called three times, with no collision, no collision and the collision
`(1, 2)`; the trigger listener is called with `(0, 1)`, then with `(0, 1)` and
`(0, 2)`, then again with both, before the collision listener is called. -/
theorem ResolveCollisions_sample_prefixes :
    (ResolveCollisions.accepted Collaborators.sample (1 / 50)
      (Collaborators.sample.collisionPairs PhysicsManager.sample)
      ⟨PhysicsManager.sample, [], [], []⟩).map (fun a => (a.1, a.2.bodyA, a.2.bodyB))
      = [(true, 0, 1), (true, 0, 2), (false, 1, 2)] ∧
    ((ResolveCollisions.run Collaborators.sample (1 / 50) PhysicsManager.sample).trace.filterMap
      Event.solved).map (fun l => l.map (fun c => (c.bodyA, c.bodyB)))
      = [[], [], [(1, 2)]] ∧
    ((ResolveCollisions.run Collaborators.sample (1 / 50) PhysicsManager.sample).trace.filter
      Event.isCallback).map (Event.isOnTrigger 0 0 1)
      = [true, true, false, true, false, false] := by
  refine ⟨by decide, by decide, by decide⟩

end PhysicsManager

end physics

/-! ### What the replay of `SimulateToCurrentFrame` depends on -/

/-- Agreement but for the transforms holds between a state and itself. -/
theorem GameManager.sameButTransforms_refl (g : GameManager) : g.sameButTransforms g :=
  ⟨g.transformManager, g.rollbackManager.currentTransformManager, rfl⟩

/-- The mask `Empty` has no bit of `Destroyed`. -/
theorem Engine.Empty_andNot_Destroyed (E : Engine) :
    EntityManager.Empty &&& (0xFFFFFFFF ^^^ E.Destroyed) = EntityManager.Empty := by
  unfold EntityManager.Empty Engine.Destroyed
  apply Nat.eq_of_testBit_eq
  intro i
  simp only [Nat.testBit_and, Nat.testBit_xor, Nat.testBit_allOnes32, Nat.testBit_shiftLeft]
  by_cases hi : i = 0
  · subst hi
    simp
  · have h1 : (1 : Nat).testBit i = false :=
      Nat.testBit_lt_two_pow (Nat.one_lt_two_pow hi)
    rw [h1]
    rfl

/-- An OR with a 32-bit mask `c` changes no bit outside `c`. -/
theorem Nat.or_andNot_mask (m c : Nat) (hc : c < 2 ^ 32) :
    (m ||| c) &&& (0xFFFFFFFF ^^^ c) = m &&& (0xFFFFFFFF ^^^ c) := by
  apply Nat.eq_of_testBit_eq
  intro i
  simp only [Nat.testBit_and, Nat.testBit_or, Nat.testBit_xor, Nat.testBit_allOnes32]
  by_cases hi : i < 32
  · cases m.testBit i <;> cases c.testBit i <;> simp [hi]
  · simp [Nat.testBit_of_lt_32 c i hc hi, hi]

/-- An entity that exists apart from the flag exists. -/
theorem GameManager.Survives.exists (E : Engine) (g : GameManager) (e : Nat)
    (h : g.Survives E e) : g.entityManager.EntityExists e = true := by
  unfold EntityManager.EntityExists
  simp only [bne_iff_ne, ne_eq]
  intro hm
  apply h.1
  rw [hm]
  exact E.Empty_andNot_Destroyed

/-- The call `RollbackManager::DestroyEntity(e)` on an entity that exists apart
from the flag and is out of the log leaves it so, for any other entity
destroyed as well. -/
theorem RollbackManager.DestroyEntity_survives (E : Engine) (hD : E.Destroyed < 2 ^ 32)
    (g : GameManager) (e e' : Nat) (h : g.Survives E e) :
    (RollbackManager.DestroyEntity E g e').Survives E e := by
  have hex := GameManager.Survives.exists E g e h
  have hlt := EntityManager.lt_size_of_EntityExists _ e hex
  unfold RollbackManager.DestroyEntity
  by_cases hany : g.rollbackManager.createdEntities.any (fun newEntity => newEntity.entity == e')
      = true
  · rw [if_pos hany]
    have hne : e ≠ e' := by
      rw [List.any_eq_true] at hany
      obtain ⟨c, hc, hce⟩ := hany
      have hce' : c.entity = e' := by simpa using hce
      intro he
      exact h.2 c hc (hce'.trans he.symm)
    refine ⟨?_, h.2⟩
    show (g.entityManager.DestroyEntity e').mask e &&& _ ≠ _
    rw [EntityManager.mask_DestroyEntity, if_neg hne]
    exact h.1
  · rw [if_neg hany]
    refine ⟨?_, h.2⟩
    show (g.entityManager.AddComponent e' E.Destroyed).mask e &&& _ ≠ _
    unfold EntityManager.AddComponent
    rw [EntityManager.mask_set]
    split_ifs with hc
    · obtain ⟨hc1, _⟩ := hc
      subst hc1
      rw [Nat.or_andNot_mask _ _ hD]
      exact h.1
    · exact h.1

/-- The reset steps of `SimulateToCurrentFrame` and of `ValidateFrame` leave an
entity that exists apart from the flag and is out of the log in that
condition: they take the flag off its mask and empty the log. -/
theorem RollbackManager.reset_survives (E : Engine) (g : GameManager) (e : Nat)
    (h : g.Survives E e) :
    (RollbackManager.SimulateToCurrentFrame.reset E g).Survives E e ∧
    (RollbackManager.ValidateFrame.reset E g).Survives E e := by
  have hs : (RollbackManager.SimulateToCurrentFrame.reset E g).entityManager
      = removeDestroyedFlags E.Destroyed
          (destroyCreatedEntities g.GetLastValidateFrame g.rollbackManager.createdEntities
            g.entityManager).GetEntitiesSize
          (destroyCreatedEntities g.GetLastValidateFrame g.rollbackManager.createdEntities
            g.entityManager) := rfl
  have hv : (RollbackManager.ValidateFrame.reset E g).entityManager
      = (RollbackManager.SimulateToCurrentFrame.reset E g).entityManager := rfl
  have hm := destroyCreatedEntities_mask_other g.GetLastValidateFrame
    g.rollbackManager.createdEntities g.entityManager e (fun c hc _ => h.2 c hc)
  have hmask : (RollbackManager.SimulateToCurrentFrame.reset E g).entityManager.mask e
      &&& (0xFFFFFFFF ^^^ E.Destroyed) ≠ EntityManager.Empty := by
    rw [hs, removeDestroyedFlags_mask _ _ _ _ le_rfl, hm]
    split_ifs
    · rw [Nat.and_assoc, Nat.and_self]
      exact h.1
    · exact h.1
  refine ⟨⟨hmask, ?_⟩, ⟨by rw [hv]; exact hmask, ?_⟩⟩
  · intro c hc
    cases hc
  · intro c hc
    cases hc

/-- The three `FixedUpdate` calls of a replayed frame leave an entity that exists
apart from the flag and is out of the log in that condition, when the game
rules free entities only through the rollback manager. -/
theorem Engine.simulateOneFrame_survives (E : Engine) (hE : E.FreesThroughRollbackManager)
    (g : GameManager) (e : Nat) (h : g.Survives E e) : (E.simulateOneFrame g).Survives E e := by
  unfold Engine.simulateOneFrame
  dsimp only
  have h1 := (hE g e h).1
  have h2 := (hE _ e h1).2.1
  exact (hE _ e h2).2.2

/-- The replay loop of `SimulateToCurrentFrame` leaves an entity that exists apart
from the flag and is out of the log in that condition, also when it stops on a
fault. -/
theorem RollbackManager.simulateReplay_survives (E : Engine)
    (hE : E.FreesThroughRollbackManager) (e : Nat) :
    ∀ (count frame : Nat) (g : GameManager), g.Survives E e →
      (finalState (RollbackManager.SimulateToCurrentFrame.replay E count frame g)).Survives E e := by
  intro count
  induction count with
  | zero => intro frame g h; exact h
  | succ count ih =>
    intro frame g h
    unfold RollbackManager.SimulateToCurrentFrame.replay
    have h1 := RollbackManager.simulateCopyInputs_keeps E (fun x => x.Survives E e)
      (fun _ _ hx => hx) frame MAX_PLAYER_NMB
      { g with rollbackManager := { g.rollbackManager with testedFrame := frame } } h
    simp only [bind, Except.bind]
    cases hc : RollbackManager.SimulateToCurrentFrame.copyInputs E frame MAX_PLAYER_NMB
        { g with rollbackManager := { g.rollbackManager with testedFrame := frame } } with
    | error x =>
      rw [hc] at h1
      exact h1
    | ok g2 =>
      rw [hc] at h1
      exact ih _ _ (E.simulateOneFrame_survives hE g2 e h1)

/-- The replay loop of `ValidateFrame` leaves an entity that exists apart from the
flag and is out of the log in that condition, also when it stops on a fault. -/
theorem RollbackManager.validateReplay_survives (E : Engine)
    (hE : E.FreesThroughRollbackManager) (e : Nat) :
    ∀ (count frame : Nat) (g : GameManager), g.Survives E e →
      (finalState (RollbackManager.ValidateFrame.replay E count frame g)).Survives E e := by
  intro count
  induction count with
  | zero => intro frame g h; exact h
  | succ count ih =>
    intro frame g h
    unfold RollbackManager.ValidateFrame.replay
    have h1 := RollbackManager.validateCopyInputs_keeps (fun x => x.Survives E e)
      (fun _ _ hx => hx) frame MAX_PLAYER_NMB
      { g with rollbackManager := { g.rollbackManager with testedFrame := frame } } h
    simp only [bind, Except.bind]
    cases hc : RollbackManager.ValidateFrame.copyInputs frame MAX_PLAYER_NMB
        { g with rollbackManager := { g.rollbackManager with testedFrame := frame } } with
    | error x =>
      rw [hc] at h1
      exact h1
    | ok g2 =>
      rw [hc] at h1
      exact ih _ _ (E.simulateOneFrame_survives hE g2 e h1)

/-- The last loop of `SimulateToCurrentFrame` leaves the registry and the log as
they are. -/
theorem RollbackManager.copyToTransforms_survives (E : Engine) (e : Nat) :
    ∀ (n : Nat) (g : GameManager), g.Survives E e →
      (RollbackManager.SimulateToCurrentFrame.copyToTransforms E n g).Survives E e := by
  intro n
  induction n with
  | zero => intro g h; exact h
  | succ n ih =>
    intro g h
    unfold RollbackManager.SimulateToCurrentFrame.copyToTransforms
    dsimp only
    split_ifs
    · exact ih g h
    · exact ih g h

/-- `SimulateToCurrentFrame` does not free an entity that exists apart from the
flag and is out of the log: it ends, normally or on a fault, with the entity in
that condition. -/
theorem RollbackManager.SimulateToCurrentFrame_survives (E : Engine)
    (hE : E.FreesThroughRollbackManager) (g : GameManager) (e : Nat) (h : g.Survives E e) :
    (finalState (RollbackManager.SimulateToCurrentFrame E g)).Survives E e := by
  have hr := RollbackManager.simulateReplay_survives E hE e
    (g.GetCurrentFrame - g.GetLastValidateFrame) (g.GetLastValidateFrame + 1) _
    (RollbackManager.reset_survives E g e h).1
  unfold RollbackManager.SimulateToCurrentFrame
  have hrd : RollbackManager.SimulateToCurrentFrame.replayed E g
      = RollbackManager.SimulateToCurrentFrame.replay E
          (g.GetCurrentFrame - g.GetLastValidateFrame) (g.GetLastValidateFrame + 1)
          (RollbackManager.SimulateToCurrentFrame.reset E g) := rfl
  rw [hrd]
  cases hc : RollbackManager.SimulateToCurrentFrame.replay E
      (g.GetCurrentFrame - g.GetLastValidateFrame) (g.GetLastValidateFrame + 1)
      (RollbackManager.SimulateToCurrentFrame.reset E g) with
  | error x =>
    rw [hc] at hr
    exact hr
  | ok g2 =>
    rw [hc] at hr
    exact RollbackManager.copyToTransforms_survives E e _ g2 hr

/-- `ValidateFrame` up to the end of its replay loop does not free an entity that
exists apart from the flag and is out of the log. -/
theorem RollbackManager.ValidateFrame.replayed_survives (E : Engine)
    (hE : E.FreesThroughRollbackManager) (g : GameManager) (e n : Nat) (h : g.Survives E e) :
    (finalState (RollbackManager.ValidateFrame.replayed E g n)).Survives E e :=
  RollbackManager.validateReplay_survives E hE e _ _ _ (RollbackManager.reset_survives E g e h).2

/-- The last loop of `ValidateFrame` frees an existing entity exactly when it
carries the flag at the end of the replay. -/
theorem RollbackManager.ValidateFrame.commit_frees (E : Engine) (g : GameManager) (e n : Nat)
    (he : g.entityManager.EntityExists e = true) :
    (RollbackManager.ValidateFrame.commit E g n).entityManager.EntityExists e = false ↔
      g.entityManager.HasComponent e E.Destroyed = true := by
  have hlt := EntityManager.lt_size_of_EntityExists _ e he
  have hm : (RollbackManager.ValidateFrame.commit E g n).entityManager.mask e
      = if e < g.entityManager.GetEntitiesSize ∧ g.entityManager.HasComponent e E.Destroyed = true
        then EntityManager.Empty else g.entityManager.mask e :=
    destroyFlaggedEntities_mask _ _ _ _
  unfold EntityManager.EntityExists at he ⊢
  rw [hm]
  by_cases hf : g.entityManager.HasComponent e E.Destroyed = true
  · rw [if_pos ⟨hlt, hf⟩]
    simp [hf]
  · rw [if_neg (fun hh => hf hh.2)]
    simp only [hf, iff_false]
    rw [he]
    simp

/-- The game rules of `Engine.sampleRules` free entities only through
`RollbackManager::DestroyEntity`. -/
theorem Engine.sampleRules_freesThroughRollbackManager :
    Engine.sampleRules.FreesThroughRollbackManager := by
  intro g e h
  refine ⟨?_, h, h⟩
  show GameManager.Survives Engine.sampleRules
    (g.withSimulated (if g.rollbackManager.testedFrame = 4 then
      (RollbackManager.DestroyEntity Engine.sample g 1).simulated else g.simulated)) e
  split_ifs
  · exact RollbackManager.DestroyEntity_survives Engine.sample (by decide) g e 1 h
  · exact h

/-- The window advance does not write the created-entity log. -/
theorem RollbackManager.StartNewFrame_createdEntities (r r' : RollbackManager)
    (newFrame : Nat) (h : r.StartNewFrame newFrame = .ok r') :
    r'.createdEntities = r.createdEntities := by
  unfold RollbackManager.StartNewFrame at h
  dsimp only at h
  split_ifs at h
  · cases h; rfl
  · cases h; rfl
  · simp only [bind, Except.bind] at h
    cases hs : shiftRings (Frame.sub newFrame r.currentFrame) MAX_PLAYER_NMB r.inputs with
    | error f => rw [hs] at h; cases h
    | ok inputs => rw [hs] at h; cases h; rfl

/-- The method `RollbackManager::SetPlayerInput` does not write the created-entity
log. -/
theorem RollbackManager.SetPlayerInput_createdEntities (r r' : RollbackManager)
    (p input inputFrame : Nat) (h : r.SetPlayerInput p input inputFrame = .ok r') :
    r'.createdEntities = r.createdEntities := by
  unfold RollbackManager.SetPlayerInput at h
  cases hadv : (if r.currentFrame < inputFrame then r.StartNewFrame inputFrame else .ok r) with
  | error f => rw [hadv] at h; cases h
  | ok r1 =>
    rw [hadv] at h
    have h1 : r1.createdEntities = r.createdEntities := by
      split_ifs at hadv
      · exact RollbackManager.StartNewFrame_createdEntities r r1 inputFrame hadv
      · cases hadv; rfl
    simp only [bind, Except.bind] at h
    split_ifs at h with hp hl
    · cases hw : (r1.inputs p).write (Frame.sub r1.currentFrame inputFrame) input with
      | error f => rw [hw] at h; cases h
      | ok ring =>
        rw [hw] at h
        dsimp only at h
        cases hrep : repeatLoop input (Frame.sub r1.currentFrame inputFrame)
            (Frame.sub r1.currentFrame inputFrame) ring with
        | error f => rw [hrep] at h; cases h
        | ok ring' =>
          rw [hrep] at h
          cases h
          exact h1
    · cases hw : (r1.inputs p).write (Frame.sub r1.currentFrame inputFrame) input with
      | error f => rw [hw] at h; cases h
      | ok ring =>
        rw [hw] at h
        cases h
        exact h1

/-- A call other than a validation does not free an entity that exists apart from
the flag and is out of the log: it ends, normally or on a fault, with the
entity in that condition. -/
theorem SpeculativeCall.run_survives (E : Engine) (hD : E.Destroyed < 2 ^ 32)
    (hE : E.FreesThroughRollbackManager) (e : Nat) (c : SpeculativeCall) (g : GameManager)
    (h : g.Survives E e) : (finalState (c.run E g)).Survives E e := by
  cases c with
  | simulateToCurrentFrame => exact RollbackManager.SimulateToCurrentFrame_survives E hE g e h
  | setPlayerInput p input inputFrame =>
    show (finalState (GameManager.SetPlayerInput g p input inputFrame)).Survives E e
    unfold GameManager.SetPlayerInput
    split_ifs
    · exact h
    · cases hs : g.rollbackManager.SetPlayerInput p input inputFrame with
      | error f => exact h
      | ok r =>
        refine ⟨h.1, ?_⟩
        show ∀ created ∈ r.createdEntities, created.entity ≠ e
        rw [RollbackManager.SetPlayerInput_createdEntities _ _ _ _ _ hs]
        exact h.2
  | destroyEntity e' => exact RollbackManager.DestroyEntity_survives E hD g e e' h

/-- No sequence of calls other than a validation frees an entity that exists apart
from the flag and is out of the log. -/
theorem SpeculativeCall.runAll_survives (E : Engine) (hD : E.Destroyed < 2 ^ 32)
    (hE : E.FreesThroughRollbackManager) (e : Nat) :
    ∀ (calls : List SpeculativeCall) (g : GameManager), g.Survives E e →
      (finalState (SpeculativeCall.runAll E calls g)).Survives E e := by
  intro calls
  induction calls with
  | nil => intro g h; exact h
  | cons c cs ih =>
    intro g h
    have h1 := SpeculativeCall.run_survives E hD hE e c g h
    unfold SpeculativeCall.runAll
    cases hc : c.run E g with
    | error x =>
      rw [hc] at h1
      exact h1
    | ok g1 =>
      rw [hc] at h1
      exact ih g1 h1

/-- A `ValidateFrame` from a state in which an entity exists apart from the flag
and is out of the log: the entity exists up to the end of the replay, also on
a fault, and a call that returns has freed it, in its last loop, exactly when
the replay has left the flag on it. -/
theorem RollbackManager.ValidateFrame_frees (E : Engine) (hE : E.FreesThroughRollbackManager)
    (g : GameManager) (e n : Nat) (h : g.Survives E e) :
    (finalState (RollbackManager.ValidateFrame.replayed E g n)).entityManager.EntityExists e
      = true ∧
    (∀ f g', RollbackManager.ValidateFrame E g n = .error (f, g') →
      g'.entityManager.EntityExists e = true) ∧
    (∀ g', RollbackManager.ValidateFrame E g n = .ok g' →
      ∃ g3, RollbackManager.ValidateFrame.replayed E g n = .ok g3 ∧
        g' = RollbackManager.ValidateFrame.commit E g3 n ∧
        g3.entityManager.EntityExists e = true ∧
        (g'.entityManager.EntityExists e = false ↔
          g3.entityManager.HasComponent e E.Destroyed = true)) := by
  have hr := RollbackManager.ValidateFrame.replayed_survives E hE g e n h
  refine ⟨GameManager.Survives.exists E _ e hr, ?_, ?_⟩
  · intro f g' hv
    unfold RollbackManager.ValidateFrame at hv
    split_ifs at hv with hmiss
    · cases hv
      exact GameManager.Survives.exists E _ e h
    · cases hc : RollbackManager.ValidateFrame.replayed E g n with
      | ok g3 =>
        rw [hc] at hv
        cases hv
      | error x =>
        rw [hc] at hv hr
        cases hv
        exact GameManager.Survives.exists E _ e hr
  · intro g' hv
    unfold RollbackManager.ValidateFrame at hv
    split_ifs at hv with hmiss
    cases hc : RollbackManager.ValidateFrame.replayed E g n with
    | error x =>
      rw [hc] at hv
      cases hv
    | ok g3 =>
      rw [hc] at hv hr
      have hg' : g' = RollbackManager.ValidateFrame.commit E g3 n := by
        cases hv
        rfl
      have hex := GameManager.Survives.exists E _ e hr
      refine ⟨g3, rfl, hg', hex, ?_⟩
      rw [hg']
      exact RollbackManager.ValidateFrame.commit_frees E g3 e n hex

/-- Claim C29, amended to the entities that are not in the log of created
entities: for such an existing entity `e`, `RollbackManager::DestroyEntity(e)`
does not free `e`; afterwards `e` still exists, carries the flag `Destroyed` and
keeps all its other component bits, and `e` is physically freed only by a later
`ValidateFrame`.  For this last part `Destroyed` is a 32-bit mask, the game rules
free entities only through `RollbackManager::DestroyEntity`, and `e` exists
apart from the flag.  Then after any sequence of calls other than a validation
(`SimulateToCurrentFrame`, which takes the flag off again, `SetPlayerInput`,
further `DestroyEntity` calls) `e` still exists; a `ValidateFrame` made then
leaves `e` existing up to the end of its replay and when it stops on a fault,
and a `ValidateFrame` that returns has freed `e`, in its last loop, exactly when
its own replay has left the flag on `e`. -/
theorem RollbackManager.DestroyEntity_soft (E : Engine) (g : GameManager) (e : Nat)
    (he : g.entityManager.EntityExists e = true)
    (hlog : ∀ created ∈ g.rollbackManager.createdEntities, created.entity ≠ e) :
    (RollbackManager.DestroyEntity E g e).entityManager.EntityExists e = true ∧
    (RollbackManager.DestroyEntity E g e).entityManager.HasComponent e E.Destroyed = true ∧
    (RollbackManager.DestroyEntity E g e).entityManager.mask e =
      g.entityManager.mask e ||| E.Destroyed ∧
    (∀ c, g.entityManager.HasComponent e c = true →
      (RollbackManager.DestroyEntity E g e).entityManager.HasComponent e c = true) ∧
    (∀ e', e' ≠ e →
      (RollbackManager.DestroyEntity E g e).entityManager.mask e' = g.entityManager.mask e') ∧
    (RollbackManager.DestroyEntity E g e).rollbackManager = g.rollbackManager ∧
    (E.Destroyed < 2 ^ 32 → E.FreesThroughRollbackManager →
      g.entityManager.mask e &&& (0xFFFFFFFF ^^^ E.Destroyed) ≠ EntityManager.Empty →
      ∀ calls : List SpeculativeCall,
        (finalState (SpeculativeCall.runAll E calls
          (RollbackManager.DestroyEntity E g e))).entityManager.EntityExists e = true ∧
        (∀ created ∈ (finalState (SpeculativeCall.runAll E calls
            (RollbackManager.DestroyEntity E g e))).rollbackManager.createdEntities,
          created.entity ≠ e) ∧
        ∀ n,
          (finalState (RollbackManager.ValidateFrame.replayed E
            (finalState (SpeculativeCall.runAll E calls (RollbackManager.DestroyEntity E g e)))
            n)).entityManager.EntityExists e = true ∧
          (∀ f g', RollbackManager.ValidateFrame E
              (finalState (SpeculativeCall.runAll E calls (RollbackManager.DestroyEntity E g e)))
              n = .error (f, g') →
            g'.entityManager.EntityExists e = true) ∧
          (∀ g', RollbackManager.ValidateFrame E
              (finalState (SpeculativeCall.runAll E calls (RollbackManager.DestroyEntity E g e)))
              n = .ok g' →
            ∃ g3, RollbackManager.ValidateFrame.replayed E
                (finalState (SpeculativeCall.runAll E calls
                  (RollbackManager.DestroyEntity E g e))) n = .ok g3 ∧
              g' = RollbackManager.ValidateFrame.commit E g3 n ∧
              g3.entityManager.EntityExists e = true ∧
              (g'.entityManager.EntityExists e = false ↔
                g3.entityManager.HasComponent e E.Destroyed = true))) := by
  obtain ⟨h1, h2, h3, h4, h5, h6, _⟩ := RollbackManager.DestroyEntity_marks E g e he hlog
  refine ⟨h1, h2, h3, h4, h5, h6, ?_⟩
  intro hD hE halive calls
  have hs : (RollbackManager.DestroyEntity E g e).Survives E e :=
    RollbackManager.DestroyEntity_survives E hD g e e ⟨halive, hlog⟩
  have hk := SpeculativeCall.runAll_survives E hD hE e calls _ hs
  exact ⟨GameManager.Survives.exists E _ e hk, hk.2,
    fun n => RollbackManager.ValidateFrame_frees E hE _ e n hk⟩

/-- Claim C29, amended, at the sample game with game rules that destroy the
entity 1 at frame 4: the entity 1 exists and is not in the log; after
`RollbackManager::DestroyEntity(1)` and a rollback it still exists, and the
`ValidateFrame(4)` made then, whose reset step takes the flag off and whose
replay sets it again, frees it; the same calls on the entity 0, which the
replay does not mark again, leave it existing. -/
theorem RollbackManager.DestroyEntity_soft_witness :
    (GameManager.sample.entityManager.EntityExists 1 = true ∧
      ∀ created ∈ GameManager.sample.rollbackManager.createdEntities, created.entity ≠ 1) ∧
    (RollbackManager.DestroyEntity Engine.sampleRules GameManager.sample 1).entityManager.HasComponent
      1 Engine.sampleRules.Destroyed = true ∧
    (finalState (SpeculativeCall.runAll Engine.sampleRules
      [SpeculativeCall.simulateToCurrentFrame, SpeculativeCall.destroyEntity 1]
      (RollbackManager.DestroyEntity Engine.sampleRules GameManager.sample
        1))).entityManager.EntityExists 1 = true ∧
    (RollbackManager.ValidateFrame.reset Engine.sampleRules
      (RollbackManager.DestroyEntity Engine.sampleRules GameManager.sample
        1)).entityManager.HasComponent 1 Engine.sampleRules.Destroyed = false ∧
    (finalState (RollbackManager.ValidateFrame Engine.sampleRules
      (finalState (SpeculativeCall.runAll Engine.sampleRules
        [SpeculativeCall.simulateToCurrentFrame]
        (RollbackManager.DestroyEntity Engine.sampleRules GameManager.sample 1)))
      4)).entityManager.EntityExists 1 = false ∧
    (finalState (RollbackManager.ValidateFrame Engine.sampleRules
      (finalState (SpeculativeCall.runAll Engine.sampleRules
        [SpeculativeCall.simulateToCurrentFrame]
        (RollbackManager.DestroyEntity Engine.sampleRules GameManager.sample 0)))
      4)).entityManager.EntityExists 0 = true :=
  ⟨⟨by decide, by decide⟩,
    (RollbackManager.DestroyEntity_soft Engine.sampleRules GameManager.sample 1
      (by decide) (by decide)).2.1,
    ((RollbackManager.DestroyEntity_soft Engine.sampleRules GameManager.sample 1
      (by decide) (by decide)).2.2.2.2.2.2 (by decide)
      Engine.sampleRules_freesThroughRollbackManager (by decide)
      [SpeculativeCall.simulateToCurrentFrame, SpeculativeCall.destroyEntity 1]).1,
    by decide, by decide, by decide⟩

end game
